import Mathlib

/-!
# Bubu-Motion: gestures, care statistics, menu layers and the display tick

A shallow embedding of the decision logic of the firmware
(`touch_system.cpp`, `level_system.cpp`, `sub_state_system.cpp`,
`care_system.cpp`, `eye_game.cpp`, `menu_system.cpp`, `display_system.cpp`)
together with theorems about it.

Conventions of the embedding

* `uintN_t` values are natural numbers; wrap-around is written out with `%`.
  `int` sums that can overflow go through `Arith.i32`.
* File-scope and function-static variables of a translation unit are the
  fields of one state record, and every function becomes a state transformer.
  A unit that calls into another one holds that unit's record.
* Hardware reads (`millis()`, `random()`, the I2C touch read) and the values
  of `sinf` and `cosf` are explicit arguments of the function that performs
  them.
* `float` values are exact rationals.
-/

namespace Arith

/-! ## Machine arithmetic -/

/-- Conversion of an `int` to `uint16_t`. -/
def u16 (n : Int) : Nat := (n % 65536).toNat

/-- Conversion of an `int` to `int16_t` (two's complement): the residue of `n`
modulo `2^16`, taken as negative from `2^15` on. -/
def i16 (n : Int) : Int :=
  if (n % 65536).toNat < 32768 then ((n % 65536).toNat : Int)
  else ((n % 65536).toNat : Int) - 65536

/-- Subtraction of two `uint32_t` values, `a - b` modulo `2^32`. -/
def sub32 (a b : Nat) : Nat :=
  if b % 4294967296 ≤ a % 4294967296 then a % 4294967296 - b % 4294967296
  else a % 4294967296 + 4294967296 - b % 4294967296

/-- Conversion of an integer to `int` (32-bit two's complement): the residue of
`n` modulo `2^32`, taken as negative from `2^31` on. -/
def i32 (n : Int) : Int :=
  if (n % 4294967296).toNat < 2147483648 then ((n % 4294967296).toNat : Int)
  else ((n % 4294967296).toNat : Int) - 4294967296

end Arith

namespace TouchSystem

open Arith

/-! ## touch_system.h -/

/-- The values of `enum TouchGesture`. -/
inductive TouchGesture where
  | TOUCH_NONE
  | TOUCH_TAP
  | TOUCH_LONG_PRESS
  | TOUCH_LONG
  | TOUCH_SWIPE_UP
  | TOUCH_SWIPE_DOWN
  | TOUCH_SWIPE_LEFT
  | TOUCH_SWIPE_RIGHT
  deriving DecidableEq, Repr

/-- The record `struct TouchPoint`. -/
structure TouchPoint where
  x : Nat
  y : Nat
  gesture : TouchGesture
  duration : Nat
  deriving DecidableEq, Repr

/-! ## touch_system.cpp: constants and state -/

def LONG_PRESS_MS : Nat := 400
def TAP_MAX_DRIFT_PX : Nat := 35
def SWIPE_MIN_DIST_PX : Nat := 40
def RELEASE_TIMEOUT_MS : Nat := 120
def DEBOUNCE_MS : Nat := 20

/-- The record `struct TouchState` (the global `touch`). -/
structure TouchState where
  isDown : Bool
  downTime : Nat
  downX : Nat
  downY : Nat
  currentX : Nat
  currentY : Nat
  lastReadTime : Nat
  fingerCount : Nat
  longPressFired : Bool
  deriving DecidableEq, Repr

/-- The file-scope variables of `touch_system.cpp`, the function-static
`lastUpdate` of `update`, and `emitted`, the trace of `emitGesture` calls
(oldest first) that the source prints to its log. -/
structure Sys where
  touch : TouchState
  pendingEvent : TouchPoint
  eventAvailable : Bool
  touchInterruptFlag : Bool
  tcaInterruptFlag : Bool
  lastUpdate : Nat
  emitted : List TouchPoint
  deriving DecidableEq, Repr

/-- The initial values of the file-scope variables. -/
def Sys.init : Sys :=
  { touch :=
      { isDown := false, downTime := 0, downX := 0, downY := 0, currentX := 0,
        currentY := 0, lastReadTime := 0, fingerCount := 0, longPressFired := false }
    pendingEvent := { x := 0, y := 0, gesture := TouchGesture.TOUCH_NONE, duration := 0 }
    eventAvailable := false
    touchInterruptFlag := false
    tcaInterruptFlag := false
    lastUpdate := 0
    emitted := [] }

/-! ## touch_system.cpp: functions -/

/-- Source `calculateDistance`: Manhattan distance through `int16_t` deltas. -/
def calculateDistance (x1 y1 x2 y2 : Nat) : Nat :=
  let dx : Int := i16 (i16 x2 - i16 x1)
  let dy : Int := i16 (i16 y2 - i16 y1)
  u16 ((dx.natAbs : Int) + (dy.natAbs : Int))

/-- Source `emitGesture`: fills the pending-event slot and raises the flag. -/
def emitGesture (s : Sys) (gesture : TouchGesture) (x y duration : Nat) : Sys :=
  let ev : TouchPoint := { x := x, y := y, gesture := gesture, duration := duration }
  { s with pendingEvent := ev, eventAvailable := true, emitted := s.emitted ++ [ev] }

/-- Source `handleTouchDown`. -/
def handleTouchDown (s : Sys) (x y now : Nat) : Sys :=
  { s with touch :=
      { s.touch with
        isDown := true, downTime := now, downX := x, downY := y,
        currentX := x, currentY := y, lastReadTime := now, longPressFired := false } }

/-- Source `handleTouchMove`. -/
def handleTouchMove (s : Sys) (x y now : Nat) : Sys :=
  { s with touch := { s.touch with currentX := x, currentY := y, lastReadTime := now } }

/-- Source `checkLongPress`. -/
def checkLongPress (s : Sys) (now : Nat) : Sys :=
  if s.touch.longPressFired || !s.touch.isDown then s
  else
    let heldDuration := sub32 now s.touch.downTime
    if heldDuration < LONG_PRESS_MS then s
    else
      let drift :=
        calculateDistance s.touch.downX s.touch.downY s.touch.currentX s.touch.currentY
      if drift ≤ TAP_MAX_DRIFT_PX then
        let s1 := { s with touch := { s.touch with longPressFired := true } }
        emitGesture s1 TouchGesture.TOUCH_LONG_PRESS s1.touch.downX s1.touch.downY heldDuration
      else s

/-- Source `handleTouchRelease`. -/
def handleTouchRelease (s : Sys) (now : Nat) : Sys :=
  let duration := sub32 now s.touch.downTime
  if s.touch.longPressFired then
    { s with touch := { s.touch with isDown := false } }
  else if duration < DEBOUNCE_MS then
    { s with touch := { s.touch with isDown := false } }
  else
    let deltaX : Int := i16 (i16 s.touch.currentX - i16 s.touch.downX)
    let deltaY : Int := i16 (i16 s.touch.currentY - i16 s.touch.downY)
    let totalDrift : Nat := u16 ((deltaX.natAbs : Int) + (deltaY.natAbs : Int))
    let s1 :=
      if totalDrift ≥ SWIPE_MIN_DIST_PX then
        let adx := deltaX.natAbs
        let ady := deltaY.natAbs
        let gesture :=
          if adx > ady then
            (if deltaX > 0 then TouchGesture.TOUCH_SWIPE_RIGHT
             else TouchGesture.TOUCH_SWIPE_LEFT)
          else
            (if deltaY > 0 then TouchGesture.TOUCH_SWIPE_DOWN
             else TouchGesture.TOUCH_SWIPE_UP)
        emitGesture s gesture s.touch.currentX s.touch.currentY duration
      else
        emitGesture s TouchGesture.TOUCH_TAP s.touch.downX s.touch.downY duration
    { s1 with touch := { s1.touch with isDown := false } }

/-- The outcome of one `readTouchData` call: `none` when it returns `false`,
otherwise the finger count and the screen coordinates it wrote. -/
abbrev ReadResult := Option (Nat × Nat × Nat)

/-- The hardware inputs of one `TouchSystem::update` call: `millis()`, the
TCA6408 input-port byte (`none` when that read fails) and the outcome of the
`readTouchData` call (at most one is made per call). -/
structure Tick where
  now : Nat
  tca : Option Nat
  rd : ReadResult
  deriving DecidableEq, Repr

/-- What the I2C bus returns during one `readTouchData` call: the return value
of the first `Wire.endTransmission(false)`, and for each of the six register
reads the byte `Wire.read()` returns (`none` when `Wire.requestFrom` does not
return 1). -/
structure RawRead where
  endTx : Nat
  gestureID : Option Nat
  fingers : Option Nat
  x_h : Option Nat
  x_l : Option Nat
  y_h : Option Nat
  y_l : Option Nat
  deriving DecidableEq, Repr

/-- The tail of `readTouchData`, from "Reconstruct 12-bit coordinates" on,
given the validated finger count and the four coordinate bytes. The
expressions `(a << 8) | b` and `v & 0x0FFF` are written with `*`, `+`, `%`. -/
def mapCoordinates (fingerCount x_h x_l y_h y_l : Nat) : ReadResult :=
  let raw_x : Int := ((x_h % 16 : Nat) : Int) * 256 + (x_l : Int)
  let raw_y : Int := ((y_h % 16 : Nat) : Int) * 256 + (y_l : Int)
  if raw_x > 500 ∨ raw_y > 500 ∨ raw_x < 0 ∨ raw_y < 0 then none
  else
    let mapped_x : Int := (255 - ((x_h : Int) * 256 + (x_l : Int))) % 4096
    let mapped_y : Int := ((y_h : Int) * 256 + (y_l : Int)) % 4096
    let rot_x : Int := mapped_y
    let rot_y : Int := 239 - mapped_x
    if rot_x < 0 ∨ rot_x ≥ 240 ∨ rot_y < 0 ∨ rot_y ≥ 240 then none
    else some (fingerCount, u16 rot_x, u16 rot_y)

/-- Source `readTouchData`: `none` when it returns `false`, otherwise the
values written to `fingerCount`, `x` and `y`. Each byte is stored in a
`uint8_t`. -/
def readTouchData (r : RawRead) : ReadResult :=
  if r.endTx ≠ 0 then none
  else
    match r.gestureID, r.fingers with
    | some _, some fb =>
        let fingerCount := fb % 256 % 16
        if fingerCount = 0 ∨ fingerCount > 2 then none
        else
          match r.x_h, r.x_l, r.y_h, r.y_l with
          | some xh, some xl, some yh, some yl =>
              mapCoordinates fingerCount (xh % 256) (xl % 256) (yh % 256) (yl % 256)
          | _, _, _, _ => none
    | _, _ => none

/-- A bus on which every read fails. -/
def RawRead.dead : RawRead :=
  { endTx := 2, gestureID := none, fingers := none, x_h := none, x_l := none,
    y_h := none, y_l := none }

/-- A good sample: one finger, raw bytes that map to the screen point
(100, 120). -/
def RawRead.sample : RawRead :=
  { endTx := 0, gestureID := some 0, fingers := some 1, x_h := some 0, x_l := some 136,
    y_h := some 0, y_l := some 100 }

/-- The chip reporting no finger: the finger-count register reads 0. -/
def RawRead.lifted : RawRead :=
  { endTx := 0, gestureID := some 0, fingers := some 0, x_h := some 0, x_l := some 136,
    y_h := some 0, y_l := some 100 }

/-- The `if (touch.isDown)` block of `TouchSystem::update`: long-press check,
then the read of new coordinates with its move, release and timeout paths. -/
def updateHeld (s : Sys) (now : Nat) (rd : ReadResult) : Sys :=
  let s := checkLongPress s now
  match rd with
  | some (fingerCount, x, y) =>
      if fingerCount > 0 then handleTouchMove s x y now
      else handleTouchRelease s now
  | none =>
      if sub32 now s.touch.lastReadTime ≥ RELEASE_TIMEOUT_MS then
        handleTouchRelease s now
      else s

/-- Source `TouchSystem::update`. A release returns from the function; the
other paths of the held block fall through to the touch-down check, which is
skipped because the contact is still down. -/
def update (s : Sys) (t : Tick) : Sys :=
  let now := t.now
  if sub32 now s.lastUpdate < 5 then s
  else
    let s := { s with lastUpdate := now }
    let s :=
      match t.tca with
      | some tcaInput =>
          if tcaInput % 2 = 0 then { s with touchInterruptFlag := true } else s
      | none => s
    if s.touch.isDown then updateHeld s now t.rd
    else if s.touchInterruptFlag then
      let s := { s with touchInterruptFlag := false }
      match t.rd with
      | some (fingerCount, x, y) =>
          if fingerCount > 0 then handleTouchDown s x y now else s
      | none => s
    else s

/-- The state in which the held block of a polled `update` call starts: the
poll time is stored and the interrupt flag is raised when bit 0 of the TCA6408
input byte is clear. -/
def polled (s : Sys) (t : Tick) : Sys :=
  match t.tca with
  | some tcaInput =>
      if tcaInput % 2 = 0 then { s with lastUpdate := t.now, touchInterruptFlag := true }
      else { s with lastUpdate := t.now }
  | none => { s with lastUpdate := t.now }

/-- Source `TouchSystem::available`. -/
def available (s : Sys) : Bool := s.eventAvailable

/-- Source `TouchSystem::get`, the state after the call. -/
def get (s : Sys) : Sys := { s with eventAvailable := false }

/-- Source `TouchSystem::isTouchPressed`. -/
def isTouchPressed (s : Sys) : Bool := s.touch.isDown

/-! ## Runs of `update` -/

/-- The state reached from `s` after the first `k` calls of `update` on the
inputs `ts`; it is the state in which call number `k` (counted from 0) starts. -/
def stateAt (s : Sys) (ts : List Tick) (k : Nat) : Sys :=
  (ts.take k).foldl update s

/-- The events emitted on the way from a state `s` to a later state `s1`. -/
def newEvents (s s1 : Sys) : List TouchPoint :=
  s1.emitted.drop s.emitted.length

/-- The firing condition tested by `checkLongPress` at time `now`: held for
`LONG_PRESS_MS` and stored drift (as `calculateDistance` computes it from the
down position to the stored current position) within `TAP_MAX_DRIFT_PX`. -/
def longPressDue (s : Sys) (now : Nat) : Bool :=
  decide (LONG_PRESS_MS ≤ sub32 now s.touch.downTime) &&
    decide (calculateDistance s.touch.downX s.touch.downY s.touch.currentX s.touch.currentY
      ≤ TAP_MAX_DRIFT_PX)

/-- A sample run on one contact: three successful samples, then a read failure
200 ms after the last sample, which releases the contact. -/
def sampleTicks : List Tick :=
  [ { now := 1200, tca := none, rd := some (1, 100, 100) },
    { now := 1405, tca := none, rd := some (1, 102, 100) },
    { now := 1500, tca := none, rd := some (1, 102, 100) },
    { now := 1700, tca := none, rd := none } ]

/-- Whether an event is a `TOUCH_LONG_PRESS`. -/
def isLongPress (e : TouchPoint) : Bool :=
  decide (e.gesture = TouchGesture.TOUCH_LONG_PRESS)

/-- What one polled step on a held contact does, from the state `s` before to
the state `s1` after: the down record is kept; after a long-press nothing more
is emitted; a due long-press is emitted alone, at the down position with the
held duration; otherwise no long-press is emitted. -/
def HeldStep (s : Sys) (now : Nat) (s1 : Sys) : Prop :=
  s1.touch.downX = s.touch.downX ∧ s1.touch.downY = s.touch.downY
    ∧ s1.touch.downTime = s.touch.downTime
    ∧ (s.touch.longPressFired = true →
        s1.emitted = s.emitted ∧ s1.touch.longPressFired = true)
    ∧ (s.touch.longPressFired = false → longPressDue s now = true →
        s1.emitted = s.emitted ++
            [{ x := s.touch.downX, y := s.touch.downY,
               gesture := TouchGesture.TOUCH_LONG_PRESS,
               duration := sub32 now s.touch.downTime }]
          ∧ s1.touch.longPressFired = true)
    ∧ (s.touch.longPressFired = false → longPressDue s now = false →
        s1.touch.longPressFired = false
          ∧ ∃ evs, s1.emitted = s.emitted ++ evs ∧ evs.filter isLongPress = [])

end TouchSystem

/-! ## display_system.h: emotions -/

/-- The values of `enum EyeEmotion` before `EYE_EMO_COUNT`, in declaration
order. Arrays of size `EYE_EMO_COUNT` are functions on this type. -/
inductive EyeEmotion where
  | EYE_EMO_IDLE
  | EYE_EMO_CURIOUS
  | EYE_EMO_ANGRY1
  | EYE_EMO_LOVE
  | EYE_EMO_TIRED
  | EYE_EMO_EXCITED
  | EYE_EMO_ANGRY2
  | EYE_EMO_ANGRY3
  | EYE_EMO_WORRIED1
  | EYE_EMO_CURIOUS1
  | EYE_EMO_CURIOUS2
  | EYE_EMO_SAD1
  | EYE_EMO_SAD2
  | EYE_EMO_HAPPY1
  | EYE_EMO_HAPPY2
  deriving DecidableEq, Repr

namespace EyeEmotion

/-- The emotions in index order `0 .. EYE_EMO_COUNT - 1`. -/
def all : List EyeEmotion :=
  [EYE_EMO_IDLE, EYE_EMO_CURIOUS, EYE_EMO_ANGRY1, EYE_EMO_LOVE, EYE_EMO_TIRED,
   EYE_EMO_EXCITED, EYE_EMO_ANGRY2, EYE_EMO_ANGRY3, EYE_EMO_WORRIED1, EYE_EMO_CURIOUS1,
   EYE_EMO_CURIOUS2, EYE_EMO_SAD1, EYE_EMO_SAD2, EYE_EMO_HAPPY1, EYE_EMO_HAPPY2]

end EyeEmotion

namespace LevelSystem

/-! ## level_system.h / level_system.cpp -/

/-- The values of `enum FeatureID` before `FEATURE_COUNT`. -/
inductive FeatureID where
  | IDLE_JITTER
  | IDLE_GIGGLE
  | IDLE_JUDGING
  | IDLE_SPEED_FAST
  | EMO_EXCITED
  | EMO_ANGRY1
  | EMO_LOVE
  | EMO_SAD1
  | EMO_HAPPY1
  deriving DecidableEq, Repr

/-- Source `LevelSystem::isUnlocked`, with `getLevel()` passed as `level`. -/
def isUnlocked (level : Int) (feature : FeatureID) : Bool :=
  match feature with
  | FeatureID.EMO_SAD1 => decide (level ≥ 1)
  | FeatureID.EMO_HAPPY1 => decide (level ≥ 1)
  | FeatureID.EMO_EXCITED => decide (level ≥ 2)
  | FeatureID.IDLE_JITTER => decide (level ≥ 3)
  | FeatureID.EMO_ANGRY1 => decide (level ≥ 4)
  | FeatureID.IDLE_GIGGLE => decide (level ≥ 5)
  | FeatureID.EMO_LOVE => decide (level ≥ 7)
  | FeatureID.IDLE_JUDGING => decide (level ≥ 10)
  | FeatureID.IDLE_SPEED_FAST => decide (level ≥ 12)

/-! ## level_system.cpp: level and experience

The variables are `int`: every sum, product and difference of this unit wraps
to 32 bits (`Arith.i32`). -/

def baseXP : Int := 50
def stepXP : Int := 25

/-- The variables `currentLevel` and `currentXP`, and the two keys of the
`bubu-level` preferences namespace (`none` while a key was never written). -/
structure State where
  currentLevel : Int
  currentXP : Int
  nvsLevel : Option Int
  nvsXP : Option Int
  deriving DecidableEq, Repr

/-- The initial values of the variables, over a given flash content. -/
def State.init (nvsLevel nvsXP : Option Int) : State :=
  { currentLevel := 1, currentXP := 0, nvsLevel := nvsLevel, nvsXP := nvsXP }

/-- Source `LevelSystem::loadState`. -/
def loadState (s : State) : State :=
  { s with currentLevel := s.nvsLevel.getD 1, currentXP := s.nvsXP.getD 0 }

/-- Source `LevelSystem::saveState`. -/
def saveState (s : State) : State :=
  { s with nvsLevel := some s.currentLevel, nvsXP := some s.currentXP }

/-- Source `LevelSystem::begin`. -/
def begin (s : State) : State := loadState s

/-- Source `LevelSystem::getXPForNextLevel`, as a function of the level:
`baseXP + (currentLevel * stepXP)` in `int` arithmetic. -/
def xpForLevel (level : Int) : Int := Arith.i32 (baseXP + Arith.i32 (level * stepXP))

/-- Source `LevelSystem::getXPForNextLevel`. -/
def getXPForNextLevel (s : State) : Int := xpForLevel s.currentLevel

/-- A bound on the iterations the loop of `checkLevelUp` still runs from
(`currentLevel`, `currentXP`), used to show that the loop ends. It is 0 when
the loop is left at once. Otherwise, by the requirement `r` of the level: at
`r >= 2^31 - 25` the next requirement wraps to a negative value; while `r` is
negative it rises by 25 per iteration; and from `r >= 0` on the experience
falls by `r` per iteration. -/
def levelUpMeasure (level xp : Int) : Nat :=
  if xp < xpForLevel level then 0
  else if 2147483648 ≤ xp then 4398046511104
  else if 2147483623 ≤ xpForLevel level then 3298534883328
  else if xpForLevel level < 0 then 2199023255552 + ((24 - xpForLevel level) / 25).toNat
  else 1099511627776 + 2 * xp.toNat + (if xpForLevel level = 0 then 1 else 0)

/-- The `while` loop of `LevelSystem::checkLevelUp` on the pair
(`currentLevel`, `currentXP`):
`while (currentXP >= requiredXP) { currentLevel++; currentXP -= requiredXP;
requiredXP = getXPForNextLevel(); }`, every operation in `int` arithmetic.
The loop ends from every pair. -/
def checkLevelUpLoop (level xp : Int) : Int × Int :=
  if xpForLevel level ≤ xp then
    checkLevelUpLoop (Arith.i32 (level + 1)) (Arith.i32 (xp - xpForLevel level))
  else (level, xp)
termination_by levelUpMeasure level xp
decreasing_by
  have key : ∀ n : Int, Arith.i32 n % 4294967296 = n % 4294967296
      ∧ -2147483648 ≤ Arith.i32 n ∧ Arith.i32 n < 2147483648 := by
    intro n
    unfold Arith.i32
    split_ifs <;> omega
  have congr : ∀ a b : Int, a % 4294967296 = b % 4294967296 → Arith.i32 a = Arith.i32 b := by
    intro a b h
    unfold Arith.i32
    rw [h]
  have hs : xpForLevel (Arith.i32 (level + 1)) = Arith.i32 (xpForLevel level + 25) := by
    unfold xpForLevel baseXP stepXP
    apply congr
    have k1 := (key (level + 1)).1
    have k2 := (key (Arith.i32 (level + 1) * 25)).1
    have k3 := (key (level * 25)).1
    have k4 := (key (50 + Arith.i32 (level * 25))).1
    omega
  have hr := (key (baseXP + Arith.i32 (level * stepXP))).2
  have hx := key (xp - xpForLevel level)
  have hn := key (xpForLevel level + 25)
  unfold levelUpMeasure
  rw [hs]
  have hr2 : -2147483648 ≤ xpForLevel level ∧ xpForLevel level < 2147483648 := hr
  clear hr hs key congr
  generalize Arith.i32 (xpForLevel level + 25) = r1 at *
  generalize Arith.i32 (xp - xpForLevel level) = x1 at *
  generalize xpForLevel level = r at *
  split_ifs <;> omega

/-- Source `LevelSystem::checkLevelUp`: both branches save the state. -/
def checkLevelUp (s : State) : State :=
  saveState { s with
    currentLevel := (checkLevelUpLoop s.currentLevel s.currentXP).1
    currentXP := (checkLevelUpLoop s.currentLevel s.currentXP).2 }

/-- Source `LevelSystem::addXP`. -/
def addXP (s : State) (amount : Int) : State :=
  if amount ≤ 0 then s
  else checkLevelUp { s with currentXP := Arith.i32 (s.currentXP + amount) }

/-- The experience spent on `k` level-ups from `level`: the sum of
`50 + 25 * l` over `l` from `level` to `level + k - 1`, over the integers (a
definition after the specification). -/
def xpSpent (level : Int) : Nat → Int
  | 0 => 0
  | k + 1 => (50 + 25 * level) + xpSpent (level + 1) k

/-- A state at level 85899344, the first level whose requirement
`50 + 25 * level` does not fit an `int`, with 5 points. -/
def beyondIntLevel : State :=
  { currentLevel := 85899344, currentXP := 5, nvsLevel := some 85899344, nvsXP := some 5 }

/-- A state at level 1 one point short of the level-up. -/
def nearLevelUp : State :=
  { currentLevel := 1, currentXP := 74, nvsLevel := some 1, nvsXP := some 74 }

end LevelSystem

namespace SubStateSystem

open Arith EyeEmotion

/-! ## sub_state_system.h / sub_state_system.cpp -/

def LOW_HUNGER : Int := 30
def LOW_MOOD : Int := 30
def LOW_ENERGY : Int := 25
def LOW_CLEANLINESS : Int := 25
def RECOVER_THRESHOLD : Int := 80
def CALM_THRESHOLD : Int := 50
def PROMOTE_LOW_THRESHOLD : Int := 30
def PRIMARY_ACTIVATE_MS : Nat := 20000
def DEPRESSED_LONG_MS : Nat := 60000

/-- The record `struct Snapshot`. `forced` is the array `forced[4]`, of which
the first `forceCount` entries are the forced list. -/
structure Snapshot where
  sub_irritable : Bool
  sub_sluggish : Bool
  sub_withdrawn : Bool
  sub_uncomfortable : Bool
  sub_depressed : Bool
  allowAllPositive : Bool
  forceCount : Nat
  forced : List EyeEmotion
  suppress : EyeEmotion → Bool
  suppressSpeedSlow : Bool
  suppressSpeedNormal : Bool
  suppressSpeedFast : Bool

/-- A value-initialised snapshot (`Snapshot subState{}`). -/
def Snapshot.zero : Snapshot :=
  { sub_irritable := false, sub_sluggish := false, sub_withdrawn := false,
    sub_uncomfortable := false, sub_depressed := false, allowAllPositive := false,
    forceCount := 0,
    forced := [EYE_EMO_IDLE, EYE_EMO_IDLE, EYE_EMO_IDLE, EYE_EMO_IDLE],
    suppress := fun _ => false,
    suppressSpeedSlow := false, suppressSpeedNormal := false, suppressSpeedFast := false }

/-- The forced list of a snapshot: entries `0 .. forceCount - 1` of `forced`. -/
def Snapshot.forcedList (out : Snapshot) : List EyeEmotion :=
  out.forced.take out.forceCount

/-- The record `struct State` (the global `g`). -/
structure State where
  sub_irritable : Bool
  sub_sluggish : Bool
  sub_withdrawn : Bool
  sub_uncomfortable : Bool
  sub_depressed : Bool
  hungerLowSince : Nat
  energyLowSince : Nat
  moodLowSince : Nat
  cleanLowSince : Nat
  deriving DecidableEq, Repr

/-- Source `begin`: `g = State{}`. -/
def begin : State :=
  { sub_irritable := false, sub_sluggish := false, sub_withdrawn := false,
    sub_uncomfortable := false, sub_depressed := false,
    hungerLowSince := 0, energyLowSince := 0, moodLowSince := 0, cleanLowSince := 0 }

/-- What one `update` call reads from outside: `millis()`, the four
`CareSystem` getters and `LevelSystem::getLevel()`. -/
structure Inputs where
  now : Nat
  hunger : Int
  energy : Int
  mood : Int
  cleanliness : Int
  level : Int
  deriving DecidableEq, Repr

/-- Source `sustainedLow`. -/
def sustainedLow (sinceMs nowMs thresholdMs : Nat) : Bool :=
  (sinceMs != 0) && decide (sub32 nowMs sinceMs ≥ thresholdMs)

/-- Source `resetAllPrimary`. -/
def resetAllPrimary (s : State) : State :=
  { s with
    sub_irritable := false, sub_sluggish := false, sub_withdrawn := false,
    sub_uncomfortable := false,
    hungerLowSince := 0, energyLowSince := 0, moodLowSince := 0, cleanLowSince := 0 }

/-- The lambda `trackLow` of `update`; the result is the new `sinceTs`. -/
def trackLow (now : Nat) (value lowThr : Int) (sinceTs : Nat) : Nat :=
  if value < lowThr then (if sinceTs = 0 then now else sinceTs) else 0

/-- The local `allHigh` of `update`. -/
def allHigh (i : Inputs) : Bool :=
  decide (i.hunger ≥ RECOVER_THRESHOLD) && decide (i.energy ≥ RECOVER_THRESHOLD) &&
    decide (i.mood ≥ RECOVER_THRESHOLD) && decide (i.cleanliness ≥ RECOVER_THRESHOLD)

/-- The local `allAboveCalm` of `update`. -/
def allAboveCalm (i : Inputs) : Bool :=
  decide (i.hunger > CALM_THRESHOLD) && decide (i.energy > CALM_THRESHOLD) &&
    decide (i.mood > CALM_THRESHOLD) && decide (i.cleanliness > CALM_THRESHOLD)

/-- Source `update`, "Global happy override + recovery" and "Individual primary
recovery (instant)". -/
def recover (g : State) (i : Inputs) : State :=
  let g := if allHigh i then { resetAllPrimary g with sub_depressed := false } else g
  let g := if i.hunger ≥ RECOVER_THRESHOLD
    then { g with sub_irritable := false, hungerLowSince := 0 } else g
  let g := if i.energy ≥ RECOVER_THRESHOLD
    then { g with sub_sluggish := false, energyLowSince := 0 } else g
  let g := if i.mood ≥ RECOVER_THRESHOLD
    then { g with sub_withdrawn := false, moodLowSince := 0 } else g
  if i.cleanliness ≥ RECOVER_THRESHOLD
    then { g with sub_uncomfortable := false, cleanLowSince := 0 } else g

/-- Source `update`, "Track continuous low periods for activation": the four
`trackLow` calls. -/
def trackAll (g : State) (i : Inputs) : State :=
  { g with
    hungerLowSince := trackLow i.now i.hunger LOW_HUNGER g.hungerLowSince,
    energyLowSince := trackLow i.now i.energy LOW_ENERGY g.energyLowSince,
    moodLowSince := trackLow i.now i.mood LOW_MOOD g.moodLowSince,
    cleanLowSince := trackLow i.now i.cleanliness LOW_CLEANLINESS g.cleanLowSince }

/-- Source `update`, "Primary activations (only when staying low long enough)". -/
def activate (g : State) (i : Inputs) : State :=
  { g with
    sub_irritable :=
      if !g.sub_irritable && sustainedLow g.hungerLowSince i.now PRIMARY_ACTIVATE_MS
        then true else g.sub_irritable,
    sub_sluggish :=
      if !g.sub_sluggish && sustainedLow g.energyLowSince i.now PRIMARY_ACTIVATE_MS
        then true else g.sub_sluggish,
    sub_withdrawn :=
      if !g.sub_withdrawn && sustainedLow g.moodLowSince i.now PRIMARY_ACTIVATE_MS
        then true else g.sub_withdrawn,
    sub_uncomfortable :=
      if !g.sub_uncomfortable && sustainedLow g.cleanLowSince i.now PRIMARY_ACTIVATE_MS
        then true else g.sub_uncomfortable }

/-- Source `update`, "Depressed rule: 2+ primaries OR any primary low for very
long". -/
def depressedRule (g : State) (i : Inputs) : State :=
  if !allHigh i then
    let primaryCount : Nat :=
      g.sub_irritable.toNat + g.sub_sluggish.toNat + g.sub_withdrawn.toNat
        + g.sub_uncomfortable.toNat
    let veryLongLow :=
      sustainedLow g.hungerLowSince i.now DEPRESSED_LONG_MS ||
      sustainedLow g.energyLowSince i.now DEPRESSED_LONG_MS ||
      sustainedLow g.moodLowSince i.now DEPRESSED_LONG_MS ||
      sustainedLow g.cleanLowSince i.now DEPRESSED_LONG_MS
    { g with sub_depressed := decide (primaryCount ≥ 2) || veryLongLow }
  else
    { g with sub_depressed := false }

/-- Source `update`, first half (up to the depressed rule): the new value of
the global `g`. -/
def updateState (g : State) (i : Inputs) : State :=
  depressedRule (activate (trackAll (recover g i) i) i) i

/-- Array write `a[e] = true` on a per-emotion flag array. -/
def setTrue (a : EyeEmotion → Bool) (e : EyeEmotion) : EyeEmotion → Bool :=
  fun x => if x = e then true else a x

/-- The compaction loop used twice in `update`:
`for (i = 0; i < forceCount; ++i) { emo = forced[i]; if (skip emo) continue;
forced[writeIdx++] = emo; } forceCount = writeIdx;`. The result is the array
and the final `writeIdx`. -/
def compactForced (skip : EyeEmotion → Bool) (forced : List EyeEmotion) (forceCount : Nat) :
    List EyeEmotion × Nat :=
  (List.range forceCount).foldl
    (fun (acc : List EyeEmotion × Nat) (i : Nat) =>
      let emo := acc.1.getD i EYE_EMO_IDLE
      if skip emo then acc else (List.set acc.1 acc.2 emo, acc.2 + 1))
    (forced, 0)

/-- The filter of the calm pass: the negative emotions dropped from the forced
list when all statistics are above `CALM_THRESHOLD`. -/
def isCalmFiltered (emo : EyeEmotion) : Bool :=
  emo == EYE_EMO_ANGRY1 || emo == EYE_EMO_ANGRY2 || emo == EYE_EMO_ANGRY3 ||
    emo == EYE_EMO_WORRIED1 || emo == EYE_EMO_SAD1 || emo == EYE_EMO_SAD2

/-- The local `minStat` of `update`. -/
def minStat (i : Inputs) : Int :=
  let m := i.hunger
  let m := if i.energy < m then i.energy else m
  let m := if i.mood < m then i.mood else m
  if i.cleanliness < m then i.cleanliness else m

/-- The local array `allow` of `update`, filled by band. -/
def allow (i : Inputs) : EyeEmotion → Bool :=
  let bandHigh := decide (minStat i > CALM_THRESHOLD)
  let bandMid := !bandHigh && decide (minStat i > PROMOTE_LOW_THRESHOLD)
  let a : EyeEmotion → Bool := fun _ => false
  let a := setTrue a EYE_EMO_IDLE
  if bandHigh then
    let a := setTrue a EYE_EMO_HAPPY1
    let a := setTrue a EYE_EMO_HAPPY2
    let a := setTrue a EYE_EMO_CURIOUS
    let a := setTrue a EYE_EMO_CURIOUS1
    let a := setTrue a EYE_EMO_CURIOUS2
    let a := setTrue a EYE_EMO_EXCITED
    setTrue a EYE_EMO_LOVE
  else if bandMid then
    let a := setTrue a EYE_EMO_WORRIED1
    let a := setTrue a EYE_EMO_SAD1
    let a := setTrue a EYE_EMO_SAD2
    let a := setTrue a EYE_EMO_ANGRY1
    let a := setTrue a EYE_EMO_ANGRY2
    setTrue a EYE_EMO_ANGRY3
  else
    let a := setTrue a EYE_EMO_ANGRY1
    let a := setTrue a EYE_EMO_ANGRY2
    let a := setTrue a EYE_EMO_ANGRY3
    let a := setTrue a EYE_EMO_SAD1
    setTrue a EYE_EMO_SAD2

/-- Source `update`, "Build snapshot output" and "Happy override clears
gates": the sub-state flags are copied and every gate is reset. The array
`forced` is not touched. -/
def resetSnapshot (g : State) (i : Inputs) (out : Snapshot) : Snapshot :=
  { out with
    sub_irritable := g.sub_irritable
    sub_sluggish := g.sub_sluggish
    sub_withdrawn := g.sub_withdrawn
    sub_uncomfortable := g.sub_uncomfortable
    sub_depressed := g.sub_depressed
    allowAllPositive := allHigh i
    forceCount := 0
    suppress := fun _ => false
    suppressSpeedSlow := false
    suppressSpeedNormal := false
    suppressSpeedFast := false }

/-- Source `update`, the `if (allAboveCalm)` block: negative emotions are
suppressed. -/
def calmSuppress (i : Inputs) (sup : EyeEmotion → Bool) : EyeEmotion → Bool :=
  if allAboveCalm i then
    setTrue (setTrue (setTrue (setTrue (setTrue (setTrue sup
      EYE_EMO_ANGRY1) EYE_EMO_ANGRY2) EYE_EMO_ANGRY3) EYE_EMO_WORRIED1)
      EYE_EMO_SAD1) EYE_EMO_SAD2
  else sup

/-- Source `update`, "Suppression stacking" (inside `if (!allHigh)`). -/
def stackSuppress (g : State) (sup : EyeEmotion → Bool) : EyeEmotion → Bool :=
  let sup := if g.sub_depressed then
      setTrue (setTrue (setTrue (setTrue sup EYE_EMO_HAPPY1) EYE_EMO_HAPPY2)
        EYE_EMO_EXCITED) EYE_EMO_LOVE
    else sup
  let sup := if g.sub_sluggish then setTrue sup EYE_EMO_EXCITED else sup
  let sup := if g.sub_irritable then
      setTrue (setTrue (setTrue sup EYE_EMO_HAPPY1) EYE_EMO_HAPPY2) EYE_EMO_LOVE
    else sup
  let sup := if g.sub_withdrawn then
      setTrue (setTrue sup EYE_EMO_CURIOUS) EYE_EMO_LOVE
    else sup
  if g.sub_uncomfortable then setTrue (setTrue sup EYE_EMO_HAPPY1) EYE_EMO_HAPPY2 else sup

/-- Source `update`, "Forced emotions by priority" (inside `if (!allHigh)`):
the array `forced` and `forceCount`. Called with `forceCount = 0`. -/
def forceByPriority (g : State) (forced : List EyeEmotion) (forceCount : Nat) :
    List EyeEmotion × Nat :=
  if g.sub_depressed then
    (List.set (List.set (List.set forced 0 EYE_EMO_SAD1) 1 EYE_EMO_SAD2) 2 EYE_EMO_TIRED, 3)
  else if g.sub_sluggish then
    (List.set forced 0 EYE_EMO_TIRED, 1)
  else if g.sub_irritable then
    (List.set forced 0 EYE_EMO_ANGRY1, 1)
  else if g.sub_withdrawn then
    (List.set (List.set forced 0 EYE_EMO_SAD1) 1 EYE_EMO_SAD2, 2)
  else if g.sub_uncomfortable then
    (List.set forced 0 EYE_EMO_ANGRY1, 1)
  else (forced, forceCount)

/-- Source `update`, the `if (allAboveCalm && out.forceCount > 0)` block. -/
def calmFilterForced (i : Inputs) (forced : List EyeEmotion) (forceCount : Nat) :
    List EyeEmotion × Nat :=
  if allAboveCalm i && decide (forceCount > 0) then
    compactForced isCalmFiltered forced forceCount
  else (forced, forceCount)

/-- Source `update`, the loop `if (!allow[i]) out.suppress[i] = true`. -/
def bandSuppress (i : Inputs) (sup : EyeEmotion → Bool) : EyeEmotion → Bool :=
  fun e => if !allow i e then true else sup e

/-- Source `update`, the `if (out.forceCount > 0)` block that trims the forced
list by the allow-list. -/
def bandFilterForced (i : Inputs) (forced : List EyeEmotion) (forceCount : Nat) :
    List EyeEmotion × Nat :=
  if forceCount > 0 then
    compactForced (fun emo => !allow i emo) forced forceCount
  else (forced, forceCount)

/-- Source `update`, "Level System Gating (Final Override)", the five emotion
lines. -/
def levelSuppress (level : Int) (sup : EyeEmotion → Bool) : EyeEmotion → Bool :=
  let sup := if !LevelSystem.isUnlocked level LevelSystem.FeatureID.EMO_EXCITED
    then setTrue sup EYE_EMO_EXCITED else sup
  let sup := if !LevelSystem.isUnlocked level LevelSystem.FeatureID.EMO_ANGRY1
    then setTrue sup EYE_EMO_ANGRY1 else sup
  let sup := if !LevelSystem.isUnlocked level LevelSystem.FeatureID.EMO_LOVE
    then setTrue sup EYE_EMO_LOVE else sup
  let sup := if !LevelSystem.isUnlocked level LevelSystem.FeatureID.EMO_SAD1
    then setTrue sup EYE_EMO_SAD1 else sup
  if !LevelSystem.isUnlocked level LevelSystem.FeatureID.EMO_HAPPY1
    then setTrue sup EYE_EMO_HAPPY1 else sup

/-- Source `update`, "Idle speed gating" and the `IDLE_SPEED_FAST` line of the
level gating: the flags (slow, normal, fast), all `false` before. -/
def speedGates (g : State) (level : Int) : Bool × Bool × Bool :=
  let fast := g.sub_sluggish || g.sub_depressed
  let normal := g.sub_sluggish || g.sub_depressed
  let fast := if g.sub_withdrawn then true else fast
  let slow := g.sub_irritable
  let normal := if g.sub_irritable then true else normal
  let fast := if !LevelSystem.isUnlocked level LevelSystem.FeatureID.IDLE_SPEED_FAST
    then true else fast
  (slow, normal, fast)

/-- Source `update`, second half (from "Build snapshot output"): the fields
written into `out`, given the updated global `g`. The suppression flags and
the forced list are computed pass by pass in the order of the source: calm
suppression, stacking and forcing by priority (both only when not all
statistics are high), calm filter of the forced list, band allow-list, level
gating. Entries of `out.forced` that are not written keep their old value. -/
def buildSnapshot (g : State) (i : Inputs) (out : Snapshot) : Snapshot :=
  let out := resetSnapshot g i out
  let sup := calmSuppress i out.suppress
  let sup := if !allHigh i then stackSuppress g sup else sup
  let fc := if !allHigh i then forceByPriority g out.forced out.forceCount
    else (out.forced, out.forceCount)
  let fc := calmFilterForced i fc.1 fc.2
  let sup := bandSuppress i sup
  let fc := bandFilterForced i fc.1 fc.2
  let sp := speedGates g i.level
  let sup := levelSuppress i.level sup
  { out with
    forceCount := fc.2
    forced := fc.1
    suppress := sup
    suppressSpeedSlow := sp.1
    suppressSpeedNormal := sp.2.1
    suppressSpeedFast := sp.2.2 }

/-- Source `SubStateSystem::update(out)`: the new global `g` and the snapshot
written into `out`. -/
def update (g : State) (out : Snapshot) (i : Inputs) : State × Snapshot :=
  let g1 := updateState g i
  (g1, buildSnapshot g1 i out)

/-- The state of `g` after a sequence of `update` calls (the snapshot written
by one call does not feed into the next call's state). -/
def runUpdates (g : State) (calls : List Inputs) : State :=
  calls.foldl updateState g

/-! ## The four statistics, uniformly -/

/-- The four care statistics read by `update`. -/
inductive Stat where
  | hunger
  | energy
  | mood
  | cleanliness
  deriving DecidableEq, Repr

/-- The value of a statistic in the inputs of a call. -/
def Stat.value (k : Stat) (i : Inputs) : Int :=
  match k with
  | Stat.hunger => i.hunger
  | Stat.energy => i.energy
  | Stat.mood => i.mood
  | Stat.cleanliness => i.cleanliness

/-- The low threshold `update` passes to `trackLow` for a statistic. -/
def Stat.lowThreshold (k : Stat) : Int :=
  match k with
  | Stat.hunger => LOW_HUNGER
  | Stat.energy => LOW_ENERGY
  | Stat.mood => LOW_MOOD
  | Stat.cleanliness => LOW_CLEANLINESS

/-- The low-timer of a statistic. -/
def Stat.lowSince (k : Stat) (g : State) : Nat :=
  match k with
  | Stat.hunger => g.hungerLowSince
  | Stat.energy => g.energyLowSince
  | Stat.mood => g.moodLowSince
  | Stat.cleanliness => g.cleanLowSince

/-- The primary sub-state a statistic controls: hunger - irritable,
energy - sluggish, mood - withdrawn, cleanliness - uncomfortable. -/
def Stat.subState (k : Stat) (g : State) : Bool :=
  match k with
  | Stat.hunger => g.sub_irritable
  | Stat.energy => g.sub_sluggish
  | Stat.mood => g.sub_withdrawn
  | Stat.cleanliness => g.sub_uncomfortable

/-- The forced list the specification gives to the highest-priority active
sub-state of a snapshot, in the order depressed, sluggish, irritable,
withdrawn, uncomfortable (a definition after the specification, to compare
the snapshot of `update` with). -/
def specPriorityList (out : Snapshot) : List EyeEmotion :=
  if out.sub_depressed then [EYE_EMO_SAD1, EYE_EMO_SAD2, EYE_EMO_TIRED]
  else if out.sub_sluggish then [EYE_EMO_TIRED]
  else if out.sub_irritable then [EYE_EMO_ANGRY1]
  else if out.sub_withdrawn then [EYE_EMO_SAD1, EYE_EMO_SAD2]
  else if out.sub_uncomfortable then [EYE_EMO_ANGRY1]
  else []

/-- The allow-list the specification gives to the band of the smallest
statistic `m` (a definition after the specification, to compare the array
`allow` of `update` with). -/
def specAllowList (m : Int) : List EyeEmotion :=
  if m > 50 then
    [EYE_EMO_IDLE, EYE_EMO_HAPPY1, EYE_EMO_HAPPY2, EYE_EMO_CURIOUS, EYE_EMO_CURIOUS1,
     EYE_EMO_CURIOUS2, EYE_EMO_EXCITED, EYE_EMO_LOVE]
  else if m > 30 then
    [EYE_EMO_IDLE, EYE_EMO_WORRIED1, EYE_EMO_SAD1, EYE_EMO_SAD2, EYE_EMO_ANGRY1,
     EYE_EMO_ANGRY2, EYE_EMO_ANGRY3]
  else
    [EYE_EMO_IDLE, EYE_EMO_ANGRY1, EYE_EMO_ANGRY2, EYE_EMO_ANGRY3, EYE_EMO_SAD1,
     EYE_EMO_SAD2]

/-- A state in which hunger and energy have been low since time 1000. -/
def lowSinceState : State :=
  { begin with hungerLowSince := 1000, energyLowSince := 1000 }

/-- Inputs of a sample call at level 1. -/
def sampleCall (now : Nat) (hunger energy mood cleanliness : Int) : Inputs :=
  { now := now, hunger := hunger, energy := energy, mood := mood,
    cleanliness := cleanliness, level := 1 }

end SubStateSystem

namespace CareSystem

open Arith

/-! ## care_system.h / care_system.cpp -/

def STAT_MIN : Int := 0
def STAT_MAX : Int := 100
def HUNGER_DECAY_MIN : Nat := 6
def MOOD_DECAY_MIN : Nat := 8
def ENERGY_DECAY_MIN : Nat := 5
def CLEANLINESS_DECAY_MIN : Nat := 10
def SAVE_INTERVAL_MS : Nat := 600000
def DEFAULT_STAT_VALUE : Int := 30
def DECAY_TICK_MS : Nat := 60000

def kSandwichBoost : Int := 10
def kGamesBoost : Int := 10
def kSleepBoost : Int := 10
def kBathBoost : Int := 10
def kCleanAnimBoost : Int := 30
def kGameRewardPerHit : Int := 5
def kGameWrongTapMood : Int := -10
def kGameWrongTapEnergy : Int := -5

/-- The values of `enum StatId`. -/
inductive StatId where
  | STAT_HUNGER
  | STAT_MOOD
  | STAT_ENERGY
  | STAT_CLEANLINESS
  deriving DecidableEq, Repr

/-- The keys of the `care_stats` preferences namespace: `has` is the stored
flag (absent reads as false), a statistic key is `none` while never written. -/
structure Prefs where
  has : Bool
  h : Option Int
  m : Option Int
  e : Option Int
  c : Option Int
  deriving DecidableEq, Repr

/-- The file-scope variables of `care_system.cpp`. -/
structure State where
  hunger : Int
  mood : Int
  energy : Int
  cleanliness : Int
  lastDecayMs : Nat
  hungerAccMin : Nat
  moodAccMin : Nat
  energyAccMin : Nat
  cleanAccMin : Nat
  lastSaveMs : Nat
  decaySuspended : Bool
  prefs : Prefs
  prefsReady : Bool
  deriving DecidableEq, Repr

/-- The initial values of the variables, over a given flash content. -/
def State.init (prefs : Prefs) : State :=
  { hunger := 80, mood := 80, energy := 80, cleanliness := 80,
    lastDecayMs := 0, hungerAccMin := 0, moodAccMin := 0, energyAccMin := 0,
    cleanAccMin := 0, lastSaveMs := 0, decaySuspended := false,
    prefs := prefs, prefsReady := false }

/-- The care statistics together with the level unit that `add*` reports
recovered points to. -/
structure World where
  care : State
  level : LevelSystem.State
  deriving DecidableEq, Repr

/-- Source `clampStat`. -/
def clampStat (v : Int) : Int :=
  if v < STAT_MIN then STAT_MIN
  else if v > STAT_MAX then STAT_MAX
  else v

/-- Source `applySnapshot`. -/
def applySnapshot (s : State) (hasSnapshot : Bool) : State :=
  if hasSnapshot then
    { s with
      hunger := clampStat (s.prefs.h.getD DEFAULT_STAT_VALUE)
      mood := clampStat (s.prefs.m.getD DEFAULT_STAT_VALUE)
      energy := clampStat (s.prefs.e.getD DEFAULT_STAT_VALUE)
      cleanliness := clampStat (s.prefs.c.getD DEFAULT_STAT_VALUE) }
  else
    { s with
      hunger := clampStat DEFAULT_STAT_VALUE
      mood := clampStat DEFAULT_STAT_VALUE
      energy := clampStat DEFAULT_STAT_VALUE
      cleanliness := clampStat DEFAULT_STAT_VALUE }

/-- Source `saveSnapshot`. -/
def saveSnapshot (s : State) : State :=
  if !s.prefsReady then s
  else
    { s with
      prefs :=
        { has := true, h := some s.hunger, m := some s.mood,
          e := some s.energy, c := some s.cleanliness } }

/-- One accumulator of `applyDecay` after `minutes` more minutes: the
remainder that is left once the whole periods are taken out. -/
def decayAcc (period acc minutes : Nat) : Nat :=
  if 0 < period ∧ period ≤ (acc + minutes) % 4294967296 then
    sub32 ((acc + minutes) % 4294967296)
      ((((acc + minutes) % 4294967296) / period * period) % 4294967296)
  else (acc + minutes) % 4294967296

/-- One statistic of `applyDecay` before the final clamp: it loses one point
per whole period in the accumulator. -/
def decayValue (period : Nat) (value : Int) (acc minutes : Nat) : Int :=
  if 0 < period ∧ period ≤ (acc + minutes) % 4294967296 then
    i32 (value - i32 ((((acc + minutes) % 4294967296) / period : Nat) : Int))
  else value

/-- Source `applyDecay`. -/
def applyDecay (s : State) (minutes : Nat) : State :=
  if minutes = 0 then s
  else
    { s with
      hunger := clampStat (decayValue HUNGER_DECAY_MIN s.hunger s.hungerAccMin minutes)
      mood := clampStat (decayValue MOOD_DECAY_MIN s.mood s.moodAccMin minutes)
      energy := clampStat (decayValue ENERGY_DECAY_MIN s.energy s.energyAccMin minutes)
      cleanliness :=
        clampStat (decayValue CLEANLINESS_DECAY_MIN s.cleanliness s.cleanAccMin minutes)
      hungerAccMin := decayAcc HUNGER_DECAY_MIN s.hungerAccMin minutes
      moodAccMin := decayAcc MOOD_DECAY_MIN s.moodAccMin minutes
      energyAccMin := decayAcc ENERGY_DECAY_MIN s.energyAccMin minutes
      cleanAccMin := decayAcc CLEANLINESS_DECAY_MIN s.cleanAccMin minutes }

/-- Source `CareSystem::begin`; `prefsOk` is the result of `prefs.begin` and
`now` the value of `millis()`. -/
def begin (s : State) (prefsOk : Bool) (now : Nat) : State :=
  let s1 : State := { s with prefsReady := prefsOk }
  let s2 : State :=
    if prefsOk then
      (if s1.prefs.has then applySnapshot s1 true
       else saveSnapshot (applySnapshot s1 false))
    else
      { s1 with
        hunger := DEFAULT_STAT_VALUE
        mood := DEFAULT_STAT_VALUE
        energy := DEFAULT_STAT_VALUE
        cleanliness := DEFAULT_STAT_VALUE }
  { s2 with
    lastDecayMs := now
    hungerAccMin := 0
    moodAccMin := 0
    energyAccMin := 0
    cleanAccMin := 0
    lastSaveMs := now }

/-- The decay half of `CareSystem::update`, once neither early return applies. -/
def updateDecay (s : State) (now : Nat) : State :=
  if DECAY_TICK_MS ≤ sub32 now s.lastDecayMs then
    applyDecay
      { s with
        lastDecayMs :=
          (s.lastDecayMs + (sub32 now s.lastDecayMs / DECAY_TICK_MS * DECAY_TICK_MS)
            % 4294967296) % 4294967296 }
      (sub32 now s.lastDecayMs / DECAY_TICK_MS)
  else s

/-- The save half of `CareSystem::update`. -/
def updateSave (s : State) (now : Nat) : State :=
  if s.prefsReady ∧ s.lastSaveMs ≠ 0 ∧ SAVE_INTERVAL_MS ≤ sub32 now s.lastSaveMs then
    { saveSnapshot s with lastSaveMs := now }
  else s

/-- Source `CareSystem::update`; `now` is the value of `millis()`. -/
def update (s : State) (now : Nat) : State :=
  if s.lastDecayMs = 0 then { s with lastDecayMs := now }
  else if s.decaySuspended then { s with lastDecayMs := now, lastSaveMs := now }
  else updateSave (updateDecay s now) now

/-- Source `CareSystem::setDecaySuspended`. -/
def setDecaySuspended (s : State) (suspended : Bool) (now : Nat) : State :=
  if s.decaySuspended = suspended then s
  else { s with decaySuspended := suspended, lastDecayMs := now, lastSaveMs := now }

/-- The experience part shared by the four `add*` functions: with `v > 0` and
the old value below the maximum, a tenth of the recovered points (rounded
toward zero) goes to `LevelSystem::addXP` when it is positive. -/
def rewardXP (lvl : LevelSystem.State) (v oldValue newValue : Int) : LevelSystem.State :=
  if 0 < v ∧ oldValue < STAT_MAX then
    (if 0 < Int.tdiv (i32 (newValue - oldValue)) 10 then
      LevelSystem.addXP lvl (Int.tdiv (i32 (newValue - oldValue)) 10)
     else lvl)
  else lvl

/-- Source `CareSystem::addHunger`. -/
def addHunger (w : World) (v : Int) : World :=
  { care := { w.care with hunger := clampStat (i32 (w.care.hunger + v)) }
    level := rewardXP w.level v w.care.hunger (clampStat (i32 (w.care.hunger + v))) }

/-- Source `CareSystem::addMood`. -/
def addMood (w : World) (v : Int) : World :=
  { care := { w.care with mood := clampStat (i32 (w.care.mood + v)) }
    level := rewardXP w.level v w.care.mood (clampStat (i32 (w.care.mood + v))) }

/-- Source `CareSystem::addEnergy`. -/
def addEnergy (w : World) (v : Int) : World :=
  { care := { w.care with energy := clampStat (i32 (w.care.energy + v)) }
    level := rewardXP w.level v w.care.energy (clampStat (i32 (w.care.energy + v))) }

/-- Source `CareSystem::addCleanliness`. -/
def addCleanliness (w : World) (v : Int) : World :=
  { care := { w.care with cleanliness := clampStat (i32 (w.care.cleanliness + v)) }
    level :=
      rewardXP w.level v w.care.cleanliness (clampStat (i32 (w.care.cleanliness + v))) }

def getHunger (w : World) : Int := w.care.hunger
def getMood (w : World) : Int := w.care.mood
def getEnergy (w : World) : Int := w.care.energy
def getCleanliness (w : World) : Int := w.care.cleanliness

/-- The calls a client can make on the care unit, with the hardware reads each
one performs. -/
inductive Call where
  | begin (prefsOk : Bool) (now : Nat)
  | update (now : Nat)
  | setDecaySuspended (suspended : Bool) (now : Nat)
  | addHunger (v : Int)
  | addMood (v : Int)
  | addEnergy (v : Int)
  | addCleanliness (v : Int)
  deriving DecidableEq, Repr

/-- One call on the care unit. -/
def step (w : World) : Call → World
  | Call.begin prefsOk now => { w with care := begin w.care prefsOk now }
  | Call.update now => { w with care := update w.care now }
  | Call.setDecaySuspended suspended now =>
      { w with care := setDecaySuspended w.care suspended now }
  | Call.addHunger v => addHunger w v
  | Call.addMood v => addMood w v
  | Call.addEnergy v => addEnergy w v
  | Call.addCleanliness v => addCleanliness w v

/-- The world after a sequence of calls. -/
def run (w : World) (calls : List Call) : World := calls.foldl step w

/-- The world at power-on, over given flash contents. -/
def World.init (prefs : Prefs) (nvsLevel nvsXP : Option Int) : World :=
  { care := State.init prefs, level := LevelSystem.State.init nvsLevel nvsXP }

/-- The worlds that calls on the care unit reach from power-on. -/
def Reachable (w : World) : Prop :=
  ∃ (prefs : Prefs) (nvsLevel nvsXP : Option Int) (calls : List Call),
    w = run (World.init prefs nvsLevel nvsXP) calls

/-- Each minute accumulator is below the decay period of its statistic. -/
def AccBelow (s : State) : Prop :=
  s.hungerAccMin < HUNGER_DECAY_MIN ∧ s.moodAccMin < MOOD_DECAY_MIN ∧
  s.energyAccMin < ENERGY_DECAY_MIN ∧ s.cleanAccMin < CLEANLINESS_DECAY_MIN

/-- The four statistics are within `0..100`. -/
def InRange (s : State) : Prop :=
  (0 ≤ s.hunger ∧ s.hunger ≤ 100) ∧ (0 ≤ s.mood ∧ s.mood ≤ 100) ∧
  (0 ≤ s.energy ∧ s.energy ≤ 100) ∧ (0 ≤ s.cleanliness ∧ s.cleanliness ≤ 100)

end CareSystem

namespace EyeGame

open Arith

/-! ## eye_game.h / eye_game.cpp -/

/-- The record `struct Config` with its default values. -/
structure Config where
  maxRounds : Nat
  rewardPerHit : Nat
  wrongTapMoodDelta : Int
  wrongTapEnergyDelta : Int
  deriving DecidableEq, Repr

/-- The default member initialisers of `Config`. -/
def Config.default : Config :=
  { maxRounds := 40, rewardPerHit := 5, wrongTapMoodDelta := -10, wrongTapEnergyDelta := -5 }

/-- The values of `enum GameResult`. -/
inductive GameResult where
  | GAME_NONE
  | GAME_FINISH_NORMAL
  | GAME_FINISH_WRONG_TAP
  deriving DecidableEq, Repr

/-- The values of `enum EyeColorType` before `EYE_COL_COUNT`. -/
inductive EyeColorType where
  | EYE_COL_GREEN
  | EYE_COL_RED
  | EYE_COL_BLUE
  | EYE_COL_PURPLE
  | EYE_COL_YELLOW
  | EYE_COL_CYAN
  deriving DecidableEq, Repr

/-- The record `struct State` (the variable `state`). -/
structure State where
  running : Bool
  rewardStat : CareSystem.StatId
  cfg : Config
  leftColor : EyeColorType
  rightColor : EyeColorType
  leftColor565 : Nat
  rightColor565 : Nat
  nextChangeMs : Nat
  rounds : Nat
  score : Nat
  lastResult : GameResult
  deriving DecidableEq, Repr

/-- The default member initialisers of `State`. -/
def State.init : State :=
  { running := false, rewardStat := CareSystem.StatId.STAT_MOOD, cfg := Config.default,
    leftColor := EyeColorType.EYE_COL_RED, rightColor := EyeColorType.EYE_COL_BLUE,
    leftColor565 := 0, rightColor565 := 0, nextChangeMs := 0, rounds := 0, score := 0,
    lastResult := GameResult.GAME_NONE }

/-- The game together with the care and level units its rewards reach. -/
structure World where
  game : State
  cw : CareSystem.World
  deriving DecidableEq, Repr

/-- The random draws and the clock read of one `scheduleNextChange`:
`random(1000, 2001)`, `millis()`, and for each eye `random(0, 100)` and
`random(0, 5)`. -/
structure Draw where
  interval : Nat
  now : Nat
  rollLeft : Nat
  pickLeft : Nat
  rollRight : Nat
  pickRight : Nat
  deriving DecidableEq, Repr

/-- Source `rgb565`. -/
def rgb565 (r g b : Nat) : Nat :=
  (((r &&& 0xF8) <<< 8) ||| ((g &&& 0xFC) <<< 3) ||| (b >>> 3)) % 65536

/-- Source `colorFromType`. -/
def colorFromType : EyeColorType → Nat
  | EyeColorType.EYE_COL_GREEN => rgb565 0 255 0
  | EyeColorType.EYE_COL_RED => rgb565 255 0 0
  | EyeColorType.EYE_COL_BLUE => rgb565 0 0 255
  | EyeColorType.EYE_COL_PURPLE => rgb565 128 0 255
  | EyeColorType.EYE_COL_YELLOW => rgb565 255 255 0
  | EyeColorType.EYE_COL_CYAN => rgb565 0 255 255

/-- Source `randomColorType`; `roll` is `random(0, 100)` as `uint8_t` and
`pick` is `random(0, 5)`, an index into the pool of the five other colours. -/
def randomColorType (roll pick : Nat) : EyeColorType :=
  if roll % 256 < 25 then EyeColorType.EYE_COL_GREEN
  else
    match pick with
    | 0 => EyeColorType.EYE_COL_RED
    | 1 => EyeColorType.EYE_COL_BLUE
    | 2 => EyeColorType.EYE_COL_PURPLE
    | 3 => EyeColorType.EYE_COL_YELLOW
    | _ => EyeColorType.EYE_COL_CYAN

/-- Source `applyReward`. -/
def applyReward (w : World) : World :=
  if (w.game.score : Int) * (w.game.cfg.rewardPerHit : Int) = 0 then w
  else
    match w.game.rewardStat with
    | CareSystem.StatId.STAT_HUNGER =>
        { w with cw := CareSystem.addHunger w.cw ((w.game.score : Int) * w.game.cfg.rewardPerHit) }
    | CareSystem.StatId.STAT_MOOD =>
        { w with cw := CareSystem.addMood w.cw ((w.game.score : Int) * w.game.cfg.rewardPerHit) }
    | CareSystem.StatId.STAT_ENERGY =>
        { w with cw := CareSystem.addEnergy w.cw ((w.game.score : Int) * w.game.cfg.rewardPerHit) }
    | CareSystem.StatId.STAT_CLEANLINESS =>
        { w with
          cw := CareSystem.addCleanliness w.cw ((w.game.score : Int) * w.game.cfg.rewardPerHit) }

/-- The state half of `finishGame`. -/
def markFinished (g : State) (result : GameResult) : State :=
  { g with running := false, lastResult := result }

/-- Source `finishGame`. -/
def finishGame (w : World) (result : GameResult) : World :=
  if result = GameResult.GAME_FINISH_NORMAL then
    applyReward { w with game := markFinished w.game result }
  else { w with game := markFinished w.game result }

/-- Source `applyWrongTapPenalty`. -/
def applyWrongTapPenalty (w : World) : World :=
  { w with
    cw :=
      CareSystem.addEnergy (CareSystem.addMood w.cw w.game.cfg.wrongTapMoodDelta)
        w.game.cfg.wrongTapEnergyDelta }

/-- The state half of `scheduleNextChange`: the next change time, the two new
colours and the round counter. -/
def nextRound (g : State) (d : Draw) : State :=
  { g with
    nextChangeMs := (d.now + d.interval) % 4294967296
    leftColor := randomColorType d.rollLeft d.pickLeft
    rightColor := randomColorType d.rollRight d.pickRight
    leftColor565 := colorFromType (randomColorType d.rollLeft d.pickLeft)
    rightColor565 := colorFromType (randomColorType d.rollRight d.pickRight)
    rounds := (g.rounds + 1) % 65536 }

/-- Source `scheduleNextChange`. -/
def scheduleNextChange (w : World) (d : Draw) : World :=
  if w.game.cfg.maxRounds ≤ (nextRound w.game d).rounds then
    finishGame { w with game := nextRound w.game d } GameResult.GAME_FINISH_NORMAL
  else { w with game := nextRound w.game d }

/-- Source `EyeGame::configure`. -/
def configure (w : World) (cfg : Config) : World :=
  { w with game := { w.game with cfg := cfg } }

/-- Source `EyeGame::start`. -/
def start (w : World) (rewardStat : CareSystem.StatId) (d : Draw) : World :=
  scheduleNextChange
    { w with
      game :=
        { w.game with
          running := true
          rewardStat := rewardStat
          rounds := 0
          score := 0
          lastResult := GameResult.GAME_NONE } }
    d

/-- Source `EyeGame::stop`. -/
def stop (w : World) : World :=
  if !w.game.running then w
  else
    { applyReward w with
      game := markFinished (applyReward w).game GameResult.GAME_FINISH_NORMAL }

/-- Source `EyeGame::update`; `now` is the `millis()` of the comparison. -/
def update (w : World) (now : Nat) (d : Draw) : World :=
  if !w.game.running then w
  else if w.game.nextChangeMs ≤ now then scheduleNextChange w d
  else w

/-- Source `EyeGame::handleTap`. -/
def handleTap (w : World) (x : Int) (d : Draw) : World :=
  if !w.game.running then w
  else if (if x < 120 then w.game.leftColor else w.game.rightColor)
      = EyeColorType.EYE_COL_GREEN then
    scheduleNextChange { w with game := { w.game with score := (w.game.score + 1) % 256 } } d
  else
    finishGame (applyWrongTapPenalty (applyReward w)) GameResult.GAME_FINISH_WRONG_TAP

def isRunning (w : World) : Bool := w.game.running
def getScore (w : World) : Nat := w.game.score
def getLastResult (w : World) : GameResult := w.game.lastResult
def getRewardPerHit (w : World) : Nat := w.game.cfg.rewardPerHit

/-- A draw that turns the left eye green. -/
def greenLeft (now : Nat) : Draw :=
  { interval := 1000, now := now, rollLeft := 0, pickLeft := 0, rollRight := 50, pickRight := 0 }

/-- A world at power-on with empty flash, after `CareSystem::begin` without a
preferences store (every statistic 30), level 1 with no experience. -/
def freshWorld : World :=
  { game := State.init
    cw :=
      { care :=
          CareSystem.begin
            (CareSystem.State.init { has := false, h := none, m := none, e := none, c := none })
            false 1000
        level := LevelSystem.State.init none none } }

/-- A game started on the mood statistic in which the left (green) eye was
hit three times. -/
def threeHits : World :=
  handleTap
    (handleTap
      (handleTap (start freshWorld CareSystem.StatId.STAT_MOOD (greenLeft 2000)) 60
        (greenLeft 2500))
      60 (greenLeft 3000))
    60 (greenLeft 3500)

end EyeGame

namespace MenuSystem

/-! ## menu_system.h / menu_system.cpp: the layer predicates -/

/-- The values of `enum MenuState`. -/
inductive MenuState where
  | MENU_CLOSED
  | MENU_OPEN
  | MENU_FEEDING
  | MENU_BATTERY_OPEN
  | MENU_CONNECT_OPEN
  | MENU_MESSAGE_OPEN
  | MENU_STATS_OPEN
  | MENU_OPTIONS_OPEN
  | MENU_GAMES_OPEN
  | MENU_GAME_ACTIVE
  | MENU_LEVEL_OPEN
  deriving DecidableEq, Repr

open MenuState

/-- Source `MenuSystem::isOpen`, on the value of `currentState`. -/
def isOpen (currentState : MenuState) : Bool := currentState == MENU_OPEN
/-- Source `MenuSystem::isFeeding`. -/
def isFeeding (currentState : MenuState) : Bool := currentState == MENU_FEEDING
/-- Source `MenuSystem::isBatteryOpen`. -/
def isBatteryOpen (currentState : MenuState) : Bool := currentState == MENU_BATTERY_OPEN
/-- Source `MenuSystem::isLevelOpen`. -/
def isLevelOpen (currentState : MenuState) : Bool := currentState == MENU_LEVEL_OPEN
/-- Source `MenuSystem::isConnectOpen`. -/
def isConnectOpen (currentState : MenuState) : Bool := currentState == MENU_CONNECT_OPEN
/-- Source `MenuSystem::isMessageOpen`. -/
def isMessageOpen (currentState : MenuState) : Bool := currentState == MENU_MESSAGE_OPEN
/-- Source `MenuSystem::isStatsOpen`. -/
def isStatsOpen (currentState : MenuState) : Bool := currentState == MENU_STATS_OPEN
/-- Source `MenuSystem::isOptionsOpen`. -/
def isOptionsOpen (currentState : MenuState) : Bool := currentState == MENU_OPTIONS_OPEN
/-- Source `MenuSystem::isGamesOpen`. -/
def isGamesOpen (currentState : MenuState) : Bool := currentState == MENU_GAMES_OPEN
/-- Source `MenuSystem::isGameActive`. -/
def isGameActive (currentState : MenuState) : Bool := currentState == MENU_GAME_ACTIVE

/-! ## menu_system.cpp: the layer machine

Panels, labels, fonts and the status text only reach the screen and are left
out; what is kept is every variable that a decision reads. -/

/-- The values of `enum MenuItem` before `MENU_ITEM_COUNT`. -/
inductive MenuItem where
  | MENU_FEED
  | MENU_PLAY
  | MENU_CLEAN
  | MENU_SLEEP
  | MENU_CONNECT
  | MENU_MESSAGE
  | MENU_BATTERY
  | MENU_STATS
  | MENU_LEVEL
  deriving DecidableEq, Repr

open MenuItem

def MENU_ITEM_COUNT : Nat := 9
def STAT_COUNT : Nat := 4
def FEED_ANIM_DURATION_MS : Nat := 5000

/-- The integer value of a `MenuItem`. -/
def MenuItem.toIdx : MenuItem → Nat
  | MENU_FEED => 0
  | MENU_PLAY => 1
  | MENU_CLEAN => 2
  | MENU_SLEEP => 3
  | MENU_CONNECT => 4
  | MENU_MESSAGE => 5
  | MENU_BATTERY => 6
  | MENU_STATS => 7
  | MENU_LEVEL => 8

/-- The `MenuItem` with a given integer value below `MENU_ITEM_COUNT`
(`static_cast<MenuItem>(idx)`). -/
def MenuItem.ofIdx : Nat → MenuItem
  | 0 => MENU_FEED
  | 1 => MENU_PLAY
  | 2 => MENU_CLEAN
  | 3 => MENU_SLEEP
  | 4 => MENU_CONNECT
  | 5 => MENU_MESSAGE
  | 6 => MENU_BATTERY
  | 7 => MENU_STATS
  | _ => MENU_LEVEL

/-- The values of `enum OptionSelection`. -/
inductive OptionSelection where
  | OPTION_MAIN
  deriving DecidableEq, Repr

/-- Calls that leave the modelled units, recorded in the order they are made. -/
inductive ExtCall where
  | messageOpen
  | messageClose
  | otaRunManual
  | wifiStart
  | wifiStop
  | startSleep
  deriving DecidableEq, Repr

/-- The variables of `menu_system.cpp` that decisions read, the recorded
outgoing calls (latest first), and the game, care and level units the menu
reaches. `menuListCreated` is `menuList != nullptr`; `connectSwitchOn` is the
checked state of the connect switch. -/
structure State where
  currentState : MenuState
  selectedItem : MenuItem
  gamesOpenedFromMenu : Bool
  statIndex : Nat
  optionsSelection : OptionSelection
  feedAnimEndMs : Nat
  menuListCreated : Bool
  connectSwitchOn : Bool
  calls : List ExtCall
  gw : EyeGame.World
  deriving DecidableEq, Repr

/-- The initial values of the variables, before `MenuSystem::begin`. -/
def State.init (gw : EyeGame.World) : State :=
  { currentState := MENU_CLOSED, selectedItem := MENU_FEED, gamesOpenedFromMenu := false,
    statIndex := 0, optionsSelection := OptionSelection.OPTION_MAIN, feedAnimEndMs := 0,
    menuListCreated := false, connectSwitchOn := false, calls := [], gw := gw }

/-- What one action reads from outside the menu unit: `millis()`, the draws of
a game start, the hit tests of the tap position against the OTA button, the
connect switch, the selected menu item and the stats title, and whether Wi-Fi
is connected. -/
structure Inputs where
  now : Nat
  draw : EyeGame.Draw
  onOtaBtn : Bool
  onSwitch : Bool
  onSelected : Bool
  onStatsTitle : Bool
  wifiConnected : Bool
  deriving DecidableEq, Repr

/-- Inputs at time `now` with no hit on any object and Wi-Fi not connected. -/
def Inputs.quiet (now : Nat) : Inputs :=
  { now := now, draw := EyeGame.greenLeft now, onOtaBtn := false, onSwitch := false,
    onSelected := false, onStatsTitle := false, wifiConnected := false }

/-- Source `scrollMenuToIndex`. -/
def scrollMenuToIndex (m : State) (idx : Nat) : State :=
  if !m.menuListCreated || decide (MENU_ITEM_COUNT ≤ idx) then m
  else { m with selectedItem := MenuItem.ofIdx idx }

/-- Source `startFeedAnim`. -/
def startFeedAnim (m : State) (now : Nat) : State :=
  { m with
    feedAnimEndMs := (now + FEED_ANIM_DURATION_MS) % 4294967296
    currentState := MENU_FEEDING }

/-- Source `MenuSystem::begin`: the panels and the menu list are created and
the list is scrolled to the first item. -/
def begin (m : State) : State :=
  if m.menuListCreated then m
  else scrollMenuToIndex { m with menuListCreated := true } 0

/-- Source `MenuSystem::open` (`open` is a keyword of Lean). -/
def openMenu (m : State) : State :=
  if m.currentState = MENU_OPEN then m
  else
    scrollMenuToIndex
      { m with
        currentState := MENU_OPEN
        selectedItem := MENU_FEED
        calls := ExtCall.messageClose :: m.calls }
      0

/-- Source `MenuSystem::close`. -/
def close (m : State) : State :=
  if m.currentState = MENU_CLOSED then m
  else
    { m with
      currentState := MENU_CLOSED
      feedAnimEndMs := 0
      calls := ExtCall.messageClose :: m.calls }

/-- Source `showConnect`. -/
def showConnect (m : State) : State := { m with currentState := MENU_CONNECT_OPEN }

/-- Source `showMessage`. -/
def showMessage (m : State) : State :=
  { m with currentState := MENU_MESSAGE_OPEN, calls := ExtCall.messageOpen :: m.calls }

/-- Source `MenuSystem::showStats`. -/
def showStats (m : State) : State := { m with currentState := MENU_STATS_OPEN }

/-- Source `showLevel`. -/
def showLevel (m : State) : State := { m with currentState := MENU_LEVEL_OPEN }

/-- Source `MenuSystem::closeConnectToMenu`. -/
def closeConnectToMenu (m : State) : State :=
  if m.currentState ≠ MENU_CONNECT_OPEN then m
  else
    scrollMenuToIndex { m with currentState := MENU_OPEN, selectedItem := MENU_CONNECT }
      MENU_CONNECT.toIdx

/-- Source `MenuSystem::closeMessageToMenu`. -/
def closeMessageToMenu (m : State) : State :=
  if m.currentState ≠ MENU_MESSAGE_OPEN then m
  else
    scrollMenuToIndex
      { m with
        currentState := MENU_OPEN
        selectedItem := MENU_MESSAGE
        calls := ExtCall.messageClose :: m.calls }
      MENU_MESSAGE.toIdx

/-- The value returned by `MenuSystem::handleConnectTap`. -/
def handleConnectTapResult (m : State) (i : Inputs) : Bool :=
  if m.currentState ≠ MENU_CONNECT_OPEN then false
  else if i.onOtaBtn then true
  else if i.onSwitch then true
  else false

/-- Source `MenuSystem::handleConnectTap`, the state after the call. -/
def handleConnectTap (m : State) (i : Inputs) : State :=
  if m.currentState ≠ MENU_CONNECT_OPEN then m
  else if i.onOtaBtn then
    (if i.wifiConnected then { m with calls := ExtCall.otaRunManual :: m.calls } else m)
  else if i.onSwitch then
    (if !m.connectSwitchOn then
      { m with connectSwitchOn := true, calls := ExtCall.wifiStart :: m.calls }
     else { m with connectSwitchOn := false, calls := ExtCall.wifiStop :: m.calls })
  else m

/-- Source `MenuSystem::selectNext`. -/
def selectNext (m : State) : State :=
  if m.currentState ≠ MENU_OPEN then m
  else if m.selectedItem.toIdx < MENU_ITEM_COUNT - 1 then
    scrollMenuToIndex m ((m.selectedItem.toIdx + 1) % 256)
  else m

/-- Source `MenuSystem::selectPrev`. -/
def selectPrev (m : State) : State :=
  if m.currentState ≠ MENU_OPEN then m
  else if 0 < m.selectedItem.toIdx then
    scrollMenuToIndex m ((m.selectedItem.toIdx - 1) % 256)
  else m

def getSelected (m : State) : MenuItem := m.selectedItem
def getCurrentStatIndex (m : State) : Nat := m.statIndex

/-- Source `MenuSystem::closeStatsToMenu`. -/
def closeStatsToMenu (m : State) : State :=
  if m.currentState ≠ MENU_STATS_OPEN then m
  else { m with currentState := MENU_OPEN, selectedItem := MENU_STATS }

/-- Source `MenuSystem::closeBatteryToMenu`. -/
def closeBatteryToMenu (m : State) : State :=
  if m.currentState ≠ MENU_BATTERY_OPEN then m
  else
    scrollMenuToIndex { m with currentState := MENU_OPEN, selectedItem := MENU_BATTERY }
      MENU_BATTERY.toIdx

/-- Source `MenuSystem::closeLevelToMenu`. -/
def closeLevelToMenu (m : State) : State :=
  if m.currentState ≠ MENU_LEVEL_OPEN then m
  else
    scrollMenuToIndex { m with currentState := MENU_OPEN, selectedItem := MENU_LEVEL }
      MENU_LEVEL.toIdx

/-- Source `MenuSystem::statsNext`. -/
def statsNext (m : State) : State :=
  if m.currentState ≠ MENU_STATS_OPEN then m
  else { m with statIndex := (m.statIndex + 1) % STAT_COUNT }

/-- Source `MenuSystem::statsPrev`. -/
def statsPrev (m : State) : State :=
  if m.currentState ≠ MENU_STATS_OPEN then m
  else { m with statIndex := (m.statIndex + STAT_COUNT - 1) % STAT_COUNT }

/-- Source `MenuSystem::openOptionsForCurrentStat`. -/
def openOptionsForCurrentStat (m : State) : State :=
  if m.currentState ≠ MENU_STATS_OPEN then m
  else
    { m with
      currentState := MENU_OPTIONS_OPEN
      optionsSelection := OptionSelection.OPTION_MAIN }

/-- Source `MenuSystem::closeOptionsToStats`. -/
def closeOptionsToStats (m : State) : State :=
  if m.currentState ≠ MENU_OPTIONS_OPEN then m
  else { m with currentState := MENU_STATS_OPEN }

/-- Source `MenuSystem::openGamesMenu`. -/
def openGamesMenu (m : State) : State :=
  if m.currentState ≠ MENU_STATS_OPEN ∧ m.currentState ≠ MENU_OPEN then m
  else if m.currentState = MENU_STATS_OPEN ∧ m.statIndex ≠ 1 then m
  else
    { m with
      gamesOpenedFromMenu := decide (m.currentState = MENU_OPEN)
      currentState := MENU_GAMES_OPEN }

/-- Source `MenuSystem::closeGamesToStats`. -/
def closeGamesToStats (m : State) : State :=
  if m.currentState ≠ MENU_GAMES_OPEN then m
  else if m.gamesOpenedFromMenu then
    scrollMenuToIndex { m with currentState := MENU_OPEN, selectedItem := MENU_PLAY }
      MENU_PLAY.toIdx
  else { m with currentState := MENU_STATS_OPEN }

/-- Source `MenuSystem::startTapTheGreens`. -/
def startTapTheGreens (m : State) (i : Inputs) : State :=
  if m.currentState ≠ MENU_GAMES_OPEN then m
  else
    { m with
      currentState := MENU_GAME_ACTIVE
      gw := EyeGame.start m.gw CareSystem.StatId.STAT_MOOD i.draw }

/-- Source `MenuSystem::handleGameFinished`. -/
def handleGameFinished (m : State) : State :=
  if m.currentState ≠ MENU_GAME_ACTIVE ∧ m.currentState ≠ MENU_GAMES_OPEN then m
  else { m with currentState := MENU_GAMES_OPEN }

/-- The `switch (statIndex)` of `activateCurrentOption`. -/
def boostCurrentStat (m : State) : State :=
  match m.statIndex with
  | 0 => { m with gw := { m.gw with cw := CareSystem.addHunger m.gw.cw CareSystem.kSandwichBoost } }
  | 1 => { m with gw := { m.gw with cw := CareSystem.addMood m.gw.cw CareSystem.kGamesBoost } }
  | 2 => { m with gw := { m.gw with cw := CareSystem.addEnergy m.gw.cw CareSystem.kSleepBoost } }
  | 3 =>
      { m with gw := { m.gw with cw := CareSystem.addCleanliness m.gw.cw CareSystem.kBathBoost } }
  | _ => m

/-- Source `MenuSystem::activateCurrentOption`. -/
def activateCurrentOption (m : State) : State :=
  if m.currentState ≠ MENU_OPTIONS_OPEN then m
  else if m.optionsSelection = OptionSelection.OPTION_MAIN then
    closeOptionsToStats (boostCurrentStat m)
  else m

/-- Source `MenuSystem::selectOptionsPrev`. -/
def selectOptionsPrev (m : State) : State :=
  if m.currentState ≠ MENU_OPTIONS_OPEN then m
  else { m with optionsSelection := OptionSelection.OPTION_MAIN }

/-- Source `MenuSystem::selectOptionsNext`. -/
def selectOptionsNext (m : State) : State :=
  if m.currentState ≠ MENU_OPTIONS_OPEN then m
  else { m with optionsSelection := OptionSelection.OPTION_MAIN }

/-- Source `MenuSystem::activateSelected`. -/
def activateSelected (m : State) (i : Inputs) : State :=
  if m.currentState ≠ MENU_OPEN then m
  else
    match m.selectedItem with
    | MENU_FEED => startFeedAnim m i.now
    | MENU_PLAY => startTapTheGreens (openGamesMenu m) i
    | MENU_CLEAN => m
    | MENU_SLEEP => close { m with calls := ExtCall.startSleep :: m.calls }
    | MENU_CONNECT => showConnect m
    | MENU_MESSAGE => showMessage m
    | MENU_BATTERY => { m with currentState := MENU_BATTERY_OPEN }
    | MENU_STATS => showStats m
    | MENU_LEVEL => showLevel m

/-- Source `MenuSystem::render`: only the end of the feed animation changes
state. -/
def render (m : State) (now : Nat) : State :=
  if m.currentState = MENU_FEEDING ∧ m.feedAnimEndMs ≠ 0 ∧ m.feedAnimEndMs ≤ now then
    scrollMenuToIndex
      { m with
        feedAnimEndMs := 0
        gw := { m.gw with cw := CareSystem.addHunger m.gw.cw CareSystem.kSandwichBoost }
        currentState := MENU_OPEN }
      m.selectedItem.toIdx
  else m

/-- Source `MenuSystem::isTapOnSelected`. -/
def isTapOnSelected (m : State) (i : Inputs) : Bool :=
  if !isOpen m.currentState then false else i.onSelected

/-- Source `MenuSystem::isTapOnStatsTitle`. -/
def isTapOnStatsTitle (m : State) (i : Inputs) : Bool :=
  if m.currentState ≠ MENU_STATS_OPEN then false else i.onStatsTitle

/-- The layer-specific actions of the menu unit. -/
inductive Action where
  | selectNext
  | selectPrev
  | activateSelected
  | statsNext
  | statsPrev
  | closeStatsToMenu
  | openOptionsForCurrentStat
  | closeOptionsToStats
  | activateCurrentOption
  | selectOptionsPrev
  | selectOptionsNext
  | closeGamesToStats
  | startTapTheGreens
  | closeConnectToMenu
  | handleConnectTap
  | closeMessageToMenu
  | closeBatteryToMenu
  | closeLevelToMenu
  deriving DecidableEq, Repr

/-- The layer an action belongs to. -/
def Action.layer : Action → MenuState
  | Action.selectNext => MENU_OPEN
  | Action.selectPrev => MENU_OPEN
  | Action.activateSelected => MENU_OPEN
  | Action.statsNext => MENU_STATS_OPEN
  | Action.statsPrev => MENU_STATS_OPEN
  | Action.closeStatsToMenu => MENU_STATS_OPEN
  | Action.openOptionsForCurrentStat => MENU_STATS_OPEN
  | Action.closeOptionsToStats => MENU_OPTIONS_OPEN
  | Action.activateCurrentOption => MENU_OPTIONS_OPEN
  | Action.selectOptionsPrev => MENU_OPTIONS_OPEN
  | Action.selectOptionsNext => MENU_OPTIONS_OPEN
  | Action.closeGamesToStats => MENU_GAMES_OPEN
  | Action.startTapTheGreens => MENU_GAMES_OPEN
  | Action.closeConnectToMenu => MENU_CONNECT_OPEN
  | Action.handleConnectTap => MENU_CONNECT_OPEN
  | Action.closeMessageToMenu => MENU_MESSAGE_OPEN
  | Action.closeBatteryToMenu => MENU_BATTERY_OPEN
  | Action.closeLevelToMenu => MENU_LEVEL_OPEN

/-- The state after an action is called. -/
def Action.run (m : State) (i : Inputs) : Action → State
  | Action.selectNext => MenuSystem.selectNext m
  | Action.selectPrev => MenuSystem.selectPrev m
  | Action.activateSelected => MenuSystem.activateSelected m i
  | Action.statsNext => MenuSystem.statsNext m
  | Action.statsPrev => MenuSystem.statsPrev m
  | Action.closeStatsToMenu => MenuSystem.closeStatsToMenu m
  | Action.openOptionsForCurrentStat => MenuSystem.openOptionsForCurrentStat m
  | Action.closeOptionsToStats => MenuSystem.closeOptionsToStats m
  | Action.activateCurrentOption => MenuSystem.activateCurrentOption m
  | Action.selectOptionsPrev => MenuSystem.selectOptionsPrev m
  | Action.selectOptionsNext => MenuSystem.selectOptionsNext m
  | Action.closeGamesToStats => MenuSystem.closeGamesToStats m
  | Action.startTapTheGreens => MenuSystem.startTapTheGreens m i
  | Action.closeConnectToMenu => MenuSystem.closeConnectToMenu m
  | Action.handleConnectTap => MenuSystem.handleConnectTap m i
  | Action.closeMessageToMenu => MenuSystem.closeMessageToMenu m
  | Action.closeBatteryToMenu => MenuSystem.closeBatteryToMenu m
  | Action.closeLevelToMenu => MenuSystem.closeLevelToMenu m

/-- The value an action returns, for the one action that returns one. -/
def Action.result (m : State) (i : Inputs) : Action → Bool
  | Action.handleConnectTap => handleConnectTapResult m i
  | _ => false

end MenuSystem

namespace Display

open EyeEmotion SubStateSystem

/-! ## display_system.cpp: idle behaviours and the weighted picks -/

/-- The values of `enum class IdleStateType`. -/
inductive IdleStateType where
  | None
  | Blink
  | Wink
  | JitterBoth
  | JitterLeft
  | JitterRight
  | HappyBounce
  | Excited1
  | Giggle
  | Judging
  | Expand
  | TopOffsetUp
  | TopOffsetDown
  deriving DecidableEq, Repr

/-- The values of `enum class IdleMoveSpeed`. -/
inductive IdleMoveSpeed where
  | Slow
  | Normal
  | Fast
  deriving DecidableEq, Repr

/-- The values of `enum class IdleVisualState`. -/
inductive IdleVisualState where
  | Eyes
  | Clock
  deriving DecidableEq, Repr

def HAPPY_DURATION_MS : Nat := 2000
def GIGGLE_DURATION_MS : Nat := 1000
def JITTER_DURATION_MS : Nat := 420
def BLINK_CLOSE_MS : Nat := 60
def BLINK_HOLD_MS : Nat := 40
def BLINK_OPEN_MS : Nat := 120

/-- Source `IdleBehavior_isSuppressed`. -/
def IdleBehavior_isSuppressed (type : IdleStateType) (snapshot : Snapshot) : Bool :=
  if (snapshot.sub_depressed || snapshot.sub_irritable) &&
      (type == IdleStateType.HappyBounce || type == IdleStateType.Excited1 ||
        type == IdleStateType.Giggle || type == IdleStateType.Judging) then true
  else if (snapshot.sub_uncomfortable || snapshot.sub_sluggish) &&
      (type == IdleStateType.JitterLeft || type == IdleStateType.JitterRight ||
        type == IdleStateType.JitterBoth) then true
  else false

/-- The record `struct IdleBehaviorWeight`. -/
structure IdleBehaviorWeight where
  type : IdleStateType
  weight : Nat
  deriving DecidableEq, Repr

/-- The table `kIdleBehaviorWeights`. -/
def kIdleBehaviorWeights : List IdleBehaviorWeight :=
  [ { type := IdleStateType.Blink, weight := 8 },
    { type := IdleStateType.Wink, weight := 8 },
    { type := IdleStateType.JitterLeft, weight := 1 },
    { type := IdleStateType.JitterRight, weight := 1 },
    { type := IdleStateType.JitterBoth, weight := 1 },
    { type := IdleStateType.HappyBounce, weight := 8 },
    { type := IdleStateType.Judging, weight := 8 },
    { type := IdleStateType.Excited1, weight := 8 },
    { type := IdleStateType.Giggle, weight := 1 } ]

/-- The skip test shared by both loops of `IdleBehavior_pickWeighted`:
`entry.weight == 0 || IdleBehavior_isSuppressed(entry.type, snapshot)`. -/
def skipEntry (snapshot : Snapshot) (entry : IdleBehaviorWeight) : Bool :=
  entry.weight == 0 || IdleBehavior_isSuppressed entry.type snapshot

/-- First loop of `IdleBehavior_pickWeighted` over a table: the `uint16_t`
`totalWeight`. -/
def totalWeightOf (snapshot : Snapshot) (table : List IdleBehaviorWeight) : Nat :=
  table.foldl
    (fun totalWeight entry =>
      if skipEntry snapshot entry then totalWeight else (totalWeight + entry.weight) % 65536)
    0

/-- Second loop of `IdleBehavior_pickWeighted` over a table, with the current
`uint16_t roll`; falling off the end returns `Blink`. -/
def pickLoop (snapshot : Snapshot) : List IdleBehaviorWeight → Nat → IdleStateType
  | [], _ => IdleStateType.Blink
  | entry :: rest, roll =>
      if skipEntry snapshot entry then pickLoop snapshot rest roll
      else if roll < entry.weight then entry.type
      else pickLoop snapshot rest ((roll - entry.weight) % 65536)

/-- Source `IdleBehavior_pickWeighted`; `r` is the value returned by
`random(0, totalWeight)`. -/
def IdleBehavior_pickWeighted (snapshot : Snapshot) (r : Nat) : IdleStateType :=
  let totalWeight := totalWeightOf snapshot kIdleBehaviorWeights
  if totalWeight = 0 then IdleStateType.Blink
  else
    let roll := r % 65536
    pickLoop snapshot kIdleBehaviorWeights roll

/-- The entries of the table that the loops do not skip: non-zero weight and
not mood-suppressed. -/
def eligible (snapshot : Snapshot) : List IdleBehaviorWeight :=
  kIdleBehaviorWeights.filter (fun entry => !skipEntry snapshot entry)

/-- The start of the cumulative-weight interval of entry `n` of a list: the
sum of the weights before it. -/
def slotStart (l : List IdleBehaviorWeight) (n : Nat) : Nat :=
  ((l.take n).map (fun entry => entry.weight)).sum

/-- Entry `n` of the list exists and its cumulative-weight interval
`[slotStart, slotStart + weight)` contains `roll`. -/
def InSlot (l : List IdleBehaviorWeight) (n : Nat) (roll : Nat) : Prop :=
  ∃ entry, l[n]? = some entry ∧ slotStart l n ≤ roll ∧ roll < slotStart l n + entry.weight

/-! ## display_system.cpp: emotions -/

/-- The record `struct EmotionRuntime` (the global `emotionState`). -/
structure EmotionRuntime where
  currentEmotion : EyeEmotion
  excitedActive : Bool
  excitedStartMs : Nat
  excitedEndMs : Nat
  happyActive : Bool
  happyStartMs : Nat
  happyEndMs : Nat
  angryStartMs : Nat
  angryEndMs : Nat
  tiredStartMs : Nat
  tiredEndMs : Nat
  worriedStartMs : Nat
  worriedEndMs : Nat
  curiousStartMs : Nat
  curiousEndMs : Nat
  sadStartMs : Nat
  sadEndMs : Nat
  sad2StartMs : Nat
  sad2EndMs : Nat
  happy1StartMs : Nat
  happy1EndMs : Nat
  happy2StartMs : Nat
  happy2EndMs : Nat
  nextEmotionPickMs : Nat
  weights : EyeEmotion → Nat

/-- The initial weights of `emotionState`: 1 for Idle, Tired, Happy1 and
Happy2, 0 for the others. -/
def initialWeights : EyeEmotion → Nat
  | EYE_EMO_IDLE => 1
  | EYE_EMO_TIRED => 1
  | EYE_EMO_HAPPY1 => 1
  | EYE_EMO_HAPPY2 => 1
  | _ => 0

/-- The initial value of `emotionState`. -/
def EmotionRuntime.init : EmotionRuntime :=
  { currentEmotion := EYE_EMO_IDLE, excitedActive := false, excitedStartMs := 0,
    excitedEndMs := 0, happyActive := false, happyStartMs := 0, happyEndMs := 0,
    angryStartMs := 0, angryEndMs := 0, tiredStartMs := 0, tiredEndMs := 0,
    worriedStartMs := 0, worriedEndMs := 0, curiousStartMs := 0, curiousEndMs := 0,
    sadStartMs := 0, sadEndMs := 0, sad2StartMs := 0, sad2EndMs := 0,
    happy1StartMs := 0, happy1EndMs := 0, happy2StartMs := 0, happy2EndMs := 0,
    nextEmotionPickMs := 0, weights := initialWeights }

/-- Source `Emotion_isActive`; `now` is the value of its own `millis()` call. -/
def Emotion_isActive (e : EmotionRuntime) (now : Nat) : Bool :=
  if e.happyActive || e.excitedActive then true
  else if decide (e.angryEndMs > 0) && decide (now < e.angryEndMs) then true
  else if decide (e.tiredEndMs > 0) && decide (now < e.tiredEndMs) then true
  else if decide (e.worriedEndMs > 0) && decide (now < e.worriedEndMs) then true
  else if decide (e.curiousEndMs > 0) && decide (now < e.curiousEndMs) then true
  else if decide (e.sadEndMs > 0) && decide (now < e.sadEndMs) then true
  else if decide (e.sad2EndMs > 0) && decide (now < e.sad2EndMs) then true
  else if decide (e.happy1EndMs > 0) && decide (now < e.happy1EndMs) then true
  else if decide (e.happy2EndMs > 0) && decide (now < e.happy2EndMs) then true
  else false

/-- Source `Emotion_isReady`; `millisNow` is the clock read inside
`Emotion_isActive`. -/
def Emotion_isReady (e : EmotionRuntime) (nowMs millisNow : Nat) : Bool :=
  !Emotion_isActive e millisNow && decide (nowMs ≥ e.nextEmotionPickMs)

/-- The weighted walk of `Emotion_pickAllowedWeighted` over the emotions in
index order, with the remaining `r`; falling off the end returns Idle. -/
def emotionLoop (tempWeights : EyeEmotion → Nat) : List EyeEmotion → Nat → EyeEmotion
  | [], _ => EYE_EMO_IDLE
  | e :: rest, r =>
      if r < tempWeights e then e else emotionLoop tempWeights rest (r - tempWeights e)

/-- Source `Emotion_pickAllowedWeighted`. `weights` is `emotionState.weights`,
`forceIdx` the function-static index, `r` the value returned by
`random(0, total)`. The result is the chosen emotion and the new `forceIdx`. -/
def Emotion_pickAllowedWeighted (ss : Snapshot) (weights : EyeEmotion → Nat)
    (forceIdx : Nat) (r : Nat) : EyeEmotion × Nat :=
  if ss.forceCount > 0 then
    let forceIdx := if forceIdx ≥ ss.forceCount then 0 else forceIdx
    let chosen := ss.forced.getD forceIdx EYE_EMO_IDLE
    (chosen, (forceIdx + 1) % ss.forceCount)
  else
    let tempWeights : EyeEmotion → Nat := fun e => if ss.suppress e then 0 else weights e
    let total := (EyeEmotion.all.map tempWeights).sum
    if total = 0 then (EYE_EMO_IDLE, forceIdx)
    else (emotionLoop tempWeights EyeEmotion.all r, forceIdx)

/-! ## Sample snapshots -/

/-- The snapshot written at level 1 after hunger and energy have been at 10
for 20 s: irritable, sluggish and depressed are active. -/
def depressedSnapshot : Snapshot :=
  (SubStateSystem.update (updateState SubStateSystem.begin (sampleCall 1000 10 10 60 60))
    Snapshot.zero (sampleCall 21000 10 10 60 60)).2

/-- The snapshot written at level 1 after hunger has been at 10 for 20 s, the
other statistics at 60: only irritable is active. -/
def irritableSnapshot : Snapshot :=
  (SubStateSystem.update (updateState SubStateSystem.begin (sampleCall 1000 10 60 60 60))
    Snapshot.zero (sampleCall 21000 10 60 60 60)).2

/-! ## display_system.cpp: the idle look scheduler -/

/-- The fields of `struct GlobalMotion` (the global `gMotion`). The `float`
offsets are taken as exact rationals. -/
structure GlobalMotion where
  offX : ℚ
  offY : ℚ
  targetOffX : ℚ
  targetOffY : ℚ
  jitterX : Int
  jitterY : Int
  jitterAmp : Nat
  jitterDecay : Nat
  jitterUntil : Nat

/-- The record `struct IdleLookRuntime` (the global `idleLook`). -/
structure IdleLookRuntime where
  active : Bool
  destX : Int
  destY : Int
  deriving DecidableEq, Repr

/-- The record `struct IdleStateRuntime` (the global `idleState`). -/
structure IdleStateRuntime where
  type : IdleStateType
  active : Bool
  startMs : Nat
  durationMs : Nat
  deriving DecidableEq, Repr

/-- The globals of `display_system.cpp` that `IdleLook_update` reads or
writes: `idleState`, `idleLook`, `idleLookNextAt`, `idleMoveSpeed`, `gMotion`,
`emotionState`, `subState`, `clockRt.state`, `display.canvasHidden`,
`eye.popInProgress` and `sleepAnim.active`. -/
structure IdleWorld where
  idleState : IdleStateRuntime
  idleLook : IdleLookRuntime
  idleLookNextAt : Nat
  idleMoveSpeed : IdleMoveSpeed
  gMotion : GlobalMotion
  emotionState : EmotionRuntime
  subState : Snapshot
  clockState : IdleVisualState
  canvasHidden : Bool
  popInProgress : Bool
  sleepActive : Bool

/-- What one `IdleLook_update` call reads from outside `display_system.cpp`:
`MenuSystem`'s `currentState`, `EyeGame::isRunning()`, the `millis()` reads of
the `Emotion_isActive` call and of the one inside `Emotion_isReady`, and the
values the `random` calls return: the delay `random(2000, 4001)`, the
destination `random(-5, 6)` twice, the speed pick `random(0, allowCount)` and
the behaviour roll `random(0, totalWeight)`. -/
structure IdleInputs where
  menuState : MenuSystem.MenuState
  gameRunning : Bool
  millisNow : Nat
  millisReady : Nat
  rDelay : Nat
  rDx : Int
  rDy : Int
  rSpeed : Nat
  rRoll : Nat

/-- Source `IdleMove_pickSpeed`; `pick` is the value of `random(0, allowCount)`. -/
def IdleMove_pickSpeed (snapshot : Snapshot) (pick : Nat) : IdleMoveSpeed :=
  let allowSlow := !snapshot.suppressSpeedSlow
  let allowNormal := !snapshot.suppressSpeedNormal
  let allowFast := !snapshot.suppressSpeedFast
  let allowCount := allowSlow.toNat + allowNormal.toNat + allowFast.toNat
  if allowCount ≤ 0 then IdleMoveSpeed.Normal
  else if allowSlow && pick == 0 then IdleMoveSpeed.Slow
  else
    let pick := if allowSlow then pick - 1 else pick
    if allowNormal && pick == 0 then IdleMoveSpeed.Normal
    else IdleMoveSpeed.Fast

/-- Source `IdleLook_pickNewDestination` (the sound cue is not modelled). -/
def IdleLook_pickNewDestination (w : IdleWorld) (inp : IdleInputs) : IdleWorld :=
  { w with
    idleLook := { active := true, destX := Arith.i16 inp.rDx, destY := Arith.i16 inp.rDy }
    gMotion := { w.gMotion with
      targetOffX := (Arith.i16 inp.rDx : ℚ), targetOffY := (Arith.i16 inp.rDy : ℚ) }
    idleMoveSpeed := IdleMove_pickSpeed w.subState inp.rSpeed }

/-- Source `IdleLook_reachedDestination`. -/
def IdleLook_reachedDestination (g : GlobalMotion) : Bool :=
  decide (|g.offX - g.targetOffX| ≤ 1) && decide (|g.offY - g.targetOffY| ≤ 1)

/-- The duration `IdleLook_update` gives to a picked behaviour. -/
def idleDuration (type : IdleStateType) : Nat :=
  if type = IdleStateType.HappyBounce ∨ type = IdleStateType.Judging then HAPPY_DURATION_MS
  else if type = IdleStateType.Giggle then GIGGLE_DURATION_MS
  else if type = IdleStateType.Blink ∨ type = IdleStateType.Wink then
    BLINK_CLOSE_MS + BLINK_HOLD_MS + BLINK_OPEN_MS
  else if type = IdleStateType.Excited1 then 2000
  else JITTER_DURATION_MS

/-- The local `blocked` of `IdleLook_update`. -/
def idleBlocked (w : IdleWorld) (inp : IdleInputs) : Bool :=
  let menuOpen :=
    MenuSystem.isOpen inp.menuState || MenuSystem.isFeeding inp.menuState ||
    MenuSystem.isConnectOpen inp.menuState || MenuSystem.isMessageOpen inp.menuState ||
    MenuSystem.isBatteryOpen inp.menuState || MenuSystem.isStatsOpen inp.menuState ||
    MenuSystem.isOptionsOpen inp.menuState || MenuSystem.isGamesOpen inp.menuState
  let gameActive := inp.gameRunning || MenuSystem.isGameActive inp.menuState
  let clockVisible := (w.clockState == IdleVisualState.Clock) && !w.canvasHidden
  menuOpen || gameActive || clockVisible || w.popInProgress || w.sleepActive

/-- Source `IdleLook_update`. -/
def IdleLook_update (w : IdleWorld) (nowMs : Nat) (inp : IdleInputs) : IdleWorld :=
  let now := nowMs
  if w.idleState.active then w
  else if idleBlocked w inp then
    { w with
      idleLook := { w.idleLook with active := false }
      idleLookNextAt :=
        if w.idleLookNextAt = 0 then (now + inp.rDelay) % 4294967296 else w.idleLookNextAt }
  else if Emotion_isActive w.emotionState inp.millisNow
      || Emotion_isReady w.emotionState now inp.millisReady then
    if w.idleLook.active && IdleLook_reachedDestination w.gMotion then
      { w with
        idleLook := { w.idleLook with active := false }
        idleLookNextAt := (now + inp.rDelay) % 4294967296 }
    else w
  else if !w.idleLook.active then
    if w.idleLookNextAt = 0 ∨ now ≥ w.idleLookNextAt then IdleLook_pickNewDestination w inp
    else w
  else if IdleLook_reachedDestination w.gMotion then
    let type := IdleBehavior_pickWeighted w.subState inp.rRoll
    { w with
      idleLook := { w.idleLook with active := false }
      idleLookNextAt := (now + inp.rDelay) % 4294967296
      idleState :=
        { type := type, active := true, startMs := now, durationMs := idleDuration type } }
  else w

/-- A state of the idle scheduler at rest on the Level screen: no behaviour in
the slot, the look active and at its destination (offset 0), no emotion
running and the next emotion pick far away. -/
def levelScreenWorld : IdleWorld :=
  { idleState := { type := IdleStateType.None, active := false, startMs := 0, durationMs := 0 }
    idleLook := { active := true, destX := 0, destY := 0 }
    idleLookNextAt := 0
    idleMoveSpeed := IdleMoveSpeed.Normal
    gMotion := { offX := 0, offY := 0, targetOffX := 0, targetOffY := 0, jitterX := 0,
                 jitterY := 0, jitterAmp := 0, jitterDecay := 0, jitterUntil := 0 }
    emotionState := { EmotionRuntime.init with nextEmotionPickMs := 60000 }
    subState := Snapshot.zero
    clockState := IdleVisualState.Eyes
    canvasHidden := false
    popInProgress := false
    sleepActive := false }

/-- The inputs of a tick on the Level screen. -/
def levelScreenInputs : IdleInputs :=
  { menuState := MenuSystem.MenuState.MENU_LEVEL_OPEN, gameRunning := false,
    millisNow := 50000, millisReady := 50000, rDelay := 3000, rDx := 2, rDy := 1, rSpeed := 0, rRoll := 3 }

/-! ## display_system.cpp: setting an emotion -/

/-- The emotion that `DisplaySystem_setEmotion` stores: Excited is disabled
and becomes Idle. -/
def normalizeEmotion (emo : EyeEmotion) : EyeEmotion :=
  if emo = EYE_EMO_EXCITED then EYE_EMO_IDLE else emo

/-- A start time written by `DisplaySystem_setEmotion`: `now` for the timer of
the emotion being set, 0 for the others. -/
def startFor (mine : Bool) (now : Nat) : Nat := if mine then now else 0

/-- An end time written by `DisplaySystem_setEmotion`: `now + 2000` in
`uint32_t` for the timer of the emotion being set, 0 for the others. -/
def endFor (mine : Bool) (now : Nat) : Nat :=
  if mine then (now + 2000) % 4294967296 else 0

/-- Source `DisplaySystem_setEmotion`; `now` is the value of `millis()`. -/
def DisplaySystem_setEmotion (s : EmotionRuntime) (emo : EyeEmotion) (now : Nat) :
    EmotionRuntime :=
  { s with
    excitedActive := false
    happyActive := false
    angryStartMs :=
      startFor (decide (normalizeEmotion emo = EYE_EMO_ANGRY1 ∨
        normalizeEmotion emo = EYE_EMO_ANGRY2 ∨ normalizeEmotion emo = EYE_EMO_ANGRY3)) now
    angryEndMs :=
      endFor (decide (normalizeEmotion emo = EYE_EMO_ANGRY1 ∨
        normalizeEmotion emo = EYE_EMO_ANGRY2 ∨ normalizeEmotion emo = EYE_EMO_ANGRY3)) now
    tiredStartMs := startFor (decide (normalizeEmotion emo = EYE_EMO_TIRED)) now
    tiredEndMs := endFor (decide (normalizeEmotion emo = EYE_EMO_TIRED)) now
    worriedStartMs := startFor (decide (normalizeEmotion emo = EYE_EMO_WORRIED1)) now
    worriedEndMs := endFor (decide (normalizeEmotion emo = EYE_EMO_WORRIED1)) now
    sadStartMs := startFor (decide (normalizeEmotion emo = EYE_EMO_SAD1)) now
    sadEndMs := endFor (decide (normalizeEmotion emo = EYE_EMO_SAD1)) now
    sad2StartMs := startFor (decide (normalizeEmotion emo = EYE_EMO_SAD2)) now
    sad2EndMs := endFor (decide (normalizeEmotion emo = EYE_EMO_SAD2)) now
    happy1StartMs := startFor (decide (normalizeEmotion emo = EYE_EMO_HAPPY1)) now
    happy1EndMs := endFor (decide (normalizeEmotion emo = EYE_EMO_HAPPY1)) now
    happy2StartMs := startFor (decide (normalizeEmotion emo = EYE_EMO_HAPPY2)) now
    happy2EndMs := endFor (decide (normalizeEmotion emo = EYE_EMO_HAPPY2)) now
    curiousStartMs :=
      startFor (decide (normalizeEmotion emo = EYE_EMO_CURIOUS1 ∨
        normalizeEmotion emo = EYE_EMO_CURIOUS2)) now
    curiousEndMs :=
      endFor (decide (normalizeEmotion emo = EYE_EMO_CURIOUS1 ∨
        normalizeEmotion emo = EYE_EMO_CURIOUS2)) now
    currentEmotion := normalizeEmotion emo }

/-- Source `Emotion_scheduleNextPick`; `now` is the value of `millis()` and
`r` the value of `random(7000, 15001)`. -/
def Emotion_scheduleNextPick (s : EmotionRuntime) (now r : Nat) : EmotionRuntime :=
  { s with nextEmotionPickMs := (now + r) % 4294967296 }

/-- The start/end pairs of `EmotionRuntime`, by the name of their fields. -/
inductive EmotionTimer where
  | excited
  | happy
  | angry
  | tired
  | worried
  | curious
  | sad
  | sad2
  | happy1
  | happy2
  deriving DecidableEq, Repr

/-- The start field of a pair. -/
def timerStart (s : EmotionRuntime) : EmotionTimer → Nat
  | EmotionTimer.excited => s.excitedStartMs
  | EmotionTimer.happy => s.happyStartMs
  | EmotionTimer.angry => s.angryStartMs
  | EmotionTimer.tired => s.tiredStartMs
  | EmotionTimer.worried => s.worriedStartMs
  | EmotionTimer.curious => s.curiousStartMs
  | EmotionTimer.sad => s.sadStartMs
  | EmotionTimer.sad2 => s.sad2StartMs
  | EmotionTimer.happy1 => s.happy1StartMs
  | EmotionTimer.happy2 => s.happy2StartMs

/-- The end field of a pair. -/
def timerEnd (s : EmotionRuntime) : EmotionTimer → Nat
  | EmotionTimer.excited => s.excitedEndMs
  | EmotionTimer.happy => s.happyEndMs
  | EmotionTimer.angry => s.angryEndMs
  | EmotionTimer.tired => s.tiredEndMs
  | EmotionTimer.worried => s.worriedEndMs
  | EmotionTimer.curious => s.curiousEndMs
  | EmotionTimer.sad => s.sadEndMs
  | EmotionTimer.sad2 => s.sad2EndMs
  | EmotionTimer.happy1 => s.happy1EndMs
  | EmotionTimer.happy2 => s.happy2EndMs

/-- The pair that `DisplaySystem_setEmotion` starts for an emotion, if any:
Idle, Curious, Love and Excited have none. -/
def timerOf : EyeEmotion → Option EmotionTimer
  | EYE_EMO_ANGRY1 => some EmotionTimer.angry
  | EYE_EMO_ANGRY2 => some EmotionTimer.angry
  | EYE_EMO_ANGRY3 => some EmotionTimer.angry
  | EYE_EMO_TIRED => some EmotionTimer.tired
  | EYE_EMO_WORRIED1 => some EmotionTimer.worried
  | EYE_EMO_CURIOUS1 => some EmotionTimer.curious
  | EYE_EMO_CURIOUS2 => some EmotionTimer.curious
  | EYE_EMO_SAD1 => some EmotionTimer.sad
  | EYE_EMO_SAD2 => some EmotionTimer.sad2
  | EYE_EMO_HAPPY1 => some EmotionTimer.happy1
  | EYE_EMO_HAPPY2 => some EmotionTimer.happy2
  | _ => none

/-- The emotion state after a sequence of `DisplaySystem_setEmotion` calls,
each with its emotion and its clock value. -/
def setEmotions (s : EmotionRuntime) (calls : List (EyeEmotion × Nat)) : EmotionRuntime :=
  calls.foldl (fun t c => DisplaySystem_setEmotion t c.1 c.2) s

/-! ## display_system.cpp: the globals of the display unit -/

/-- The fields of `struct EyeRuntime` (the global `eye`) that the animation
code writes; `popInProgress` is kept in `IdleWorld`. The `float` scale is
taken as an exact rational. -/
structure EyeRuntime where
  topOffset : Int
  scale : ℚ
  blinkInProgress : Bool
  deriving DecidableEq

/-- The record `struct BlinkRuntime` (the global `blinkRt`). -/
structure BlinkRuntime where
  active : Bool
  left : Bool
  right : Bool
  startMs : Nat
  deriving DecidableEq, Repr

/-- The runtime fields of `struct VisualObject`: the current offsets and
scales and their targets. -/
structure VisualObject where
  offsetX : Int
  offsetY : Int
  scaleX : ℚ
  scaleY : ℚ
  targetOffsetX : Int
  targetOffsetY : Int
  targetScaleX : ℚ
  targetScaleY : ℚ
  deriving DecidableEq

/-- The record `struct TouchRuntime` (the global `touchState`). -/
structure TouchRuntime where
  suppressMenuOpenUntilLift : Bool
  blockGesturesUntilLift : Bool
  deriving DecidableEq, Repr

/-- The fields of `struct CleanAnimRuntime` (the global `cleanAnim`) other
than the rain drops. -/
structure CleanAnimRuntime where
  active : Bool
  returnToStats : Bool
  startMs : Nat
  endMs : Nat
  lastUpdateMs : Nat
  deriving DecidableEq, Repr

/-- The globals of `display_system.cpp` that the update tick reads or writes,
with the units it calls: the idle scheduler's slice `idle`, the eye, the blink
runtime, the two visual objects (`hasVisualObjects` is
`g_visualObjects != nullptr`), the touch flags, `clockRt.lastTouchMs`, the
clean and sleep animations, the sub-state unit's own state, the static
`forceIdx` of `Emotion_pickAllowedWeighted`, the touch unit, and the menu unit
(which holds the game, care and level units). -/
structure World where
  idle : IdleWorld
  eye : EyeRuntime
  blinkRt : BlinkRuntime
  blinkSoundPlayed : Bool
  happyPipPlayed : Bool
  hasVisualObjects : Bool
  leftEye : VisualObject
  rightEye : VisualObject
  touchState : TouchRuntime
  clockLastTouchMs : Nat
  cleanAnim : CleanAnimRuntime
  sleepStartMs : Nat
  sleepLastUpdateMs : Nat
  sleepNextSpawnMs : Nat
  subSys : SubStateSystem.State
  forceIdx : Nat
  touch : TouchSystem.Sys
  menu : MenuSystem.State

/-- A visual object at rest: no offset, scale 1, targets the same. -/
def VisualObject.neutral : VisualObject :=
  { offsetX := 0, offsetY := 0, scaleX := 1, scaleY := 1,
    targetOffsetX := 0, targetOffsetY := 0, targetScaleX := 1, targetScaleY := 1 }

/-- The initial value of `gMotion`. -/
def GlobalMotion.init : GlobalMotion :=
  { offX := 0, offY := 0, targetOffX := 0, targetOffY := 0, jitterX := 0, jitterY := 0,
    jitterAmp := 0, jitterDecay := 0, jitterUntil := 0 }

/-- The display unit after start-up, over a given menu unit: every global at
its initial value, the visual objects created. -/
def World.init (menu : MenuSystem.State) : World :=
  { idle :=
      { idleState :=
          { type := IdleStateType.None, active := false, startMs := 0, durationMs := 0 }
        idleLook := { active := false, destX := 0, destY := 0 }
        idleLookNextAt := 0
        idleMoveSpeed := IdleMoveSpeed.Normal
        gMotion := GlobalMotion.init
        emotionState := EmotionRuntime.init
        subState := Snapshot.zero
        clockState := IdleVisualState.Eyes
        canvasHidden := false
        popInProgress := false
        sleepActive := false }
    eye := { topOffset := 0, scale := 1, blinkInProgress := false }
    blinkRt := { active := false, left := false, right := false, startMs := 0 }
    blinkSoundPlayed := false
    happyPipPlayed := false
    hasVisualObjects := true
    leftEye := VisualObject.neutral
    rightEye := VisualObject.neutral
    touchState := { suppressMenuOpenUntilLift := false, blockGesturesUntilLift := false }
    clockLastTouchMs := 0
    cleanAnim :=
      { active := false, returnToStats := false, startMs := 0, endMs := 0, lastUpdateMs := 0 }
    sleepStartMs := 0
    sleepLastUpdateMs := 0
    sleepNextSpawnMs := 0
    subSys := SubStateSystem.begin
    forceIdx := 0
    touch := TouchSystem.Sys.init
    menu := menu }

/-- The emotion state of a world replaced. -/
def World.withEmotion (w : World) (e : EmotionRuntime) : World :=
  { w with idle := { w.idle with emotionState := e } }

/-! ## display_system.cpp: the emotion half of the tick -/

/-- What one `updateIdleBlinkAndEmotion` call reads from outside: the clock
inside `SubStateSystem::update`, `nowBlink`, the clock and the draw of the
`Emotion_scheduleNextPick` of an expiry (at most one expiry fires in a call),
the clock inside `Emotion_isActive`, the clock and the draw of the schedule in
`EyeAnim_updateHappy`, the draw of the emotion pick, the clock inside
`DisplaySystem_setEmotion`, and the clock and the draw of the schedule after a
pick. -/
structure EmotionInputs where
  mSub : Nat
  nowBlink : Nat
  mExpire : Nat
  rExpire : Nat
  mActive : Nat
  mHappy : Nat
  rHappy : Nat
  rPick : Nat
  mSet : Nat
  mNext : Nat
  rNext : Nat
  deriving DecidableEq, Repr

/-- The angry expiry of `updateIdleBlinkAndEmotion`. -/
def expireAngry (e : EmotionRuntime) (nowBlink m r : Nat) : EmotionRuntime :=
  if (e.currentEmotion = EYE_EMO_ANGRY1 ∨ e.currentEmotion = EYE_EMO_ANGRY2 ∨
      e.currentEmotion = EYE_EMO_ANGRY3) ∧ e.angryEndMs > 0 ∧ nowBlink ≥ e.angryEndMs then
    Emotion_scheduleNextPick
      { e with currentEmotion := EYE_EMO_IDLE, angryStartMs := 0, angryEndMs := 0 } m r
  else e

/-- The tired expiry. -/
def expireTired (e : EmotionRuntime) (nowBlink m r : Nat) : EmotionRuntime :=
  if e.currentEmotion = EYE_EMO_TIRED ∧ e.tiredEndMs > 0 ∧ nowBlink ≥ e.tiredEndMs then
    Emotion_scheduleNextPick
      { e with currentEmotion := EYE_EMO_IDLE, tiredStartMs := 0, tiredEndMs := 0 } m r
  else e

/-- The worried expiry. -/
def expireWorried (e : EmotionRuntime) (nowBlink m r : Nat) : EmotionRuntime :=
  if e.currentEmotion = EYE_EMO_WORRIED1 ∧ e.worriedEndMs > 0 ∧ nowBlink ≥ e.worriedEndMs then
    Emotion_scheduleNextPick
      { e with currentEmotion := EYE_EMO_IDLE, worriedStartMs := 0, worriedEndMs := 0 } m r
  else e

/-- The sad expiry. -/
def expireSad (e : EmotionRuntime) (nowBlink m r : Nat) : EmotionRuntime :=
  if e.currentEmotion = EYE_EMO_SAD1 ∧ e.sadEndMs > 0 ∧ nowBlink ≥ e.sadEndMs then
    Emotion_scheduleNextPick
      { e with currentEmotion := EYE_EMO_IDLE, sadStartMs := 0, sadEndMs := 0 } m r
  else e

/-- The second sad expiry. -/
def expireSad2 (e : EmotionRuntime) (nowBlink m r : Nat) : EmotionRuntime :=
  if e.currentEmotion = EYE_EMO_SAD2 ∧ e.sad2EndMs > 0 ∧ nowBlink ≥ e.sad2EndMs then
    Emotion_scheduleNextPick
      { e with currentEmotion := EYE_EMO_IDLE, sad2StartMs := 0, sad2EndMs := 0 } m r
  else e

/-- The first happy expiry. -/
def expireHappy1 (e : EmotionRuntime) (nowBlink m r : Nat) : EmotionRuntime :=
  if e.currentEmotion = EYE_EMO_HAPPY1 ∧ e.happy1EndMs > 0 ∧ nowBlink ≥ e.happy1EndMs then
    Emotion_scheduleNextPick
      { e with currentEmotion := EYE_EMO_IDLE, happy1StartMs := 0, happy1EndMs := 0 } m r
  else e

/-- The second happy expiry. -/
def expireHappy2 (e : EmotionRuntime) (nowBlink m r : Nat) : EmotionRuntime :=
  if e.currentEmotion = EYE_EMO_HAPPY2 ∧ e.happy2EndMs > 0 ∧ nowBlink ≥ e.happy2EndMs then
    Emotion_scheduleNextPick
      { e with currentEmotion := EYE_EMO_IDLE, happy2StartMs := 0, happy2EndMs := 0 } m r
  else e

/-- The curious expiry. -/
def expireCurious (e : EmotionRuntime) (nowBlink m r : Nat) : EmotionRuntime :=
  if (e.currentEmotion = EYE_EMO_CURIOUS1 ∨ e.currentEmotion = EYE_EMO_CURIOUS2) ∧
      e.curiousEndMs > 0 ∧ nowBlink ≥ e.curiousEndMs then
    Emotion_scheduleNextPick
      { e with currentEmotion := EYE_EMO_IDLE, curiousStartMs := 0, curiousEndMs := 0 } m r
  else e

/-- The eight expiry tests of `updateIdleBlinkAndEmotion`, in source order. -/
def expireAll (e : EmotionRuntime) (nowBlink m r : Nat) : EmotionRuntime :=
  expireCurious
    (expireHappy2
      (expireHappy1
        (expireSad2
          (expireSad
            (expireWorried (expireTired (expireAngry e nowBlink m r) nowBlink m r) nowBlink m r)
            nowBlink m r)
          nowBlink m r)
        nowBlink m r)
      nowBlink m r)
    nowBlink m r

/-- Source `EyeAnim_updateHappy` (the drawing is not modelled). -/
def EyeAnim_updateHappy (w : World) (nowMs m r : Nat) : World :=
  if !w.idle.emotionState.happyActive then w
  else if nowMs ≥ w.idle.emotionState.happyEndMs then
    { w with
      idle :=
        { w.idle with
          emotionState :=
            Emotion_scheduleNextPick
              { w.idle.emotionState with happyActive := false, currentEmotion := EYE_EMO_IDLE }
              m r }
      eye := { w.eye with scale := 1, topOffset := 0 } }
  else w

/-- The pick at the end of `updateIdleBlinkAndEmotion`: the emotion is picked
on the snapshot, set, and the next pick is scheduled. -/
def pickEmotion (w : World) (i : EmotionInputs) : World :=
  { w with
    idle :=
      { w.idle with
        emotionState :=
          Emotion_scheduleNextPick
            (DisplaySystem_setEmotion w.idle.emotionState
              (Emotion_pickAllowedWeighted w.idle.subState w.idle.emotionState.weights
                w.forceIdx i.rPick).1
              i.mSet)
            i.mNext i.rNext }
    forceIdx :=
      (Emotion_pickAllowedWeighted w.idle.subState w.idle.emotionState.weights
        w.forceIdx i.rPick).2 }

/-- The body of `updateIdleBlinkAndEmotion` under
`!higherLayerActive && !gameRunning`, after the expiry tests. -/
def afterExpiry (w : World) (i : EmotionInputs) : World :=
  if Emotion_isActive w.idle.emotionState i.mActive then
    (if w.idle.emotionState.excitedActive then w
     else if w.idle.emotionState.happyActive then EyeAnim_updateHappy w i.nowBlink i.mHappy i.rHappy
     else w)
  else if w.idle.idleState.active || w.idle.idleLook.active then w
  else if i.nowBlink ≥ w.idle.emotionState.nextEmotionPickMs then pickEmotion w i
  else w

/-- The sub-state refresh at the head of `updateIdleBlinkAndEmotion`:
`SubStateSystem::update(subState)` on the care statistics and the level. -/
def refreshSubState (w : World) (mSub : Nat) : World :=
  { w with
    subSys :=
      (SubStateSystem.update w.subSys w.idle.subState
        { now := mSub, hunger := w.menu.gw.cw.care.hunger, energy := w.menu.gw.cw.care.energy,
          mood := w.menu.gw.cw.care.mood, cleanliness := w.menu.gw.cw.care.cleanliness,
          level := w.menu.gw.cw.level.currentLevel }).1
    idle :=
      { w.idle with
        subState :=
          (SubStateSystem.update w.subSys w.idle.subState
            { now := mSub, hunger := w.menu.gw.cw.care.hunger,
              energy := w.menu.gw.cw.care.energy, mood := w.menu.gw.cw.care.mood,
              cleanliness := w.menu.gw.cw.care.cleanliness,
              level := w.menu.gw.cw.level.currentLevel }).2 } }

/-- Source `updateIdleBlinkAndEmotion`. -/
def updateIdleBlinkAndEmotion (w : World) (higherLayerActive gameRunning : Bool)
    (i : EmotionInputs) : World :=
  if w.idle.clockState = IdleVisualState.Clock then w
  else if w.idle.sleepActive then w
  else if MenuSystem.isFeeding w.menu.currentState then w
  else if !higherLayerActive && !gameRunning then
    afterExpiry
      ((refreshSubState w i.mSub).withEmotion
        (expireAll (refreshSubState w i.mSub).idle.emotionState i.nowBlink i.mExpire i.rExpire))
      i
  else refreshSubState w i.mSub

/-- The local `higherLayerActive` of `DisplaySystem_update`. -/
def higherLayerActive (currentState : MenuSystem.MenuState) : Bool :=
  MenuSystem.isOpen currentState || MenuSystem.isConnectOpen currentState ||
  MenuSystem.isMessageOpen currentState || MenuSystem.isBatteryOpen currentState ||
  MenuSystem.isStatsOpen currentState || MenuSystem.isOptionsOpen currentState ||
  MenuSystem.isGamesOpen currentState

/-- The state the expiry of a timed emotion leaves: Idle, every pair zero
and the next pick at `next`. -/
def expired (s : EmotionRuntime) (next : Nat) : EmotionRuntime :=
  { DisplaySystem_setEmotion s EYE_EMO_IDLE 0 with nextEmotionPickMs := next }

/-- The inputs of a tick in which every clock read gives `now` and every
schedule draws `r`. -/
def quietTick (now r : Nat) : EmotionInputs :=
  { mSub := now, nowBlink := now, mExpire := now, rExpire := r, mActive := now,
    mHappy := now, rHappy := r, rPick := 0, mSet := now, mNext := now, rNext := r }

/-- The start-up world (menu closed, every statistic 30) in which Tired was
set at 1000 and the next pick scheduled at 9500. -/
def tiredWorld : World :=
  (World.init (MenuSystem.State.init EyeGame.freshWorld)).withEmotion
    { DisplaySystem_setEmotion EmotionRuntime.init EYE_EMO_TIRED 1000 with
      nextEmotionPickMs := 9500 }

/-- The start-up world in which Love was set at 1000 and the next pick
scheduled at 9500. -/
def loveWorld : World :=
  (World.init (MenuSystem.State.init EyeGame.freshWorld)).withEmotion
    { DisplaySystem_setEmotion EmotionRuntime.init EYE_EMO_LOVE 1000 with
      nextEmotionPickMs := 9500 }

/-! ## display_system.cpp: the gesture dispatch of the tick -/

/-- The record `struct EyeBox`. -/
structure EyeBox where
  x : Int
  y : Int
  w : Int
  h : Int
  deriving DecidableEq, Repr

def SCREEN_WIDTH : Int := 240
def SCREEN_HEIGHT : Int := 240
def EYE_SIZE : Int := 80
def GAP : Int := 10
def CLEAN_ANIM_DURATION_MS : Nat := 5000

/-- The left box written by `Display_calculateEyeBoxes`. -/
def leftEyeBox : EyeBox :=
  { x := SCREEN_WIDTH / 2 - GAP / 2 - EYE_SIZE, y := SCREEN_HEIGHT / 2 - EYE_SIZE / 2,
    w := EYE_SIZE, h := EYE_SIZE }

/-- The right box written by `Display_calculateEyeBoxes`. -/
def rightEyeBox : EyeBox :=
  { x := SCREEN_WIDTH / 2 + GAP / 2, y := SCREEN_HEIGHT / 2 - EYE_SIZE / 2,
    w := EYE_SIZE, h := EYE_SIZE }

/-- Source `Touch_isTapOnEyes`, on the boxes that `DisplaySystem_begin`
computes. -/
def Touch_isTapOnEyes (pt : TouchSystem.TouchPoint) : Bool :=
  if (pt.x : Int) ≥ leftEyeBox.x ∧ (pt.x : Int) ≤ leftEyeBox.x + leftEyeBox.w ∧
      (pt.y : Int) ≥ leftEyeBox.y ∧ (pt.y : Int) ≤ leftEyeBox.y + leftEyeBox.h then true
  else if (pt.x : Int) ≥ rightEyeBox.x ∧ (pt.x : Int) ≤ rightEyeBox.x + rightEyeBox.w ∧
      (pt.y : Int) ≥ rightEyeBox.y ∧ (pt.y : Int) ≤ rightEyeBox.y + rightEyeBox.h then true
  else false

/-- What the gesture dispatch reads from outside the display unit: the inputs
of the menu actions, and the clock reads and the draw of a
`DisplaySystem_setEmotion` followed by an `Emotion_scheduleNextPick`. -/
structure DispatchInputs where
  menu : MenuSystem.Inputs
  mSet : Nat
  mSched : Nat
  rSched : Nat
  deriving DecidableEq, Repr

/-- Source `Clock_hide` (the fades are not modelled). -/
def Clock_hide (w : World) : World :=
  { w with idle := { w.idle with clockState := IdleVisualState.Eyes } }

/-- Source `Emotion_triggerTest`. -/
def Emotion_triggerTest (w : World) (i : DispatchInputs) : World :=
  w.withEmotion
    (Emotion_scheduleNextPick
      (DisplaySystem_setEmotion w.idle.emotionState EYE_EMO_TIRED i.mSet) i.mSched i.rSched)

/-- Source `Clean_start` (the rain drops are not modelled). -/
def Clean_start (w : World) (nowMs : Nat) (i : DispatchInputs) : World :=
  if w.cleanAnim.active then w
  else
    { w with
      cleanAnim :=
        { active := true
          returnToStats := MenuSystem.isStatsOpen w.menu.currentState
          startMs := nowMs
          endMs := (nowMs + CLEAN_ANIM_DURATION_MS) % 4294967296
          lastUpdateMs := nowMs }
      happyPipPlayed := false
      idle :=
        { w.idle with
          emotionState := DisplaySystem_setEmotion w.idle.emotionState EYE_EMO_IDLE i.mSet
          idleState :=
            { type := IdleStateType.HappyBounce, active := true, startMs := nowMs,
              durationMs := CLEAN_ANIM_DURATION_MS } } }

/-- Source `Sleep_end` (the backlight and the Z sprites are not modelled). -/
def Sleep_end (w : World) (i : DispatchInputs) : World :=
  if !w.idle.sleepActive then w
  else
    { w with
      sleepLastUpdateMs := 0
      sleepNextSpawnMs := 0
      eye := { w.eye with topOffset := 0, scale := 1 }
      idle :=
        { w.idle with
          sleepActive := false
          gMotion :=
            { w.idle.gMotion with
              offX := 0, offY := 0, targetOffX := 0, targetOffY := 0,
              jitterX := 0, jitterY := 0, jitterAmp := 0 }
          emotionState :=
            Emotion_scheduleNextPick
              (DisplaySystem_setEmotion w.idle.emotionState EYE_EMO_IDLE i.mSet)
              i.mSched i.rSched }
      menu :=
        { w.menu with
          gw :=
            { w.menu.gw with
              cw := CareSystem.addEnergy w.menu.gw.cw CareSystem.kSleepBoost } } }

/-- The assignment `touchState.blockGesturesUntilLift = true`. -/
def setBlock (w : World) : World :=
  { w with touchState := { w.touchState with blockGesturesUntilLift := true } }

/-- Both touch flags cleared. -/
def clearBlocks (w : World) : World :=
  { w with
    touchState := { suppressMenuOpenUntilLift := false, blockGesturesUntilLift := false } }

/-- The menu unit of a world replaced. -/
def World.withMenu (w : World) (m : MenuSystem.State) : World := { w with menu := m }

/-- Layer 5 of the dispatch: a game is running. -/
def onGameRunning (w : World) (touch : TouchSystem.TouchPoint) (i : DispatchInputs) : World :=
  match touch.gesture with
  | TouchSystem.TouchGesture.TOUCH_TAP =>
      setBlock (w.withMenu { w.menu with gw := EyeGame.handleTap w.menu.gw touch.x i.menu.draw })
  | TouchSystem.TouchGesture.TOUCH_LONG_PRESS =>
      if !Touch_isTapOnEyes touch then
        setBlock
          (w.withMenu (MenuSystem.handleGameFinished { w.menu with gw := EyeGame.stop w.menu.gw }))
      else w
  | _ => w

/-- Layer 3 of the dispatch: the options screen. -/
def onOptions (w : World) (touch : TouchSystem.TouchPoint) : World :=
  match touch.gesture with
  | TouchSystem.TouchGesture.TOUCH_TAP =>
      setBlock (w.withMenu (MenuSystem.activateCurrentOption w.menu))
  | TouchSystem.TouchGesture.TOUCH_LONG_PRESS =>
      setBlock (w.withMenu (MenuSystem.closeOptionsToStats w.menu))
  | TouchSystem.TouchGesture.TOUCH_SWIPE_UP => w.withMenu (MenuSystem.selectOptionsPrev w.menu)
  | TouchSystem.TouchGesture.TOUCH_SWIPE_LEFT => w.withMenu (MenuSystem.selectOptionsPrev w.menu)
  | TouchSystem.TouchGesture.TOUCH_SWIPE_DOWN => w.withMenu (MenuSystem.selectOptionsNext w.menu)
  | TouchSystem.TouchGesture.TOUCH_SWIPE_RIGHT => w.withMenu (MenuSystem.selectOptionsNext w.menu)
  | _ => w

/-- Layer 4 of the dispatch: the games menu. -/
def onGames (w : World) (touch : TouchSystem.TouchPoint) (i : DispatchInputs) : World :=
  match touch.gesture with
  | TouchSystem.TouchGesture.TOUCH_TAP =>
      setBlock (w.withMenu (MenuSystem.startTapTheGreens w.menu i.menu))
  | TouchSystem.TouchGesture.TOUCH_LONG_PRESS =>
      setBlock (w.withMenu (MenuSystem.closeGamesToStats w.menu))
  | _ => w

/-- Layer 2 of the dispatch: the connect screen. -/
def onConnect (w : World) (touch : TouchSystem.TouchPoint) (i : DispatchInputs) : World :=
  match touch.gesture with
  | TouchSystem.TouchGesture.TOUCH_TAP =>
      if MenuSystem.handleConnectTapResult w.menu i.menu then
        setBlock (w.withMenu (MenuSystem.handleConnectTap w.menu i.menu))
      else w.withMenu (MenuSystem.handleConnectTap w.menu i.menu)
  | TouchSystem.TouchGesture.TOUCH_LONG_PRESS =>
      setBlock (w.withMenu (MenuSystem.closeConnectToMenu w.menu))
  | _ => w

/-- Layer 2 of the dispatch: the message screen. -/
def onMessage (w : World) (touch : TouchSystem.TouchPoint) : World :=
  match touch.gesture with
  | TouchSystem.TouchGesture.TOUCH_LONG_PRESS =>
      setBlock (w.withMenu (MenuSystem.closeMessageToMenu w.menu))
  | _ => w

/-- The tap case of the stats screen. -/
def onStatsTap (w : World) (nowMs : Nat) (i : DispatchInputs) : World :=
  if MenuSystem.getCurrentStatIndex w.menu = 3 ∧
      MenuSystem.isTapOnStatsTitle w.menu i.menu = true then
    setBlock ((Clean_start w nowMs i).withMenu (MenuSystem.close (Clean_start w nowMs i).menu))
  else if MenuSystem.getCurrentStatIndex w.menu = 1 then
    setBlock (w.withMenu (MenuSystem.openGamesMenu w.menu))
  else setBlock (w.withMenu (MenuSystem.openOptionsForCurrentStat w.menu))

/-- Layer 2 of the dispatch: the stats screen. -/
def onStats (w : World) (touch : TouchSystem.TouchPoint) (nowMs : Nat) (i : DispatchInputs) :
    World :=
  match touch.gesture with
  | TouchSystem.TouchGesture.TOUCH_SWIPE_UP => w.withMenu (MenuSystem.statsPrev w.menu)
  | TouchSystem.TouchGesture.TOUCH_SWIPE_LEFT => w.withMenu (MenuSystem.statsPrev w.menu)
  | TouchSystem.TouchGesture.TOUCH_SWIPE_DOWN => w.withMenu (MenuSystem.statsNext w.menu)
  | TouchSystem.TouchGesture.TOUCH_SWIPE_RIGHT => w.withMenu (MenuSystem.statsNext w.menu)
  | TouchSystem.TouchGesture.TOUCH_TAP => onStatsTap w nowMs i
  | TouchSystem.TouchGesture.TOUCH_LONG_PRESS =>
      setBlock (w.withMenu (MenuSystem.closeStatsToMenu w.menu))
  | _ => w

/-- Layer 2 of the dispatch: the battery screen. -/
def onBattery (w : World) (touch : TouchSystem.TouchPoint) : World :=
  match touch.gesture with
  | TouchSystem.TouchGesture.TOUCH_TAP =>
      setBlock (w.withMenu (MenuSystem.closeBatteryToMenu w.menu))
  | TouchSystem.TouchGesture.TOUCH_LONG_PRESS =>
      setBlock (w.withMenu (MenuSystem.closeBatteryToMenu w.menu))
  | _ => w

/-- Layer 2 of the dispatch: the level screen. -/
def onLevel (w : World) (touch : TouchSystem.TouchPoint) : World :=
  match touch.gesture with
  | TouchSystem.TouchGesture.TOUCH_TAP =>
      setBlock (w.withMenu (MenuSystem.closeLevelToMenu w.menu))
  | TouchSystem.TouchGesture.TOUCH_LONG_PRESS =>
      setBlock (w.withMenu (MenuSystem.closeLevelToMenu w.menu))
  | _ => w

/-- The tap case of the open menu. -/
def onMenuTap (w : World) (i : DispatchInputs) : World :=
  if MenuSystem.isTapOnSelected w.menu i.menu then
    (if MenuSystem.isStatsOpen (MenuSystem.activateSelected w.menu i.menu).currentState ||
        MenuSystem.isConnectOpen (MenuSystem.activateSelected w.menu i.menu).currentState ||
        MenuSystem.isMessageOpen (MenuSystem.activateSelected w.menu i.menu).currentState then
      setBlock (w.withMenu (MenuSystem.activateSelected w.menu i.menu))
     else w.withMenu (MenuSystem.activateSelected w.menu i.menu))
  else w

/-- Layer 1 of the dispatch: the menu is open. -/
def onMenu (w : World) (touch : TouchSystem.TouchPoint) (i : DispatchInputs) : World :=
  match touch.gesture with
  | TouchSystem.TouchGesture.TOUCH_TAP => onMenuTap w i
  | TouchSystem.TouchGesture.TOUCH_SWIPE_UP => w.withMenu (MenuSystem.selectPrev w.menu)
  | TouchSystem.TouchGesture.TOUCH_SWIPE_LEFT => w.withMenu (MenuSystem.selectPrev w.menu)
  | TouchSystem.TouchGesture.TOUCH_SWIPE_DOWN => w.withMenu (MenuSystem.selectNext w.menu)
  | TouchSystem.TouchGesture.TOUCH_SWIPE_RIGHT => w.withMenu (MenuSystem.selectNext w.menu)
  | TouchSystem.TouchGesture.TOUCH_LONG_PRESS => setBlock (w.withMenu (MenuSystem.close w.menu))
  | _ => w

/-- Layer 0 of the dispatch: the menu is closed. -/
def onClosed (w : World) (touch : TouchSystem.TouchPoint) (i : DispatchInputs) : World :=
  match touch.gesture with
  | TouchSystem.TouchGesture.TOUCH_TAP =>
      if Touch_isTapOnEyes touch then Emotion_triggerTest w i
      else setBlock (w.withMenu (MenuSystem.openMenu w.menu))
  | _ => w

/-- The chain of layer tests of the dispatch, from the running game down to
the closed menu. -/
def layerDispatch (w : World) (touch : TouchSystem.TouchPoint) (nowMs : Nat)
    (i : DispatchInputs) : World :=
  if EyeGame.isRunning w.menu.gw then onGameRunning w touch i
  else if MenuSystem.isOptionsOpen w.menu.currentState then onOptions w touch
  else if MenuSystem.isGamesOpen w.menu.currentState then onGames w touch i
  else if MenuSystem.isConnectOpen w.menu.currentState then onConnect w touch i
  else if MenuSystem.isMessageOpen w.menu.currentState then onMessage w touch
  else if MenuSystem.isStatsOpen w.menu.currentState then onStats w touch nowMs i
  else if MenuSystem.isBatteryOpen w.menu.currentState then onBattery w touch
  else if MenuSystem.isLevelOpen w.menu.currentState then onLevel w touch
  else if MenuSystem.isOpen w.menu.currentState then onMenu w touch i
  else onClosed w touch i

/-- The dispatch of a gesture taken from the touch unit: the animation and
screensaver intercepts, the release marker, then the layers. -/
def deliver (w : World) (touch : TouchSystem.TouchPoint) (nowMs : Nat) (i : DispatchInputs) :
    World :=
  if w.cleanAnim.active then w
  else if w.idle.sleepActive then
    (if touch.gesture = TouchSystem.TouchGesture.TOUCH_TAP then setBlock (Sleep_end w i) else w)
  else if MenuSystem.isFeeding w.menu.currentState then w
  else if w.idle.clockState = IdleVisualState.Clock then Clock_hide w
  else if touch.gesture = TouchSystem.TouchGesture.TOUCH_NONE then
    (if TouchSystem.isTouchPressed w.touch then w else clearBlocks w)
  else layerDispatch w touch nowMs i

/-- The blocked branch of the dispatch: the flags are cleared once the
contact is up, and a pending gesture is dropped. -/
def dropWhileBlocked (w : World) : World :=
  { w with
    touchState :=
      if !TouchSystem.isTouchPressed w.touch then
        { suppressMenuOpenUntilLift := false, blockGesturesUntilLift := false }
      else w.touchState
    touch := if TouchSystem.available w.touch then TouchSystem.get w.touch else w.touch }

/-- The gesture dispatch of `DisplaySystem_update`, from the gesture-block
test to the end of the layer chain. -/
def dispatchGesture (w : World) (nowMs : Nat) (i : DispatchInputs) : World :=
  if w.touchState.blockGesturesUntilLift || w.touchState.suppressMenuOpenUntilLift then
    dropWhileBlocked w
  else if TouchSystem.available w.touch then
    deliver { w with touch := TouchSystem.get w.touch, clockLastTouchMs := nowMs }
      w.touch.pendingEvent nowMs i
  else w

/-- The start-up world with a tap at `(x, y)` pending in the touch unit. -/
def tapPending (x y : Nat) : World :=
  { World.init (MenuSystem.State.init EyeGame.freshWorld) with
    touch :=
      { TouchSystem.Sys.init with
        pendingEvent :=
          { x := x, y := y, gesture := TouchSystem.TouchGesture.TOUCH_TAP, duration := 80 }
        eventAvailable := true } }

/-- Dispatch inputs in which every clock read gives `now` and the schedule
draws `r`. -/
def quietDispatch (now r : Nat) : DispatchInputs :=
  { menu := MenuSystem.Inputs.quiet now, mSet := now, mSched := now, rSched := r }

/-- The world of `tapPending` with the clock overlay showing. -/
def clockShowing (x y : Nat) : World :=
  { tapPending x y with
    idle := { (tapPending x y).idle with clockState := IdleVisualState.Clock } }

/-! ## display_system.cpp: interpolation toward the targets

The speed constants `0.06f`, `0.15f` and `0.30f` (clamped to `0.25f`) are kept
as exact hundredths, and `float` arithmetic as exact rational arithmetic. -/

/-- The speed constant `k` of `UpdateVisualInterpolation` in hundredths,
before the clamp. -/
def rawSpeedHundredths : IdleMoveSpeed → Nat
  | IdleMoveSpeed.Slow => 6
  | IdleMoveSpeed.Fast => 30
  | IdleMoveSpeed.Normal => 15

/-- The speed constant in hundredths after `if (k > 0.25f) k = 0.25f`. -/
def speedHundredths (sp : IdleMoveSpeed) : Nat :=
  if rawSpeedHundredths sp > 25 then 25 else rawSpeedHundredths sp

/-- The speed constant `k` as a rational. -/
def speedK (sp : IdleMoveSpeed) : ℚ := (speedHundredths sp : ℚ) / 100

/-- One integer offset of a visual object after a tick:
`offset += (int16_t)((target - offset) * k)`, the product truncated toward
zero. -/
def lerpOffset (kh : Nat) (offset target : Int) : Int :=
  Arith.i16 (offset + Arith.i16 (Int.tdiv ((target - offset) * (kh : Int)) 100))

/-- One scale of a visual object after a tick. -/
def lerpScale (k scale target : ℚ) : ℚ := scale + (target - scale) * k

/-- The loop body of `UpdateVisualInterpolation` on one object. -/
def lerpObject (sp : IdleMoveSpeed) (o : VisualObject) : VisualObject :=
  { o with
    offsetX := lerpOffset (speedHundredths sp) o.offsetX o.targetOffsetX
    offsetY := lerpOffset (speedHundredths sp) o.offsetY o.targetOffsetY
    scaleX := lerpScale (speedK sp) o.scaleX o.targetScaleX
    scaleY := lerpScale (speedK sp) o.scaleY o.targetScaleY }

/-- One component of the body offset after a tick: it snaps to the target
within half a unit and otherwise moves by `k` times the difference. -/
def lerpGlobal (k off target : ℚ) : ℚ :=
  if |target - off| < 1 / 2 then target else off + (target - off) * k

/-- The global half of `UpdateVisualInterpolation`. -/
def lerpMotion (sp : IdleMoveSpeed) (g : GlobalMotion) : GlobalMotion :=
  if g.jitterAmp = 0 then
    { g with
      offX := lerpGlobal (speedK sp) g.offX g.targetOffX
      offY := lerpGlobal (speedK sp) g.offY g.targetOffY }
  else g

/-- Source `UpdateVisualInterpolation` (its argument `dtMs` is not used). -/
def UpdateVisualInterpolation (w : World) : World :=
  if !w.hasVisualObjects then w
  else
    { w with
      leftEye := lerpObject w.idle.idleMoveSpeed w.leftEye
      rightEye := lerpObject w.idle.idleMoveSpeed w.rightEye
      idle := { w.idle with gMotion := lerpMotion w.idle.idleMoveSpeed w.idle.gMotion } }

/-- The two components of the body offset. -/
inductive BodyCoord where
  | x
  | y
  deriving DecidableEq, Repr

/-- A component of `gMotion.offX` / `gMotion.offY`. -/
def bodyOffset (w : World) : BodyCoord → ℚ
  | BodyCoord.x => w.idle.gMotion.offX
  | BodyCoord.y => w.idle.gMotion.offY

def JITTER_AMP_PX : Nat := 5
def GIGGLE_JITTER_AMP : Nat := 6
def GIGGLE_OFFSET_PX : Int := 35
def BLINK_OFFSET_PX : Int := 50
def HAPPY_SCALE : ℚ := 23 / 20
def HAPPY_BOUNCE_AMPLITUDE : ℚ := 8

/-- Source `GlobalMotion_kickJitter`; `m` is the value of `millis()` and
`rx`, `ry` the values of the two `random(-amp, amp + 1)` calls. -/
def GlobalMotion_kickJitter (g : GlobalMotion) (amp decayMs m : Nat) (rx ry : Int) :
    GlobalMotion :=
  { g with
    jitterAmp := amp % 256
    jitterDecay := decayMs % 65536
    jitterUntil := (m + decayMs % 65536) % 4294967296
    jitterX := Arith.i16 rx
    jitterY := Arith.i16 ry }

/-- Source `GlobalMotion_update`; `rx`, `ry` are the values of the two
`random` calls of the refresh. -/
def GlobalMotion_update (g : GlobalMotion) (nowMs : Nat) (rx ry : Int) : GlobalMotion :=
  if g.jitterAmp = 0 then g
  else if nowMs ≥ g.jitterUntil then { g with jitterX := 0, jitterY := 0, jitterAmp := 0 }
  else { g with jitterX := Arith.i16 rx, jitterY := Arith.i16 ry }

/-- The motion record of a world replaced. -/
def World.withMotion (w : World) (g : GlobalMotion) : World :=
  { w with idle := { w.idle with gMotion := g } }

/-- Source `Blink_start`. -/
def Blink_start (w : World) (nowMs : Nat) (left right : Bool) : World :=
  if w.blinkRt.active then w
  else
    { w with
      blinkRt := { active := true, left := left, right := right, startMs := nowMs }
      eye := { w.eye with blinkInProgress := true }
      blinkSoundPlayed := false }

/-- Source `Wink_start`. -/
def Wink_start (w : World) (nowMs : Nat) (leftEye : Bool) : World :=
  if w.blinkRt.active then w
  else
    { w with
      blinkRt := { active := true, left := leftEye, right := !leftEye, startMs := nowMs }
      eye := { w.eye with blinkInProgress := true } }

/-- The value returned by `Blink_update`: true on the call that ends the
blink. -/
def Blink_updateDone (w : World) (nowMs : Nat) : Bool :=
  w.blinkRt.active &&
    decide (BLINK_CLOSE_MS + BLINK_HOLD_MS + BLINK_OPEN_MS ≤ Arith.sub32 nowMs w.blinkRt.startMs)

/-- Source `Blink_update`, the state after the call. The closing and opening
offsets are `BLINK_OFFSET_PX` times the phase fraction, truncated. -/
def Blink_update (w : World) (nowMs : Nat) : World :=
  if !w.blinkRt.active then w
  else if Arith.sub32 nowMs w.blinkRt.startMs < BLINK_CLOSE_MS then
    { w with
      eye :=
        { w.eye with
          topOffset :=
            Arith.i16 (Int.tdiv (BLINK_OFFSET_PX * (Arith.sub32 nowMs w.blinkRt.startMs : Int))
              (BLINK_CLOSE_MS : Int)) } }
  else if Arith.sub32 nowMs w.blinkRt.startMs < BLINK_CLOSE_MS + BLINK_HOLD_MS then
    { w with eye := { w.eye with topOffset := BLINK_OFFSET_PX }, blinkSoundPlayed := true }
  else if Arith.sub32 nowMs w.blinkRt.startMs
      < BLINK_CLOSE_MS + BLINK_HOLD_MS + BLINK_OPEN_MS then
    { w with
      eye :=
        { w.eye with
          topOffset :=
            Arith.i16 (Int.tdiv
              (BLINK_OFFSET_PX * ((BLINK_OPEN_MS : Int)
                - ((Arith.sub32 nowMs w.blinkRt.startMs : Int) - (BLINK_CLOSE_MS : Int)
                    - (BLINK_HOLD_MS : Int))))
              (BLINK_OPEN_MS : Int)) } }
  else
    { w with
      blinkRt := { w.blinkRt with active := false }
      eye := { w.eye with topOffset := 0, blinkInProgress := false }
      blinkSoundPlayed := false }

/-- The two assignments that end an idle behaviour:
`idleState.active = false; idleState.type = IdleStateType::None`. -/
def finishIdle (w : World) : World :=
  { w with
    idle :=
      { w.idle with
        idleState := { w.idle.idleState with active := false, type := IdleStateType.None } } }

/-- What the idle-behaviour block of one tick reads from outside: the clock
read and the two draws of a `GlobalMotion_kickJitter`, the draw
`random(0, 2)` of a wink, and the values of `sinf(phase)` and `cosf(phase)`. -/
structure BlockInputs where
  mKick : Nat
  rJx : Int
  rJy : Int
  rWink : Nat
  pos : ℚ
  vel : ℚ
  deriving DecidableEq

/-- Conversion of a `float` to `int16_t`: truncation toward zero. -/
def truncToInt16 (q : ℚ) : Int := Arith.i16 (if 0 ≤ q then ⌊q⌋ else ⌈q⌉)

/-- Time since the behaviour in the slot started, `nowMs - idleState.startMs`. -/
def sinceStart (w : World) (nowMs : Nat) : Nat := Arith.sub32 nowMs w.idle.idleState.startMs

/-- The Blink branch of the idle-behaviour block. -/
def blinkBlock (w : World) (nowMs : Nat) : World :=
  if Blink_updateDone (if !w.blinkRt.active then Blink_start w nowMs true true else w) nowMs then
    finishIdle
      (Blink_update (if !w.blinkRt.active then Blink_start w nowMs true true else w) nowMs)
  else Blink_update (if !w.blinkRt.active then Blink_start w nowMs true true else w) nowMs

/-- The Wink branch of the idle-behaviour block. -/
def winkBlock (w : World) (nowMs : Nat) (i : BlockInputs) : World :=
  if Blink_updateDone
      (if !w.blinkRt.active then Wink_start w nowMs (i.rWink == 0) else w) nowMs then
    finishIdle
      (Blink_update (if !w.blinkRt.active then Wink_start w nowMs (i.rWink == 0) else w) nowMs)
  else Blink_update (if !w.blinkRt.active then Wink_start w nowMs (i.rWink == 0) else w) nowMs

/-- The kick of the jitter branch, under the test `!gMotion.jitterAmp`. -/
def jitterKick (w : World) (i : BlockInputs) : World :=
  if w.idle.gMotion.jitterAmp = 0 then
    w.withMotion
      (GlobalMotion_kickJitter w.idle.gMotion JITTER_AMP_PX JITTER_DURATION_MS i.mKick i.rJx i.rJy)
  else w

/-- The JitterBoth / JitterLeft / JitterRight branch of the idle-behaviour
block. -/
def jitterBlock (w : World) (nowMs : Nat) (i : BlockInputs) : World :=
  if sinceStart w nowMs ≥ w.idle.idleState.durationMs then finishIdle (jitterKick w i)
  else jitterKick w i

/-- The animation part of the HappyBounce branch. -/
def happyAnimate (w : World) (i : BlockInputs) : World :=
  { w with
    idle :=
      { w.idle with gMotion := { w.idle.gMotion with offY := HAPPY_BOUNCE_AMPLITUDE * i.pos } }
    eye := { w.eye with topOffset := truncToInt16 (i.vel * 6), scale := HAPPY_SCALE }
    happyPipPlayed :=
      if i.pos < 1 / 5 then false
      else if !w.happyPipPlayed && decide (i.pos > 23 / 25) then true
      else w.happyPipPlayed }

/-- The HappyBounce branch of the idle-behaviour block. -/
def happyBlock (w : World) (nowMs : Nat) (i : BlockInputs) : World :=
  if sinceStart w nowMs ≥ w.idle.idleState.durationMs then
    finishIdle
      { happyAnimate w i with
        idle :=
          { (happyAnimate w i).idle with
            gMotion := { (happyAnimate w i).idle.gMotion with offY := 0 } }
        eye := { (happyAnimate w i).eye with topOffset := 0, scale := 1 } }
  else happyAnimate w i

/-- The eye scale of a world replaced. -/
def World.withScale (w : World) (q : ℚ) : World := { w with eye := { w.eye with scale := q } }

/-- The Excited1 branch of the idle-behaviour block. -/
def excitedBlock (w : World) (nowMs : Nat) (i : BlockInputs) : World :=
  if sinceStart w nowMs < 150 then w.withScale (1 + (sinceStart w nowMs : ℚ) / 150 * (1 / 5))
  else if sinceStart w nowMs < 1150 then w.withScale (6 / 5)
  else if sinceStart w nowMs < 1300 then
    (if w.idle.gMotion.jitterAmp = 0 then
      (w.withScale (6 / 5)).withMotion
        (GlobalMotion_kickJitter w.idle.gMotion 10 120 i.mKick i.rJx i.rJy)
     else w.withScale (6 / 5))
  else if sinceStart w nowMs < 1650 then w.withScale (6 / 5)
  else if sinceStart w nowMs < 2000 then
    w.withScale
      (6 / 5 - (if ((sinceStart w nowMs : ℚ) - 1650) / 350 > 1 then 1
                else ((sinceStart w nowMs : ℚ) - 1650) / 350) * (1 / 5))
  else finishIdle (w.withScale 1)

/-- The animation part of the Judging branch. -/
def judgingAnimate (w : World) (i : BlockInputs) : World :=
  { w with
    idle :=
      { w.idle with gMotion := { w.idle.gMotion with offX := HAPPY_BOUNCE_AMPLITUDE * i.pos } }
    eye := { w.eye with scale := HAPPY_SCALE }
    leftEye :=
      { w.leftEye with scaleX := 1 + |i.vel| * (1 / 10), scaleY := 1 - |i.vel| * (3 / 50) }
    rightEye :=
      { w.rightEye with scaleX := 1 + |i.vel| * (1 / 10), scaleY := 1 - |i.vel| * (3 / 50) } }

/-- The Judging branch of the idle-behaviour block. -/
def judgingBlock (w : World) (nowMs : Nat) (i : BlockInputs) : World :=
  if sinceStart w nowMs ≥ w.idle.idleState.durationMs then
    finishIdle
      { judgingAnimate w i with
        idle :=
          { (judgingAnimate w i).idle with
            gMotion := { (judgingAnimate w i).idle.gMotion with offX := 0 } }
        eye := { (judgingAnimate w i).eye with topOffset := 0, scale := 1 }
        leftEye := { (judgingAnimate w i).leftEye with scaleX := 1, scaleY := 1 }
        rightEye := { (judgingAnimate w i).rightEye with scaleX := 1, scaleY := 1 } }
  else judgingAnimate w i

/-- The start and the Y-only forcing of the Giggle branch. -/
def giggleAnimate (w : World) (nowMs : Nat) (i : BlockInputs) : World :=
  if w.idle.idleState.startMs = nowMs then
    { w with
      eye := { w.eye with topOffset := GIGGLE_OFFSET_PX }
      idle :=
        { w.idle with
          gMotion :=
            { GlobalMotion_kickJitter w.idle.gMotion GIGGLE_JITTER_AMP GIGGLE_DURATION_MS
                i.mKick i.rJx i.rJy with
              jitterX := 0 } } }
  else w.withMotion { w.idle.gMotion with jitterX := 0 }

/-- The Giggle branch of the idle-behaviour block. -/
def giggleBlock (w : World) (nowMs : Nat) (i : BlockInputs) : World :=
  if sinceStart w nowMs ≥ w.idle.idleState.durationMs then
    finishIdle
      { giggleAnimate w nowMs i with eye := { (giggleAnimate w nowMs i).eye with topOffset := 0 } }
  else giggleAnimate w nowMs i

/-- The idle-behaviour block of `DisplaySystem_update`
(`if (idleState.active) { ... }`). -/
def idleStateBlock (w : World) (nowMs : Nat) (i : BlockInputs) : World :=
  if !w.idle.idleState.active then w
  else
    match w.idle.idleState.type with
    | IdleStateType.Blink => blinkBlock w nowMs
    | IdleStateType.Wink => winkBlock w nowMs i
    | IdleStateType.JitterBoth => jitterBlock w nowMs i
    | IdleStateType.JitterLeft => jitterBlock w nowMs i
    | IdleStateType.JitterRight => jitterBlock w nowMs i
    | IdleStateType.HappyBounce => happyBlock w nowMs i
    | IdleStateType.Excited1 => excitedBlock w nowMs i
    | IdleStateType.Judging => judgingBlock w nowMs i
    | IdleStateType.Giggle => giggleBlock w nowMs i
    | _ => w

/-- What the motion part of one tick reads from outside: `nowMs`, the two
draws of the jitter refresh in `GlobalMotion_update`, and the inputs of the
idle-behaviour block. -/
structure TickInputs where
  nowMs : Nat
  rUx : Int
  rUy : Int
  block : BlockInputs
  deriving DecidableEq

/-- The steps of `DisplaySystem_update` that write the shared motion and scale
fields while a behaviour is in the slot and nothing else runs (no hatch,
clean, sleep or feed animation, no gesture, no emotion animation), in source
order: `GlobalMotion_update`, `UpdateVisualInterpolation`, and, after
`IdleLook_update`, which returns at once while the slot is active, the
idle-behaviour block. -/
def motionTick (w : World) (t : TickInputs) : World :=
  idleStateBlock
    (UpdateVisualInterpolation
      (w.withMotion (GlobalMotion_update w.idle.gMotion t.nowMs t.rUx t.rUy)))
    t.nowMs t.block

/-- The world after a sequence of motion ticks. -/
def motionRun (w : World) (ts : List TickInputs) : World := ts.foldl motionTick w

/-- The start-up world, every shared field neutral, in which `IdleLook_update`
has just put a behaviour in the slot at time `t0`. -/
def startBehaviour (type : IdleStateType) (t0 : Nat) : World :=
  { World.init (MenuSystem.State.init EyeGame.freshWorld) with
    idle :=
      { (World.init (MenuSystem.State.init EyeGame.freshWorld)).idle with
        idleState :=
          { type := type, active := true, startMs := t0, durationMs := idleDuration type } } }

/-- A tick at `now` in which every clock read gives `now`, the jitter draws
are (3, -2), and the sine and cosine values are `pos` and `vel`. -/
def tickAt (now : Nat) (pos vel : ℚ) : TickInputs :=
  { nowMs := now, rUx := 3, rUy := -2,
    block := { mKick := now, rJx := 3, rJy := -2, rWink := 0, pos := pos, vel := vel } }

/-- The shared motion and scale fields are neutral: eye top offset 0 and
scale 1, both per-eye scales 1, the body offset component `b` 0, jitter
amplitude and offsets 0. -/
def NeutralAt (w : World) (b : BodyCoord) : Prop :=
  w.eye.topOffset = 0 ∧ w.eye.scale = 1 ∧
  w.leftEye.scaleX = 1 ∧ w.leftEye.scaleY = 1 ∧
  w.rightEye.scaleX = 1 ∧ w.rightEye.scaleY = 1 ∧
  bodyOffset w b = 0 ∧
  w.idle.gMotion.jitterAmp = 0 ∧ w.idle.gMotion.jitterX = 0 ∧ w.idle.gMotion.jitterY = 0

/-! ## The idle pick at level 1 and runs of the jitter refresh -/

/-- The snapshot `SubStateSystem::update` writes at level 1 right after
start-up, with the four statistics at 60. -/
def levelOneSnapshot : Snapshot :=
  (SubStateSystem.update SubStateSystem.begin Snapshot.zero
    (SubStateSystem.sampleCall 1000 60 60 60 60)).2

/-- The idle scheduler at rest on the home screen at level 1: no behaviour in
the slot, the look active and at its destination, no emotion running. -/
def levelOneWorld : IdleWorld :=
  { levelScreenWorld with subState := levelOneSnapshot }

/-- The inputs of a tick on the home screen (menu closed) whose behaviour roll
is `roll`. -/
def homeInputs (roll : Nat) : IdleInputs :=
  { menuState := MenuSystem.MenuState.MENU_CLOSED, gameRunning := false,
    millisNow := 50000, millisReady := 50000, rDelay := 3000, rDx := 2, rDy := 1,
    rSpeed := 0, rRoll := roll }

/-- One call of `GlobalMotion_update`: the time and the two `random` values. -/
structure JitterTick where
  nowMs : Nat
  rx : Int
  ry : Int
  deriving DecidableEq, Repr

/-- The motion record after a sequence of `GlobalMotion_update` calls. -/
def GlobalMotion_run (g : GlobalMotion) (ticks : List JitterTick) : GlobalMotion :=
  ticks.foldl (fun g t => GlobalMotion_update g t.nowMs t.rx t.ry) g

/-- The contract of `random(-amp, amp + 1)`: a value in `[-amp, amp]`. -/
def inAmp (amp : Nat) (r : Int) : Prop := -(amp : Int) ≤ r ∧ r ≤ (amp : Int)

instance (amp : Nat) (r : Int) : Decidable (inAmp amp r) := by
  unfold inAmp
  infer_instance

/-- A motion record just kicked with amplitude 4 at time 1000 for 420 ms. -/
def kickedMotion : GlobalMotion :=
  GlobalMotion_kickJitter
    { offX := 0, offY := 0, targetOffX := 5, targetOffY := 0, jitterX := 0, jitterY := 0,
      jitterAmp := 0, jitterDecay := 0, jitterUntil := 0 }
    4 420 1000 3 (-2)

/-! ## display_system.cpp: the transitions that preempt an idle behaviour -/

def FEED_ANIM_DURATION_MS : Nat := 5000

/-- Source `Feed_start`; `mSet` is the clock read of
`DisplaySystem_setEmotion`. -/
def Feed_start (w : World) (nowMs mSet : Nat) : World :=
  { w with
    happyPipPlayed := false
    idle :=
      { w.idle with
        emotionState := DisplaySystem_setEmotion w.idle.emotionState EYE_EMO_IDLE mSet
        idleState :=
          { type := IdleStateType.HappyBounce, active := true, startMs := nowMs,
            durationMs := FEED_ANIM_DURATION_MS } } }

/-- Source `Feed_end`. -/
def Feed_end (w : World) : World :=
  if w.idle.idleState.active && w.idle.idleState.type == IdleStateType.HappyBounce then
    { finishIdle w with eye := { w.eye with topOffset := 0, scale := 1 } }
  else w

/-- Source `Sleep_start` (the backlight and the Z sprites are not modelled);
`mSet` is the clock read of `DisplaySystem_setEmotion`. -/
def Sleep_start (w : World) (nowMs mSet : Nat) : World :=
  if w.idle.sleepActive || w.cleanAnim.active then w
  else
    { w with
      sleepStartMs := nowMs
      sleepLastUpdateMs := nowMs
      sleepNextSpawnMs := nowMs
      eye := { topOffset := 0, scale := 1, blinkInProgress := false }
      blinkRt := { w.blinkRt with active := false }
      idle :=
        { w.idle with
          sleepActive := true
          emotionState := DisplaySystem_setEmotion w.idle.emotionState EYE_EMO_IDLE mSet
          idleState := { w.idle.idleState with active := false, type := IdleStateType.None }
          idleLook := { w.idle.idleLook with active := false }
          gMotion :=
            { w.idle.gMotion with
              offX := 0, offY := 0, targetOffX := 0, targetOffY := 0,
              jitterX := 0, jitterY := 0, jitterAmp := 0 } } }

/-- A blink started at 10000 and ticked at 10000 and 10080: the lids are held
closed. -/
def midBlink : World :=
  motionRun (startBehaviour IdleStateType.Blink 10000) [tickAt 10000 0 1, tickAt 10080 0 1]

/-- A jitter started at 10000 and ticked at 10000 and 10200. -/
def midJitter : World :=
  motionRun (startBehaviour IdleStateType.JitterBoth 10000)
    [tickAt 10000 0 1, tickAt 10200 0 1]

/-- A Judging behaviour started at 10000 and ticked at 10000: `tMs` is 0, so
the phase is 0, the sine 0 and the cosine 1. -/
def midJudging : World :=
  motionRun (startBehaviour IdleStateType.Judging 10000) [tickAt 10000 0 1]

/-! ## display_system.cpp: the states the display unit reaches

`g_visualObjects` is file-static. `DisplaySystem_begin` allocates the array,
writes every offset and offset target 0 and every scale 1, and then
dereferences the pointer without a test. After it the integer offsets are
written by `UpdateVisualInterpolation` alone and the offset targets by no
statement. -/

/-- Source `ReturnVisualToNeutral` (called by `DisplaySystem_begin` only). -/
def ReturnVisualToNeutral (w : World) : World :=
  { w with
    leftEye :=
      { w.leftEye with
        targetOffsetX := 0, targetOffsetY := 0, targetScaleX := 1, targetScaleY := 1 }
    rightEye :=
      { w.rightEye with
        targetOffsetX := 0, targetOffsetY := 0, targetScaleX := 1, targetScaleY := 1 }
    idle := { w.idle with gMotion := { w.idle.gMotion with targetOffX := 0, targetOffY := 0 } } }

/-- The pointer test and the integer offsets and offset targets of the two
visual objects, in the order left then right, offset then target, X then Y. -/
def objectOffsets (w : World) : Bool × List Int :=
  (w.hasVisualObjects,
    [w.leftEye.offsetX, w.leftEye.offsetY, w.leftEye.targetOffsetX, w.leftEye.targetOffsetY,
     w.rightEye.offsetX, w.rightEye.offsetY, w.rightEye.targetOffsetX,
     w.rightEye.targetOffsetY])

/-- The visual objects as `DisplaySystem_begin` leaves them: the array
allocated, every integer offset and every offset target 0. -/
def ObjectsHome (w : World) : Prop := objectOffsets w = (true, [0, 0, 0, 0, 0, 0, 0, 0])

instance (w : World) : Decidable (ObjectsHome w) := by
  unfold ObjectsHome
  infer_instance

/-- One step of the running display unit, with what it reads from outside: the
motion part of a tick, `IdleLook_update`, `updateIdleBlinkAndEmotion`, a poll
of the touch unit, the gesture dispatch, `Feed_start`, `Feed_end` and
`Sleep_start`. -/
inductive DisplayStep where
  | motion (t : TickInputs)
  | look (nowMs : Nat) (inp : IdleInputs)
  | emotion (higherLayerActive gameRunning : Bool) (i : EmotionInputs)
  | touch (t : TouchSystem.Tick)
  | gesture (nowMs : Nat) (i : DispatchInputs)
  | feedStart (nowMs mSet : Nat)
  | feedEnd
  | sleepStart (nowMs mSet : Nat)

/-- The world after one step. -/
def displayStep (w : World) : DisplayStep → World
  | DisplayStep.motion t => motionTick w t
  | DisplayStep.look nowMs inp => { w with idle := IdleLook_update w.idle nowMs inp }
  | DisplayStep.emotion higherLayerActive gameRunning i =>
      updateIdleBlinkAndEmotion w higherLayerActive gameRunning i
  | DisplayStep.touch t => { w with touch := TouchSystem.update w.touch t }
  | DisplayStep.gesture nowMs i => dispatchGesture w nowMs i
  | DisplayStep.feedStart nowMs mSet => Feed_start w nowMs mSet
  | DisplayStep.feedEnd => Feed_end w
  | DisplayStep.sleepStart nowMs mSet => Sleep_start w nowMs mSet

/-- The world after a sequence of steps, in any order, from start-up. -/
def displayRun (menu : MenuSystem.State) (steps : List DisplayStep) : World :=
  steps.foldl displayStep (World.init menu)

end Display

/-! # Theorems -/

namespace Arith

/-! ## Machine arithmetic -/

theorem i16_sub_cast (a b : Nat) (ha : a < 65536) (hb : b < 65536)
    (h : ((a : Int) - b).natAbs < 32768) : i16 (i16 a - i16 b) = (a : Int) - b := by
  unfold i16
  split_ifs <;> omega

theorem u16_of_lt (n : Int) (h0 : 0 ≤ n) (h : n < 65536) : u16 n = n.toNat := by
  unfold u16
  congr 1
  omega

theorem sub32_of_le (a b : Nat) (hab : b ≤ a) (ha : a < 4294967296) : sub32 a b = a - b := by
  unfold sub32
  split_ifs <;> omega

theorem sub32_lt (a b : Nat) : sub32 a b < 4294967296 := by
  unfold sub32
  split_ifs <;> omega

end Arith

namespace TouchSystem

open Arith

/-- On `int16_t`-exact coordinates `calculateDistance` is the Manhattan distance. -/
theorem calculateDistance_eq (x1 y1 x2 y2 : Nat) (h1 : x1 < 32768) (h2 : y1 < 32768)
    (h3 : x2 < 32768) (h4 : y2 < 32768) :
    calculateDistance x1 y1 x2 y2
      = ((x2 : Int) - x1).natAbs + ((y2 : Int) - y1).natAbs := by
  unfold calculateDistance
  simp only []
  rw [i16_sub_cast x2 x1 (by omega) (by omega) (by omega),
    i16_sub_cast y2 y1 (by omega) (by omega) (by omega), u16_of_lt _ (by omega) (by omega)]
  omega

/-! ## The release step -/

/-- C1. Release of a contact on which no long-press fired, held for at least
20 ms (`now - downTime` in `uint32_t` arithmetic) with Manhattan drift below
40 px: exactly one event is emitted, a Tap at the down position with the held
duration, and the contact is cleared. -/
theorem handleTouchRelease_tap (s : Sys) (now : Nat)
    (hcx : s.touch.currentX < 65536) (hcy : s.touch.currentY < 65536)
    (hdx : s.touch.downX < 65536) (hdy : s.touch.downY < 65536)
    (hlp : s.touch.longPressFired = false)
    (hdur : 20 ≤ sub32 now s.touch.downTime)
    (hdrift : ((s.touch.currentX : Int) - s.touch.downX).natAbs
      + ((s.touch.currentY : Int) - s.touch.downY).natAbs < 40) :
    (handleTouchRelease s now).emitted
        = s.emitted ++ [{ x := s.touch.downX, y := s.touch.downY,
                          gesture := TouchGesture.TOUCH_TAP,
                          duration := sub32 now s.touch.downTime }]
      ∧ (handleTouchRelease s now).pendingEvent
        = { x := s.touch.downX, y := s.touch.downY,
            gesture := TouchGesture.TOUCH_TAP,
            duration := sub32 now s.touch.downTime }
      ∧ (handleTouchRelease s now).eventAvailable = true
      ∧ (handleTouchRelease s now).touch.isDown = false := by
  have ex := i16_sub_cast s.touch.currentX s.touch.downX hcx hdx (by omega)
  have ey := i16_sub_cast s.touch.currentY s.touch.downY hcy hdy (by omega)
  have hd : ¬ sub32 now s.touch.downTime < DEBOUNCE_MS := by
    unfold DEBOUNCE_MS
    omega
  have hu : u16 ((((s.touch.currentX : Int) - s.touch.downX).natAbs : Int)
      + (((s.touch.currentY : Int) - s.touch.downY).natAbs : Int))
      = ((s.touch.currentX : Int) - s.touch.downX).natAbs
        + ((s.touch.currentY : Int) - s.touch.downY).natAbs := by
    rw [u16_of_lt _ (by omega) (by omega)]
    omega
  have hsw : ¬ (SWIPE_MIN_DIST_PX ≤ ((s.touch.currentX : Int) - s.touch.downX).natAbs
      + ((s.touch.currentY : Int) - s.touch.downY).natAbs) := by
    unfold SWIPE_MIN_DIST_PX
    omega
  simp only [handleTouchRelease, emitGesture, hlp, Bool.false_eq_true, if_false, hd, ex, ey,
    hu, ge_iff_le, hsw, and_self]

theorem handleTouchRelease_tap_witness :
    (handleTouchRelease (handleTouchDown Sys.init 100 100 0) 250).emitted
        = [{ x := 100, y := 100, gesture := TouchGesture.TOUCH_TAP, duration := 250 }]
      ∧ (handleTouchRelease (handleTouchDown Sys.init 100 100 0) 250).pendingEvent
        = { x := 100, y := 100, gesture := TouchGesture.TOUCH_TAP, duration := 250 }
      ∧ (handleTouchRelease (handleTouchDown Sys.init 100 100 0) 250).eventAvailable = true
      ∧ (handleTouchRelease (handleTouchDown Sys.init 100 100 0) 250).touch.isDown = false :=
  handleTouchRelease_tap (handleTouchDown Sys.init 100 100 0) 250
    (by decide) (by decide) (by decide) (by decide) rfl (by decide) (by decide)

/-- C2. Release of a contact (coordinates exact in `int16_t`, as every screen
coordinate below 240 is) on which no long-press fired, held for at least 20 ms
with Manhattan drift of 40 px or more: the one emitted event is a swipe chosen
by the dominant axis, never a Tap, and it carries the release position. -/
theorem handleTouchRelease_swipe (s : Sys) (now : Nat)
    (hcx : s.touch.currentX < 32768) (hcy : s.touch.currentY < 32768)
    (hdx : s.touch.downX < 32768) (hdy : s.touch.downY < 32768)
    (hlp : s.touch.longPressFired = false)
    (hdur : 20 ≤ sub32 now s.touch.downTime)
    (hdrift : 40 ≤ ((s.touch.currentX : Int) - s.touch.downX).natAbs
      + ((s.touch.currentY : Int) - s.touch.downY).natAbs) :
    ∃ g : TouchGesture,
      (handleTouchRelease s now).emitted
          = s.emitted ++ [{ x := s.touch.currentX, y := s.touch.currentY, gesture := g,
                            duration := sub32 now s.touch.downTime }]
        ∧ (handleTouchRelease s now).pendingEvent
          = { x := s.touch.currentX, y := s.touch.currentY, gesture := g,
              duration := sub32 now s.touch.downTime }
        ∧ (handleTouchRelease s now).eventAvailable = true
        ∧ g ≠ TouchGesture.TOUCH_TAP
        ∧ (((s.touch.currentX : Int) - s.touch.downX).natAbs
              > ((s.touch.currentY : Int) - s.touch.downY).natAbs →
            (s.touch.currentX : Int) - s.touch.downX > 0 →
            g = TouchGesture.TOUCH_SWIPE_RIGHT)
        ∧ (((s.touch.currentX : Int) - s.touch.downX).natAbs
              > ((s.touch.currentY : Int) - s.touch.downY).natAbs →
            (s.touch.currentX : Int) - s.touch.downX < 0 →
            g = TouchGesture.TOUCH_SWIPE_LEFT)
        ∧ (((s.touch.currentX : Int) - s.touch.downX).natAbs
              ≤ ((s.touch.currentY : Int) - s.touch.downY).natAbs →
            (s.touch.currentY : Int) - s.touch.downY > 0 →
            g = TouchGesture.TOUCH_SWIPE_DOWN)
        ∧ (((s.touch.currentX : Int) - s.touch.downX).natAbs
              ≤ ((s.touch.currentY : Int) - s.touch.downY).natAbs →
            (s.touch.currentY : Int) - s.touch.downY < 0 →
            g = TouchGesture.TOUCH_SWIPE_UP) := by
  have ex := i16_sub_cast s.touch.currentX s.touch.downX (by omega) (by omega) (by omega)
  have ey := i16_sub_cast s.touch.currentY s.touch.downY (by omega) (by omega) (by omega)
  have hd : ¬ sub32 now s.touch.downTime < DEBOUNCE_MS := by
    unfold DEBOUNCE_MS
    omega
  have hu : u16 ((((s.touch.currentX : Int) - s.touch.downX).natAbs : Int)
      + (((s.touch.currentY : Int) - s.touch.downY).natAbs : Int))
      = ((s.touch.currentX : Int) - s.touch.downX).natAbs
        + ((s.touch.currentY : Int) - s.touch.downY).natAbs := by
    rw [u16_of_lt _ (by omega) (by omega)]
    omega
  have hsw : SWIPE_MIN_DIST_PX ≤ ((s.touch.currentX : Int) - s.touch.downX).natAbs
      + ((s.touch.currentY : Int) - s.touch.downY).natAbs := by
    unfold SWIPE_MIN_DIST_PX
    omega
  refine ⟨if ((s.touch.currentX : Int) - s.touch.downX).natAbs
              > ((s.touch.currentY : Int) - s.touch.downY).natAbs then
            (if (s.touch.currentX : Int) - s.touch.downX > 0
              then TouchGesture.TOUCH_SWIPE_RIGHT else TouchGesture.TOUCH_SWIPE_LEFT)
          else
            (if (s.touch.currentY : Int) - s.touch.downY > 0
              then TouchGesture.TOUCH_SWIPE_DOWN else TouchGesture.TOUCH_SWIPE_UP),
    ?_, ?_, ?_, ?_, ?_, ?_, ?_, ?_⟩
  · simp only [handleTouchRelease, emitGesture, hlp, Bool.false_eq_true, if_false, hd, ex, ey,
      hu, ge_iff_le, hsw, if_true]
  · simp only [handleTouchRelease, emitGesture, hlp, Bool.false_eq_true, if_false, hd, ex, ey,
      hu, ge_iff_le, hsw, if_true]
  · simp only [handleTouchRelease, emitGesture, hlp, Bool.false_eq_true, if_false, hd, ex, ey,
      hu, ge_iff_le, hsw, if_true]
  · split_ifs <;> simp
  · intro h1 h2
    rw [if_pos h1, if_pos h2]
  · intro h1 h2
    rw [if_pos h1, if_neg (by omega)]
  · intro h1 h2
    rw [if_neg (by omega), if_pos h2]
  · intro h1 h2
    rw [if_neg (by omega), if_neg (by omega)]

theorem handleTouchRelease_swipe_witness :
    ∃ g : TouchGesture,
      (handleTouchRelease (handleTouchMove (handleTouchDown Sys.init 50 50 0) 130 50 200) 250).emitted
          = [{ x := 130, y := 50, gesture := g, duration := 250 }]
        ∧ g = TouchGesture.TOUCH_SWIPE_RIGHT := by
  obtain ⟨g, h1, _, _, _, h5, _⟩ := handleTouchRelease_swipe
    (handleTouchMove (handleTouchDown Sys.init 50 50 0) 130 50 200) 250
    (by decide) (by decide) (by decide) (by decide) rfl (by decide) (by decide)
  exact ⟨g, h1, h5 (by decide) (by decide)⟩

/-- C4. Debounce: release of a contact on which no long-press fired and whose
held duration is below 20 ms emits nothing (the pending-event slot, its
available flag and the emission trace are unchanged) and clears the contact. -/
theorem handleTouchRelease_debounce (s : Sys) (now : Nat)
    (hlp : s.touch.longPressFired = false)
    (hdur : sub32 now s.touch.downTime < 20) :
    (handleTouchRelease s now).pendingEvent = s.pendingEvent
      ∧ (handleTouchRelease s now).eventAvailable = s.eventAvailable
      ∧ (handleTouchRelease s now).emitted = s.emitted
      ∧ (handleTouchRelease s now).touch.isDown = false := by
  have hd : sub32 now s.touch.downTime < DEBOUNCE_MS := hdur
  simp only [handleTouchRelease, hlp, Bool.false_eq_true, if_false, hd, if_true, and_self]

theorem handleTouchRelease_debounce_witness :
    (handleTouchRelease (handleTouchDown Sys.init 100 100 1000) 1019).pendingEvent
        = Sys.init.pendingEvent
      ∧ (handleTouchRelease (handleTouchDown Sys.init 100 100 1000) 1019).eventAvailable = false
      ∧ (handleTouchRelease (handleTouchDown Sys.init 100 100 1000) 1019).emitted = []
      ∧ (handleTouchRelease (handleTouchDown Sys.init 100 100 1000) 1019).touch.isDown = false :=
  handleTouchRelease_debounce (handleTouchDown Sys.init 100 100 1000) 1019 rfl (by decide)

/-! ## Long press -/

theorem checkLongPress_fired (s : Sys) (now : Nat) (h : s.touch.longPressFired = true) :
    checkLongPress s now = s := by
  simp [checkLongPress, h]

theorem checkLongPress_not_due (s : Sys) (now : Nat) (h : longPressDue s now = false) :
    checkLongPress s now = s := by
  unfold checkLongPress
  unfold longPressDue at h
  by_cases h1 : (s.touch.longPressFired || !s.touch.isDown) = true
  · rw [if_pos h1]
  · rw [if_neg h1]
    by_cases h2 : sub32 now s.touch.downTime < LONG_PRESS_MS
    · simp only [h2, if_true]
    · have h3 : ¬ (calculateDistance s.touch.downX s.touch.downY s.touch.currentX
          s.touch.currentY ≤ TAP_MAX_DRIFT_PX) := by
        intro h4
        have h5 : LONG_PRESS_MS ≤ sub32 now s.touch.downTime := Nat.le_of_not_lt h2
        simp [h4, h5] at h
      simp only [h2, if_false, h3]

theorem checkLongPress_due (s : Sys) (now : Nat) (hd : s.touch.isDown = true)
    (hf : s.touch.longPressFired = false) (h : longPressDue s now = true) :
    checkLongPress s now
      = emitGesture { s with touch := { s.touch with longPressFired := true } }
          TouchGesture.TOUCH_LONG_PRESS s.touch.downX s.touch.downY
          (sub32 now s.touch.downTime) := by
  unfold longPressDue at h
  simp only [Bool.and_eq_true, decide_eq_true_eq] at h
  have h2 : ¬ sub32 now s.touch.downTime < LONG_PRESS_MS := Nat.not_lt.mpr h.1
  simp only [checkLongPress, hd, hf, Bool.not_true, Bool.or_self, Bool.false_eq_true, if_false,
    h2, h.2, if_true]

theorem ite_ne {c : Prop} [Decidable c] {a b g : TouchGesture} (ha : a ≠ g) (hb : b ≠ g) :
    (if c then a else b) ≠ g := by
  split_ifs <;> assumption

theorem fst_ite_ne {c : Prop} [Decidable c] {a b : TouchGesture} {p q : Nat × Nat}
    {g : TouchGesture} (ha : a ≠ g) (hb : b ≠ g) :
    (if c then (a, p) else (b, q)).1 ≠ g := by
  split_ifs <;> assumption

theorem filter_isLongPress_single (e : TouchPoint)
    (h : e.gesture ≠ TouchGesture.TOUCH_LONG_PRESS) : [e].filter isLongPress = [] := by
  simp [isLongPress, h]

/-- What `handleTouchRelease` leaves alone, and what it may emit. -/
theorem handleTouchRelease_facts (s : Sys) (now : Nat) :
    (handleTouchRelease s now).touch.downX = s.touch.downX
      ∧ (handleTouchRelease s now).touch.downY = s.touch.downY
      ∧ (handleTouchRelease s now).touch.downTime = s.touch.downTime
      ∧ (handleTouchRelease s now).touch.longPressFired = s.touch.longPressFired
      ∧ (s.touch.longPressFired = true → (handleTouchRelease s now).emitted = s.emitted)
      ∧ ∃ evs, (handleTouchRelease s now).emitted = s.emitted ++ evs
          ∧ evs.filter isLongPress = [] := by
  by_cases h1 : s.touch.longPressFired = true
  · simp [handleTouchRelease, h1]
  · have hf : s.touch.longPressFired = false := by simpa using h1
    by_cases h2 : sub32 now s.touch.downTime < DEBOUNCE_MS
    · simp [handleTouchRelease, hf, h2]
    · simp only [handleTouchRelease, hf, Bool.false_eq_true, if_false, h2, true_and,
        false_implies]
      split_ifs
      all_goals
        refine ⟨rfl, rfl, rfl, hf, _, rfl, filter_isLongPress_single _ ?_⟩
        exact fun h => TouchGesture.noConfusion h

/-- The held block after its long-press check has produced the state `c`. -/
theorem updateHeld_facts (s : Sys) (now : Nat) (rd : ReadResult) (c : Sys)
    (hc : checkLongPress s now = c) :
    (updateHeld s now rd).touch.downX = c.touch.downX
      ∧ (updateHeld s now rd).touch.downY = c.touch.downY
      ∧ (updateHeld s now rd).touch.downTime = c.touch.downTime
      ∧ (updateHeld s now rd).touch.longPressFired = c.touch.longPressFired
      ∧ (c.touch.longPressFired = true → (updateHeld s now rd).emitted = c.emitted)
      ∧ ∃ evs, (updateHeld s now rd).emitted = c.emitted ++ evs
          ∧ evs.filter isLongPress = [] := by
  unfold updateHeld
  simp only [hc]
  rcases rd with _ | ⟨fc, x, y⟩
  · simp only []
    split_ifs
    · exact handleTouchRelease_facts c now
    · exact ⟨rfl, rfl, rfl, rfl, fun _ => rfl, [], by simp, rfl⟩
  · simp only []
    split_ifs
    · exact ⟨rfl, rfl, rfl, rfl, fun _ => rfl, [], by simp [handleTouchMove], rfl⟩
    · exact handleTouchRelease_facts c now

theorem updateHeld_step (s : Sys) (now : Nat) (rd : ReadResult)
    (hd : s.touch.isDown = true) : HeldStep s now (updateHeld s now rd) := by
  unfold HeldStep
  cases hf : s.touch.longPressFired
  · cases hdue : longPressDue s now
    · obtain ⟨h1, h2, h3, h4, _, h6⟩ :=
        updateHeld_facts s now rd s (checkLongPress_not_due s now hdue)
      refine ⟨h1, h2, h3, fun h => absurd h (by simp), fun _ h => absurd h (by simp),
        fun _ _ => ⟨h4.trans hf, h6⟩⟩
    · obtain ⟨h1, h2, h3, h4, h5, _⟩ :=
        updateHeld_facts s now rd _ (checkLongPress_due s now hd hf hdue)
      refine ⟨h1, h2, h3, fun h => absurd h (by simp), fun _ _ => ⟨h5 rfl, h4⟩,
        fun _ h => absurd h (by simp)⟩
  · obtain ⟨h1, h2, h3, h4, h5, _⟩ :=
      updateHeld_facts s now rd s (checkLongPress_fired s now hf)
    refine ⟨h1, h2, h3, fun _ => ⟨h5 hf, h4.trans hf⟩, fun h => absurd h (by simp),
      fun h => absurd h (by simp)⟩

/-- A polled `update` on a held contact runs the held block on a state with the
same contact record and the same emission trace. -/
theorem update_held_eq (s : Sys) (t : Tick) (hd : s.touch.isDown = true)
    (hp : 5 ≤ sub32 t.now s.lastUpdate) :
    ∃ s1 : Sys, s1.touch = s.touch ∧ s1.emitted = s.emitted
      ∧ update s t = updateHeld s1 t.now t.rd := by
  have hp1 : ¬ sub32 t.now s.lastUpdate < 5 := Nat.not_lt.mpr hp
  unfold update
  simp only [hp1, if_false]
  rcases htca : t.tca with _ | v
  · exact ⟨{ s with lastUpdate := t.now }, rfl, rfl, by simp only [hd, if_true]⟩
  · by_cases hv : v % 2 = 0
    · exact ⟨{ s with lastUpdate := t.now, touchInterruptFlag := true }, rfl, rfl,
        by simp only [hv, hd, if_true]⟩
    · exact ⟨{ s with lastUpdate := t.now }, rfl, rfl, by simp only [hv, hd, if_true, if_false]⟩

theorem update_held_step (s : Sys) (t : Tick) (hd : s.touch.isDown = true)
    (hp : 5 ≤ sub32 t.now s.lastUpdate) : HeldStep s t.now (update s t) := by
  obtain ⟨s1, ht, he, hu⟩ := update_held_eq s t hd hp
  have h := updateHeld_step s1 t.now t.rd (by rw [ht]; exact hd)
  rw [hu]
  unfold HeldStep at h ⊢
  have hdue : longPressDue s1 t.now = longPressDue s t.now := by
    simp only [longPressDue, ht]
  rw [ht, he, hdue] at h
  exact h

theorem stateAt_zero (s : Sys) (ts : List Tick) : stateAt s ts 0 = s := by
  simp [stateAt]

theorem stateAt_succ (s : Sys) (ts : List Tick) (k : Nat) (t : Tick) (h : ts[k]? = some t) :
    stateAt s ts (k + 1) = update (stateAt s ts k) t := by
  unfold stateAt
  rw [List.take_succ, List.foldl_append, h]
  rfl

theorem newEvents_of_append (s s1 : Sys) (evs : List TouchPoint)
    (h : s1.emitted = s.emitted ++ evs) : newEvents s s1 = evs := by
  unfold newEvents
  rw [h, List.drop_left]

/-- The invariant of a run of polled ticks on one contact put down at `(x, y)`
at time `t0`: the down record is kept, the long-press flag is set exactly when
the firing condition held at an earlier tick, and the events emitted so far
hold one long-press when the flag is set and none otherwise. -/
theorem held_run_invariant (s0 : Sys) (x y t0 : Nat) (ts : List Tick)
    (hx : s0.touch.downX = x) (hy : s0.touch.downY = y) (ht0 : s0.touch.downTime = t0)
    (hf0 : s0.touch.longPressFired = false)
    (hpoll : ∀ k t, ts[k]? = some t → 5 ≤ sub32 t.now (stateAt s0 ts k).lastUpdate)
    (hheld : ∀ k, k < ts.length → (stateAt s0 ts k).touch.isDown = true)
    (k : Nat) (hk : k ≤ ts.length) :
    (stateAt s0 ts k).touch.downX = x ∧ (stateAt s0 ts k).touch.downY = y
      ∧ (stateAt s0 ts k).touch.downTime = t0
      ∧ ((stateAt s0 ts k).touch.longPressFired = true ↔
          ∃ j u, j < k ∧ ts[j]? = some u ∧ longPressDue (stateAt s0 ts j) u.now = true)
      ∧ ∃ evs, (stateAt s0 ts k).emitted = s0.emitted ++ evs
          ∧ (evs.filter isLongPress).length
              = (if (stateAt s0 ts k).touch.longPressFired = true then 1 else 0) := by
  induction k with
  | zero =>
      rw [stateAt_zero]
      refine ⟨hx, hy, ht0, ?_, [], by simp, by simp [hf0]⟩
      rw [hf0]
      constructor
      · intro h
        exact absurd h (by simp)
      · rintro ⟨j, u, hj, _⟩
        exact absurd hj (Nat.not_lt_zero j)
  | succ k ih =>
      have hk1 : k < ts.length := hk
      obtain ⟨ihx, ihy, iht, ihf, evs, ihe, ihc⟩ := ih (Nat.le_of_lt hk1)
      have hget : ts[k]? = some ts[k] := List.getElem?_eq_getElem hk1
      have hstep := update_held_step (stateAt s0 ts k) ts[k] (hheld k hk1) (hpoll k _ hget)
      rw [← stateAt_succ s0 ts k _ hget] at hstep
      obtain ⟨sx, sy, st, sfired, sdue, snot⟩ := hstep
      refine ⟨sx.trans ihx, sy.trans ihy, st.trans iht, ?_, ?_⟩
      · cases hf : (stateAt s0 ts k).touch.longPressFired
        · cases hdue : longPressDue (stateAt s0 ts k) ts[k].now
          · rw [(snot hf hdue).1]
            constructor
            · intro h
              exact absurd h (by simp)
            · rintro ⟨j, u, hj, hu, hd⟩
              rcases Nat.lt_succ_iff_lt_or_eq.mp hj with hlt | heq
              · have := ihf.mpr ⟨j, u, hlt, hu, hd⟩
                rw [hf] at this
                exact this
              · subst heq
                rw [hget] at hu
                cases hu
                rw [hdue] at hd
                exact hd
          · rw [(sdue hf hdue).2]
            exact ⟨fun _ => ⟨k, ts[k], Nat.lt_succ_self k, hget, hdue⟩, fun _ => rfl⟩
        · rw [(sfired hf).2]
          obtain ⟨j, u, hj, hu, hd⟩ := ihf.mp hf
          exact ⟨fun _ => ⟨j, u, Nat.lt_succ_of_lt hj, hu, hd⟩, fun _ => rfl⟩
      · cases hf : (stateAt s0 ts k).touch.longPressFired
        · cases hdue : longPressDue (stateAt s0 ts k) ts[k].now
          · obtain ⟨h1, evs1, h2, h3⟩ := snot hf hdue
            refine ⟨evs ++ evs1, by rw [h2, ihe, List.append_assoc], ?_⟩
            rw [List.filter_append, List.length_append, ihc, h3, h1, hf]
            simp
          · obtain ⟨h1, h2⟩ := sdue hf hdue
            refine ⟨evs ++ [_], by rw [h1, ihe, List.append_assoc], ?_⟩
            rw [List.filter_append, List.length_append, ihc, h2, hf]
            simp [isLongPress]
        · obtain ⟨h1, h2⟩ := sfired hf
          refine ⟨evs, by rw [h1, ihe], ?_⟩
          rw [ihc, h2, hf]

/-- C3. Long-press single fire. A contact is put down at `(x, y)` at time `t0`
and then polled by the ticks `ts`, the contact being down when each tick
starts (so only the last tick can release it). Then (1) at most one LongPress
is emitted over the whole run; and for the tick numbered `k`: (2) when the
firing condition (held for 400 ms, stored drift within 35 px) holds at `k` and
held at no earlier tick, that tick emits exactly one event, the LongPress at
the down position with the held duration; (3) when it does not hold at `k`, the
tick emits no LongPress; (4) when it held at an earlier tick, the tick, release
included, emits nothing at all. -/
theorem longPress_fires_once (s : Sys) (x y t0 : Nat) (ts : List Tick)
    (hpoll : ∀ k t, ts[k]? = some t →
      5 ≤ sub32 t.now (stateAt (handleTouchDown s x y t0) ts k).lastUpdate)
    (hheld : ∀ k, k < ts.length →
      (stateAt (handleTouchDown s x y t0) ts k).touch.isDown = true) :
    ((newEvents (handleTouchDown s x y t0)
        (stateAt (handleTouchDown s x y t0) ts ts.length)).filter isLongPress).length ≤ 1
      ∧ ∀ k t, ts[k]? = some t →
          ((longPressDue (stateAt (handleTouchDown s x y t0) ts k) t.now = true
              ∧ (∀ j u, j < k → ts[j]? = some u →
                  longPressDue (stateAt (handleTouchDown s x y t0) ts j) u.now = false)) →
            newEvents (stateAt (handleTouchDown s x y t0) ts k)
                (stateAt (handleTouchDown s x y t0) ts (k + 1))
              = [{ x := x, y := y, gesture := TouchGesture.TOUCH_LONG_PRESS,
                   duration := sub32 t.now t0 }])
          ∧ (longPressDue (stateAt (handleTouchDown s x y t0) ts k) t.now = false →
              (newEvents (stateAt (handleTouchDown s x y t0) ts k)
                (stateAt (handleTouchDown s x y t0) ts (k + 1))).filter isLongPress = [])
          ∧ ((∃ j u, j < k ∧ ts[j]? = some u
                ∧ longPressDue (stateAt (handleTouchDown s x y t0) ts j) u.now = true) →
              newEvents (stateAt (handleTouchDown s x y t0) ts k)
                (stateAt (handleTouchDown s x y t0) ts (k + 1)) = []) := by
  have inv := held_run_invariant (handleTouchDown s x y t0) x y t0 ts rfl rfl rfl rfl
    hpoll hheld
  constructor
  · obtain ⟨_, _, _, _, evs, he, hc⟩ := inv ts.length (Nat.le_refl _)
    rw [newEvents_of_append _ _ evs he, hc]
    split_ifs <;> simp
  · intro k t hkt
    have hk : k < ts.length := by
      rcases Nat.lt_or_ge k ts.length with h | h
      · exact h
      · rw [List.getElem?_eq_none h] at hkt
        cases hkt
    obtain ⟨ihx, ihy, iht, ihf, _⟩ := inv k (Nat.le_of_lt hk)
    have hstep := update_held_step (stateAt (handleTouchDown s x y t0) ts k) t
      (hheld k hk) (hpoll k t hkt)
    rw [← stateAt_succ _ ts k t hkt] at hstep
    obtain ⟨_, _, _, sfired, sdue, snot⟩ := hstep
    refine ⟨?_, ?_, ?_⟩
    · rintro ⟨hdue, hfirst⟩
      have hf : (stateAt (handleTouchDown s x y t0) ts k).touch.longPressFired = false := by
        cases hf : (stateAt (handleTouchDown s x y t0) ts k).touch.longPressFired
        · rfl
        · obtain ⟨j, u, hj, hu, hd⟩ := ihf.mp hf
          rw [hfirst j u hj hu] at hd
          exact absurd hd (by simp)
      have h := (sdue hf hdue).1
      rw [ihx, ihy, iht] at h
      exact newEvents_of_append _ _ _ h
    · intro hdue
      cases hf : (stateAt (handleTouchDown s x y t0) ts k).touch.longPressFired
      · obtain ⟨_, evs, h2, h3⟩ := snot hf hdue
        rw [newEvents_of_append _ _ evs h2]
        exact h3
      · rw [newEvents_of_append _ _ [] (by rw [(sfired hf).1, List.append_nil])]
        rfl
    · intro hearlier
      have hf := ihf.mpr hearlier
      exact newEvents_of_append _ _ [] (by rw [(sfired hf).1, List.append_nil])

theorem longPress_fires_once_witness :
    newEvents (stateAt (handleTouchDown Sys.init 100 100 1000) sampleTicks 1)
        (stateAt (handleTouchDown Sys.init 100 100 1000) sampleTicks 2)
      = [{ x := 100, y := 100, gesture := TouchGesture.TOUCH_LONG_PRESS, duration := 405 }]
    ∧ newEvents (stateAt (handleTouchDown Sys.init 100 100 1000) sampleTicks 3)
        (stateAt (handleTouchDown Sys.init 100 100 1000) sampleTicks 4) = []
    ∧ (stateAt (handleTouchDown Sys.init 100 100 1000) sampleTicks 4).touch.isDown = false := by
  have hpoll : ∀ k t, sampleTicks[k]? = some t →
      5 ≤ sub32 t.now (stateAt (handleTouchDown Sys.init 100 100 1000) sampleTicks k).lastUpdate := by
    intro k t h
    rcases k with _ | _ | _ | _ | k
    · cases h
      decide
    · cases h
      decide
    · cases h
      decide
    · cases h
      decide
    · simp [sampleTicks] at h
  have hheld : ∀ k, k < sampleTicks.length →
      (stateAt (handleTouchDown Sys.init 100 100 1000) sampleTicks k).touch.isDown = true := by
    decide
  have h := longPress_fires_once Sys.init 100 100 1000 sampleTicks hpoll hheld
  refine ⟨?_, ?_, by decide⟩
  · refine (h.2 1 _ rfl).1 ⟨by decide, ?_⟩
    intro j u hj hu
    rcases j with _ | j
    · cases hu
      decide
    · omega
  · exact (h.2 3 _ rfl).2.2 ⟨1, _, by decide, rfl, by decide⟩

end TouchSystem

namespace SubStateSystem

open Arith EyeEmotion

/-! ## The state half of `update`, statistic by statistic -/

theorem allHigh_false_of_lt (k : Stat) (i : Inputs) (h : k.value i < RECOVER_THRESHOLD) :
    allHigh i = false := by
  cases k <;> simp only [Stat.value] at h <;> simp [allHigh] <;> intros <;> omega

theorem recover_lowSince (k : Stat) (g : State) (i : Inputs) :
    k.lowSince (recover g i)
      = if k.value i ≥ RECOVER_THRESHOLD then 0 else k.lowSince g := by
  by_cases h : k.value i ≥ RECOVER_THRESHOLD
  · rw [if_pos h]
    cases k <;> simp only [Stat.value] at h <;>
      simp only [Stat.lowSince, recover, h, if_true] <;> split_ifs <;> rfl
  · rw [if_neg h]
    have ha := allHigh_false_of_lt k i (lt_of_not_ge h)
    cases k <;> simp only [Stat.value] at h <;>
      simp only [Stat.lowSince, recover, h, ha, if_false, Bool.false_eq_true] <;>
      split_ifs <;> rfl

theorem recover_subState (k : Stat) (g : State) (i : Inputs) :
    k.subState (recover g i)
      = if k.value i ≥ RECOVER_THRESHOLD then false else k.subState g := by
  by_cases h : k.value i ≥ RECOVER_THRESHOLD
  · rw [if_pos h]
    cases k <;> simp only [Stat.value] at h <;>
      simp only [Stat.subState, recover, h, if_true] <;> split_ifs <;> rfl
  · rw [if_neg h]
    have ha := allHigh_false_of_lt k i (lt_of_not_ge h)
    cases k <;> simp only [Stat.value] at h <;>
      simp only [Stat.subState, recover, h, ha, if_false, Bool.false_eq_true] <;>
      split_ifs <;> rfl

theorem trackAll_lowSince (k : Stat) (g : State) (i : Inputs) :
    k.lowSince (trackAll g i) = trackLow i.now (k.value i) k.lowThreshold (k.lowSince g) := by
  cases k <;> rfl

theorem trackAll_subState (k : Stat) (g : State) (i : Inputs) :
    k.subState (trackAll g i) = k.subState g := by
  cases k <;> rfl

theorem activate_lowSince (k : Stat) (g : State) (i : Inputs) :
    k.lowSince (activate g i) = k.lowSince g := by
  cases k <;> rfl

theorem activate_subState (k : Stat) (g : State) (i : Inputs) :
    k.subState (activate g i)
      = if !k.subState g && sustainedLow (k.lowSince g) i.now PRIMARY_ACTIVATE_MS
          then true else k.subState g := by
  cases k <;> rfl

theorem depressedRule_lowSince (k : Stat) (g : State) (i : Inputs) :
    k.lowSince (depressedRule g i) = k.lowSince g := by
  unfold depressedRule
  split_ifs <;> cases k <;> rfl

theorem depressedRule_subState (k : Stat) (g : State) (i : Inputs) :
    k.subState (depressedRule g i) = k.subState g := by
  unfold depressedRule
  split_ifs <;> cases k <;> rfl

theorem lowThreshold_le (k : Stat) : k.lowThreshold ≤ 30 := by
  cases k <;> simp [Stat.lowThreshold, LOW_HUNGER, LOW_ENERGY, LOW_MOOD, LOW_CLEANLINESS]

/-- The low-timer of a statistic after one call: `trackLow` applied to the old
timer (a statistic at or above `RECOVER_THRESHOLD` is not below its low
threshold, so the recovery reset changes nothing here). -/
theorem lowSince_updateState (k : Stat) (g : State) (i : Inputs) :
    k.lowSince (updateState g i)
      = trackLow i.now (k.value i) k.lowThreshold (k.lowSince g) := by
  unfold updateState
  rw [depressedRule_lowSince, activate_lowSince, trackAll_lowSince, recover_lowSince]
  have hl := lowThreshold_le k
  unfold trackLow RECOVER_THRESHOLD
  split_ifs <;> first | rfl | omega

/-- The sub-state flag of a statistic after one call: cleared when the
statistic is at or above `RECOVER_THRESHOLD`, else kept, and then set when the
new low-timer has run for `PRIMARY_ACTIVATE_MS`. -/
theorem subState_updateState (k : Stat) (g : State) (i : Inputs) :
    k.subState (updateState g i)
      = ((if k.value i ≥ RECOVER_THRESHOLD then false else k.subState g)
          || sustainedLow (k.lowSince (updateState g i)) i.now PRIMARY_ACTIVATE_MS) := by
  rw [lowSince_updateState]
  unfold updateState
  rw [depressedRule_subState, activate_subState, trackAll_subState, trackAll_lowSince,
    recover_subState, recover_lowSince]
  have hl := lowThreshold_le k
  have ht : trackLow i.now (k.value i) k.lowThreshold
      (if k.value i ≥ RECOVER_THRESHOLD then 0 else k.lowSince g)
      = trackLow i.now (k.value i) k.lowThreshold (k.lowSince g) := by
    unfold trackLow RECOVER_THRESHOLD
    split_ifs <;> first | rfl | omega
  rw [ht]
  cases (if k.value i ≥ RECOVER_THRESHOLD then false else k.subState g) <;>
    cases sustainedLow (trackLow i.now (k.value i) k.lowThreshold (k.lowSince g)) i.now
      PRIMARY_ACTIVATE_MS <;> rfl

/-! ## Runs of `update`: activation and stickiness -/

theorem runUpdates_append (g : State) (l1 l2 : List Inputs) :
    runUpdates g (l1 ++ l2) = runUpdates (runUpdates g l1) l2 := by
  simp [runUpdates, List.foldl_append]

theorem runUpdates_cons (g : State) (c : Inputs) (l : List Inputs) :
    runUpdates g (c :: l) = runUpdates (updateState g c) l := rfl

theorem lowSince_run_le (k : Stat) (U : Nat) (calls : List Inputs) :
    ∀ g : State, k.lowSince g ≤ U → (∀ c ∈ calls, c.now ≤ U) →
      k.lowSince (runUpdates g calls) ≤ U := by
  induction calls with
  | nil => intro g hg _; exact hg
  | cons c l ih =>
      intro g hg hc
      rw [runUpdates_cons]
      apply ih
      · rw [lowSince_updateState]
        have h1 := hc c (List.mem_cons_self c l)
        unfold trackLow
        split_ifs <;> omega
      · intro d hd
        exact hc d (List.mem_cons_of_mem c hd)

theorem lowSince_run_keep (k : Stat) (calls : List Inputs) :
    ∀ g : State, k.lowSince g ≠ 0 → (∀ c ∈ calls, k.value c < k.lowThreshold) →
      k.lowSince (runUpdates g calls) = k.lowSince g := by
  induction calls with
  | nil => intro g _ _; rfl
  | cons c l ih =>
      intro g hg hc
      have h1 := hc c (List.mem_cons_self c l)
      have h2 : k.lowSince (updateState g c) = k.lowSince g := by
        rw [lowSince_updateState]
        unfold trackLow
        rw [if_pos h1, if_neg hg]
      rw [runUpdates_cons, ih (updateState g c) (by rw [h2]; exact hg)
        (fun d hd => hc d (List.mem_cons_of_mem c hd)), h2]

theorem subState_run_sticky (k : Stat) (calls : List Inputs) :
    ∀ g : State, k.subState g = true → (∀ c ∈ calls, k.value c < RECOVER_THRESHOLD) →
      k.subState (runUpdates g calls) = true := by
  induction calls with
  | nil => intro g hg _; exact hg
  | cons c l ih =>
      intro g hg hc
      have h1 := hc c (List.mem_cons_self c l)
      rw [runUpdates_cons]
      apply ih _ _ (fun d hd => hc d (List.mem_cons_of_mem c hd))
      rw [subState_updateState, if_neg (not_le.mpr h1), hg]
      rfl

/-- C5 (amended). Mood activation, for each statistic with its own low
threshold (30 for hunger and mood, 25 for energy and cleanliness): along any
sequence of `update` calls from `begin` with a non-decreasing `uint32_t`
clock, if the statistic is below its low threshold at every call of a span
`a, mid, b` that starts at a non-zero clock value and lasts at least 20000 ms,
then the sub-state it controls is active after the last call of the span, and
it is still active after any further calls at which the statistic is below 80. -/
theorem primary_activation (k : Stat) (pre mid later : List Inputs) (a b : Inputs)
    (hclock : (pre ++ a :: (mid ++ [b])).Pairwise (fun c d => c.now ≤ d.now))
    (hb32 : b.now < 4294967296)
    (ha0 : 0 < a.now)
    (hlow : ∀ c ∈ a :: (mid ++ [b]), k.value c < k.lowThreshold)
    (hspan : a.now + 20000 ≤ b.now)
    (hlater : ∀ c ∈ later, k.value c < RECOVER_THRESHOLD) :
    k.subState (runUpdates begin (pre ++ a :: (mid ++ [b]))) = true
      ∧ k.subState (runUpdates begin ((pre ++ a :: (mid ++ [b])) ++ later)) = true := by
  have hpre : ∀ c ∈ pre, c.now ≤ a.now := by
    intro c hc
    exact (List.pairwise_append.mp hclock).2.2 c hc a (List.mem_cons_self _ _)
  have h0 : k.lowSince (runUpdates begin pre) ≤ a.now :=
    lowSince_run_le k a.now pre begin (by cases k <;> exact Nat.zero_le _) hpre
  -- the timer runs after the first call of the span
  have ha : k.value a < k.lowThreshold := hlow a (List.mem_cons_self _ _)
  have h1 : k.lowSince (updateState (runUpdates begin pre) a) ≠ 0
      ∧ k.lowSince (updateState (runUpdates begin pre) a) ≤ a.now := by
    rw [lowSince_updateState]
    unfold trackLow
    rw [if_pos ha]
    split_ifs <;> constructor <;> omega
  -- it is kept through the middle of the span
  have hmid : ∀ c ∈ mid, k.value c < k.lowThreshold := by
    intro c hc
    exact hlow c (List.mem_cons_of_mem _ (List.mem_append_left _ hc))
  have h2 := lowSince_run_keep k mid (updateState (runUpdates begin pre) a) h1.1 hmid
  -- and has run for the activation time at the last call of the span
  have hb : k.value b < k.lowThreshold :=
    hlow b (List.mem_cons_of_mem _ (List.mem_append_right _ (List.mem_singleton.mpr rfl)))
  have hrun : runUpdates begin (pre ++ a :: (mid ++ [b]))
      = updateState (runUpdates (updateState (runUpdates begin pre) a) mid) b := by
    rw [runUpdates_append, runUpdates_cons, runUpdates_append]
    rfl
  have hact : k.subState (runUpdates begin (pre ++ a :: (mid ++ [b]))) = true := by
    rw [hrun, subState_updateState, lowSince_updateState]
    have h3 : trackLow b.now (k.value b) k.lowThreshold
        (k.lowSince (runUpdates (updateState (runUpdates begin pre) a) mid))
        = k.lowSince (updateState (runUpdates begin pre) a) := by
      unfold trackLow
      rw [if_pos hb, h2, if_neg h1.1]
    rw [h3]
    have h4 : sustainedLow (k.lowSince (updateState (runUpdates begin pre) a)) b.now
        PRIMARY_ACTIVATE_MS = true := by
      unfold sustainedLow PRIMARY_ACTIVATE_MS
      rw [sub32_of_le _ _ (by omega) hb32]
      simp only [bne_iff_ne, ne_eq, Bool.and_eq_true, decide_eq_true_eq]
      exact ⟨h1.1, by omega⟩
    rw [h4, Bool.or_true]
  refine ⟨hact, ?_⟩
  rw [runUpdates_append]
  exact subState_run_sticky k later _ hact hlater

theorem primary_activation_witness :
    Stat.energy.subState (runUpdates begin
        ([sampleCall 500 90 90 90 90] ++ sampleCall 1000 90 20 90 90
          :: ([sampleCall 9000 90 24 90 90] ++ [sampleCall 21000 90 20 90 90]))) = true
      ∧ Stat.energy.subState (runUpdates begin
        (([sampleCall 500 90 90 90 90] ++ sampleCall 1000 90 20 90 90
          :: ([sampleCall 9000 90 24 90 90] ++ [sampleCall 21000 90 20 90 90]))
          ++ [sampleCall 30000 90 60 90 90])) = true :=
  primary_activation Stat.energy [sampleCall 500 90 90 90 90] [sampleCall 9000 90 24 90 90]
    [sampleCall 30000 90 60 90 90] (sampleCall 1000 90 20 90 90) (sampleCall 21000 90 20 90 90)
    (by decide) (by decide) (by decide) (by decide) (by decide) (by decide)

/-- C5 as stated fails: energy held at 27, below 30, at both calls of a span of
20000 ms does not activate `sluggish`, because the low threshold of energy is
25. -/
theorem primary_activation_counterexample :
    (∀ c ∈ [sampleCall 1000 90 27 90 90, sampleCall 21000 90 27 90 90],
        Stat.energy.value c < 30)
      ∧ (sampleCall 1000 90 27 90 90).now + 20000 ≤ (sampleCall 21000 90 27 90 90).now
      ∧ Stat.energy.subState (runUpdates begin
          [sampleCall 1000 90 27 90 90, sampleCall 21000 90 27 90 90]) = false := by
  decide

/-! ## The depressed rule -/

theorem Stat.exists_iff (P : Stat → Prop) :
    (∃ k : Stat, P k) ↔ (P Stat.hunger ∨ P Stat.energy ∨ P Stat.mood ∨ P Stat.cleanliness) := by
  constructor
  · rintro ⟨k, hk⟩
    cases k
    · exact Or.inl hk
    · exact Or.inr (Or.inl hk)
    · exact Or.inr (Or.inr (Or.inl hk))
    · exact Or.inr (Or.inr (Or.inr hk))
  · rintro (h | h | h | h)
    · exact ⟨_, h⟩
    · exact ⟨_, h⟩
    · exact ⟨_, h⟩
    · exact ⟨_, h⟩

theorem allHigh_iff (i : Inputs) :
    allHigh i = true
      ↔ (i.hunger ≥ 80 ∧ i.energy ≥ 80 ∧ i.mood ≥ 80 ∧ i.cleanliness ≥ 80) := by
  simp [allHigh, RECOVER_THRESHOLD, and_assoc]

theorem sustainedLow_iff (since now thr : Nat) :
    sustainedLow since now thr = true ↔ (since ≠ 0 ∧ thr ≤ sub32 now since) := by
  simp [sustainedLow]

theorem count_true_four (a b c d : Bool) :
    (2 ≤ a.toNat + b.toNat + c.toNat + d.toNat) ↔ 2 ≤ [a, b, c, d].count true := by
  cases a <;> cases b <;> cases c <;> cases d <;> decide

/-- The flag written by the depressed rule, in terms of the state it is applied to. -/
theorem depressedRule_sub_depressed (g : State) (i : Inputs) :
    (depressedRule g i).sub_depressed = true
      ↔ (allHigh i = false
          ∧ (2 ≤ [g.sub_irritable, g.sub_sluggish, g.sub_withdrawn, g.sub_uncomfortable].count true
              ∨ ∃ k : Stat, k.lowSince g ≠ 0 ∧ 60000 ≤ sub32 i.now (k.lowSince g))) := by
  rw [Stat.exists_iff, ← count_true_four]
  unfold depressedRule
  cases ha : allHigh i
  · simp only [Bool.not_false, if_true, Bool.or_eq_true, decide_eq_true_eq, sustainedLow_iff,
      DEPRESSED_LONG_MS, Stat.lowSince, true_and, ge_iff_le, or_assoc]
  · simp

theorem depressedRule_fields (g : State) (i : Inputs) :
    (depressedRule g i).sub_irritable = g.sub_irritable
      ∧ (depressedRule g i).sub_sluggish = g.sub_sluggish
      ∧ (depressedRule g i).sub_withdrawn = g.sub_withdrawn
      ∧ (depressedRule g i).sub_uncomfortable = g.sub_uncomfortable := by
  unfold depressedRule
  split_ifs <;> exact ⟨rfl, rfl, rfl, rfl⟩

/-- An active primary sub-state after a call means its statistic is below
`RECOVER_THRESHOLD` at that call. -/
theorem value_lt_of_subState (k : Stat) (g : State) (i : Inputs)
    (h : k.subState (updateState g i) = true) : k.value i < RECOVER_THRESHOLD := by
  by_contra hge
  have hge1 : k.value i ≥ RECOVER_THRESHOLD := not_lt.mp hge
  rw [subState_updateState, lowSince_updateState, if_pos hge1] at h
  have hl := lowThreshold_le k
  have ht : trackLow i.now (k.value i) k.lowThreshold (k.lowSince g) = 0 := by
    unfold trackLow
    unfold RECOVER_THRESHOLD at hge1
    rw [if_neg (by omega)]
  rw [ht] at h
  simp [sustainedLow] at h

/-- C6. After every `update` call `sub_depressed` is true exactly when not all
four statistics are at or above 80 and either at least two primary sub-states
are active or some low-timer is running and has run for at least 60000 ms;
the snapshot carries the same flag; and with irritable and sluggish both
active, depressed is true. -/
theorem depressed_composition (g : State) (out : Snapshot) (i : Inputs) :
    ((update g out i).1.sub_depressed = true
        ↔ (¬ (i.hunger ≥ 80 ∧ i.energy ≥ 80 ∧ i.mood ≥ 80 ∧ i.cleanliness ≥ 80)
            ∧ (2 ≤ [(update g out i).1.sub_irritable, (update g out i).1.sub_sluggish,
                    (update g out i).1.sub_withdrawn,
                    (update g out i).1.sub_uncomfortable].count true
                ∨ ∃ k : Stat, k.lowSince (update g out i).1 ≠ 0
                    ∧ 60000 ≤ sub32 i.now (k.lowSince (update g out i).1))))
      ∧ (update g out i).2.sub_depressed = (update g out i).1.sub_depressed
      ∧ ((update g out i).1.sub_irritable = true → (update g out i).1.sub_sluggish = true →
          (update g out i).1.sub_depressed = true) := by
  have hiff : (updateState g i).sub_depressed = true
      ↔ (¬ (i.hunger ≥ 80 ∧ i.energy ≥ 80 ∧ i.mood ≥ 80 ∧ i.cleanliness ≥ 80)
          ∧ (2 ≤ [(updateState g i).sub_irritable, (updateState g i).sub_sluggish,
                  (updateState g i).sub_withdrawn,
                  (updateState g i).sub_uncomfortable].count true
              ∨ ∃ k : Stat, k.lowSince (updateState g i) ≠ 0
                  ∧ 60000 ≤ sub32 i.now (k.lowSince (updateState g i)))) := by
    have hk : ∀ k : Stat, k.lowSince (updateState g i)
        = k.lowSince (activate (trackAll (recover g i) i) i) := by
      intro k
      unfold updateState
      rw [depressedRule_lowSince]
    obtain ⟨f1, f2, f3, f4⟩ := depressedRule_fields (activate (trackAll (recover g i) i) i) i
    have hd := depressedRule_sub_depressed (activate (trackAll (recover g i) i) i) i
    have e1 : (updateState g i).sub_irritable
        = (activate (trackAll (recover g i) i) i).sub_irritable := f1
    have e2 : (updateState g i).sub_sluggish
        = (activate (trackAll (recover g i) i) i).sub_sluggish := f2
    have e3 : (updateState g i).sub_withdrawn
        = (activate (trackAll (recover g i) i) i).sub_withdrawn := f3
    have e4 : (updateState g i).sub_uncomfortable
        = (activate (trackAll (recover g i) i) i).sub_uncomfortable := f4
    have e5 : (updateState g i).sub_depressed
        = (depressedRule (activate (trackAll (recover g i) i) i) i).sub_depressed := rfl
    rw [e1, e2, e3, e4, e5, hd, ← allHigh_iff, Bool.not_eq_true]
    simp only [hk]
  refine ⟨hiff, rfl, ?_⟩
  intro h1 h2
  apply hiff.mpr
  have hh : Stat.hunger.value i < RECOVER_THRESHOLD :=
    value_lt_of_subState Stat.hunger g i h1
  simp only [Stat.value, RECOVER_THRESHOLD] at hh
  refine ⟨fun h => absurd h.1 (by omega), Or.inl ?_⟩
  have h1a : (updateState g i).sub_irritable = true := h1
  have h2a : (updateState g i).sub_sluggish = true := h2
  show 2 ≤ [(updateState g i).sub_irritable, (updateState g i).sub_sluggish,
    (updateState g i).sub_withdrawn, (updateState g i).sub_uncomfortable].count true
  rw [h1a, h2a]
  cases (updateState g i).sub_withdrawn <;> cases (updateState g i).sub_uncomfortable <;> decide


theorem buildSnapshot_forced (g : State) (i : Inputs) (out : Snapshot) :
    ((buildSnapshot g i out).forced, (buildSnapshot g i out).forceCount)
      = bandFilterForced i
          (calmFilterForced i
            (if !allHigh i then forceByPriority g out.forced 0 else (out.forced, 0)).1
            (if !allHigh i then forceByPriority g out.forced 0 else (out.forced, 0)).2).1
          (calmFilterForced i
            (if !allHigh i then forceByPriority g out.forced 0 else (out.forced, 0)).1
            (if !allHigh i then forceByPriority g out.forced 0 else (out.forced, 0)).2).2 := rfl

theorem range_three : List.range 3 = [0, 1, 2] := rfl
theorem range_one : List.range 1 = [0] := rfl

theorem compactForced_three (skip : EyeEmotion → Bool) (e0 e1 e2 d : EyeEmotion)
    (h0 : skip e0 = false) (h1 : skip e1 = false) (h2 : skip e2 = true) :
    compactForced skip [e0, e1, e2, d] 3 = ([e0, e1, e2, d], 2) := by
  simp [compactForced, range_three, h0, h1, h2]

theorem compactForced_three_last (skip : EyeEmotion → Bool) (e0 e1 e2 d : EyeEmotion)
    (h0 : skip e0 = true) (h1 : skip e1 = true) (h2 : skip e2 = false) :
    compactForced skip [e0, e1, e2, d] 3 = ([e2, e1, e2, d], 1) := by
  simp [compactForced, range_three, h0, h1, h2]

theorem compactForced_one_skip (skip : EyeEmotion → Bool) (e0 e1 e2 d : EyeEmotion)
    (h0 : skip e0 = true) :
    compactForced skip [e0, e1, e2, d] 1 = ([e0, e1, e2, d], 0) := by
  simp [compactForced, range_one, h0]


theorem allAboveCalm_iff (i : Inputs) : allAboveCalm i = true ↔ minStat i > CALM_THRESHOLD := by
  unfold allAboveCalm minStat CALM_THRESHOLD
  simp only [Bool.and_eq_true, decide_eq_true_eq]
  split_ifs <;> constructor <;> intro h <;> (try refine ⟨⟨⟨?_, ?_⟩, ?_⟩, ?_⟩) <;> omega

theorem allow_tired (i : Inputs) : allow i EYE_EMO_TIRED = false := by
  unfold allow
  simp only []
  split_ifs <;> rfl

theorem allow_sad (i : Inputs) (h : ¬ minStat i > CALM_THRESHOLD) :
    allow i EYE_EMO_SAD1 = true ∧ allow i EYE_EMO_SAD2 = true := by
  unfold allow
  simp only [h, decide_False, Bool.false_eq_true, if_false]
  split_ifs <;> exact ⟨rfl, rfl⟩

theorem length_four (l : List EyeEmotion) (h : l.length = 4) :
    ∃ a b c d, l = [a, b, c, d] := by
  match l, h with
  | [a, b, c, d], _ => exact ⟨a, b, c, d, rfl⟩

theorem sub_depressed_allHigh (g : State) (i : Inputs)
    (h : (updateState g i).sub_depressed = true) : allHigh i = false := by
  have e5 : (updateState g i).sub_depressed
      = (depressedRule (activate (trackAll (recover g i) i) i) i).sub_depressed := rfl
  rw [e5, depressedRule_sub_depressed] at h
  exact h.1

/-- What `update` leaves of the forced list of a depressed snapshot: the
priority pass writes `[Sad1, Sad2, Tired]`, the calm pass removes `Sad1` and
`Sad2` when all statistics are above 50, and the band pass removes `Tired` in
every band, so the list is `[Sad1, Sad2]` (`forceCount = 2`) when the smallest
statistic is at most 50 and empty above. -/
theorem depressed_forced_list (g : State) (out : Snapshot) (i : Inputs)
    (hlen : out.forced.length = 4)
    (hdep : (update g out i).2.sub_depressed = true) :
    (update g out i).2.forcedList
        = (if minStat i > 50 then [] else [EYE_EMO_SAD1, EYE_EMO_SAD2])
      ∧ (update g out i).2.forceCount = (if minStat i > 50 then 0 else 2) := by
  have hd : (updateState g i).sub_depressed = true := hdep
  have hah := sub_depressed_allHigh g i hd
  obtain ⟨a, b, c, d, hf⟩ := length_four out.forced hlen
  have hb := buildSnapshot_forced (updateState g i) i out
  have hp : (if !allHigh i then forceByPriority (updateState g i) out.forced 0
      else (out.forced, 0)) = ([EYE_EMO_SAD1, EYE_EMO_SAD2, EYE_EMO_TIRED, d], 3) := by
    rw [hah]
    simp only [Bool.not_false, if_true, forceByPriority, hd, hf]
    rfl
  rw [hp] at hb
  have hfl : (update g out i).2.forcedList
      = List.take (buildSnapshot (updateState g i) i out).forceCount
          (buildSnapshot (updateState g i) i out).forced := rfl
  have hfc : (update g out i).2.forceCount
      = (buildSnapshot (updateState g i) i out).forceCount := rfl
  rw [hfl, hfc]
  have h1 := congrArg Prod.fst hb
  have h2 := congrArg Prod.snd hb
  simp only at h1 h2
  rw [h1, h2]
  by_cases hm : minStat i > CALM_THRESHOLD
  · have hc : allAboveCalm i = true := (allAboveCalm_iff i).mpr hm
    have hm1 : minStat i > 50 := hm
    rw [if_pos hm1, if_pos hm1]
    have e1 : calmFilterForced i [EYE_EMO_SAD1, EYE_EMO_SAD2, EYE_EMO_TIRED, d] 3
        = ([EYE_EMO_TIRED, EYE_EMO_SAD2, EYE_EMO_TIRED, d], 1) := by
      unfold calmFilterForced
      rw [hc]
      simp only [Bool.true_and, decide_eq_true_eq, gt_iff_lt, Nat.ofNat_pos, if_true]
      exact compactForced_three_last _ _ _ _ _ rfl rfl rfl
    rw [e1]
    have e2 : bandFilterForced i [EYE_EMO_TIRED, EYE_EMO_SAD2, EYE_EMO_TIRED, d] 1
        = ([EYE_EMO_TIRED, EYE_EMO_SAD2, EYE_EMO_TIRED, d], 0) := by
      unfold bandFilterForced
      rw [if_pos (by decide)]
      exact compactForced_one_skip _ _ _ _ _ (by rw [allow_tired]; rfl)
    rw [e2]
    exact ⟨rfl, rfl⟩
  · have hc : allAboveCalm i = false := by
      cases h : allAboveCalm i
      · rfl
      · exact absurd ((allAboveCalm_iff i).mp h) hm
    have hm1 : ¬ minStat i > 50 := hm
    rw [if_neg hm1, if_neg hm1]
    have e1 : calmFilterForced i [EYE_EMO_SAD1, EYE_EMO_SAD2, EYE_EMO_TIRED, d] 3
        = ([EYE_EMO_SAD1, EYE_EMO_SAD2, EYE_EMO_TIRED, d], 3) := by
      unfold calmFilterForced
      rw [hc]
      rfl
    rw [e1]
    obtain ⟨s1, s2⟩ := allow_sad i hm
    have e2 : bandFilterForced i [EYE_EMO_SAD1, EYE_EMO_SAD2, EYE_EMO_TIRED, d] 3
        = ([EYE_EMO_SAD1, EYE_EMO_SAD2, EYE_EMO_TIRED, d], 2) := by
      unfold bandFilterForced
      rw [if_pos (by decide)]
      exact compactForced_three _ _ _ _ _ (by rw [s1]; rfl) (by rw [s2]; rfl)
        (by rw [allow_tired]; rfl)
    rw [e2]
    exact ⟨rfl, rfl⟩

theorem depressed_forced_list_witness :
    (update (updateState begin (sampleCall 1000 10 10 60 60)) Snapshot.zero
        (sampleCall 21000 10 10 60 60)).2.forcedList = [EYE_EMO_SAD1, EYE_EMO_SAD2]
      ∧ (update (updateState begin (sampleCall 1000 10 10 60 60)) Snapshot.zero
        (sampleCall 21000 10 10 60 60)).2.forceCount = 2 :=
  depressed_forced_list (updateState begin (sampleCall 1000 10 10 60 60)) Snapshot.zero
    (sampleCall 21000 10 10 60 60) rfl (by decide)

/-- C7 fails on the code. Hunger and energy at 10 for 20000 ms make irritable,
sluggish and depressed active. The priority pass writes
`[Sad1, Sad2, Tired]` with count 3 and the calm pass does not filter `Tired`,
but the array `allow` holds `Tired` in no band, so the band pass removes it:
the forced list of the snapshot is `[Sad1, Sad2]` with `forceCount = 2`. With
energy alone at 10 the snapshot is sluggish, the priority pass writes
`[Tired]`, and the forced list of the snapshot is empty. -/
theorem depressed_forced_list_loses_tired :
    ((update (updateState begin (sampleCall 1000 10 10 60 60)) Snapshot.zero
        (sampleCall 21000 10 10 60 60)).2.sub_depressed = true
      ∧ (forceByPriority
          (updateState (updateState begin (sampleCall 1000 10 10 60 60))
            (sampleCall 21000 10 10 60 60)) Snapshot.zero.forced 0)
          = ([EYE_EMO_SAD1, EYE_EMO_SAD2, EYE_EMO_TIRED, EYE_EMO_IDLE], 3)
      ∧ isCalmFiltered EYE_EMO_TIRED = false
      ∧ allow (sampleCall 21000 10 10 60 60) EYE_EMO_TIRED = false
      ∧ allow (sampleCall 21000 40 40 60 60) EYE_EMO_TIRED = false
      ∧ allow (sampleCall 21000 60 60 60 60) EYE_EMO_TIRED = false
      ∧ (update (updateState begin (sampleCall 1000 10 10 60 60)) Snapshot.zero
          (sampleCall 21000 10 10 60 60)).2.forcedList = [EYE_EMO_SAD1, EYE_EMO_SAD2]
      ∧ (update (updateState begin (sampleCall 1000 10 10 60 60)) Snapshot.zero
          (sampleCall 21000 10 10 60 60)).2.forceCount = 2)
      ∧ ((update (updateState begin (sampleCall 1000 60 10 60 60)) Snapshot.zero
          (sampleCall 21000 60 10 60 60)).2.sub_sluggish = true
        ∧ (forceByPriority
            (updateState (updateState begin (sampleCall 1000 60 10 60 60))
              (sampleCall 21000 60 10 60 60)) Snapshot.zero.forced 0)
            = ([EYE_EMO_TIRED, EYE_EMO_IDLE, EYE_EMO_IDLE, EYE_EMO_IDLE], 1)
        ∧ (update (updateState begin (sampleCall 1000 60 10 60 60)) Snapshot.zero
            (sampleCall 21000 60 10 60 60)).2.forcedList = []) := by
  decide

end SubStateSystem

namespace Display

open EyeEmotion SubStateSystem

/-! ## The weighted idle pick -/

theorem slotStart_zero (l : List IdleBehaviorWeight) : slotStart l 0 = 0 := by
  simp [slotStart]

theorem slotStart_cons_succ (e : IdleBehaviorWeight) (l : List IdleBehaviorWeight) (n : Nat) :
    slotStart (e :: l) (n + 1) = e.weight + slotStart l n := by
  simp [slotStart]

/-- The first loop of the pick, started from `acc`, adds the weights of the
entries it does not skip, as long as the sum stays within `uint16_t`. -/
theorem totalWeightOf_acc (snapshot : Snapshot) (l : List IdleBehaviorWeight) :
    ∀ acc : Nat,
      acc + ((l.filter (fun entry => !skipEntry snapshot entry)).map
          (fun entry => entry.weight)).sum < 65536 →
      l.foldl (fun totalWeight entry =>
          if skipEntry snapshot entry then totalWeight
          else (totalWeight + entry.weight) % 65536) acc
        = acc + ((l.filter (fun entry => !skipEntry snapshot entry)).map
            (fun entry => entry.weight)).sum := by
  induction l with
  | nil => intro acc _; simp
  | cons e l ih =>
      intro acc h
      by_cases hs : skipEntry snapshot e = true
      · simp only [List.foldl_cons, hs, if_true, Bool.not_true, Bool.false_eq_true,
          not_false_eq_true, List.filter_cons_of_neg] at h ⊢
        exact ih acc h
      · have hs1 : skipEntry snapshot e = false := by simpa using hs
        simp only [List.foldl_cons, hs1, Bool.false_eq_true, if_false, Bool.not_false,
          List.filter_cons_of_pos, List.map_cons, List.sum_cons] at h ⊢
        rw [Nat.mod_eq_of_lt (by omega), ih (acc + e.weight) (by omega)]
        omega

theorem pickLoop_slot (snapshot : Snapshot) (l : List IdleBehaviorWeight) :
    ∀ (roll n : Nat) (entry : IdleBehaviorWeight),
      (l.filter (fun entry => !skipEntry snapshot entry))[n]? = some entry →
      slotStart (l.filter (fun entry => !skipEntry snapshot entry)) n ≤ roll →
      roll < slotStart (l.filter (fun entry => !skipEntry snapshot entry)) n + entry.weight →
      roll < 65536 →
      pickLoop snapshot l roll = entry.type := by
  induction l with
  | nil =>
      intro roll n entry h
      simp at h
  | cons e l ih =>
      intro roll n entry h h1 h2 h3
      by_cases hs : skipEntry snapshot e = true
      · simp only [hs, Bool.not_true, Bool.false_eq_true, not_false_eq_true,
          List.filter_cons_of_neg] at h h1 h2
        simp only [pickLoop, hs, if_true]
        exact ih roll n entry h h1 h2 h3
      · have hs1 : skipEntry snapshot e = false := by simpa using hs
        simp only [hs1, Bool.not_false, List.filter_cons_of_pos] at h h1 h2
        simp only [pickLoop, hs1, Bool.false_eq_true, if_false]
        cases n with
        | zero =>
            simp only [List.getElem?_cons_zero, Option.some.injEq] at h
            subst h
            rw [slotStart_zero] at h2
            rw [if_pos (by omega)]
        | succ n =>
            simp only [List.getElem?_cons_succ] at h
            rw [slotStart_cons_succ] at h1 h2
            rw [if_neg (by omega), Nat.mod_eq_of_lt (by omega)]
            exact ih (roll - e.weight) n entry h (by omega) (by omega) (by omega)

theorem exists_slot (l : List IdleBehaviorWeight) :
    ∀ roll : Nat, roll < (l.map (fun entry => entry.weight)).sum → ∃ n, InSlot l n roll := by
  induction l with
  | nil =>
      intro roll h
      simp at h
  | cons e l ih =>
      intro roll h
      simp only [List.map_cons, List.sum_cons] at h
      by_cases hlt : roll < e.weight
      · exact ⟨0, e, by simp, by rw [slotStart_zero]; omega, by rw [slotStart_zero]; omega⟩
      · obtain ⟨n, entry, h1, h2, h3⟩ := ih (roll - e.weight) (by omega)
        refine ⟨n + 1, entry, by simpa using h1, ?_, ?_⟩
        · rw [slotStart_cons_succ]; omega
        · rw [slotStart_cons_succ]; omega

theorem slot_unique (l : List IdleBehaviorWeight) :
    ∀ (roll m n : Nat), InSlot l m roll → InSlot l n roll → m = n := by
  induction l with
  | nil =>
      rintro roll m n ⟨entry, h, _⟩
      simp at h
  | cons e l ih =>
      rintro roll m n ⟨e1, a1, a2, a3⟩ ⟨e2, b1, b2, b3⟩
      cases m with
      | zero =>
          cases n with
          | zero => rfl
          | succ n =>
              simp only [List.getElem?_cons_zero, Option.some.injEq] at a1
              subst a1
              rw [slotStart_zero] at a3
              rw [slotStart_cons_succ] at b2
              omega
      | succ m =>
          cases n with
          | zero =>
              simp only [List.getElem?_cons_zero, Option.some.injEq] at b1
              subst b1
              rw [slotStart_zero] at b3
              rw [slotStart_cons_succ] at a2
              omega
          | succ n =>
              simp only [List.getElem?_cons_succ] at a1 b1
              rw [slotStart_cons_succ] at a2 a3 b2 b3
              have := ih (roll - e.weight) m n ⟨e1, a1, by omega, by omega⟩
                ⟨e2, b1, by omega, by omega⟩
              omega

theorem filter_weight_sum_le (p : IdleBehaviorWeight → Bool) (l : List IdleBehaviorWeight) :
    ((l.filter p).map (fun entry => entry.weight)).sum
      ≤ (l.map (fun entry => entry.weight)).sum := by
  induction l with
  | nil => simp
  | cons e l ih =>
      by_cases hp : p e = true
      · simp only [List.filter_cons_of_pos hp, List.map_cons, List.sum_cons]
        omega
      · simp only [List.filter_cons_of_neg hp, List.map_cons, List.sum_cons]
        omega

theorem eligible_sum_le (snapshot : Snapshot) :
    ((eligible snapshot).map (fun entry => entry.weight)).sum ≤ 44 := by
  have h := filter_weight_sum_le (fun entry => !skipEntry snapshot entry) kIdleBehaviorWeights
  have h44 : (kIdleBehaviorWeights.map (fun entry => entry.weight)).sum = 44 := by decide
  rw [h44] at h
  exact h

theorem not_suppressed_of_depressed (snapshot : Snapshot) (t : IdleStateType)
    (hd : snapshot.sub_depressed = true) (h : IdleBehavior_isSuppressed t snapshot = false) :
    t ≠ IdleStateType.HappyBounce ∧ t ≠ IdleStateType.Excited1
      ∧ t ≠ IdleStateType.Giggle ∧ t ≠ IdleStateType.Judging := by
  unfold IdleBehavior_isSuppressed at h
  rw [hd] at h
  cases t <;> simp at h <;> simp

/-- C8. For every mood snapshot and every roll below the total eligible weight:
the total computed by the first loop is the sum of the eligible weights, and
`IdleBehavior_pickWeighted` returns the type of the one eligible entry (in
table order) whose cumulative-weight interval contains the roll; that entry
has non-zero weight and is not mood-suppressed; and while `sub_depressed`
holds the result is none of HappyBounce, Excited1, Giggle, Judging. -/
theorem pickWeighted_slot (snapshot : Snapshot) (r : Nat)
    (hr : r < ((eligible snapshot).map (fun entry => entry.weight)).sum) :
    totalWeightOf snapshot kIdleBehaviorWeights
        = ((eligible snapshot).map (fun entry => entry.weight)).sum
      ∧ (∃ n entry, (eligible snapshot)[n]? = some entry
          ∧ slotStart (eligible snapshot) n ≤ r
          ∧ r < slotStart (eligible snapshot) n + entry.weight
          ∧ IdleBehavior_pickWeighted snapshot r = entry.type
          ∧ (∀ m, InSlot (eligible snapshot) m r → m = n)
          ∧ entry.weight ≠ 0
          ∧ IdleBehavior_isSuppressed entry.type snapshot = false)
      ∧ (snapshot.sub_depressed = true →
          IdleBehavior_pickWeighted snapshot r ≠ IdleStateType.HappyBounce
            ∧ IdleBehavior_pickWeighted snapshot r ≠ IdleStateType.Excited1
            ∧ IdleBehavior_pickWeighted snapshot r ≠ IdleStateType.Giggle
            ∧ IdleBehavior_pickWeighted snapshot r ≠ IdleStateType.Judging) := by
  have hle := eligible_sum_le snapshot
  have htot : totalWeightOf snapshot kIdleBehaviorWeights
      = ((eligible snapshot).map (fun entry => entry.weight)).sum := by
    have h := totalWeightOf_acc snapshot kIdleBehaviorWeights 0
      (by rw [Nat.zero_add]; exact Nat.lt_of_le_of_lt hle (by decide))
    rw [Nat.zero_add] at h
    exact h
  obtain ⟨n, entry, h1, h2, h3⟩ := exists_slot (eligible snapshot) r hr
  have hpick : IdleBehavior_pickWeighted snapshot r = entry.type := by
    unfold IdleBehavior_pickWeighted
    simp only []
    rw [htot, if_neg (by omega), Nat.mod_eq_of_lt (by omega)]
    exact pickLoop_slot snapshot kIdleBehaviorWeights r n entry h1 h2 h3 (by omega)
  have hmem : entry ∈ eligible snapshot := List.getElem?_mem h1
  have hskip : skipEntry snapshot entry = false := by
    have := (List.mem_filter.mp hmem).2
    simpa using this
  have hw : entry.weight ≠ 0 ∧ IdleBehavior_isSuppressed entry.type snapshot = false := by
    unfold skipEntry at hskip
    simpa using hskip
  refine ⟨htot, ⟨n, entry, h1, h2, h3, hpick, ?_, hw.1, hw.2⟩, ?_⟩
  · intro m hm
    exact slot_unique (eligible snapshot) r m n hm ⟨entry, h1, h2, h3⟩
  · intro hd
    rw [hpick]
    exact not_suppressed_of_depressed snapshot entry.type hd hw.2

theorem pickWeighted_slot_witness :
    IdleBehavior_pickWeighted depressedSnapshot 11 ≠ IdleStateType.HappyBounce
      ∧ IdleBehavior_pickWeighted depressedSnapshot 11 ≠ IdleStateType.Excited1
      ∧ IdleBehavior_pickWeighted depressedSnapshot 11 ≠ IdleStateType.Giggle
      ∧ IdleBehavior_pickWeighted depressedSnapshot 11 ≠ IdleStateType.Judging :=
  (pickWeighted_slot depressedSnapshot 11 (by decide)).2.2 (by decide)

/-! ## The emotion pick and the level gate -/

/-- What the level gate of `update` does hold: an emotion whose feature is
locked at the level of the call is marked suppressed in the snapshot. -/
theorem levelGate_marks_suppressed (g : State) (out : Snapshot) (i : Inputs) :
    (LevelSystem.isUnlocked i.level LevelSystem.FeatureID.EMO_EXCITED = false →
        (SubStateSystem.update g out i).2.suppress EYE_EMO_EXCITED = true)
      ∧ (LevelSystem.isUnlocked i.level LevelSystem.FeatureID.EMO_ANGRY1 = false →
        (SubStateSystem.update g out i).2.suppress EYE_EMO_ANGRY1 = true)
      ∧ (LevelSystem.isUnlocked i.level LevelSystem.FeatureID.EMO_LOVE = false →
        (SubStateSystem.update g out i).2.suppress EYE_EMO_LOVE = true)
      ∧ (LevelSystem.isUnlocked i.level LevelSystem.FeatureID.EMO_SAD1 = false →
        (SubStateSystem.update g out i).2.suppress EYE_EMO_SAD1 = true)
      ∧ (LevelSystem.isUnlocked i.level LevelSystem.FeatureID.EMO_HAPPY1 = false →
        (SubStateSystem.update g out i).2.suppress EYE_EMO_HAPPY1 = true) := by
  have hsup : ∃ sup : EyeEmotion → Bool,
      (SubStateSystem.update g out i).2.suppress = levelSuppress i.level sup :=
    ⟨_, rfl⟩
  obtain ⟨sup, he⟩ := hsup
  rw [he]
  unfold levelSuppress
  refine ⟨?_, ?_, ?_, ?_, ?_⟩ <;> intro h <;> simp only [h] <;> split_ifs <;>
    simp_all [setTrue]

theorem emotionLoop_weight (tw : EyeEmotion → Nat) (l : List EyeEmotion) :
    ∀ r : Nat, emotionLoop tw l r = EYE_EMO_IDLE ∨ 0 < tw (emotionLoop tw l r) := by
  induction l with
  | nil => intro r; exact Or.inl rfl
  | cons e l ih =>
      intro r
      unfold emotionLoop
      by_cases h : r < tw e
      · rw [if_pos h]
        exact Or.inr (by omega)
      · rw [if_neg h]
        exact ih (r - tw e)

/-- What the picker does hold: with an empty forced list it returns no
suppressed emotion other than its fallback Idle. -/
theorem weighted_path_respects_suppress (ss : Snapshot) (weights : EyeEmotion → Nat)
    (forceIdx r : Nat) (h0 : ss.forceCount = 0) :
    (Emotion_pickAllowedWeighted ss weights forceIdx r).1 = EYE_EMO_IDLE
      ∨ ss.suppress (Emotion_pickAllowedWeighted ss weights forceIdx r).1 = false := by
  unfold Emotion_pickAllowedWeighted
  rw [if_neg (by omega)]
  simp only []
  split_ifs with ht
  · exact Or.inl rfl
  · rcases emotionLoop_weight (fun e => if ss.suppress e = true then 0 else weights e)
      EyeEmotion.all r with h | h
    · exact Or.inl h
    · right
      by_contra hc
      simp only [Bool.not_eq_false] at hc
      rw [if_pos hc] at h
      exact absurd h (Nat.lt_irrefl 0)

/-- C9 fails on the code. At level 1 (Angry1 unlocks at level 4) with hunger at
10 for 20 s, `update` marks Angry1 suppressed but also leaves it as the forced
list, and `Emotion_pickAllowedWeighted` returns it whatever the weights, the
stored index and the random value are. -/
theorem locked_emotion_is_picked :
    LevelSystem.isUnlocked 1 LevelSystem.FeatureID.EMO_ANGRY1 = false
      ∧ irritableSnapshot.suppress EYE_EMO_ANGRY1 = true
      ∧ irritableSnapshot.forcedList = [EYE_EMO_ANGRY1]
      ∧ ∀ (weights : EyeEmotion → Nat) (forceIdx r : Nat),
          (Emotion_pickAllowedWeighted irritableSnapshot weights forceIdx r).1
            = EYE_EMO_ANGRY1 := by
  refine ⟨by decide, by decide, by decide, ?_⟩
  intro weights forceIdx r
  have hc : irritableSnapshot.forceCount = 1 := by decide
  have hf : irritableSnapshot.forced
      = [EYE_EMO_ANGRY1, EYE_EMO_IDLE, EYE_EMO_IDLE, EYE_EMO_IDLE] := by decide
  unfold Emotion_pickAllowedWeighted
  rw [hc, hf]
  simp only [gt_iff_lt, Nat.lt_one_iff, Nat.pos_of_ne_zero, if_true, ge_iff_le]
  split_ifs <;> first | rfl | (have : forceIdx = 0 := by omega) ; subst this ; rfl

/-! ## The idle scheduler -/

/-- What `IdleLook_update` does hold: the idle-behaviour slot is unchanged when
a behaviour is already active, or the layer is neither Closed nor Level, or a
game is running, or an emotion is active, or the look is not both active and
at its destination. -/
theorem IdleLook_update_keeps_slot (w : IdleWorld) (nowMs : Nat) (inp : IdleInputs)
    (h : w.idleState.active = true
      ∨ (inp.menuState ≠ MenuSystem.MenuState.MENU_CLOSED
          ∧ inp.menuState ≠ MenuSystem.MenuState.MENU_LEVEL_OPEN)
      ∨ inp.gameRunning = true
      ∨ Emotion_isActive w.emotionState inp.millisNow = true
      ∨ ¬ (w.idleLook.active = true ∧ IdleLook_reachedDestination w.gMotion = true)) :
    (IdleLook_update w nowMs inp).idleState = w.idleState := by
  unfold IdleLook_update
  simp only []
  by_cases h1 : w.idleState.active = true
  · rw [if_pos h1]
  rw [if_neg h1]
  by_cases h2 : idleBlocked w inp = true
  · rw [if_pos h2]
  rw [if_neg h2]
  by_cases h3 : (Emotion_isActive w.emotionState inp.millisNow
      || Emotion_isReady w.emotionState nowMs inp.millisReady) = true
  · rw [if_pos h3]
    split_ifs <;> rfl
  rw [if_neg h3]
  by_cases h4 : (!w.idleLook.active) = true
  · rw [if_pos h4]
    split_ifs <;> rfl
  rw [if_neg h4]
  by_cases h5 : IdleLook_reachedDestination w.gMotion = true
  · exfalso
    rcases h with h | h | h | h | h
    · exact h1 h
    · apply h2
      obtain ⟨ha, hb⟩ := h
      unfold idleBlocked
      cases hm : inp.menuState <;> simp_all [MenuSystem.isOpen, MenuSystem.isFeeding,
        MenuSystem.isConnectOpen, MenuSystem.isMessageOpen, MenuSystem.isBatteryOpen,
        MenuSystem.isStatsOpen, MenuSystem.isOptionsOpen, MenuSystem.isGamesOpen,
        MenuSystem.isGameActive]
    · apply h2
      unfold idleBlocked
      simp [h]
    · apply h3
      simp [h]
    · apply h
      refine ⟨?_, h5⟩
      simpa using h4
  · rw [if_neg h5]

/-- C10 fails on the code. On the Level screen (`MENU_LEVEL_OPEN`), with no
behaviour in the slot, no emotion active or due, and the look at its
destination, `IdleLook_update` picks a new behaviour and marks the slot active:
its `menuOpen` test lists every other menu layer but not `isLevelOpen`. -/
theorem idle_pick_on_level_screen :
    levelScreenInputs.menuState = MenuSystem.MenuState.MENU_LEVEL_OPEN
      ∧ levelScreenWorld.idleState.active = false
      ∧ (IdleLook_update levelScreenWorld 50000 levelScreenInputs).idleState
          = { type := IdleStateType.Blink, active := true, startMs := 50000,
              durationMs := 220 } := by
  refine ⟨rfl, rfl, ?_⟩
  have h1 : levelScreenWorld.idleState.active = false := rfl
  have h2 : idleBlocked levelScreenWorld levelScreenInputs = false := by decide
  have h3 : (Emotion_isActive levelScreenWorld.emotionState levelScreenInputs.millisNow
      || Emotion_isReady levelScreenWorld.emotionState 50000 levelScreenInputs.millisReady)
      = false := by decide
  have h4 : (!levelScreenWorld.idleLook.active) = false := rfl
  have h5 : IdleLook_reachedDestination levelScreenWorld.gMotion = true := by
    simp [IdleLook_reachedDestination, levelScreenWorld]
  have h6 : IdleBehavior_pickWeighted levelScreenWorld.subState levelScreenInputs.rRoll
      = IdleStateType.Blink := by decide
  unfold IdleLook_update
  simp only [h1, h2, h3, h4, h5, h6, Bool.false_eq_true, if_false, if_true]
  decide

end Display

namespace Arith

theorem i32_of_range (n : Int) (h1 : -2147483648 ≤ n) (h2 : n < 2147483648) : i32 n = n := by
  unfold i32
  split_ifs with h <;> omega

end Arith

namespace LevelSystem

theorem checkLevelUpLoop_of_lt (level xp : Int) (h : xp < xpForLevel level) :
    checkLevelUpLoop level xp = (level, xp) := by
  rw [checkLevelUpLoop, if_neg (by omega)]

theorem xpForLevel_one : xpForLevel 1 = 75 := by decide

end LevelSystem

namespace CareSystem

open Arith

/-! ## The range of the statistics -/

theorem clampStat_range (v : Int) : 0 ≤ clampStat v ∧ clampStat v ≤ 100 := by
  unfold clampStat STAT_MIN STAT_MAX
  split_ifs <;> omega

theorem clampStat_eq (v : Int) : clampStat v = max 0 (min 100 v) := by
  unfold clampStat STAT_MIN STAT_MAX
  split_ifs <;> omega

theorem clampStat_of_range (v : Int) (h : 0 ≤ v ∧ v ≤ 100) : clampStat v = v := by
  unfold clampStat STAT_MIN STAT_MAX
  split_ifs <;> omega

theorem inRange_applySnapshot (s : State) (b : Bool) : InRange (applySnapshot s b) := by
  unfold applySnapshot InRange
  split_ifs <;> dsimp only <;>
    exact ⟨clampStat_range _, clampStat_range _, clampStat_range _, clampStat_range _⟩

theorem inRange_saveSnapshot (s : State) (h : InRange s) : InRange (saveSnapshot s) := by
  unfold saveSnapshot
  split_ifs
  · exact h
  · exact h

theorem inRange_applyDecay (s : State) (minutes : Nat) (h : InRange s) :
    InRange (applyDecay s minutes) := by
  unfold applyDecay
  split_ifs
  · exact h
  · unfold InRange
    dsimp only
    exact ⟨clampStat_range _, clampStat_range _, clampStat_range _, clampStat_range _⟩

theorem inRange_begin (s : State) (prefsOk : Bool) (now : Nat) :
    InRange (begin s prefsOk now) := by
  have key : ∀ t : State, InRange t →
      InRange { t with lastDecayMs := now, hungerAccMin := 0, moodAccMin := 0,
                       energyAccMin := 0, cleanAccMin := 0, lastSaveMs := now } :=
    fun t ht => ht
  unfold begin
  apply key
  dsimp only
  split_ifs
  · exact inRange_applySnapshot _ _
  · exact inRange_saveSnapshot _ (inRange_applySnapshot _ _)
  · unfold InRange DEFAULT_STAT_VALUE
    simp

theorem inRange_update (s : State) (now : Nat) (h : InRange s) : InRange (update s now) := by
  unfold update
  split_ifs
  · exact h
  · exact h
  · unfold updateSave
    have hd : InRange (updateDecay s now) := by
      unfold updateDecay
      split_ifs
      · exact inRange_applyDecay _ _ h
      · exact h
    split_ifs
    · exact inRange_saveSnapshot _ hd
    · exact hd

theorem inRange_setDecaySuspended (s : State) (b : Bool) (now : Nat) (h : InRange s) :
    InRange (setDecaySuspended s b now) := by
  unfold setDecaySuspended
  split_ifs
  · exact h
  · exact h

theorem inRange_step (w : World) (c : Call) (h : InRange w.care) : InRange (step w c).care := by
  obtain ⟨hh, hm, he, hc⟩ := h
  cases c with
  | begin prefsOk now => exact inRange_begin _ _ _
  | update now => exact inRange_update _ _ ⟨hh, hm, he, hc⟩
  | setDecaySuspended b now => exact inRange_setDecaySuspended _ _ _ ⟨hh, hm, he, hc⟩
  | addHunger v => exact ⟨clampStat_range _, hm, he, hc⟩
  | addMood v => exact ⟨hh, clampStat_range _, he, hc⟩
  | addEnergy v => exact ⟨hh, hm, clampStat_range _, hc⟩
  | addCleanliness v => exact ⟨hh, hm, he, clampStat_range _⟩

theorem inRange_run (w : World) (calls : List Call) (h : InRange w.care) :
    InRange (run w calls).care := by
  induction calls generalizing w with
  | nil => exact h
  | cons c cs ih => exact ih (step w c) (inRange_step w c h)

theorem inRange_init (prefs : Prefs) (nl nx : Option Int) :
    InRange (World.init prefs nl nx).care := by
  unfold InRange World.init State.init
  simp

/-- C19: in every reachable state of the care unit each statistic is within
`0..100` (so is what each getter returns); each `add*` sets its statistic to
the old value plus the delta clamped to `0..100` whenever that sum fits an
`int`; snapshot loading sets each statistic to the clamped stored value (or
the clamped default), and decay to the clamped decayed value. -/
theorem stats_stay_in_range (w : World) (v : Int) (minutes : Nat) (hr : Reachable w)
    (hh : -2147483648 ≤ w.care.hunger + v ∧ w.care.hunger + v < 2147483648)
    (hm : -2147483648 ≤ w.care.mood + v ∧ w.care.mood + v < 2147483648)
    (he : -2147483648 ≤ w.care.energy + v ∧ w.care.energy + v < 2147483648)
    (hc : -2147483648 ≤ w.care.cleanliness + v ∧ w.care.cleanliness + v < 2147483648)
    (hmin : minutes ≠ 0) :
    InRange w.care ∧
    (0 ≤ getHunger w ∧ getHunger w ≤ 100) ∧ (0 ≤ getMood w ∧ getMood w ≤ 100) ∧
    (0 ≤ getEnergy w ∧ getEnergy w ≤ 100) ∧
    (0 ≤ getCleanliness w ∧ getCleanliness w ≤ 100) ∧
    (addHunger w v).care.hunger = max 0 (min 100 (w.care.hunger + v)) ∧
    (addMood w v).care.mood = max 0 (min 100 (w.care.mood + v)) ∧
    (addEnergy w v).care.energy = max 0 (min 100 (w.care.energy + v)) ∧
    (addCleanliness w v).care.cleanliness = max 0 (min 100 (w.care.cleanliness + v)) ∧
    InRange (addHunger w v).care ∧ InRange (addMood w v).care ∧
    InRange (addEnergy w v).care ∧ InRange (addCleanliness w v).care ∧
    (applySnapshot w.care true).hunger = max 0 (min 100 (w.care.prefs.h.getD 30)) ∧
    (applySnapshot w.care true).mood = max 0 (min 100 (w.care.prefs.m.getD 30)) ∧
    (applySnapshot w.care true).energy = max 0 (min 100 (w.care.prefs.e.getD 30)) ∧
    (applySnapshot w.care true).cleanliness = max 0 (min 100 (w.care.prefs.c.getD 30)) ∧
    (applySnapshot w.care false).hunger = 30 ∧ (applySnapshot w.care false).mood = 30 ∧
    (applySnapshot w.care false).energy = 30 ∧
    (applySnapshot w.care false).cleanliness = 30 ∧
    (applyDecay w.care minutes).hunger
      = max 0 (min 100 (decayValue 6 w.care.hunger w.care.hungerAccMin minutes)) ∧
    (applyDecay w.care minutes).mood
      = max 0 (min 100 (decayValue 8 w.care.mood w.care.moodAccMin minutes)) ∧
    (applyDecay w.care minutes).energy
      = max 0 (min 100 (decayValue 5 w.care.energy w.care.energyAccMin minutes)) ∧
    (applyDecay w.care minutes).cleanliness
      = max 0 (min 100 (decayValue 10 w.care.cleanliness w.care.cleanAccMin minutes)) := by
  obtain ⟨prefs, nl, nx, calls, rfl⟩ := hr
  have hin := inRange_run (World.init prefs nl nx) calls (inRange_init prefs nl nx)
  refine ⟨hin, hin.1, hin.2.1, hin.2.2.1, hin.2.2.2, ?_, ?_, ?_, ?_,
    inRange_step _ (Call.addHunger v) hin, inRange_step _ (Call.addMood v) hin,
    inRange_step _ (Call.addEnergy v) hin, inRange_step _ (Call.addCleanliness v) hin,
    ?_, ?_, ?_, ?_, ?_, ?_, ?_, ?_, ?_, ?_, ?_, ?_⟩
  · show clampStat (i32 _) = _
    rw [i32_of_range _ hh.1 hh.2, clampStat_eq]
  · show clampStat (i32 _) = _
    rw [i32_of_range _ hm.1 hm.2, clampStat_eq]
  · show clampStat (i32 _) = _
    rw [i32_of_range _ he.1 he.2, clampStat_eq]
  · show clampStat (i32 _) = _
    rw [i32_of_range _ hc.1 hc.2, clampStat_eq]
  · exact clampStat_eq _
  · exact clampStat_eq _
  · exact clampStat_eq _
  · exact clampStat_eq _
  · exact clampStat_of_range 30 (by omega)
  · exact clampStat_of_range 30 (by omega)
  · exact clampStat_of_range 30 (by omega)
  · exact clampStat_of_range 30 (by omega)
  · unfold applyDecay
    rw [if_neg hmin]
    exact clampStat_eq _
  · unfold applyDecay
    rw [if_neg hmin]
    exact clampStat_eq _
  · unfold applyDecay
    rw [if_neg hmin]
    exact clampStat_eq _
  · unfold applyDecay
    rw [if_neg hmin]
    exact clampStat_eq _

/-- Witness for `stats_stay_in_range`: after `begin` with a stored snapshot
and one `addMood 500`, adding 7 to each statistic and decaying by 13 minutes. -/
theorem stats_stay_in_range_witness :
    (run (World.init { has := true, h := some 250, m := some (-4), e := some 55, c := none }
        none none) [Call.begin true 1000, Call.addMood 500]).care.hunger = 100 ∧
    (addMood (run (World.init
        { has := true, h := some 250, m := some (-4), e := some 55, c := none }
        none none) [Call.begin true 1000, Call.addMood 500]) 7).care.mood
      = max 0 (min 100 ((run (World.init
        { has := true, h := some 250, m := some (-4), e := some 55, c := none }
        none none) [Call.begin true 1000, Call.addMood 500]).care.mood + 7)) :=
  ⟨by decide,
   (stats_stay_in_range
      (run (World.init { has := true, h := some 250, m := some (-4), e := some 55, c := none }
        none none) [Call.begin true 1000, Call.addMood 500]) 7 13
      ⟨_, _, _, _, rfl⟩ (by decide) (by decide) (by decide) (by decide)
      (by decide)).2.2.2.2.2.2.1⟩

end CareSystem

namespace EyeGame

open Arith

/-! ## Backing out of a running game -/

theorem threeHits_game : threeHits.game.running = true ∧ threeHits.game.score = 3 ∧
    threeHits.game.rewardStat = CareSystem.StatId.STAT_MOOD ∧
    threeHits.game.cfg.rewardPerHit = 5 := by
  decide

theorem threeHits_care : threeHits.cw.care.mood = 30 ∧ threeHits.cw.care.hunger = 30 ∧
    threeHits.cw.care.energy = 30 ∧ threeHits.cw.care.cleanliness = 30 ∧
    threeHits.cw.level.currentXP = 0 ∧ threeHits.cw.level.currentLevel = 1 := by
  decide

theorem addXP_one_fresh :
    LevelSystem.addXP (LevelSystem.State.init none none) 1
      = { currentLevel := 1, currentXP := 1, nvsLevel := some 1, nvsXP := some 1 } := by
  have h : Arith.i32 1 = 1 := by decide
  have hl := LevelSystem.checkLevelUpLoop_of_lt 1 1
    (by rw [LevelSystem.xpForLevel_one]; decide)
  simp [LevelSystem.addXP, LevelSystem.checkLevelUp, LevelSystem.saveState,
    LevelSystem.State.init, h, hl]

theorem stop_threeHits_level :
    (stop threeHits).cw.level = LevelSystem.addXP (LevelSystem.State.init none none) 1 := by
  rfl

/-- A running game is stopped by rewarding the points scored so far. -/
theorem stop_of_running (w : World) (h : w.game.running = true) :
    (stop w).cw = (applyReward w).cw ∧ (stop w).game.running = false := by
  unfold stop
  rw [h]
  exact ⟨rfl, rfl⟩

/-- With no point scored, `stop` changes neither the statistics nor the level. -/
theorem stop_without_score (w : World) (h : w.game.score = 0) : (stop w).cw = w.cw := by
  unfold stop
  split_ifs
  · rfl
  · unfold applyReward
    rw [h]
    simp

/-- C20, at a failing input: `stop` on a running game with three hits on the
mood statistic (mood 30, level 1 with no experience) ends the game, and it
adds the reward of 15 to mood and one point of experience; the other three
statistics are unchanged. -/
theorem stop_applies_reward :
    threeHits.game.running = true ∧ threeHits.game.score = 3 ∧
    threeHits.cw.care.mood = 30 ∧ threeHits.cw.level.currentXP = 0 ∧
    (stop threeHits).game.running = false ∧
    (stop threeHits).cw.care.mood = 45 ∧
    (stop threeHits).cw.level.currentXP = 1 ∧
    (stop threeHits).cw.care.hunger = 30 ∧ (stop threeHits).cw.care.energy = 30 ∧
    (stop threeHits).cw.care.cleanliness = 30 := by
  refine ⟨by decide, by decide, by decide, by decide, by decide, by decide, ?_,
    by decide, by decide, by decide⟩
  rw [stop_threeHits_level, addXP_one_fresh]

end EyeGame

namespace MenuSystem

open MenuState MenuItem

/-! ## Actions called in the wrong layer -/

/-- C18: a layer-specific action called while another layer is active changes
nothing: the whole state of the menu unit, hence the layer, the selected item,
the stat index and the four care statistics, is as before, and
`handleConnectTap` returns false. -/
theorem misuse_is_noop (a : Action) (m : State) (i : Inputs)
    (h : m.currentState ≠ a.layer) :
    Action.run m i a = m ∧
    (Action.run m i a).currentState = m.currentState ∧
    (Action.run m i a).selectedItem = m.selectedItem ∧
    (Action.run m i a).statIndex = m.statIndex ∧
    (Action.run m i a).gw.cw.care.hunger = m.gw.cw.care.hunger ∧
    (Action.run m i a).gw.cw.care.mood = m.gw.cw.care.mood ∧
    (Action.run m i a).gw.cw.care.energy = m.gw.cw.care.energy ∧
    (Action.run m i a).gw.cw.care.cleanliness = m.gw.cw.care.cleanliness ∧
    Action.result m i a = false := by
  have key : Action.run m i a = m ∧ Action.result m i a = false := by
    cases a <;>
      simp only [Action.layer] at h <;>
      simp only [Action.run, Action.result, selectNext, selectPrev, activateSelected,
        statsNext, statsPrev, closeStatsToMenu, openOptionsForCurrentStat,
        closeOptionsToStats, activateCurrentOption, selectOptionsPrev, selectOptionsNext,
        closeGamesToStats, startTapTheGreens, closeConnectToMenu, handleConnectTap,
        handleConnectTapResult, closeMessageToMenu, closeBatteryToMenu, closeLevelToMenu,
        ne_eq, h, not_false_eq_true, if_true, and_self]
  rw [key.1]
  exact ⟨rfl, rfl, rfl, rfl, rfl, rfl, rfl, rfl, key.2⟩

/-- Witness for `misuse_is_noop`: `activateCurrentOption` called in the
closed layer. -/
theorem misuse_is_noop_witness :
    (State.init EyeGame.freshWorld).currentState ≠ Action.activateCurrentOption.layer ∧
    Action.run (State.init EyeGame.freshWorld) (Inputs.quiet 0) Action.activateCurrentOption
      = State.init EyeGame.freshWorld :=
  ⟨by decide,
   (misuse_is_noop Action.activateCurrentOption (State.init EyeGame.freshWorld)
      (Inputs.quiet 0) (by decide)).1⟩

end MenuSystem

namespace Display

open EyeEmotion

/-! ## Setting an emotion -/

/-- The two pairs without a writer stay as they are. -/
theorem setEmotion_keeps_legacy (s : EmotionRuntime) (e : EyeEmotion) (now : Nat) :
    (DisplaySystem_setEmotion s e now).happyStartMs = s.happyStartMs ∧
    (DisplaySystem_setEmotion s e now).happyEndMs = s.happyEndMs ∧
    (DisplaySystem_setEmotion s e now).excitedStartMs = s.excitedStartMs ∧
    (DisplaySystem_setEmotion s e now).excitedEndMs = s.excitedEndMs :=
  ⟨rfl, rfl, rfl, rfl⟩

theorem setEmotions_legacy (calls : List (EyeEmotion × Nat)) (s : EmotionRuntime) :
    (setEmotions s calls).happyStartMs = s.happyStartMs ∧
    (setEmotions s calls).happyEndMs = s.happyEndMs ∧
    (setEmotions s calls).excitedStartMs = s.excitedStartMs ∧
    (setEmotions s calls).excitedEndMs = s.excitedEndMs := by
  induction calls generalizing s with
  | nil => exact ⟨rfl, rfl, rfl, rfl⟩
  | cons c cs ih => exact ih (DisplaySystem_setEmotion s c.1 c.2)

/-- From any state, the eight pairs that `DisplaySystem_setEmotion` writes. -/
theorem setEmotion_managed (s : EmotionRuntime) (e : EyeEmotion) (now : Nat)
    (t : EmotionTimer) (ht : t ≠ EmotionTimer.happy ∧ t ≠ EmotionTimer.excited) :
    (timerStart (DisplaySystem_setEmotion s e now) t,
      timerEnd (DisplaySystem_setEmotion s e now) t)
      = if timerOf (normalizeEmotion e) = some t then (now, (now + 2000) % 4294967296)
        else (0, 0) := by
  obtain ⟨h1, h2⟩ := ht
  cases e <;> cases t <;>
    first
    | exact absurd rfl h1
    | exact absurd rfl h2
    | rfl

/-- C12: after `DisplaySystem_setEmotion(e)` at time `now`, in a state reached
from the initial one through `DisplaySystem_setEmotion` calls, the current
emotion is `e` (Idle for Excited), `happyActive` and `excitedActive` are
false, each start/end pair is `(now, now + 2000)` (in `uint32_t`) when it is
the pair of the current emotion and `(0, 0)` otherwise; so a pair with a
non-zero field is the pair of the current emotion, and two such pairs are the
same pair. -/
theorem setEmotion_single_timer (calls : List (EyeEmotion × Nat)) (e : EyeEmotion)
    (now : Nat) :
    (DisplaySystem_setEmotion (setEmotions EmotionRuntime.init calls) e now).currentEmotion
      = (if e = EYE_EMO_EXCITED then EYE_EMO_IDLE else e) ∧
    (DisplaySystem_setEmotion (setEmotions EmotionRuntime.init calls) e now).happyActive
      = false ∧
    (DisplaySystem_setEmotion (setEmotions EmotionRuntime.init calls) e now).excitedActive
      = false ∧
    (∀ t : EmotionTimer,
      (timerStart (DisplaySystem_setEmotion (setEmotions EmotionRuntime.init calls) e now) t,
        timerEnd (DisplaySystem_setEmotion (setEmotions EmotionRuntime.init calls) e now) t)
        = if timerOf (if e = EYE_EMO_EXCITED then EYE_EMO_IDLE else e) = some t
          then (now, (now + 2000) % 4294967296) else (0, 0)) ∧
    (∀ t : EmotionTimer,
      (timerStart (DisplaySystem_setEmotion (setEmotions EmotionRuntime.init calls) e now) t ≠ 0
        ∨ timerEnd (DisplaySystem_setEmotion (setEmotions EmotionRuntime.init calls) e now) t
          ≠ 0) →
      timerOf (DisplaySystem_setEmotion (setEmotions EmotionRuntime.init calls) e now).currentEmotion
        = some t) ∧
    (∀ t u : EmotionTimer,
      (timerStart (DisplaySystem_setEmotion (setEmotions EmotionRuntime.init calls) e now) t ≠ 0
        ∨ timerEnd (DisplaySystem_setEmotion (setEmotions EmotionRuntime.init calls) e now) t
          ≠ 0) →
      (timerStart (DisplaySystem_setEmotion (setEmotions EmotionRuntime.init calls) e now) u ≠ 0
        ∨ timerEnd (DisplaySystem_setEmotion (setEmotions EmotionRuntime.init calls) e now) u
          ≠ 0) →
      t = u) := by
  have hall : ∀ t : EmotionTimer,
      (timerStart (DisplaySystem_setEmotion (setEmotions EmotionRuntime.init calls) e now) t,
        timerEnd (DisplaySystem_setEmotion (setEmotions EmotionRuntime.init calls) e now) t)
        = if timerOf (normalizeEmotion e) = some t
          then (now, (now + 2000) % 4294967296) else (0, 0) := by
    intro t
    by_cases h1 : t = EmotionTimer.happy
    · subst h1
      have hl := setEmotions_legacy calls EmotionRuntime.init
      have hne : timerOf (normalizeEmotion e) ≠ some EmotionTimer.happy := by
        cases e <;> decide
      rw [if_neg hne]
      show ((setEmotions EmotionRuntime.init calls).happyStartMs,
        (setEmotions EmotionRuntime.init calls).happyEndMs) = (0, 0)
      rw [hl.1, hl.2.1]
      rfl
    · by_cases h2 : t = EmotionTimer.excited
      · subst h2
        have hl := setEmotions_legacy calls EmotionRuntime.init
        have hne : timerOf (normalizeEmotion e) ≠ some EmotionTimer.excited := by
          cases e <;> decide
        rw [if_neg hne]
        show ((setEmotions EmotionRuntime.init calls).excitedStartMs,
          (setEmotions EmotionRuntime.init calls).excitedEndMs) = (0, 0)
        rw [hl.2.2.1, hl.2.2.2]
        rfl
      · exact setEmotion_managed _ e now t ⟨h1, h2⟩
  have hown : ∀ t : EmotionTimer,
      (timerStart (DisplaySystem_setEmotion (setEmotions EmotionRuntime.init calls) e now) t ≠ 0
        ∨ timerEnd (DisplaySystem_setEmotion (setEmotions EmotionRuntime.init calls) e now) t
          ≠ 0) →
      timerOf (normalizeEmotion e) = some t := by
    intro t hnz
    by_contra hne
    have h := hall t
    rw [if_neg hne] at h
    have hs : timerStart (DisplaySystem_setEmotion
        (setEmotions EmotionRuntime.init calls) e now) t = 0 := congrArg Prod.fst h
    have he : timerEnd (DisplaySystem_setEmotion
        (setEmotions EmotionRuntime.init calls) e now) t = 0 := congrArg Prod.snd h
    rcases hnz with hnz | hnz
    · exact hnz hs
    · exact hnz he
  refine ⟨rfl, rfl, rfl, hall, hown, ?_⟩
  intro t u ht hu
  have h1 := hown t ht
  have h2 := hown u hu
  rw [h1] at h2
  exact Option.some.inj h2

end Display

namespace Display

open EyeEmotion

/-! ## The life of a timed emotion -/

/-- A timed emotion is active until its end time. -/
theorem isActive_of_set (s : EmotionRuntime) (e : EyeEmotion) (t p now : Nat)
    (he : timerOf e ≠ none) (ht : t + 2000 < 4294967296) (hnow : now < t + 2000) :
    Emotion_isActive { DisplaySystem_setEmotion s e t with nextEmotionPickMs := p } now
      = true := by
  have hmod : (t + 2000) % 4294967296 = t + 2000 := Nat.mod_eq_of_lt ht
  cases e <;>
    first
    | exact absurd rfl he
    | simp [Emotion_isActive, DisplaySystem_setEmotion, normalizeEmotion, startFor, endFor,
        hmod, hnow]

theorem expireAll_of_set (s : EmotionRuntime) (e : EyeEmotion) (t p nowBlink m r : Nat)
    (he : timerOf e ≠ none) (ht : t + 2000 < 4294967296) (hnow : t + 2000 ≤ nowBlink) :
    expireAll { DisplaySystem_setEmotion s e t with nextEmotionPickMs := p } nowBlink m r
      = expired s ((m + r) % 4294967296) := by
  have hmod : (t + 2000) % 4294967296 = t + 2000 := Nat.mod_eq_of_lt ht
  cases e <;>
    first
    | exact absurd rfl he
    | simp [expireAll, expireAngry, expireTired, expireWorried, expireSad, expireSad2,
        expireHappy1, expireHappy2, expireCurious, expired, Emotion_scheduleNextPick,
        DisplaySystem_setEmotion, normalizeEmotion, startFor, endFor, hmod, hnow]

end Display

namespace Display

open EyeEmotion

theorem isActive_expired (s : EmotionRuntime) (next now : Nat) :
    Emotion_isActive (expired s next) now = false := by
  simp [Emotion_isActive, expired, DisplaySystem_setEmotion, normalizeEmotion, startFor, endFor]

theorem refreshSubState_emotion (w : World) (mSub : Nat) :
    (refreshSubState w mSub).idle.emotionState = w.idle.emotionState := rfl

theorem refreshSubState_idle (w : World) (mSub : Nat) :
    (refreshSubState w mSub).idle.idleState = w.idle.idleState ∧
    (refreshSubState w mSub).idle.idleLook = w.idle.idleLook := ⟨rfl, rfl⟩

/-- The emotion state after a Layer-0 tick at or past the end of a timed
emotion. -/
theorem tick_after_end (w : World) (s : EmotionRuntime) (e : EyeEmotion) (t p : Nat)
    (i : EmotionInputs) (he : timerOf e ≠ none) (ht : t + 2000 < 4294967296)
    (hw : w.idle.emotionState = { DisplaySystem_setEmotion s e t with nextEmotionPickMs := p })
    (hclock : w.idle.clockState = IdleVisualState.Eyes) (hsleep : w.idle.sleepActive = false)
    (hfeed : MenuSystem.isFeeding w.menu.currentState = false)
    (hnow : t + 2000 ≤ i.nowBlink) (hmono : i.nowBlink ≤ i.mExpire)
    (hr : 7000 ≤ i.rExpire) (hwrap : i.mExpire + i.rExpire < 4294967296) :
    (updateIdleBlinkAndEmotion w false false i).idle.emotionState
      = expired s (i.mExpire + i.rExpire) := by
  have hex := expireAll_of_set s e t p i.nowBlink i.mExpire i.rExpire he ht hnow
  rw [Nat.mod_eq_of_lt hwrap] at hex
  unfold updateIdleBlinkAndEmotion
  rw [if_neg (by rw [hclock]; decide), hsleep, hfeed]
  simp only [Bool.false_eq_true, if_false, Bool.not_false, Bool.and_self, if_true]
  rw [refreshSubState_emotion, hw, hex]
  unfold afterExpiry
  simp only [World.withEmotion]
  rw [isActive_expired]
  simp only [Bool.false_eq_true, if_false]
  have hlt : ¬ (i.nowBlink ≥ (expired s (i.mExpire + i.rExpire)).nextEmotionPickMs) := by
    show ¬ (i.nowBlink ≥ i.mExpire + i.rExpire)
    omega
  rw [if_neg hlt]
  split_ifs <;> rfl

end Display

namespace Display

open EyeEmotion

/-- Before the end of a timed emotion a Layer-0 tick leaves the emotion state
as it is. -/
theorem tick_before_end (w : World) (s : EmotionRuntime) (e : EyeEmotion) (t p : Nat)
    (i : EmotionInputs) (he : timerOf e ≠ none) (ht : t + 2000 < 4294967296)
    (hw : w.idle.emotionState = { DisplaySystem_setEmotion s e t with nextEmotionPickMs := p })
    (hnow : i.nowBlink < t + 2000) (hact : i.mActive < t + 2000) :
    (updateIdleBlinkAndEmotion w false false i).idle.emotionState = w.idle.emotionState := by
  have hmod : (t + 2000) % 4294967296 = t + 2000 := Nat.mod_eq_of_lt ht
  have hkeep : expireAll { DisplaySystem_setEmotion s e t with nextEmotionPickMs := p }
      i.nowBlink i.mExpire i.rExpire
      = { DisplaySystem_setEmotion s e t with nextEmotionPickMs := p } := by
    have hn : ¬ (t + 2000 ≤ i.nowBlink) := by omega
    cases e <;>
      simp [expireAll, expireAngry, expireTired, expireWorried, expireSad, expireSad2,
        expireHappy1, expireHappy2, expireCurious, DisplaySystem_setEmotion, normalizeEmotion,
        startFor, endFor, hmod, hn]
  unfold updateIdleBlinkAndEmotion
  split_ifs
  · rfl
  · rfl
  · rfl
  · rw [refreshSubState_emotion, hw, hkeep]
    unfold afterExpiry
    simp only [World.withEmotion]
    rw [isActive_of_set s e t p i.mActive he ht hact]
    simp [DisplaySystem_setEmotion]
  · rfl

/-- C13, amended: a timed emotion (Angry1-3, Tired, Worried1, Sad1, Sad2,
Happy1, Happy2, Curious1, Curious2) set at time `t` with `t + 2000` below
`2^32` is active at every time before `t + 2000`; at a Layer-0 tick (eyes
showing, no sleep, no feed, no higher layer, no game) whose `nowBlink` is at
least `t + 2000`, with the clock read of the schedule not before `nowBlink`
and no wrap-around of the scheduled time, the current emotion is Idle after
the tick, no emotion is active, and the next pick is at the schedule's clock
read plus its draw, between 7000 and 15000 ms after that read. -/
theorem timed_emotion_lifecycle (w : World) (s : EmotionRuntime) (e : EyeEmotion) (t p : Nat)
    (i : EmotionInputs) (he : timerOf e ≠ none) (ht : t + 2000 < 4294967296)
    (hw : w.idle.emotionState = { DisplaySystem_setEmotion s e t with nextEmotionPickMs := p })
    (hclock : w.idle.clockState = IdleVisualState.Eyes) (hsleep : w.idle.sleepActive = false)
    (hfeed : MenuSystem.isFeeding w.menu.currentState = false)
    (hnow : t + 2000 ≤ i.nowBlink) (hmono : i.nowBlink ≤ i.mExpire)
    (hr : 7000 ≤ i.rExpire ∧ i.rExpire ≤ 15000)
    (hwrap : i.mExpire + i.rExpire < 4294967296) :
    w.idle.emotionState.currentEmotion = e ∧
    (∀ now, now < t + 2000 → Emotion_isActive w.idle.emotionState now = true) ∧
    (updateIdleBlinkAndEmotion w false false i).idle.emotionState.currentEmotion
      = EYE_EMO_IDLE ∧
    (∀ now, Emotion_isActive (updateIdleBlinkAndEmotion w false false i).idle.emotionState now
      = false) ∧
    (updateIdleBlinkAndEmotion w false false i).idle.emotionState.nextEmotionPickMs
      = i.mExpire + i.rExpire ∧
    i.mExpire + 7000
      ≤ (updateIdleBlinkAndEmotion w false false i).idle.emotionState.nextEmotionPickMs ∧
    (updateIdleBlinkAndEmotion w false false i).idle.emotionState.nextEmotionPickMs
      ≤ i.mExpire + 15000 := by
  have hafter := tick_after_end w s e t p i he ht hw hclock hsleep hfeed hnow hmono hr.1 hwrap
  have hcur : w.idle.emotionState.currentEmotion = e := by
    rw [hw]
    show normalizeEmotion e = e
    cases e <;> first | rfl | exact absurd rfl he
  refine ⟨hcur, ?_, ?_, ?_, ?_, ?_, ?_⟩
  · intro now hlt
    rw [hw]
    exact isActive_of_set s e t p now he ht hlt
  · rw [hafter]
    rfl
  · intro now
    rw [hafter]
    exact isActive_expired s _ now
  · rw [hafter]
    rfl
  · rw [hafter]
    show i.mExpire + 7000 ≤ i.mExpire + i.rExpire
    omega
  · rw [hafter]
    show i.mExpire + i.rExpire ≤ i.mExpire + 15000
    omega

/-- Witness for `timed_emotion_lifecycle`: Tired set at 1000 in the start-up
world, ticked at 3000 with a draw of 9000. -/
theorem timed_emotion_lifecycle_witness :
    (updateIdleBlinkAndEmotion tiredWorld false false (quietTick 3000 9000)).idle.emotionState.currentEmotion
      = EYE_EMO_IDLE ∧
    (updateIdleBlinkAndEmotion tiredWorld false false (quietTick 3000 9000)).idle.emotionState.nextEmotionPickMs
      = 12000 :=
  ⟨(timed_emotion_lifecycle tiredWorld EmotionRuntime.init EYE_EMO_TIRED 1000 9500
      (quietTick 3000 9000) (by decide) (by decide) rfl rfl rfl rfl (by decide) (by decide)
      (by decide) (by decide)).2.2.1,
   (timed_emotion_lifecycle tiredWorld EmotionRuntime.init EYE_EMO_TIRED 1000 9500
      (quietTick 3000 9000) (by decide) (by decide) rfl rfl rfl rfl (by decide) (by decide)
      (by decide) (by decide)).2.2.2.2.1⟩

/-- C13 as stated fails for an emotion without a timer: Love set at 1000 is
not active at 1000 (nor is Curious, and Excited is stored as Idle), and a
Layer-0 tick at 3000 leaves Love as the current emotion. -/
theorem untimed_emotion_counterexample :
    EYE_EMO_LOVE ≠ EYE_EMO_IDLE ∧
    Emotion_isActive (DisplaySystem_setEmotion EmotionRuntime.init EYE_EMO_LOVE 1000) 1000
      = false ∧
    Emotion_isActive (DisplaySystem_setEmotion EmotionRuntime.init EYE_EMO_CURIOUS 1000) 1000
      = false ∧
    (DisplaySystem_setEmotion EmotionRuntime.init EYE_EMO_EXCITED 1000).currentEmotion
      = EYE_EMO_IDLE ∧
    (updateIdleBlinkAndEmotion loveWorld false false (quietTick 3000 9000)).idle.emotionState.currentEmotion
      = EYE_EMO_LOVE := by
  refine ⟨by decide, by decide, by decide, by decide, ?_⟩
  decide

end Display

namespace Display

open EyeEmotion MenuSystem.MenuState

/-! ## The gesture dispatch -/

/-- C17: while `blockGesturesUntilLift` is set the dispatch only drops the
pending gesture: the menu unit (layer, selected item, stat index, game and
care state) and the emotion state are as before, no gesture is left pending,
and the flag is clear afterwards exactly when the contact is not pressed. -/
theorem blocked_gesture_is_dropped (w : World) (nowMs : Nat) (i : DispatchInputs)
    (h : w.touchState.blockGesturesUntilLift = true) :
    (dispatchGesture w nowMs i).menu = w.menu ∧
    (dispatchGesture w nowMs i).menu.currentState = w.menu.currentState ∧
    (dispatchGesture w nowMs i).menu.selectedItem = w.menu.selectedItem ∧
    (dispatchGesture w nowMs i).menu.statIndex = w.menu.statIndex ∧
    (dispatchGesture w nowMs i).menu.gw.game = w.menu.gw.game ∧
    (dispatchGesture w nowMs i).idle.emotionState = w.idle.emotionState ∧
    (dispatchGesture w nowMs i).idle.clockState = w.idle.clockState ∧
    TouchSystem.available (dispatchGesture w nowMs i).touch = false ∧
    ((dispatchGesture w nowMs i).touchState.blockGesturesUntilLift = false ↔
      TouchSystem.isTouchPressed w.touch = false) := by
  have hd : dispatchGesture w nowMs i = dropWhileBlocked w := by
    unfold dispatchGesture
    rw [h]
    rfl
  rw [hd]
  refine ⟨rfl, rfl, rfl, rfl, rfl, rfl, rfl, ?_, ?_⟩
  · unfold dropWhileBlocked TouchSystem.available TouchSystem.get
    cases hav : w.touch.eventAvailable <;> simp [hav]
  · unfold dropWhileBlocked
    cases hp : TouchSystem.isTouchPressed w.touch <;> simp [hp, h]

/-- Witness for `blocked_gesture_is_dropped`: a tap pending while the flag is
set and the contact is up. -/
theorem blocked_gesture_is_dropped_witness :
    (dispatchGesture (setBlock (tapPending 200 30)) 5000 (quietDispatch 5000 9000)).menu.currentState
      = MENU_CLOSED ∧
    TouchSystem.available
      (dispatchGesture (setBlock (tapPending 200 30)) 5000 (quietDispatch 5000 9000)).touch
      = false :=
  ⟨(blocked_gesture_is_dropped (setBlock (tapPending 200 30)) 5000 (quietDispatch 5000 9000)
      rfl).2.1,
   (blocked_gesture_is_dropped (setBlock (tapPending 200 30)) 5000 (quietDispatch 5000 9000)
      rfl).2.2.2.2.2.2.2.1⟩

/-- C16: with the clock overlay showing, a delivered gesture (no flag set, no
clean or sleep animation, not feeding) hides the overlay and is consumed: the
idle visual state is Eyes, no gesture is left pending, and the menu unit
(layer, selected item, stat index, game and care state), the emotion state and
the touch flags are as before. -/
theorem clock_overlay_consumes_gesture (w : World) (nowMs : Nat) (i : DispatchInputs)
    (hb : w.touchState.blockGesturesUntilLift = false)
    (hs : w.touchState.suppressMenuOpenUntilLift = false)
    (ha : TouchSystem.available w.touch = true)
    (hclean : w.cleanAnim.active = false) (hsleep : w.idle.sleepActive = false)
    (hfeed : MenuSystem.isFeeding w.menu.currentState = false)
    (hclock : w.idle.clockState = IdleVisualState.Clock) :
    (dispatchGesture w nowMs i).idle.clockState = IdleVisualState.Eyes ∧
    TouchSystem.available (dispatchGesture w nowMs i).touch = false ∧
    (dispatchGesture w nowMs i).menu = w.menu ∧
    (dispatchGesture w nowMs i).menu.currentState = w.menu.currentState ∧
    (dispatchGesture w nowMs i).menu.selectedItem = w.menu.selectedItem ∧
    (dispatchGesture w nowMs i).menu.statIndex = w.menu.statIndex ∧
    (dispatchGesture w nowMs i).menu.gw.game = w.menu.gw.game ∧
    (dispatchGesture w nowMs i).idle.emotionState = w.idle.emotionState ∧
    (dispatchGesture w nowMs i).touchState = w.touchState := by
  have hd : dispatchGesture w nowMs i
      = Clock_hide { w with touch := TouchSystem.get w.touch, clockLastTouchMs := nowMs } := by
    unfold dispatchGesture
    rw [hb, hs, ha]
    simp only [Bool.or_self, Bool.false_eq_true, if_false, if_true]
    unfold deliver
    simp only [hclean, hsleep, hfeed, hclock, Bool.false_eq_true, if_false, if_true]
  rw [hd]
  exact ⟨rfl, rfl, rfl, rfl, rfl, rfl, rfl, rfl, rfl⟩

end Display

namespace Display

open EyeEmotion MenuSystem.MenuState

/-- Witness for `clock_overlay_consumes_gesture`: a tap off the eyes while
the clock is showing leaves the menu closed. -/
theorem clock_overlay_consumes_gesture_witness :
    (dispatchGesture (clockShowing 200 30) 5000 (quietDispatch 5000 9000)).idle.clockState
      = IdleVisualState.Eyes ∧
    (dispatchGesture (clockShowing 200 30) 5000 (quietDispatch 5000 9000)).menu.currentState
      = MENU_CLOSED :=
  ⟨(clock_overlay_consumes_gesture (clockShowing 200 30) 5000 (quietDispatch 5000 9000)
      rfl rfl rfl rfl rfl rfl rfl).1,
   (clock_overlay_consumes_gesture (clockShowing 200 30) 5000 (quietDispatch 5000 9000)
      rfl rfl rfl rfl rfl rfl rfl).2.2.2.1⟩

/-- C15, amended: on the closed layer with no overlay (no flag set, no clean
or sleep animation, not feeding, clock hidden, no game running), a delivered
Tap outside both eye boxes opens the menu with Feed selected and sets
`blockGesturesUntilLift`; the gesture is consumed. -/
theorem tap_off_eyes_opens_menu (w : World) (nowMs : Nat) (i : DispatchInputs)
    (hb : w.touchState.blockGesturesUntilLift = false)
    (hs : w.touchState.suppressMenuOpenUntilLift = false)
    (ha : TouchSystem.available w.touch = true)
    (htap : w.touch.pendingEvent.gesture = TouchSystem.TouchGesture.TOUCH_TAP)
    (hoff : Touch_isTapOnEyes w.touch.pendingEvent = false)
    (hclean : w.cleanAnim.active = false) (hsleep : w.idle.sleepActive = false)
    (hclock : w.idle.clockState = IdleVisualState.Eyes)
    (hgame : EyeGame.isRunning w.menu.gw = false)
    (hclosed : w.menu.currentState = MENU_CLOSED) :
    (dispatchGesture w nowMs i).menu.currentState = MENU_OPEN ∧
    (dispatchGesture w nowMs i).menu.selectedItem = MenuSystem.MenuItem.MENU_FEED ∧
    (dispatchGesture w nowMs i).touchState.blockGesturesUntilLift = true ∧
    TouchSystem.available (dispatchGesture w nowMs i).touch = false := by
  have hd : dispatchGesture w nowMs i
      = setBlock
          (World.withMenu { w with touch := TouchSystem.get w.touch, clockLastTouchMs := nowMs }
            (MenuSystem.openMenu w.menu)) := by
    unfold dispatchGesture
    rw [hb, hs, ha]
    simp only [Bool.or_self, Bool.false_eq_true, if_false, if_true]
    unfold deliver
    simp only [hclean, hsleep, hclock, hclosed, htap, MenuSystem.isFeeding,
      Bool.false_eq_true, if_false]
    rw [if_neg (by decide), if_neg (by decide), if_neg (by decide)]
    unfold layerDispatch
    simp only [hgame, hclosed, MenuSystem.isOptionsOpen, MenuSystem.isGamesOpen,
      MenuSystem.isConnectOpen, MenuSystem.isMessageOpen, MenuSystem.isStatsOpen,
      MenuSystem.isBatteryOpen, MenuSystem.isLevelOpen, MenuSystem.isOpen,
      Bool.false_eq_true, if_false]
    rw [if_neg (by decide), if_neg (by decide), if_neg (by decide), if_neg (by decide),
      if_neg (by decide), if_neg (by decide), if_neg (by decide), if_neg (by decide)]
    unfold onClosed
    simp only [htap, hoff, Bool.false_eq_true, if_false]
  rw [hd]
  have hopen : (MenuSystem.openMenu w.menu).currentState = MENU_OPEN ∧
      (MenuSystem.openMenu w.menu).selectedItem = MenuSystem.MenuItem.MENU_FEED := by
    unfold MenuSystem.openMenu MenuSystem.scrollMenuToIndex
    rw [hclosed, if_neg (by decide)]
    split_ifs <;> exact ⟨rfl, rfl⟩
  exact ⟨hopen.1, hopen.2, rfl, rfl⟩

/-- Witness for `tap_off_eyes_opens_menu`: a tap at (200, 30), above the
right eye box. -/
theorem tap_off_eyes_opens_menu_witness :
    Touch_isTapOnEyes (tapPending 200 30).touch.pendingEvent = false ∧
    (dispatchGesture (tapPending 200 30) 5000 (quietDispatch 5000 9000)).menu.currentState
      = MENU_OPEN :=
  ⟨by decide,
   (tap_off_eyes_opens_menu (tapPending 200 30) 5000 (quietDispatch 5000 9000)
      rfl rfl rfl rfl (by decide) rfl rfl rfl rfl rfl).1⟩

/-- C15 as stated fails for a tap on an eye: on the closed layer with no
overlay, a Tap at (60, 120), inside the left eye box, leaves the menu closed
and the flag clear, and sets the emotion Tired. -/
theorem tap_on_eyes_counterexample :
    (tapPending 60 120).menu.currentState = MENU_CLOSED ∧
    (tapPending 60 120).touchState.blockGesturesUntilLift = false ∧
    (tapPending 60 120).touchState.suppressMenuOpenUntilLift = false ∧
    (tapPending 60 120).cleanAnim.active = false ∧
    (tapPending 60 120).idle.sleepActive = false ∧
    (tapPending 60 120).idle.clockState = IdleVisualState.Eyes ∧
    EyeGame.isRunning (tapPending 60 120).menu.gw = false ∧
    (dispatchGesture (tapPending 60 120) 5000 (quietDispatch 5000 9000)).menu.currentState
      = MENU_CLOSED ∧
    (dispatchGesture (tapPending 60 120) 5000
      (quietDispatch 5000 9000)).touchState.blockGesturesUntilLift = false ∧
    (dispatchGesture (tapPending 60 120) 5000
      (quietDispatch 5000 9000)).idle.emotionState.currentEmotion = EYE_EMO_TIRED := by
  refine ⟨rfl, rfl, rfl, rfl, rfl, rfl, rfl, ?_, ?_, ?_⟩ <;> decide

end Display

namespace Arith

theorem i16_of_range (n : Int) (h1 : -32768 ≤ n) (h2 : n < 32768) : i16 n = n := by
  unfold i16
  split_ifs with h <;> omega

end Arith

namespace Display

open Arith

/-! ## Interpolation: the integer offsets -/

theorem tdiv_hundred_nonneg (d : Int) (k : Nat) (hd : 0 ≤ d) :
    Int.tdiv (d * (k : Int)) 100 = d * (k : Int) / 100 :=
  Int.tdiv_eq_ediv (Int.mul_nonneg hd (Int.ofNat_nonneg k)) (by decide)

theorem tdiv_hundred_neg (d : Int) (k : Nat) (hd : d < 0) :
    Int.tdiv (d * (k : Int)) 100 = -((-d) * (k : Int) / 100) := by
  have h : d * (k : Int) = -((-d) * (k : Int)) := by ring
  rw [h, Int.neg_tdiv, tdiv_hundred_nonneg (-d) k (by omega)]

theorem i16_add_toward (x t s : Int) (hx : -32768 ≤ x ∧ x < 32768)
    (ht : -32768 ≤ t ∧ t < 32768) (hs0 : 0 ≤ s) (hsd : s ≤ t - x)
    (hs1 : s < 32768) : i16 (x + i16 s) = x + s := by
  have h1 : i16 s = s := i16_of_range s (by omega) (by omega)
  rw [h1]
  exact i16_of_range _ (by omega) (by omega)

theorem i16_sub_toward (x t s : Int) (hx : -32768 ≤ x ∧ x < 32768)
    (ht : -32768 ≤ t ∧ t < 32768) (hs0 : 0 ≤ s) (hsd : s ≤ x - t)
    (hs1 : s < 32768) : i16 (x + i16 (-s)) = x - s := by
  have h1 : i16 (-s) = -s := i16_of_range (-s) (by omega) (by omega)
  rw [h1]
  have h2 : x + -s = x - s := by ring
  rw [h2]
  exact i16_of_range _ (by omega) (by omega)

/-- One tick on an integer offset: the offset stays an `int16_t`, does not
pass the target, moves by at least one unit while `k` times the distance is
at least 1, and stays where it is otherwise. -/
theorem lerpOffset_step (kh : Nat) (hk : kh = 6 ∨ kh = 15 ∨ kh = 25) (x t : Int)
    (hx : -32768 ≤ x ∧ x < 32768) (ht : -32768 ≤ t ∧ t < 32768) :
    (-32768 ≤ lerpOffset kh x t ∧ lerpOffset kh x t < 32768) ∧
    (t - lerpOffset kh x t).natAbs ≤ (t - x).natAbs ∧
    (100 ≤ (t - x).natAbs * kh → (t - lerpOffset kh x t).natAbs + 1 ≤ (t - x).natAbs) ∧
    ((t - x).natAbs * kh < 100 → lerpOffset kh x t = x) := by
  unfold lerpOffset
  by_cases hd : 0 ≤ t - x
  · rw [tdiv_hundred_nonneg _ _ hd]
    rcases hk with rfl | rfl | rfl
    · rw [i16_add_toward x t _ hx ht (by omega) (by omega) (by omega)]
      refine ⟨by omega, by omega, by omega, by omega⟩
    · rw [i16_add_toward x t _ hx ht (by omega) (by omega) (by omega)]
      refine ⟨by omega, by omega, by omega, by omega⟩
    · rw [i16_add_toward x t _ hx ht (by omega) (by omega) (by omega)]
      refine ⟨by omega, by omega, by omega, by omega⟩
  · rw [tdiv_hundred_neg _ _ (by omega)]
    rcases hk with rfl | rfl | rfl
    · rw [i16_sub_toward x t _ hx ht (by omega) (by omega) (by omega)]
      refine ⟨by omega, by omega, by omega, by omega⟩
    · rw [i16_sub_toward x t _ hx ht (by omega) (by omega) (by omega)]
      refine ⟨by omega, by omega, by omega, by omega⟩
    · rw [i16_sub_toward x t _ hx ht (by omega) (by omega) (by omega)]
      refine ⟨by omega, by omega, by omega, by omega⟩

end Display

namespace Display

open Arith

/-! ## Interpolation: the body offset -/

theorem speedHundredths_cases (sp : IdleMoveSpeed) :
    speedHundredths sp = 6 ∨ speedHundredths sp = 15 ∨ speedHundredths sp = 25 := by
  cases sp <;> simp [speedHundredths, rawSpeedHundredths]

end Display

namespace Display

open Arith

/-! ## Interpolation: runs of ticks -/

theorem interpolate_of_objects (w : World) (h : w.hasVisualObjects = true) :
    UpdateVisualInterpolation w
      = { w with
          leftEye := lerpObject w.idle.idleMoveSpeed w.leftEye
          rightEye := lerpObject w.idle.idleMoveSpeed w.rightEye
          idle := { w.idle with gMotion := lerpMotion w.idle.idleMoveSpeed w.idle.gMotion } } := by
  unfold UpdateVisualInterpolation
  rw [if_neg (by simp [h])]

end Display

namespace Display

open Arith

/-! ## The visual objects stay as start-up leaves them -/

theorem objects_init (menu : MenuSystem.State) : ObjectsHome (World.init menu) := rfl

theorem objects_ReturnVisualToNeutral (w : World) (h : ObjectsHome w) :
    ObjectsHome (ReturnVisualToNeutral w) := by
  unfold ObjectsHome objectOffsets at *
  simp only [Prod.mk.injEq, List.cons.injEq] at h
  obtain ⟨h0, h1, h2, h3, h4, h5, h6, h7, h8, _⟩ := h
  simp [ReturnVisualToNeutral, h0, h1, h2, h5, h6]

theorem lerpOffset_home (sp : IdleMoveSpeed) : lerpOffset (speedHundredths sp) 0 0 = 0 :=
  (lerpOffset_step (speedHundredths sp) (speedHundredths_cases sp) 0 0 (by decide)
    (by decide)).2.2.2 (by simp)

theorem objects_interpolation (w : World) (h : ObjectsHome w) :
    ObjectsHome (UpdateVisualInterpolation w) := by
  unfold ObjectsHome objectOffsets at h
  simp only [Prod.mk.injEq, List.cons.injEq] at h
  obtain ⟨h0, h1, h2, h3, h4, h5, h6, h7, h8, _⟩ := h
  rw [interpolate_of_objects w h0]
  show (w.hasVisualObjects,
    [(lerpObject w.idle.idleMoveSpeed w.leftEye).offsetX,
     (lerpObject w.idle.idleMoveSpeed w.leftEye).offsetY,
     (lerpObject w.idle.idleMoveSpeed w.leftEye).targetOffsetX,
     (lerpObject w.idle.idleMoveSpeed w.leftEye).targetOffsetY,
     (lerpObject w.idle.idleMoveSpeed w.rightEye).offsetX,
     (lerpObject w.idle.idleMoveSpeed w.rightEye).offsetY,
     (lerpObject w.idle.idleMoveSpeed w.rightEye).targetOffsetX,
     (lerpObject w.idle.idleMoveSpeed w.rightEye).targetOffsetY])
    = (true, [0, 0, 0, 0, 0, 0, 0, 0])
  have e : ∀ o : VisualObject, o.offsetX = 0 → o.offsetY = 0 → o.targetOffsetX = 0 →
      o.targetOffsetY = 0 →
      (lerpObject w.idle.idleMoveSpeed o).offsetX = 0 ∧
      (lerpObject w.idle.idleMoveSpeed o).offsetY = 0 ∧
      (lerpObject w.idle.idleMoveSpeed o).targetOffsetX = 0 ∧
      (lerpObject w.idle.idleMoveSpeed o).targetOffsetY = 0 := by
    intro o a b c d
    refine ⟨?_, ?_, c, d⟩
    · show lerpOffset (speedHundredths w.idle.idleMoveSpeed) o.offsetX o.targetOffsetX = 0
      rw [a, c]; exact lerpOffset_home _
    · show lerpOffset (speedHundredths w.idle.idleMoveSpeed) o.offsetY o.targetOffsetY = 0
      rw [b, d]; exact lerpOffset_home _
  obtain ⟨l1, l2, l3, l4⟩ := e w.leftEye h1 h2 h3 h4
  obtain ⟨r1, r2, r3, r4⟩ := e w.rightEye h5 h6 h7 h8
  rw [h0, l1, l2, l3, l4, r1, r2, r3, r4]

/-! ### The idle-behaviour block writes no offset and no offset target -/

theorem objects_withEmotion (w : World) (e : EmotionRuntime) :
    objectOffsets (w.withEmotion e) = objectOffsets w := rfl

theorem objects_setBlock (w : World) : objectOffsets (setBlock w) = objectOffsets w := rfl

theorem objects_finishIdle (w : World) : objectOffsets (finishIdle w) = objectOffsets w := rfl

theorem objects_Blink_start (w : World) (nowMs : Nat) (l r : Bool) :
    objectOffsets (Blink_start w nowMs l r) = objectOffsets w := by
  unfold Blink_start
  split_ifs <;> rfl

theorem objects_Wink_start (w : World) (nowMs : Nat) (l : Bool) :
    objectOffsets (Wink_start w nowMs l) = objectOffsets w := by
  unfold Wink_start
  split_ifs <;> rfl

theorem objects_Blink_update (w : World) (nowMs : Nat) :
    objectOffsets (Blink_update w nowMs) = objectOffsets w := by
  unfold Blink_update
  split_ifs <;> rfl

theorem objects_blinkBlock (w : World) (nowMs : Nat) :
    objectOffsets (blinkBlock w nowMs) = objectOffsets w := by
  unfold blinkBlock
  split_ifs <;>
    simp only [objects_finishIdle, objects_Blink_update, objects_Blink_start]

theorem objects_winkBlock (w : World) (nowMs : Nat) (i : BlockInputs) :
    objectOffsets (winkBlock w nowMs i) = objectOffsets w := by
  unfold winkBlock
  split_ifs <;>
    simp only [objects_finishIdle, objects_Blink_update, objects_Wink_start]

theorem objects_jitterBlock (w : World) (nowMs : Nat) (i : BlockInputs) :
    objectOffsets (jitterBlock w nowMs i) = objectOffsets w := by
  unfold jitterBlock jitterKick
  split_ifs <;> rfl

theorem objects_happyBlock (w : World) (nowMs : Nat) (i : BlockInputs) :
    objectOffsets (happyBlock w nowMs i) = objectOffsets w := by
  unfold happyBlock
  split_ifs <;> rfl

theorem objects_excitedBlock (w : World) (nowMs : Nat) (i : BlockInputs) :
    objectOffsets (excitedBlock w nowMs i) = objectOffsets w := by
  unfold excitedBlock
  split_ifs <;> rfl

theorem objects_judgingBlock (w : World) (nowMs : Nat) (i : BlockInputs) :
    objectOffsets (judgingBlock w nowMs i) = objectOffsets w := by
  unfold judgingBlock
  split_ifs <;> rfl

theorem objects_giggleBlock (w : World) (nowMs : Nat) (i : BlockInputs) :
    objectOffsets (giggleBlock w nowMs i) = objectOffsets w := by
  unfold giggleBlock giggleAnimate
  split_ifs <;> rfl

theorem objects_idleStateBlock (w : World) (nowMs : Nat) (i : BlockInputs) :
    objectOffsets (idleStateBlock w nowMs i) = objectOffsets w := by
  unfold idleStateBlock
  split_ifs
  · rfl
  · split <;>
      first
      | rfl
      | exact objects_blinkBlock _ _
      | exact objects_winkBlock _ _ _
      | exact objects_jitterBlock _ _ _
      | exact objects_happyBlock _ _ _
      | exact objects_excitedBlock _ _ _
      | exact objects_judgingBlock _ _ _
      | exact objects_giggleBlock _ _ _

theorem objects_motionTick (w : World) (t : TickInputs) (h : ObjectsHome w) :
    ObjectsHome (motionTick w t) := by
  unfold motionTick
  unfold ObjectsHome
  rw [objects_idleStateBlock]
  exact objects_interpolation _ h

/-! ### The emotion half of the tick and the gesture dispatch -/

theorem objects_EyeAnim_updateHappy (w : World) (nowMs m r : Nat) :
    objectOffsets (EyeAnim_updateHappy w nowMs m r) = objectOffsets w := by
  unfold EyeAnim_updateHappy
  split_ifs <;> rfl

theorem objects_pickEmotion (w : World) (i : EmotionInputs) :
    objectOffsets (pickEmotion w i) = objectOffsets w := rfl

theorem objects_refreshSubState (w : World) (mSub : Nat) :
    objectOffsets (refreshSubState w mSub) = objectOffsets w := rfl

theorem objects_afterExpiry (w : World) (i : EmotionInputs) :
    objectOffsets (afterExpiry w i) = objectOffsets w := by
  unfold afterExpiry
  split_ifs <;>
    first
    | exact objects_EyeAnim_updateHappy _ _ _ _
    | exact objects_pickEmotion _ _
    | rfl

theorem objects_updateIdleBlinkAndEmotion (w : World) (hl gr : Bool) (i : EmotionInputs) :
    objectOffsets (updateIdleBlinkAndEmotion w hl gr i) = objectOffsets w := by
  unfold updateIdleBlinkAndEmotion
  split_ifs <;>
    first
    | exact (objects_afterExpiry _ i).trans
        ((objects_withEmotion _ _).trans (objects_refreshSubState w i.mSub))
    | exact objects_refreshSubState w i.mSub

theorem objects_Clean_start (w : World) (nowMs : Nat) (i : DispatchInputs) :
    objectOffsets (Clean_start w nowMs i) = objectOffsets w := by
  unfold Clean_start
  split_ifs <;> rfl

theorem objects_Sleep_end (w : World) (i : DispatchInputs) :
    objectOffsets (Sleep_end w i) = objectOffsets w := by
  unfold Sleep_end
  split_ifs <;> rfl

theorem objects_onGameRunning (w : World) (touch : TouchSystem.TouchPoint)
    (i : DispatchInputs) : objectOffsets (onGameRunning w touch i) = objectOffsets w := by
  unfold onGameRunning
  split <;> (try split_ifs) <;> rfl

theorem objects_onOptions (w : World) (touch : TouchSystem.TouchPoint) :
    objectOffsets (onOptions w touch) = objectOffsets w := by
  unfold onOptions
  split <;> rfl

theorem objects_onGames (w : World) (touch : TouchSystem.TouchPoint) (i : DispatchInputs) :
    objectOffsets (onGames w touch i) = objectOffsets w := by
  unfold onGames
  split <;> rfl

theorem objects_onConnect (w : World) (touch : TouchSystem.TouchPoint) (i : DispatchInputs) :
    objectOffsets (onConnect w touch i) = objectOffsets w := by
  unfold onConnect
  split <;> (try split_ifs) <;> rfl

theorem objects_onMessage (w : World) (touch : TouchSystem.TouchPoint) :
    objectOffsets (onMessage w touch) = objectOffsets w := by
  unfold onMessage
  split <;> rfl

theorem objects_onStatsTap (w : World) (nowMs : Nat) (i : DispatchInputs) :
    objectOffsets (onStatsTap w nowMs i) = objectOffsets w := by
  unfold onStatsTap
  split_ifs
  · exact objects_Clean_start w nowMs i
  · rfl
  · rfl

theorem objects_onStats (w : World) (touch : TouchSystem.TouchPoint) (nowMs : Nat)
    (i : DispatchInputs) : objectOffsets (onStats w touch nowMs i) = objectOffsets w := by
  unfold onStats
  split <;> first | rfl | exact objects_onStatsTap w nowMs i

theorem objects_onBattery (w : World) (touch : TouchSystem.TouchPoint) :
    objectOffsets (onBattery w touch) = objectOffsets w := by
  unfold onBattery
  split <;> rfl

theorem objects_onLevel (w : World) (touch : TouchSystem.TouchPoint) :
    objectOffsets (onLevel w touch) = objectOffsets w := by
  unfold onLevel
  split <;> rfl

theorem objects_onMenu (w : World) (touch : TouchSystem.TouchPoint) (i : DispatchInputs) :
    objectOffsets (onMenu w touch i) = objectOffsets w := by
  unfold onMenu onMenuTap
  split <;> (try split_ifs) <;> rfl

theorem objects_onClosed (w : World) (touch : TouchSystem.TouchPoint) (i : DispatchInputs) :
    objectOffsets (onClosed w touch i) = objectOffsets w := by
  unfold onClosed
  split <;> (try split_ifs) <;> rfl

theorem objects_layerDispatch (w : World) (touch : TouchSystem.TouchPoint) (nowMs : Nat)
    (i : DispatchInputs) : objectOffsets (layerDispatch w touch nowMs i) = objectOffsets w := by
  unfold layerDispatch
  split_ifs <;>
    simp only [objects_onGameRunning, objects_onOptions, objects_onGames, objects_onConnect,
      objects_onMessage, objects_onStats, objects_onBattery, objects_onLevel, objects_onMenu,
      objects_onClosed]

theorem objects_deliver (w : World) (touch : TouchSystem.TouchPoint) (nowMs : Nat)
    (i : DispatchInputs) : objectOffsets (deliver w touch nowMs i) = objectOffsets w := by
  unfold deliver
  split_ifs <;>
    first
    | rfl
    | exact objects_layerDispatch w touch nowMs i
    | exact (objects_setBlock _).trans (objects_Sleep_end w i)

theorem objects_dispatchGesture (w : World) (nowMs : Nat) (i : DispatchInputs) :
    objectOffsets (dispatchGesture w nowMs i) = objectOffsets w := by
  unfold dispatchGesture
  split_ifs
  · rfl
  · exact objects_deliver _ _ nowMs i
  · rfl

theorem objects_Feed_end (w : World) : objectOffsets (Feed_end w) = objectOffsets w := by
  unfold Feed_end
  split_ifs <;> rfl

theorem objects_Sleep_start (w : World) (nowMs mSet : Nat) :
    objectOffsets (Sleep_start w nowMs mSet) = objectOffsets w := by
  unfold Sleep_start
  split_ifs <;> rfl

/-- Every step of the running display unit leaves the visual objects
allocated, with every integer offset and every offset target 0. -/
theorem objects_displayStep (w : World) (s : DisplayStep) (h : ObjectsHome w) :
    ObjectsHome (displayStep w s) := by
  cases s with
  | motion t => exact objects_motionTick w t h
  | look nowMs inp => exact h
  | emotion hl gr i =>
    show objectOffsets (updateIdleBlinkAndEmotion w hl gr i) = _
    rw [objects_updateIdleBlinkAndEmotion]; exact h
  | touch t => exact h
  | gesture nowMs i =>
    show objectOffsets (dispatchGesture w nowMs i) = _
    rw [objects_dispatchGesture]; exact h
  | feedStart nowMs mSet => exact h
  | feedEnd =>
    show objectOffsets (Feed_end w) = _
    rw [objects_Feed_end]; exact h
  | sleepStart nowMs mSet =>
    show objectOffsets (Sleep_start w nowMs mSet) = _
    rw [objects_Sleep_start]; exact h

theorem objects_foldl (steps : List DisplayStep) (w : World) (h : ObjectsHome w) :
    ObjectsHome (steps.foldl displayStep w) := by
  induction steps generalizing w with
  | nil => exact h
  | cons s rest ih => exact ih _ (objects_displayStep w s h)

/-- From start-up, after any sequence of steps, the visual objects are
allocated and every integer offset and every offset target is 0. -/
theorem objects_displayRun (menu : MenuSystem.State) (steps : List DisplayStep) :
    ObjectsHome (displayRun menu steps) :=
  objects_foldl steps _ (objects_init menu)

end Display

namespace Display

open Arith

end Display

namespace Display

open Arith

/-! ## Idle behaviours: the state at completion -/

/-- The jitter branch leaves a non-zero jitter amplitude on every tick, the
completing one included. -/
theorem jitterBlock_amp (w : World) (nowMs : Nat) (i : BlockInputs) :
    (jitterBlock w nowMs i).idle.gMotion.jitterAmp ≠ 0 := by
  have hk : (jitterKick w i).idle.gMotion.jitterAmp ≠ 0 := by
    unfold jitterKick
    split_ifs with h
    · show JITTER_AMP_PX % 256 ≠ 0
      decide
    · exact h
  unfold jitterBlock
  split_ifs
  · exact hk
  · exact hk

/-- C11, at a failing input: JitterBoth started at 10000 from the neutral
start-up world, ticked at 10000, 10200 and 10420 with every clock read of a
tick equal to its `nowMs`. The behaviour is active before the third tick and
inactive after it, and after it the jitter amplitude is 5, the jitter offsets
are (3, -2) and the jitter runs until 10840. -/
theorem jitter_rekicked_at_completion :
    NeutralAt (World.init (MenuSystem.State.init EyeGame.freshWorld)) BodyCoord.x ∧
    (motionRun (startBehaviour IdleStateType.JitterBoth 10000)
      [tickAt 10000 0 1, tickAt 10200 0 1]).idle.idleState.active = true ∧
    (motionRun (startBehaviour IdleStateType.JitterBoth 10000)
      [tickAt 10000 0 1, tickAt 10200 0 1]).idle.gMotion.jitterUntil = 10420 ∧
    (motionRun (startBehaviour IdleStateType.JitterBoth 10000)
      [tickAt 10000 0 1, tickAt 10200 0 1, tickAt 10420 0 1]).idle.idleState.active = false ∧
    (motionRun (startBehaviour IdleStateType.JitterBoth 10000)
      [tickAt 10000 0 1, tickAt 10200 0 1, tickAt 10420 0 1]).idle.gMotion.jitterAmp = 5 ∧
    (motionRun (startBehaviour IdleStateType.JitterBoth 10000)
      [tickAt 10000 0 1, tickAt 10200 0 1, tickAt 10420 0 1]).idle.gMotion.jitterX = 3 ∧
    (motionRun (startBehaviour IdleStateType.JitterBoth 10000)
      [tickAt 10000 0 1, tickAt 10200 0 1, tickAt 10420 0 1]).idle.gMotion.jitterY = -2 ∧
    (motionRun (startBehaviour IdleStateType.JitterBoth 10000)
      [tickAt 10000 0 1, tickAt 10200 0 1, tickAt 10420 0 1]).idle.gMotion.jitterUntil
      = 10840 := by
  refine ⟨?_, ?_, ?_, ?_, ?_, ?_, ?_, ?_⟩
  · simp [NeutralAt, World.init, VisualObject.neutral, GlobalMotion.init, bodyOffset]
  · decide
  · decide
  · decide
  · decide
  · decide
  · decide
  · decide

end Display

namespace Display

open Arith

theorem interpolate_idleState (w : World) :
    (UpdateVisualInterpolation w).idle.idleState = w.idle.idleState ∧
    (UpdateVisualInterpolation w).eye = w.eye ∧
    (UpdateVisualInterpolation w).blinkRt = w.blinkRt := by
  unfold UpdateVisualInterpolation
  split_ifs <;> exact ⟨rfl, rfl, rfl⟩

/-- Every tick of a jitter behaviour, the completing one included, ends with
a non-zero jitter amplitude. -/
theorem jitter_tick_amp (w : World) (t : TickInputs)
    (hact : w.idle.idleState.active = true)
    (hkind : w.idle.idleState.type = IdleStateType.JitterBoth ∨
      w.idle.idleState.type = IdleStateType.JitterLeft ∨
      w.idle.idleState.type = IdleStateType.JitterRight) :
    (motionTick w t).idle.gMotion.jitterAmp ≠ 0 := by
  have hst := (interpolate_idleState
    (w.withMotion (GlobalMotion_update w.idle.gMotion t.nowMs t.rUx t.rUy))).1
  have hst2 : (w.withMotion (GlobalMotion_update w.idle.gMotion t.nowMs t.rUx t.rUy)).idle.idleState
      = w.idle.idleState := rfl
  rw [hst2] at hst
  unfold motionTick idleStateBlock
  rw [hst, hact]
  simp only [Bool.not_true, Bool.false_eq_true, if_false]
  rcases hkind with h | h | h <;> rw [h] <;> exact jitterBlock_amp _ _ _

/-- The tick that completes a HappyBounce resets what the behaviour drove. -/
theorem happy_completion (w : World) (nowMs : Nat) (i : BlockInputs)
    (h : sinceStart w nowMs ≥ w.idle.idleState.durationMs) :
    (happyBlock w nowMs i).idle.idleState.active = false ∧
    (happyBlock w nowMs i).eye.topOffset = 0 ∧ (happyBlock w nowMs i).eye.scale = 1 ∧
    (happyBlock w nowMs i).idle.gMotion.offY = 0 ∧
    (happyBlock w nowMs i).idle.gMotion.jitterAmp = w.idle.gMotion.jitterAmp ∧
    (happyBlock w nowMs i).leftEye = w.leftEye ∧ (happyBlock w nowMs i).rightEye = w.rightEye := by
  unfold happyBlock
  rw [if_pos h]
  exact ⟨rfl, rfl, rfl, rfl, rfl, rfl, rfl⟩

/-- The tick that completes a Judging resets what the behaviour drove. -/
theorem judging_completion (w : World) (nowMs : Nat) (i : BlockInputs)
    (h : sinceStart w nowMs ≥ w.idle.idleState.durationMs) :
    (judgingBlock w nowMs i).idle.idleState.active = false ∧
    (judgingBlock w nowMs i).eye.topOffset = 0 ∧ (judgingBlock w nowMs i).eye.scale = 1 ∧
    (judgingBlock w nowMs i).idle.gMotion.offX = 0 ∧
    (judgingBlock w nowMs i).leftEye.scaleX = 1 ∧ (judgingBlock w nowMs i).leftEye.scaleY = 1 ∧
    (judgingBlock w nowMs i).rightEye.scaleX = 1 ∧
    (judgingBlock w nowMs i).rightEye.scaleY = 1 ∧
    (judgingBlock w nowMs i).idle.gMotion.jitterAmp = w.idle.gMotion.jitterAmp := by
  unfold judgingBlock
  rw [if_pos h]
  exact ⟨rfl, rfl, rfl, rfl, rfl, rfl, rfl, rfl, rfl⟩

/-- The tick that completes a Blink leaves the eye open and touches neither
the scale nor the motion record. -/
theorem blink_completion (w : World) (nowMs : Nat)
    (h : Blink_updateDone (if !w.blinkRt.active then Blink_start w nowMs true true else w) nowMs
      = true) :
    (blinkBlock w nowMs).idle.idleState.active = false ∧
    (blinkBlock w nowMs).eye.topOffset = 0 ∧ (blinkBlock w nowMs).eye.scale = w.eye.scale ∧
    (blinkBlock w nowMs).blinkRt.active = false ∧
    (blinkBlock w nowMs).idle.gMotion = w.idle.gMotion := by
  unfold blinkBlock
  rw [if_pos h]
  unfold Blink_updateDone at h
  simp only [Bool.and_eq_true, decide_eq_true_eq] at h
  obtain ⟨hact, hlate⟩ := h
  have h1 : ¬ (Arith.sub32 nowMs
      (if !w.blinkRt.active then Blink_start w nowMs true true else w).blinkRt.startMs
        < BLINK_CLOSE_MS) := by
    unfold BLINK_CLOSE_MS BLINK_HOLD_MS BLINK_OPEN_MS at *
    omega
  have h2 : ¬ (Arith.sub32 nowMs
      (if !w.blinkRt.active then Blink_start w nowMs true true else w).blinkRt.startMs
        < BLINK_CLOSE_MS + BLINK_HOLD_MS) := by
    unfold BLINK_CLOSE_MS BLINK_HOLD_MS BLINK_OPEN_MS at *
    omega
  have h3 : ¬ (Arith.sub32 nowMs
      (if !w.blinkRt.active then Blink_start w nowMs true true else w).blinkRt.startMs
        < BLINK_CLOSE_MS + BLINK_HOLD_MS + BLINK_OPEN_MS) := by
    omega
  unfold Blink_update
  rw [hact]
  simp only [Bool.not_true, Bool.false_eq_true, if_false]
  rw [if_neg h1, if_neg h2, if_neg h3]
  refine ⟨rfl, rfl, ?_, rfl, ?_⟩
  · show (if !w.blinkRt.active then Blink_start w nowMs true true else w).eye.scale = w.eye.scale
    unfold Blink_start
    split_ifs <;> rfl
  · show (if !w.blinkRt.active then Blink_start w nowMs true true else w).idle.gMotion
      = w.idle.gMotion
    unfold Blink_start
    split_ifs <;> rfl

end Display

namespace SubStateSystem

open Arith EyeEmotion

/-- The new global state of `update` is `updateState`. -/
theorem update_fst (g : State) (out : Snapshot) (i : Inputs) :
    (update g out i).1 = updateState g i := rfl

/-- C21. Per statistic `k`, one `update` call applies the three-case rule. The
low-timer becomes 0 when the value is at or above `RECOVER_THRESHOLD` (80),
stays as it is when the value is below the low threshold and the timer runs
(is not 0), becomes `now` when the value is below the low threshold and the
timer does not run, and becomes 0 in between. The sub-state flag is cleared at
or above 80, is unchanged in between, and below the low threshold is the old
flag or the activation by the timer; a flag that was set stays set as long as
the value is below 80. -/
theorem update_three_case_rule (k : Stat) (g : State) (out : Snapshot) (i : Inputs) :
    RECOVER_THRESHOLD = 80
      ∧ k.lowSince (update g out i).1
          = (if k.value i ≥ RECOVER_THRESHOLD then 0
             else if k.value i < k.lowThreshold then
               (if k.lowSince g ≠ 0 then k.lowSince g else i.now)
             else 0)
      ∧ k.subState (update g out i).1
          = (if k.value i ≥ RECOVER_THRESHOLD then false
             else if k.value i < k.lowThreshold then
               (k.subState g
                 || sustainedLow (if k.lowSince g ≠ 0 then k.lowSince g else i.now) i.now
                      PRIMARY_ACTIVATE_MS)
             else k.subState g)
      ∧ (k.value i < RECOVER_THRESHOLD → k.subState g = true →
          k.subState (update g out i).1 = true) := by
  have hl := lowThreshold_le k
  have h1 : k.lowSince (update g out i).1
      = (if k.value i ≥ RECOVER_THRESHOLD then 0
         else if k.value i < k.lowThreshold then
           (if k.lowSince g ≠ 0 then k.lowSince g else i.now)
         else 0) := by
    rw [update_fst, lowSince_updateState]
    unfold trackLow RECOVER_THRESHOLD
    split_ifs <;> first | rfl | omega
  refine ⟨rfl, h1, ?_, ?_⟩
  · rw [update_fst, subState_updateState, ← update_fst g out i, h1]
    unfold RECOVER_THRESHOLD
    split_ifs with ha hb hc
    · simp [sustainedLow]
    · rfl
    · rfl
    · simp [sustainedLow]
  · intro hv hs
    rw [update_fst, subState_updateState, if_neg (not_le.mpr hv), hs]
    rfl

/-- C21 at a concrete call: hunger 50 at time 5000 with the irritable
sub-state set keeps it set. -/
theorem update_three_case_rule_witness :
    Stat.subState Stat.hunger
      (update { begin with sub_irritable := true } Snapshot.zero
        (sampleCall 5000 50 60 60 60)).1 = true :=
  (update_three_case_rule Stat.hunger { begin with sub_irritable := true } Snapshot.zero
    (sampleCall 5000 50 60 60 60)).2.2.2 (by decide) rfl

end SubStateSystem

namespace Display

open EyeEmotion SubStateSystem

/-- C27 fails on the code. At level 1 the features `IDLE_JITTER`,
`IDLE_GIGGLE` and `IDLE_JUDGING` are locked, yet with the snapshot
`SubStateSystem::update` writes at level 1 the idle behaviour pick returns
`JitterLeft` for the roll 16, `Judging` for the roll 27 and `Giggle` for the
roll 43, and `IdleLook_update` puts `JitterLeft` in the slot: the pick skips
an entry only by weight and by the mood flags of `IdleBehavior_isSuppressed`. -/
theorem locked_behaviour_is_picked :
    LevelSystem.isUnlocked 1 LevelSystem.FeatureID.IDLE_JITTER = false
      ∧ LevelSystem.isUnlocked 1 LevelSystem.FeatureID.IDLE_GIGGLE = false
      ∧ LevelSystem.isUnlocked 1 LevelSystem.FeatureID.IDLE_JUDGING = false
      ∧ IdleBehavior_pickWeighted levelOneSnapshot 16 = IdleStateType.JitterLeft
      ∧ IdleBehavior_pickWeighted levelOneSnapshot 27 = IdleStateType.Judging
      ∧ IdleBehavior_pickWeighted levelOneSnapshot 43 = IdleStateType.Giggle
      ∧ (IdleLook_update levelOneWorld 50000 (homeInputs 16)).idleState
          = { type := IdleStateType.JitterLeft, active := true, startMs := 50000,
              durationMs := 420 } := by
  refine ⟨rfl, rfl, rfl, by decide, by decide, by decide, ?_⟩
  have h1 : levelOneWorld.idleState.active = false := rfl
  have h2 : idleBlocked levelOneWorld (homeInputs 16) = false := by decide
  have h3 : (Emotion_isActive levelOneWorld.emotionState (homeInputs 16).millisNow
      || Emotion_isReady levelOneWorld.emotionState 50000 (homeInputs 16).millisReady)
      = false := by decide
  have h4 : (!levelOneWorld.idleLook.active) = false := rfl
  have h5 : IdleLook_reachedDestination levelOneWorld.gMotion = true := by
    simp [IdleLook_reachedDestination, levelOneWorld, levelScreenWorld]
  have h6 : IdleBehavior_pickWeighted levelOneWorld.subState (homeInputs 16).rRoll
      = IdleStateType.JitterLeft := by decide
  unfold IdleLook_update
  simp only [h1, h2, h3, h4, h5, h6, Bool.false_eq_true, if_false, if_true]
  decide

end Display

namespace Display

open Arith

theorem GlobalMotion_run_cons (g : GlobalMotion) (t : JitterTick) (l : List JitterTick) :
    GlobalMotion_run g (t :: l)
      = GlobalMotion_run (GlobalMotion_update g t.nowMs t.rx t.ry) l := rfl

/-- A refresh before the expiry, with the draws inside the amplitude. -/
theorem GlobalMotion_update_before (g : GlobalMotion) (nowMs : Nat) (rx ry : Int)
    (ha : 0 < g.jitterAmp) (hb : g.jitterAmp ≤ 255) (hn : nowMs < g.jitterUntil)
    (hx : inAmp g.jitterAmp rx) (hy : inAmp g.jitterAmp ry) :
    GlobalMotion_update g nowMs rx ry = { g with jitterX := rx, jitterY := ry } := by
  unfold inAmp at hx hy
  unfold GlobalMotion_update
  rw [if_neg (by omega), if_neg (by omega), i16_of_range rx (by omega) (by omega),
    i16_of_range ry (by omega) (by omega)]

/-- Any number of refreshes before the expiry keep amplitude and expiry. -/
theorem GlobalMotion_run_before (ticks : List JitterTick) :
    ∀ g : GlobalMotion, 0 < g.jitterAmp → g.jitterAmp ≤ 255 →
      inAmp g.jitterAmp g.jitterX → inAmp g.jitterAmp g.jitterY →
      (∀ t ∈ ticks, t.nowMs < g.jitterUntil ∧ inAmp g.jitterAmp t.rx ∧ inAmp g.jitterAmp t.ry) →
      (GlobalMotion_run g ticks).jitterAmp = g.jitterAmp
        ∧ (GlobalMotion_run g ticks).jitterUntil = g.jitterUntil
        ∧ inAmp g.jitterAmp (GlobalMotion_run g ticks).jitterX
        ∧ inAmp g.jitterAmp (GlobalMotion_run g ticks).jitterY := by
  induction ticks with
  | nil => intro g _ _ hx hy _; exact ⟨rfl, rfl, hx, hy⟩
  | cons t l ih =>
      intro g ha hb _ _ ht
      obtain ⟨h1, h2, h3⟩ := ht t (List.mem_cons_self t l)
      rw [GlobalMotion_run_cons, GlobalMotion_update_before g t.nowMs t.rx t.ry ha hb h1 h2 h3]
      exact ih { g with jitterX := t.rx, jitterY := t.ry } ha hb h2 h3
        (fun d hd => ht d (List.mem_cons_of_mem t hd))

/-- C26. With the jitter kicked (amplitude `a > 0`, a `uint8_t`, expiry `u`)
and the `random` draws inside `[-a, a]`: after any number of
`GlobalMotion_update` calls before `u` the amplitude and the expiry are
unchanged and `jitterX`, `jitterY` are the last draws, inside `[-a, a]`; the
next call at or after `u` sets `jitterX`, `jitterY` and the amplitude to 0;
and `UpdateVisualInterpolation` changes none of `jitterX`, `jitterY`,
`jitterAmp`, `jitterUntil` in any world. -/
theorem jitter_free_runs (g : GlobalMotion) (ticks : List JitterTick) (t : JitterTick)
    (nowMs : Nat) (rx ry : Int) (w : World)
    (ha : 0 < g.jitterAmp) (hb : g.jitterAmp ≤ 255)
    (hx : inAmp g.jitterAmp g.jitterX) (hy : inAmp g.jitterAmp g.jitterY)
    (hticks : ∀ d ∈ ticks ++ [t],
      d.nowMs < g.jitterUntil ∧ inAmp g.jitterAmp d.rx ∧ inAmp g.jitterAmp d.ry)
    (hnow : nowMs ≥ g.jitterUntil) :
    ((GlobalMotion_run g (ticks ++ [t])).jitterAmp = g.jitterAmp
        ∧ (GlobalMotion_run g (ticks ++ [t])).jitterUntil = g.jitterUntil
        ∧ (GlobalMotion_run g (ticks ++ [t])).jitterX = t.rx
        ∧ (GlobalMotion_run g (ticks ++ [t])).jitterY = t.ry
        ∧ inAmp g.jitterAmp (GlobalMotion_run g (ticks ++ [t])).jitterX
        ∧ inAmp g.jitterAmp (GlobalMotion_run g (ticks ++ [t])).jitterY)
      ∧ ((GlobalMotion_update (GlobalMotion_run g ticks) nowMs rx ry).jitterX = 0
        ∧ (GlobalMotion_update (GlobalMotion_run g ticks) nowMs rx ry).jitterY = 0
        ∧ (GlobalMotion_update (GlobalMotion_run g ticks) nowMs rx ry).jitterAmp = 0)
      ∧ ((UpdateVisualInterpolation w).idle.gMotion.jitterX = w.idle.gMotion.jitterX
        ∧ (UpdateVisualInterpolation w).idle.gMotion.jitterY = w.idle.gMotion.jitterY
        ∧ (UpdateVisualInterpolation w).idle.gMotion.jitterAmp = w.idle.gMotion.jitterAmp
        ∧ (UpdateVisualInterpolation w).idle.gMotion.jitterUntil
            = w.idle.gMotion.jitterUntil) := by
  have hpre := GlobalMotion_run_before ticks g ha hb hx hy
    (fun d hd => hticks d (List.mem_append_left _ hd))
  obtain ⟨p1, p2, p3, p4⟩ := hpre
  obtain ⟨q1, q2, q3⟩ := hticks t (List.mem_append_right _ (List.mem_singleton_self t))
  have hlast : GlobalMotion_run g (ticks ++ [t])
      = { GlobalMotion_run g ticks with jitterX := t.rx, jitterY := t.ry } := by
    have e : GlobalMotion_run g (ticks ++ [t])
        = GlobalMotion_update (GlobalMotion_run g ticks) t.nowMs t.rx t.ry := by
      simp [GlobalMotion_run, List.foldl_append]
    rw [e]
    exact GlobalMotion_update_before _ _ _ _ (by rw [p1]; exact ha) (by rw [p1]; exact hb)
      (by rw [p2]; exact q1) (by rw [p1]; exact q2) (by rw [p1]; exact q3)
  refine ⟨?_, ?_, ?_⟩
  · rw [hlast]
    exact ⟨p1, p2, rfl, rfl, q2, q3⟩
  · unfold GlobalMotion_update
    rw [if_neg (by rw [p1]; omega), if_pos (by rw [p2]; exact hnow)]
    exact ⟨rfl, rfl, rfl⟩
  · unfold UpdateVisualInterpolation lerpMotion
    split_ifs <;> exact ⟨rfl, rfl, rfl, rfl⟩

/-- C26 at a concrete run: kicked with amplitude 4 at time 1000 for 420 ms,
refreshed at 1100 and 1300, then updated at 1420. -/
theorem jitter_free_runs_witness :
    (GlobalMotion_run kickedMotion
        ([{ nowMs := 1100, rx := -4, ry := 1 }] ++ [{ nowMs := 1300, rx := 2, ry := 4 }])).jitterX
        = 2
      ∧ (GlobalMotion_update
          (GlobalMotion_run kickedMotion [{ nowMs := 1100, rx := -4, ry := 1 }])
          1420 3 3).jitterAmp = 0 :=
  have h := jitter_free_runs kickedMotion [{ nowMs := 1100, rx := -4, ry := 1 }]
    { nowMs := 1300, rx := 2, ry := 4 } 1420 3 3
    (World.init (MenuSystem.State.init EyeGame.freshWorld))
    (by decide) (by decide) (by decide) (by decide) (by decide) (by decide)
  ⟨h.1.2.2.1, h.2.1.2.2⟩

end Display

namespace TouchSystem

open Arith

/-! ## Read failures and the release timeout -/

/-- What `checkLongPress` leaves alone: every field of the contact record but
`longPressFired`; it emits nothing or one long-press. -/
theorem checkLongPress_keeps (s : Sys) (now : Nat) :
    (checkLongPress s now).touch.isDown = s.touch.isDown
      ∧ (checkLongPress s now).touch.downX = s.touch.downX
      ∧ (checkLongPress s now).touch.downY = s.touch.downY
      ∧ (checkLongPress s now).touch.downTime = s.touch.downTime
      ∧ (checkLongPress s now).touch.lastReadTime = s.touch.lastReadTime
      ∧ ∃ evs, (checkLongPress s now).emitted = s.emitted ++ evs
          ∧ ∀ e ∈ evs, e.gesture = TouchGesture.TOUCH_LONG_PRESS := by
  by_cases h1 : (s.touch.longPressFired || !s.touch.isDown) = true
  · rw [checkLongPress, if_pos h1]
    exact ⟨by simp, by simp, by simp, by simp, by simp, [], by simp, by simp⟩
  · by_cases h2 : sub32 now s.touch.downTime < LONG_PRESS_MS
    · rw [checkLongPress, if_neg h1]
      simp only [h2, if_true]
      exact ⟨by simp, by simp, by simp, by simp, by simp, [], by simp, by simp⟩
    · by_cases h3 : calculateDistance s.touch.downX s.touch.downY s.touch.currentX
          s.touch.currentY ≤ TAP_MAX_DRIFT_PX
      · rw [checkLongPress, if_neg h1]
        simp only [h2, h3, if_true, if_false]
        refine ⟨by simp [emitGesture], by simp [emitGesture], by simp [emitGesture],
          by simp [emitGesture], by simp [emitGesture], _, rfl, ?_⟩
        intro e he
        rw [List.mem_singleton] at he
        rw [he]
      · rw [checkLongPress, if_neg h1]
        simp only [h2, h3, if_false]
        exact ⟨by simp, by simp, by simp, by simp, by simp, [], by simp, by simp⟩

theorem handleTouchRelease_isDown (s : Sys) (now : Nat) :
    (handleTouchRelease s now).touch.isDown = false := by
  by_cases h1 : s.touch.longPressFired = true
  · simp [handleTouchRelease, h1]
  · have hf : s.touch.longPressFired = false := by simpa using h1
    by_cases h2 : sub32 now s.touch.downTime < DEBOUNCE_MS
    · simp [handleTouchRelease, hf, h2]
    · simp only [handleTouchRelease, hf, Bool.false_eq_true, if_false, h2]

theorem polled_touch (s : Sys) (t : Tick) :
    (polled s t).touch = s.touch ∧ (polled s t).emitted = s.emitted := by
  unfold polled
  rcases t.tca with _ | v
  · exact ⟨rfl, rfl⟩
  · simp only []
    split_ifs <;> exact ⟨rfl, rfl⟩

/-- A polled `update` on a held contact is the held block. -/
theorem update_polled_held (s : Sys) (t : Tick) (hd : s.touch.isDown = true)
    (hp : 5 ≤ sub32 t.now s.lastUpdate) :
    update s t = updateHeld (polled s t) t.now t.rd := by
  have hp1 : ¬ sub32 t.now s.lastUpdate < 5 := Nat.not_lt.mpr hp
  unfold update polled
  simp only [hp1, if_false]
  rcases t.tca with _ | v
  · simp only [hd, if_true]
  · by_cases hv : v % 2 = 0
    · simp only [hv, hd, if_true]
    · simp only [hv, hd, if_true, if_false]

/-- An `update` that is not polled, or on which no contact is down, emits
nothing. -/
theorem update_idle_emitted (s : Sys) (t : Tick)
    (h : sub32 t.now s.lastUpdate < 5 ∨ s.touch.isDown = false) :
    (update s t).emitted = s.emitted := by
  unfold update
  by_cases hp : sub32 t.now s.lastUpdate < 5
  · simp only [hp, if_true]
  · have hd : s.touch.isDown = false := h.resolve_left hp
    simp only [hp, if_false]
    rcases t.tca with _ | v <;> rcases t.rd with _ | ⟨fc, x, y⟩ <;> simp only [] <;>
      split_ifs <;> simp_all [handleTouchDown]

theorem newEvents_append (s s1 : Sys) (evs : List TouchPoint)
    (h : s1.emitted = s.emitted ++ evs) : newEvents s s1 = evs := by
  unfold newEvents
  rw [h]
  simp

/-- C24. On a polled `update` tick with a contact down whose touch read fails
(`rd = none`): when `now - lastReadTime < 120` (in `uint32_t` arithmetic) the
contact stays down, the down position and down time are unchanged, and every
event emitted is a long-press (no Tap, no Swipe); when
`now - lastReadTime >= 120` the call does exactly what it does on a successful
read reporting no finger (the release classification of `handleTouchRelease`),
and the contact is no longer down. -/
theorem read_failure_tolerance (s : Sys) (now : Nat) (tca : Option Nat) (x y : Nat)
    (hd : s.touch.isDown = true) (hp : 5 ≤ sub32 now s.lastUpdate) :
    RELEASE_TIMEOUT_MS = 120
      ∧ (sub32 now s.touch.lastReadTime < RELEASE_TIMEOUT_MS →
          (update s { now := now, tca := tca, rd := none }).touch.isDown = true
            ∧ (update s { now := now, tca := tca, rd := none }).touch.downX = s.touch.downX
            ∧ (update s { now := now, tca := tca, rd := none }).touch.downY = s.touch.downY
            ∧ (update s { now := now, tca := tca, rd := none }).touch.downTime
                = s.touch.downTime
            ∧ ∀ e ∈ newEvents s (update s { now := now, tca := tca, rd := none }),
                e.gesture = TouchGesture.TOUCH_LONG_PRESS)
      ∧ (RELEASE_TIMEOUT_MS ≤ sub32 now s.touch.lastReadTime →
          update s { now := now, tca := tca, rd := none }
              = update s { now := now, tca := tca, rd := some (0, x, y) }
            ∧ update s { now := now, tca := tca, rd := none }
              = handleTouchRelease
                  (checkLongPress (polled s { now := now, tca := tca, rd := none }) now) now
            ∧ (update s { now := now, tca := tca, rd := none }).touch.isDown = false) := by
  have e1 := update_polled_held s { now := now, tca := tca, rd := none } hd hp
  have e2 := update_polled_held s { now := now, tca := tca, rd := some (0, x, y) } hd hp
  have hpol : polled s { now := now, tca := tca, rd := some (0, x, y) }
      = polled s { now := now, tca := tca, rd := none } := rfl
  obtain ⟨p1, p2⟩ := polled_touch s { now := now, tca := tca, rd := none }
  obtain ⟨k1, k2, k3, k4, k5, evs, k6, k7⟩ :=
    checkLongPress_keeps (polled s { now := now, tca := tca, rd := none }) now
  refine ⟨rfl, ?_, ?_⟩
  · intro hlt
    have hn : ¬ sub32 now (checkLongPress (polled s { now := now, tca := tca, rd := none })
        now).touch.lastReadTime ≥ RELEASE_TIMEOUT_MS := by
      rw [k5, p1]
      exact Nat.not_le.mpr hlt
    have e3 : update s { now := now, tca := tca, rd := none }
        = checkLongPress (polled s { now := now, tca := tca, rd := none }) now := by
      rw [e1]
      unfold updateHeld
      simp only [hn, if_false]
    rw [e3, k1, k2, k3, k4, p1]
    refine ⟨hd, rfl, rfl, rfl, ?_⟩
    rw [newEvents_append s _ evs (by rw [k6, p2])]
    exact k7
  · intro hge
    have hn : sub32 now (checkLongPress (polled s { now := now, tca := tca, rd := none })
        now).touch.lastReadTime ≥ RELEASE_TIMEOUT_MS := by
      rw [k5, p1]
      exact hge
    have e3 : update s { now := now, tca := tca, rd := none }
        = handleTouchRelease
            (checkLongPress (polled s { now := now, tca := tca, rd := none }) now) now := by
      rw [e1]
      unfold updateHeld
      simp only [hn, if_true]
    have e4 : update s { now := now, tca := tca, rd := some (0, x, y) }
        = handleTouchRelease
            (checkLongPress (polled s { now := now, tca := tca, rd := none }) now) now := by
      rw [e2, hpol]
      unfold updateHeld
      simp only [gt_iff_lt, lt_self_iff_false, if_false]
    refine ⟨by rw [e3, e4], e3, ?_⟩
    rw [e3]
    exact handleTouchRelease_isDown _ _

/-- C24 on a concrete contact: down at 1000, last sample at 1000; a failed
read at 1050 keeps it down, a failed read at 1120 releases it. -/
theorem read_failure_tolerance_witness :
    (update (handleTouchDown Sys.init 100 100 1000)
        { now := 1050, tca := none, rd := none }).touch.isDown = true
      ∧ (update (handleTouchDown Sys.init 100 100 1000)
        { now := 1120, tca := none, rd := none }).touch.isDown = false :=
  ⟨((read_failure_tolerance (handleTouchDown Sys.init 100 100 1000) 1050 none 0 0 rfl
      (by decide)).2.1 (by decide)).1,
   ((read_failure_tolerance (handleTouchDown Sys.init 100 100 1000) 1120 none 0 0 rfl
      (by decide)).2.2 (by decide)).2.2⟩

end TouchSystem

namespace TouchSystem

open Arith

/-! ## Successful reads carry one or two fingers -/

theorem mapCoordinates_fst (fc a b c d f x y : Nat)
    (h : mapCoordinates fc a b c d = some (f, x, y)) : f = fc := by
  unfold mapCoordinates at h
  simp only [] at h
  split_ifs at h
  simp only [Option.some.injEq, Prod.mk.injEq] at h
  exact h.1.symm

theorem readTouchData_fingers (raw : RawRead) (f x y : Nat)
    (h : readTouchData raw = some (f, x, y)) : f = 1 ∨ f = 2 := by
  unfold readTouchData at h
  split_ifs at h
  split at h
  · simp only [] at h
    split_ifs at h with hf
    split at h
    · have := mapCoordinates_fst _ _ _ _ _ _ _ _ h
      omega
    · exact absurd h (by simp)
  · exact absurd h (by simp)

theorem sub32_add (a b c : Nat) (h : sub32 a b + sub32 c a < 4294967296) :
    sub32 c b = sub32 a b + sub32 c a := by
  unfold sub32 at *
  split_ifs at * <;> omega

/-- The events of a release all carry the held duration. -/
theorem handleTouchRelease_duration (s : Sys) (now : Nat) :
    ∃ evs, (handleTouchRelease s now).emitted = s.emitted ++ evs
      ∧ ∀ e ∈ evs, e.duration = sub32 now s.touch.downTime := by
  by_cases h1 : s.touch.longPressFired = true
  · exact ⟨[], by simp [handleTouchRelease, h1], by simp⟩
  · have hf : s.touch.longPressFired = false := by simpa using h1
    by_cases h2 : sub32 now s.touch.downTime < DEBOUNCE_MS
    · exact ⟨[], by simp [handleTouchRelease, hf, h2], by simp⟩
    · simp only [handleTouchRelease, hf, Bool.false_eq_true, if_false, h2]
      split_ifs
      all_goals
        refine ⟨_, rfl, ?_⟩
        intro e he
        rw [List.mem_singleton] at he
        rw [he]

/-- The three facts of C29 for a read outcome `rd` that, when successful,
carries at least one finger. -/
theorem held_read_cases (s : Sys) (now : Nat) (tca : Option Nat) (rd : ReadResult)
    (hfing : ∀ f x y, rd = some (f, x, y) → f = 1 ∨ f = 2)
    (hwrap : sub32 s.touch.lastReadTime s.touch.downTime + sub32 now s.touch.lastReadTime
      < 4294967296) :
    (s.touch.isDown = true → 5 ≤ sub32 now s.lastUpdate →
          ∀ f x y, rd = some (f, x, y) →
            update s { now := now, tca := tca, rd := rd }
              = handleTouchMove
                  (checkLongPress (polled s { now := now, tca := tca, rd := rd }) now)
                  x y now)
      ∧ (s.touch.isDown = true →
          (update s { now := now, tca := tca, rd := rd }).touch.isDown = false →
          rd = none
            ∧ RELEASE_TIMEOUT_MS ≤ sub32 now s.touch.lastReadTime
            ∧ update s { now := now, tca := tca, rd := rd }
                = handleTouchRelease
                    (checkLongPress (polled s { now := now, tca := tca, rd := rd }) now)
                    now)
      ∧ (∀ e ∈ newEvents s (update s { now := now, tca := tca, rd := rd }),
          e.gesture ≠ TouchGesture.TOUCH_LONG_PRESS →
          sub32 s.touch.lastReadTime s.touch.downTime + 120 ≤ e.duration) := by
  obtain ⟨p1, p2⟩ := polled_touch s { now := now, tca := tca, rd := rd }
  obtain ⟨k1, k2, k3, k4, k5, evs, k6, k7⟩ :=
    checkLongPress_keeps (polled s { now := now, tca := tca, rd := rd }) now
  have hmove : ∀ f x y, rd = some (f, x, y) →
      updateHeld (polled s { now := now, tca := tca, rd := rd }) now rd
        = handleTouchMove
            (checkLongPress (polled s { now := now, tca := tca, rd := rd }) now) x y now := by
    intro f x y h
    have hf := hfing f x y h
    have hpos : f > 0 := by omega
    generalize polled s { now := now, tca := tca, rd := rd } = q
    rw [h]
    unfold updateHeld
    simp only [hpos, if_true]
  have hfail : rd = none →
      updateHeld (polled s { now := now, tca := tca, rd := rd }) now rd
        = if sub32 now s.touch.lastReadTime ≥ RELEASE_TIMEOUT_MS then
            handleTouchRelease
              (checkLongPress (polled s { now := now, tca := tca, rd := rd }) now) now
          else
            checkLongPress (polled s { now := now, tca := tca, rd := rd }) now := by
    intro h
    rw [← p1, ← k5]
    generalize polled s { now := now, tca := tca, rd := rd } = q
    rw [h]
    rfl
  have hcases : rd = none ∨ ∃ f x y, rd = some (f, x, y) := by
    rcases rd with _ | ⟨f, x, y⟩
    · exact Or.inl rfl
    · exact Or.inr ⟨f, x, y, rfl⟩
  refine ⟨?_, ?_, ?_⟩
  · intro hd hp f x y h
    rw [update_polled_held s _ hd hp]
    exact hmove f x y h
  · intro hd hrel
    by_cases hp : 5 ≤ sub32 now s.lastUpdate
    · rw [update_polled_held s _ hd hp] at hrel ⊢
      rcases hcases with hr | ⟨f, x, y, hr⟩
      · change (updateHeld (polled s { now := now, tca := tca, rd := rd }) now rd).touch.isDown
          = false at hrel
        change rd = none ∧ RELEASE_TIMEOUT_MS ≤ sub32 now s.touch.lastReadTime
          ∧ updateHeld (polled s { now := now, tca := tca, rd := rd }) now rd = _
        rw [hfail hr] at hrel ⊢
        by_cases ht : sub32 now s.touch.lastReadTime ≥ RELEASE_TIMEOUT_MS
        · rw [if_pos ht]
          exact ⟨hr, ht, rfl⟩
        · rw [if_neg ht, k1, p1, hd] at hrel
          exact absurd hrel (by simp)
      · change (updateHeld (polled s { now := now, tca := tca, rd := rd }) now rd).touch.isDown
          = false at hrel
        rw [hmove f x y hr] at hrel
        have : (handleTouchMove
            (checkLongPress (polled s { now := now, tca := tca, rd := rd }) now)
            x y now).touch.isDown = true := by
          show (checkLongPress
            (polled s { now := now, tca := tca, rd := rd }) now).touch.isDown = true
          rw [k1, p1, hd]
        rw [this] at hrel
        exact absurd hrel (by simp)
    · have hlt : sub32 now s.lastUpdate < 5 := Nat.lt_of_not_le hp
      have e : update s { now := now, tca := tca, rd := rd } = s := by
        unfold update
        simp only [hlt, if_true]
      rw [e, hd] at hrel
      exact absurd hrel (by simp)
  · intro e he hne
    by_cases hidle : sub32 now s.lastUpdate < 5 ∨ s.touch.isDown = false
    · have h0 := update_idle_emitted s { now := now, tca := tca, rd := rd } hidle
      rw [newEvents_append s _ [] (by rw [h0]; simp)] at he
      exact absurd he (by simp)
    · have hp : 5 ≤ sub32 now s.lastUpdate := by
        by_contra hc
        exact hidle (Or.inl (Nat.lt_of_not_le hc))
      have hd : s.touch.isDown = true := by
        cases h : s.touch.isDown
        · exact absurd (Or.inr h) hidle
        · rfl
      rw [update_polled_held s _ hd hp] at he
      change e ∈ newEvents s (updateHeld (polled s { now := now, tca := tca, rd := rd }) now rd)
        at he
      rcases hcases with hr | ⟨f, x, y, hr⟩
      · rw [hfail hr] at he
        by_cases ht : sub32 now s.touch.lastReadTime ≥ RELEASE_TIMEOUT_MS
        · rw [if_pos ht] at he
          obtain ⟨evs2, r1, r2⟩ := handleTouchRelease_duration
            (checkLongPress (polled s { now := now, tca := tca, rd := rd }) now) now
          rw [newEvents_append s _ (evs ++ evs2)
            (by rw [r1, k6, p2, List.append_assoc])] at he
          rcases List.mem_append.mp he with h1 | h2
          · exact absurd (k7 e h1) hne
          · rw [r2 e h2, k4, p1, sub32_add _ _ _ hwrap]
            unfold RELEASE_TIMEOUT_MS at ht
            omega
        · rw [if_neg ht, newEvents_append s _ evs (by rw [k6, p2])] at he
          exact absurd (k7 e he) hne
      · rw [hmove f x y hr, newEvents_append s _ evs
          (by show (checkLongPress _ now).emitted = _; rw [k6, p2])] at he
        exact absurd (k7 e he) hne

/-- C29. With the touch read of `update` being `readTouchData` on the bus
values `raw`: a successful read carries a finger count of 1 or 2; so on a
polled tick with a contact down a successful read takes the move path
(`handleTouchMove`), and the contact is released only when the read failed and
`now - lastReadTime >= 120`, through `handleTouchRelease`; and every event
emitted by `update` other than a long-press (every Tap or Swipe) reports a
duration of at least `(lastReadTime - downTime) + 120`, for a contact that
lasted less than `2^32` ms (all differences in `uint32_t` arithmetic). -/
theorem finger_lifted_unreachable (s : Sys) (now : Nat) (tca : Option Nat) (raw : RawRead)
    (hwrap : sub32 s.touch.lastReadTime s.touch.downTime + sub32 now s.touch.lastReadTime
      < 4294967296) :
    (∀ f x y, readTouchData raw = some (f, x, y) → f = 1 ∨ f = 2)
      ∧ (s.touch.isDown = true → 5 ≤ sub32 now s.lastUpdate →
          ∀ f x y, readTouchData raw = some (f, x, y) →
            update s { now := now, tca := tca, rd := readTouchData raw }
              = handleTouchMove
                  (checkLongPress
                    (polled s { now := now, tca := tca, rd := readTouchData raw }) now)
                  x y now)
      ∧ (s.touch.isDown = true →
          (update s { now := now, tca := tca, rd := readTouchData raw }).touch.isDown = false →
          readTouchData raw = none
            ∧ RELEASE_TIMEOUT_MS ≤ sub32 now s.touch.lastReadTime
            ∧ update s { now := now, tca := tca, rd := readTouchData raw }
                = handleTouchRelease
                    (checkLongPress
                      (polled s { now := now, tca := tca, rd := readTouchData raw }) now)
                    now)
      ∧ (∀ e ∈ newEvents s (update s { now := now, tca := tca, rd := readTouchData raw }),
          e.gesture ≠ TouchGesture.TOUCH_LONG_PRESS →
          sub32 s.touch.lastReadTime s.touch.downTime + 120 ≤ e.duration) :=
  ⟨readTouchData_fingers raw,
    held_read_cases s now tca (readTouchData raw) (readTouchData_fingers raw) hwrap⟩

/-- C29 on a concrete contact: down at 1000, moved at 1200, then a dead bus at
1320: the Tap that is emitted reports 320 ms, which is (1200 - 1000) + 120. -/
theorem finger_lifted_unreachable_witness :
    ({ x := 100, y := 100, gesture := TouchGesture.TOUCH_TAP, duration := 320 } : TouchPoint)
        ∈ newEvents (handleTouchMove (handleTouchDown Sys.init 100 100 1000) 101 100 1200)
            (update (handleTouchMove (handleTouchDown Sys.init 100 100 1000) 101 100 1200)
              { now := 1320, tca := none, rd := readTouchData RawRead.dead })
      ∧ sub32 1200 1000 + 120 ≤ 320 :=
  ⟨by decide,
    (finger_lifted_unreachable
      (handleTouchMove (handleTouchDown Sys.init 100 100 1000) 101 100 1200) 1320 none
      RawRead.dead (by decide)).2.2.2
      { x := 100, y := 100, gesture := TouchGesture.TOUCH_TAP, duration := 320 }
      (by decide) (by decide)⟩

end TouchSystem

namespace LevelSystem

open Arith

/-! ## Level-ups conserve experience -/

theorem toNat_succ_of_lt (a b : Int) (h : a + 1 ≤ b) :
    (b - a).toNat = (b - (a + 1)).toNat + 1 := by
  omega

/-- The requirement of a level from 0 to 85899343 is `50 + 25 * level`: no
operation of `getXPForNextLevel` wraps. -/
theorem xpForLevel_of_range (level : Int) (h0 : 0 ≤ level) (h1 : level ≤ 85899343) :
    xpForLevel level = 50 + 25 * level := by
  unfold xpForLevel baseXP stepXP
  rw [i32_of_range (level * 25) (by omega) (by omega), i32_of_range _ (by omega) (by omega)]
  omega

/-- The loop of `checkLevelUp` from a pair whose operations stay within `int`:
a level from 0 to 85899342 (or 85899343 with the experience below the
requirement) and an experience from 0 to 2147483647. The level does not fall
and stays at most 85899343, the experience left is not negative and below the
next requirement, and what was taken off is the sum of the requirements of the
levels gone through. -/
theorem checkLevelUpLoop_spec (level xp : Int) :
    0 ≤ level → 0 ≤ xp → xp ≤ 2147483647 →
    (level ≤ 85899342 ∨ (level = 85899343 ∧ xp < 2147483625)) →
    level ≤ (checkLevelUpLoop level xp).1
      ∧ (checkLevelUpLoop level xp).1 ≤ 85899343
      ∧ 0 ≤ (checkLevelUpLoop level xp).2
      ∧ (checkLevelUpLoop level xp).2 < 50 + 25 * (checkLevelUpLoop level xp).1
      ∧ (checkLevelUpLoop level xp).2
          + xpSpent level ((checkLevelUpLoop level xp).1 - level).toNat = xp := by
  induction level, xp using checkLevelUpLoop.induct with
  | case1 level xp h ih =>
      intro hl hx0 hx1 hb
      have hreq := xpForLevel_of_range level hl (by omega)
      rw [hreq] at h
      have hlev : level ≤ 85899342 := by omega
      have e1 : i32 (level + 1) = level + 1 := i32_of_range _ (by omega) (by omega)
      have e2 : i32 (xp - xpForLevel level) = xp - (50 + 25 * level) := by
        rw [hreq]
        exact i32_of_range _ (by omega) (by omega)
      rw [e1, e2] at ih
      obtain ⟨i1, i2, i3, i4, i5⟩ := ih (by omega) (by omega) (by omega) (by omega)
      rw [checkLevelUpLoop, if_pos (by rw [hreq]; exact h), e1, e2]
      refine ⟨by omega, i2, i3, i4, ?_⟩
      rw [toNat_succ_of_lt level _ i1, xpSpent]
      omega
  | case2 level xp h =>
      intro hl hx0 hx1 hb
      have hreq := xpForLevel_of_range level hl (by omega)
      rw [hreq] at h
      rw [checkLevelUpLoop, if_neg (by rw [hreq]; exact h)]
      refine ⟨le_refl _, by omega, hx0, by omega, ?_⟩
      simp [xpSpent]

/-- C28, amended. From a level from 1 to 85899342, or the level 85899343
with `XP + n` below its requirement 2147483625, and an experience `XP >= 0`,
`addXP(n)` with `n > 0` and `XP + n` within `int` (at most 2147483647) returns
with `level' >= level`, `0 <= XP' < 50 + 25 * level'` (the value
`getXPForNextLevel` returns, which fits an `int`) and `XP'` plus the sum of
`50 + 25 * l` over `l` from `level` to `level' - 1` equal to `XP + n`; and
`addXP(m)` with `m <= 0` changes nothing. -/
theorem addXP_levels_up (s : State) (n : Int) (hl0 : 1 ≤ s.currentLevel)
    (hl1 : s.currentLevel ≤ 85899342
      ∨ (s.currentLevel = 85899343 ∧ s.currentXP + n < 2147483625))
    (h0 : 0 ≤ s.currentXP) (hn : 0 < n)
    (hfit : s.currentXP + n ≤ 2147483647) :
    s.currentLevel ≤ (addXP s n).currentLevel
      ∧ 0 ≤ (addXP s n).currentXP
      ∧ (addXP s n).currentXP < getXPForNextLevel (addXP s n)
      ∧ getXPForNextLevel (addXP s n) = 50 + 25 * (addXP s n).currentLevel
      ∧ (addXP s n).currentXP
          + xpSpent s.currentLevel ((addXP s n).currentLevel - s.currentLevel).toNat
          = s.currentXP + n
      ∧ (∀ m : Int, m ≤ 0 → addXP s m = s) := by
  have hi : i32 (s.currentXP + n) = s.currentXP + n :=
    i32_of_range _ (by omega) (by omega)
  obtain ⟨l1, l2, l3, l4, l5⟩ := checkLevelUpLoop_spec s.currentLevel (s.currentXP + n)
    (by omega) (by omega) hfit hl1
  have e1 : (addXP s n).currentLevel
      = (checkLevelUpLoop s.currentLevel (s.currentXP + n)).1 := by
    unfold addXP
    rw [if_neg (by omega), hi]
    rfl
  have e2 : (addXP s n).currentXP
      = (checkLevelUpLoop s.currentLevel (s.currentXP + n)).2 := by
    unfold addXP
    rw [if_neg (by omega), hi]
    rfl
  have hreq : getXPForNextLevel (addXP s n) = 50 + 25 * (addXP s n).currentLevel := by
    unfold getXPForNextLevel
    rw [e1]
    exact xpForLevel_of_range _ (by omega) l2
  refine ⟨?_, ?_, ?_, hreq, ?_, ?_⟩
  · rw [e1]
    exact l1
  · rw [e2]
    exact l3
  · rw [hreq, e1, e2]
    exact l4
  · rw [e1, e2]
    exact l5
  · intro m hm
    unfold addXP
    rw [if_pos hm]

/-- C28 at a concrete call: one point at level 1 with 74 points levels up to
level 2 with 0 points left. -/
theorem addXP_levels_up_witness :
    nearLevelUp.currentLevel ≤ (addXP nearLevelUp 1).currentLevel
      ∧ (addXP nearLevelUp 1).currentXP
          + xpSpent nearLevelUp.currentLevel
              ((addXP nearLevelUp 1).currentLevel - nearLevelUp.currentLevel).toNat
          = nearLevelUp.currentXP + 1 :=
  have h := addXP_levels_up nearLevelUp 1 (by decide) (Or.inl (by decide)) (by decide)
    (by decide) (by decide)
  ⟨h.1, h.2.2.2.2.1⟩

/-- The two variables after `addXP(n)` with `n > 0`: the result of the loop
on the level and the wrapped sum. -/
theorem addXP_fields (s : State) (n : Int) (hn : 0 < n) :
    (addXP s n).currentLevel = (checkLevelUpLoop s.currentLevel (i32 (s.currentXP + n))).1
      ∧ (addXP s n).currentXP
          = (checkLevelUpLoop s.currentLevel (i32 (s.currentXP + n))).2 := by
  unfold addXP
  rw [if_neg (by omega)]
  exact ⟨rfl, rfl⟩

/-- C28 as stated fails on the code. At level 1 with 74 points (below the
requirement 75), `addXP(2147483647)` wraps the sum to -2147483575, the loop is
not entered, and the experience left is negative. At level 85899344 with 5
points (below `50 + 25 * level`), the requirement wraps to -2147483646, so
`addXP(1)` enters the loop, the subtraction wraps the experience to
-2147483644, and the loop is left at level 85899345 with negative
experience. -/
theorem addXP_overflow_counterexample :
    (nearLevelUp.currentLevel ≥ 1
        ∧ 0 ≤ nearLevelUp.currentXP
        ∧ nearLevelUp.currentXP < 50 + 25 * nearLevelUp.currentLevel
        ∧ (addXP nearLevelUp 2147483647).currentLevel = 1
        ∧ (addXP nearLevelUp 2147483647).currentXP = -2147483575
        ∧ ¬ (0 ≤ (addXP nearLevelUp 2147483647).currentXP))
      ∧ (beyondIntLevel.currentLevel ≥ 1
        ∧ 0 ≤ beyondIntLevel.currentXP
        ∧ beyondIntLevel.currentXP < 50 + 25 * beyondIntLevel.currentLevel
        ∧ (addXP beyondIntLevel 1).currentLevel = 85899345
        ∧ (addXP beyondIntLevel 1).currentXP = -2147483644
        ∧ ¬ (0 ≤ (addXP beyondIntLevel 1).currentXP)) := by
  obtain ⟨a1, a2⟩ := addXP_fields nearLevelUp 2147483647 (by decide)
  have p1 : i32 (nearLevelUp.currentXP + 2147483647) = -2147483575 := by decide
  have p2 : nearLevelUp.currentLevel = 1 := rfl
  have hl := checkLevelUpLoop_of_lt 1 (-2147483575) (by rw [xpForLevel_one]; decide)
  rw [p1, p2, hl] at a1 a2
  obtain ⟨b1, b2⟩ := addXP_fields beyondIntLevel 1 (by decide)
  have q1 : xpForLevel 85899344 = -2147483646 := by decide
  have q2 : xpForLevel 85899345 = -2147483621 := by decide
  have q3 : i32 (85899344 + 1) = 85899345 := by decide
  have q4 : i32 (6 - -2147483646) = -2147483644 := by decide
  have hloop : checkLevelUpLoop 85899344 6 = (85899345, -2147483644) := by
    rw [checkLevelUpLoop, if_pos (by rw [q1]; decide), q1, q3, q4]
    exact checkLevelUpLoop_of_lt _ _ (by rw [q2]; decide)
  have q6 : i32 (beyondIntLevel.currentXP + 1) = 6 := by decide
  have q7 : beyondIntLevel.currentLevel = 85899344 := rfl
  rw [q6, q7, hloop] at b1 b2
  refine ⟨⟨by decide, by decide, by decide, a1, a2, ?_⟩,
    ⟨by decide, by decide, by decide, b1, b2, ?_⟩⟩
  · rw [a2]
    decide
  · rw [b2]
    decide

end LevelSystem

namespace CareSystem

open Arith

/-! ## Decay does not depend on how the minutes are chunked -/

theorem i32_natCast (n : Nat) (h : n < 2147483648) : i32 (n : Int) = (n : Int) :=
  i32_of_range _ (by omega) (by omega)

/-- One accumulator after `m` minutes, without 32-bit overflow: the remainder
modulo the period. -/
theorem decayAcc_eq (P acc m : Nat) (hP : P = 5 ∨ P = 6 ∨ P = 8 ∨ P = 10)
    (h : acc + m < 4294967296) : decayAcc P acc m = (acc + m) % P := by
  unfold decayAcc sub32
  rcases hP with h1 | h1 | h1 | h1 <;> subst h1 <;> split_ifs <;> omega

/-- One accumulator after a call is below its period, overflow or not. -/
theorem decayAcc_lt (P acc m : Nat) (hP : P = 5 ∨ P = 6 ∨ P = 8 ∨ P = 10) :
    decayAcc P acc m < P := by
  unfold decayAcc sub32
  rcases hP with h1 | h1 | h1 | h1 <;> subst h1 <;> split_ifs <;> omega

/-- One statistic after `m` minutes, before the clamp, without overflow: one
point less per whole period. -/
theorem decayValue_eq (P : Nat) (v : Int) (acc m : Nat) (hP : P = 5 ∨ P = 6 ∨ P = 8 ∨ P = 10)
    (hv : 0 ≤ v ∧ v ≤ 100) (h : acc + m < 4294967296) :
    decayValue P v acc m = v - (((acc + m) / P : Nat) : Int) := by
  unfold decayValue
  have hmod : (acc + m) % 4294967296 = acc + m := Nat.mod_eq_of_lt h
  rw [hmod]
  rcases hP with h1 | h1 | h1 | h1 <;> subst h1 <;> split_ifs with hc
  all_goals first
    | (rw [i32_natCast _ (by omega), i32_of_range _ (by omega) (by omega)])
    | omega

/-- One statistic after `m` minutes, clamped. -/
theorem decayStat_eq (P : Nat) (v : Int) (acc m : Nat) (hP : P = 5 ∨ P = 6 ∨ P = 8 ∨ P = 10)
    (hv : 0 ≤ v ∧ v ≤ 100) (h : acc + m < 4294967296) :
    clampStat (decayValue P v acc m) = max 0 (v - (((acc + m) / P : Nat) : Int)) := by
  rw [decayValue_eq P v acc m hP hv h, clampStat_eq]
  have hq : (0 : Int) ≤ (((acc + m) / P : Nat) : Int) := Int.ofNat_nonneg _
  generalize (((acc + m) / P : Nat) : Int) = q at hq ⊢
  omega

/-- The state `applyDecay` leaves after a non-zero number of minutes, from
statistics within `0..100` and without overflow of the accumulators. -/
theorem applyDecay_eq (s : State) (m : Nat) (hm : m ≠ 0) (hr : InRange s)
    (h1 : s.hungerAccMin + m < 4294967296) (h2 : s.moodAccMin + m < 4294967296)
    (h3 : s.energyAccMin + m < 4294967296) (h4 : s.cleanAccMin + m < 4294967296) :
    applyDecay s m =
      { s with
        hunger := max 0 (s.hunger - (((s.hungerAccMin + m) / 6 : Nat) : Int))
        mood := max 0 (s.mood - (((s.moodAccMin + m) / 8 : Nat) : Int))
        energy := max 0 (s.energy - (((s.energyAccMin + m) / 5 : Nat) : Int))
        cleanliness := max 0 (s.cleanliness - (((s.cleanAccMin + m) / 10 : Nat) : Int))
        hungerAccMin := (s.hungerAccMin + m) % 6
        moodAccMin := (s.moodAccMin + m) % 8
        energyAccMin := (s.energyAccMin + m) % 5
        cleanAccMin := (s.cleanAccMin + m) % 10 } := by
  obtain ⟨r1, r2, r3, r4⟩ := hr
  unfold applyDecay
  rw [if_neg hm]
  unfold HUNGER_DECAY_MIN MOOD_DECAY_MIN ENERGY_DECAY_MIN CLEANLINESS_DECAY_MIN
  rw [decayStat_eq 6 _ _ _ (by simp) r1 h1, decayStat_eq 8 _ _ _ (by simp) r2 h2,
    decayStat_eq 5 _ _ _ (by simp) r3 h3, decayStat_eq 10 _ _ _ (by simp) r4 h4,
    decayAcc_eq 6 _ _ (by simp) h1, decayAcc_eq 8 _ _ (by simp) h2,
    decayAcc_eq 5 _ _ (by simp) h3, decayAcc_eq 10 _ _ (by simp) h4]

end CareSystem

namespace CareSystem

open Arith

theorem accBelow_applyDecay (s : State) (m : Nat) (h : AccBelow s) :
    AccBelow (applyDecay s m) := by
  unfold applyDecay
  split_ifs
  · exact h
  · exact ⟨decayAcc_lt 6 _ _ (by simp), decayAcc_lt 8 _ _ (by simp),
      decayAcc_lt 5 _ _ (by simp), decayAcc_lt 10 _ _ (by simp)⟩

theorem accBelow_update (s : State) (now : Nat) (h : AccBelow s) : AccBelow (update s now) := by
  unfold update
  split_ifs
  · exact h
  · exact h
  · have h1 : AccBelow (updateDecay s now) := by
      unfold updateDecay
      split_ifs
      · exact accBelow_applyDecay _ _ h
      · exact h
    unfold updateSave
    split_ifs
    · unfold saveSnapshot
      split_ifs <;> exact h1
    · exact h1

theorem accBelow_step (w : World) (c : Call) (h : AccBelow w.care) :
    AccBelow (step w c).care := by
  cases c with
  | begin prefsOk now =>
      show AccBelow (begin w.care prefsOk now)
      show (0 : Nat) < 6 ∧ (0 : Nat) < 8 ∧ (0 : Nat) < 5 ∧ (0 : Nat) < 10
      decide
  | update now => exact accBelow_update _ _ h
  | setDecaySuspended b now =>
      show AccBelow (setDecaySuspended w.care b now)
      unfold setDecaySuspended
      split_ifs <;> exact h
  | addHunger v => exact h
  | addMood v => exact h
  | addEnergy v => exact h
  | addCleanliness v => exact h

theorem accBelow_run (w : World) (calls : List Call) (h : AccBelow w.care) :
    AccBelow (run w calls).care := by
  induction calls generalizing w with
  | nil => exact h
  | cons c cs ih => exact ih (step w c) (accBelow_step w c h)

theorem accBelow_init (prefs : Prefs) (nl nx : Option Int) :
    AccBelow (World.init prefs nl nx).care := by
  show (0 : Nat) < 6 ∧ (0 : Nat) < 8 ∧ (0 : Nat) < 5 ∧ (0 : Nat) < 10
  decide

/-- Two decay calls from statistics within `0..100` are one call on the sum,
without overflow of the accumulators. -/
theorem applyDecay_chunks (s : State) (a b : Nat) (hr : InRange s)
    (h1 : s.hungerAccMin + a + b < 4294967296) (h2 : s.moodAccMin + a + b < 4294967296)
    (h3 : s.energyAccMin + a + b < 4294967296) (h4 : s.cleanAccMin + a + b < 4294967296) :
    applyDecay (applyDecay s a) b = applyDecay s (a + b) := by
  by_cases ha : a = 0
  · subst ha
    simp [applyDecay]
  by_cases hb : b = 0
  · subst hb
    simp [applyDecay]
  have e1 := applyDecay_eq s a ha hr (by omega) (by omega) (by omega) (by omega)
  have hr1 : InRange (applyDecay s a) := by
    rw [e1]
    obtain ⟨r1, r2, r3, r4⟩ := hr
    unfold InRange
    dsimp only
    omega
  have e2 := applyDecay_eq (applyDecay s a) b hb hr1
    (by rw [e1]; dsimp only; omega) (by rw [e1]; dsimp only; omega)
    (by rw [e1]; dsimp only; omega) (by rw [e1]; dsimp only; omega)
  have e3 := applyDecay_eq s (a + b) (by omega) hr (by omega) (by omega) (by omega) (by omega)
  rw [e2, e3, e1]
  dsimp only
  obtain ⟨r1, r2, r3, r4⟩ := hr
  congr 1 <;> omega

/-- C30. In every state the care unit reaches from power-on, and without
32-bit overflow of the accumulators: `applyDecay(a)` followed by
`applyDecay(b)` leaves the same state (the four statistics and the four minute
accumulators included) as one `applyDecay(a + b)`; after `applyDecay(a)` each
statistic is its old value less one point per 6 (hunger), 8 (mood), 5 (energy)
and 10 (cleanliness) minutes accumulated, floored at 0; and each accumulator
is below its period. -/
theorem decay_chunking (w : World) (a b : Nat) (hr : Reachable w)
    (h1 : w.care.hungerAccMin + a + b < 4294967296)
    (h2 : w.care.moodAccMin + a + b < 4294967296)
    (h3 : w.care.energyAccMin + a + b < 4294967296)
    (h4 : w.care.cleanAccMin + a + b < 4294967296) :
    applyDecay (applyDecay w.care a) b = applyDecay w.care (a + b)
      ∧ (applyDecay w.care a).hunger
          = max 0 (w.care.hunger - (((w.care.hungerAccMin + a) / 6 : Nat) : Int))
      ∧ (applyDecay w.care a).mood
          = max 0 (w.care.mood - (((w.care.moodAccMin + a) / 8 : Nat) : Int))
      ∧ (applyDecay w.care a).energy
          = max 0 (w.care.energy - (((w.care.energyAccMin + a) / 5 : Nat) : Int))
      ∧ (applyDecay w.care a).cleanliness
          = max 0 (w.care.cleanliness - (((w.care.cleanAccMin + a) / 10 : Nat) : Int))
      ∧ (applyDecay w.care a).hungerAccMin = (w.care.hungerAccMin + a) % 6
      ∧ (applyDecay w.care a).moodAccMin = (w.care.moodAccMin + a) % 8
      ∧ (applyDecay w.care a).energyAccMin = (w.care.energyAccMin + a) % 5
      ∧ (applyDecay w.care a).cleanAccMin = (w.care.cleanAccMin + a) % 10
      ∧ AccBelow (applyDecay w.care a) ∧ AccBelow (applyDecay (applyDecay w.care a) b)
      ∧ HUNGER_DECAY_MIN = 6 ∧ MOOD_DECAY_MIN = 8 ∧ ENERGY_DECAY_MIN = 5
      ∧ CLEANLINESS_DECAY_MIN = 10 := by
  obtain ⟨prefs, nl, nx, calls, rfl⟩ := hr
  have hin := inRange_run _ calls (inRange_init prefs nl nx)
  have hacc := accBelow_run _ calls (accBelow_init prefs nl nx)
  generalize (run (World.init prefs nl nx) calls).care = s at *
  have hA := accBelow_applyDecay s a hacc
  refine ⟨applyDecay_chunks s a b hin h1 h2 h3 h4, ?_, ?_, ?_, ?_, ?_, ?_, ?_, ?_, hA,
    accBelow_applyDecay _ b hA, rfl, rfl, rfl, rfl⟩
  all_goals
    obtain ⟨r1, r2, r3, r4⟩ := hin
    obtain ⟨c1, c2, c3, c4⟩ := hacc
    unfold HUNGER_DECAY_MIN MOOD_DECAY_MIN ENERGY_DECAY_MIN CLEANLINESS_DECAY_MIN at *
    by_cases ha : a = 0
    · subst ha
      simp only [applyDecay, if_true]
      omega
    · rw [applyDecay_eq s a ha ⟨r1, r2, r3, r4⟩ (by omega) (by omega) (by omega) (by omega)]

/-- C30 on a concrete run: after `begin` with stored statistics, 7 minutes and
then 11 minutes of decay are 18 minutes of decay. -/
theorem decay_chunking_witness :
    applyDecay (applyDecay (run (World.init
        { has := true, h := some 50, m := some 2, e := some 55, c := none } none none)
        [Call.begin true 1000]).care 7) 11
      = applyDecay (run (World.init
        { has := true, h := some 50, m := some 2, e := some 55, c := none } none none)
        [Call.begin true 1000]).care 18 :=
  (decay_chunking (run (World.init
      { has := true, h := some 50, m := some 2, e := some 55, c := none } none none)
      [Call.begin true 1000]) 7 11 ⟨_, _, _, _, rfl⟩
    (by decide) (by decide) (by decide) (by decide)).1

end CareSystem

namespace Display

open EyeEmotion

/-! ## Transitions that preempt an idle behaviour -/

/-- What `Sleep_start` resets when it runs (no sleep or clean animation
active): the eye, the blink runtime, the body offset and the jitter; the two
visual objects are not touched. -/
theorem Sleep_start_resets (w : World) (nowMs mSet : Nat)
    (h : (w.idle.sleepActive || w.cleanAnim.active) = false) :
    (Sleep_start w nowMs mSet).eye = { topOffset := 0, scale := 1, blinkInProgress := false }
      ∧ (Sleep_start w nowMs mSet).blinkRt.active = false
      ∧ (Sleep_start w nowMs mSet).idle.gMotion.offX = 0
      ∧ (Sleep_start w nowMs mSet).idle.gMotion.offY = 0
      ∧ (Sleep_start w nowMs mSet).idle.gMotion.jitterAmp = 0
      ∧ (Sleep_start w nowMs mSet).idle.gMotion.jitterX = 0
      ∧ (Sleep_start w nowMs mSet).idle.gMotion.jitterY = 0
      ∧ (Sleep_start w nowMs mSet).idle.idleState.active = false
      ∧ (Sleep_start w nowMs mSet).leftEye = w.leftEye
      ∧ (Sleep_start w nowMs mSet).rightEye = w.rightEye := by
  unfold Sleep_start
  rw [if_neg (by simp [h])]
  exact ⟨rfl, rfl, rfl, rfl, rfl, rfl, rfl, rfl, rfl, rfl⟩

/-- What `Feed_start` leaves as it is: the eye, the blink runtime, the motion
record and the two visual objects. -/
theorem Feed_start_keeps (w : World) (nowMs mSet : Nat) :
    (Feed_start w nowMs mSet).eye = w.eye
      ∧ (Feed_start w nowMs mSet).blinkRt = w.blinkRt
      ∧ (Feed_start w nowMs mSet).idle.gMotion = w.idle.gMotion
      ∧ (Feed_start w nowMs mSet).leftEye = w.leftEye
      ∧ (Feed_start w nowMs mSet).rightEye = w.rightEye :=
  ⟨rfl, rfl, rfl, rfl, rfl⟩

/-- What `Clean_start` leaves as it is: the eye, the blink runtime, the motion
record and the two visual objects. -/
theorem Clean_start_keeps (w : World) (nowMs : Nat) (i : DispatchInputs) :
    (Clean_start w nowMs i).eye = w.eye
      ∧ (Clean_start w nowMs i).blinkRt = w.blinkRt
      ∧ (Clean_start w nowMs i).idle.gMotion = w.idle.gMotion
      ∧ (Clean_start w nowMs i).leftEye = w.leftEye
      ∧ (Clean_start w nowMs i).rightEye = w.rightEye := by
  unfold Clean_start
  split_ifs <;> exact ⟨rfl, rfl, rfl, rfl, rfl⟩

theorem midBlink_facts :
    midBlink.idle.idleState.active = true
      ∧ midBlink.idle.idleState.type = IdleStateType.Blink
      ∧ midBlink.blinkRt.active = true
      ∧ midBlink.eye.topOffset = 50
      ∧ midBlink.eye.blinkInProgress = true
      ∧ midBlink.cleanAnim.active = false
      ∧ midBlink.idle.sleepActive = false := by
  decide

theorem midJitter_facts :
    midJitter.idle.idleState.active = true
      ∧ midJitter.idle.idleState.type = IdleStateType.JitterBoth
      ∧ midJitter.idle.gMotion.jitterAmp = 5
      ∧ midJitter.idle.gMotion.jitterX = 3
      ∧ midJitter.cleanAnim.active = false := by
  decide

end Display

namespace Display

open EyeEmotion

theorem midJudging_flags :
    midJudging.idle.idleState.active = true
      ∧ midJudging.idle.idleState.type = IdleStateType.Judging
      ∧ midJudging.cleanAnim.active = false
      ∧ midJudging.idle.sleepActive = false := by
  decide

theorem midJudging_scale : midJudging.leftEye.scaleX = 11 / 10 := by
  have h : midJudging.leftEye.scaleX = 1 + |(1 : ℚ)| * (1 / 10) := rfl
  rw [h, abs_one]
  norm_num

end Display

namespace Display

open EyeEmotion

/-- C25 fails on the code. A blink started at 10000 is mid-animation after the
tick at 10080 (slot active, blink runtime active, lids held closed at offset
50). `Feed_start` and `Clean_start` at 10090 put HappyBounce in the slot and
leave the blink runtime active, the top offset at 50 and `blinkInProgress`
set; after a jitter behaviour they leave the jitter amplitude at 5, and after
a Judging behaviour the per-eye scale at 11/10. After a Judging behaviour
`Sleep_start` resets the eye, the blink runtime, the body offset and the
jitter, but leaves the per-eye scale at 11/10. Applied to the
blink, `Sleep_start` does reset the blink runtime and the top offset. -/
theorem preemption_leaves_stale_state :
    (midBlink.idle.idleState.active = true ∧ midBlink.blinkRt.active = true
        ∧ midBlink.eye.topOffset = 50)
      ∧ ((Feed_start midBlink 10090 10090).idle.idleState.type = IdleStateType.HappyBounce
        ∧ (Feed_start midBlink 10090 10090).blinkRt.active = true
        ∧ (Feed_start midBlink 10090 10090).eye.topOffset = 50
        ∧ (Feed_start midBlink 10090 10090).eye.blinkInProgress = true
        ∧ ¬ NeutralAt (Feed_start midBlink 10090 10090) BodyCoord.x)
      ∧ ((Clean_start midBlink 10090 (quietDispatch 10090 7000)).cleanAnim.active = true
        ∧ (Clean_start midBlink 10090 (quietDispatch 10090 7000)).idle.idleState.type
            = IdleStateType.HappyBounce
        ∧ (Clean_start midBlink 10090 (quietDispatch 10090 7000)).blinkRt.active = true
        ∧ (Clean_start midBlink 10090 (quietDispatch 10090 7000)).eye.topOffset = 50
        ∧ ¬ NeutralAt (Clean_start midBlink 10090 (quietDispatch 10090 7000)) BodyCoord.x)
      ∧ (midJitter.idle.idleState.active = true
        ∧ (Feed_start midJitter 10210 10210).idle.gMotion.jitterAmp = 5
        ∧ (Clean_start midJitter 10210 (quietDispatch 10210 7000)).idle.gMotion.jitterAmp = 5)
      ∧ ((Feed_start midJudging 10010 10010).leftEye.scaleX = 11 / 10
        ∧ (Clean_start midJudging 10010 (quietDispatch 10010 7000)).leftEye.scaleX = 11 / 10)
      ∧ (midJudging.idle.idleState.active = true
        ∧ (Sleep_start midJudging 10010 10010).idle.sleepActive = true
        ∧ (Sleep_start midJudging 10010 10010).eye.topOffset = 0
        ∧ (Sleep_start midJudging 10010 10010).blinkRt.active = false
        ∧ (Sleep_start midJudging 10010 10010).leftEye.scaleX = 11 / 10
        ∧ ¬ NeutralAt (Sleep_start midJudging 10010 10010) BodyCoord.x)
      ∧ ((Sleep_start midBlink 10090 10090).blinkRt.active = false
        ∧ (Sleep_start midBlink 10090 10090).eye.topOffset = 0) := by
  obtain ⟨b1, b2, b3, b4, b5, b6, b7⟩ := midBlink_facts
  obtain ⟨j1, j2, j3, j4, j5⟩ := midJitter_facts
  obtain ⟨g1, g2, g3, g4⟩ := midJudging_flags
  obtain ⟨f1, f2, f3, f4, f5⟩ := Feed_start_keeps midBlink 10090 10090
  obtain ⟨c1, c2, c3, c4, c5⟩ := Clean_start_keeps midBlink 10090 (quietDispatch 10090 7000)
  have hs : (Sleep_start midJudging 10010 10010).leftEye.scaleX = 11 / 10 := by
    rw [(Sleep_start_resets midJudging 10010 10010 (by rw [g4, g3]; rfl)).2.2.2.2.2.2.2.2.1]
    exact midJudging_scale
  have hf : (Feed_start midJudging 10010 10010).leftEye.scaleX = 11 / 10 := by
    rw [(Feed_start_keeps midJudging 10010 10010).2.2.2.1]
    exact midJudging_scale
  have hc : (Clean_start midJudging 10010 (quietDispatch 10010 7000)).leftEye.scaleX
      = 11 / 10 := by
    rw [(Clean_start_keeps midJudging 10010 (quietDispatch 10010 7000)).2.2.2.1]
    exact midJudging_scale
  refine ⟨⟨b1, b3, b4⟩, ⟨rfl, ?_, ?_, ?_, ?_⟩, ⟨?_, ?_, ?_, ?_, ?_⟩, ⟨j1, ?_, ?_⟩, ⟨hf, hc⟩,
    ⟨g1, ?_, ?_, ?_, hs, ?_⟩, ?_, ?_⟩
  · rw [f2]; exact b3
  · rw [f1]; exact b4
  · rw [f1]; exact b5
  · intro hn
    have := hn.1
    rw [f1, b4] at this
    exact absurd this (by decide)
  · decide
  · decide
  · rw [c2]; exact b3
  · rw [c1]; exact b4
  · intro hn
    have := hn.1
    rw [c1, b4] at this
    exact absurd this (by decide)
  · rw [(Feed_start_keeps midJitter 10210 10210).2.2.1]; exact j3
  · rw [(Clean_start_keeps midJitter 10210 (quietDispatch 10210 7000)).2.2.1]; exact j3
  · decide
  · decide
  · decide
  · intro hn
    have := hn.2.2.1
    rw [hs] at this
    norm_num at this
  · decide
  · decide

end Display

namespace SubStateSystem

open Arith EyeEmotion

/-! ## The compaction loop is a filter -/

theorem range_two : List.range 2 = [0, 1] := rfl

/-- The compaction loop on an array of four entries with at most three in
use: the array keeps its size, the count does not grow, and the entries in use
afterwards are the old ones that are not skipped, in order. -/
theorem compactForced_spec (skip : EyeEmotion → Bool) (a b c d : EyeEmotion) (n : Nat)
    (hn : n ≤ 3) :
    (compactForced skip [a, b, c, d] n).1.length = 4
      ∧ (compactForced skip [a, b, c, d] n).2 ≤ n
      ∧ (compactForced skip [a, b, c, d] n).1.take (compactForced skip [a, b, c, d] n).2
          = ([a, b, c, d].take n).filter (fun e => !skip e) := by
  have h : n = 0 ∨ n = 1 ∨ n = 2 ∨ n = 3 := by omega
  rcases h with h | h | h | h <;> subst h <;>
    cases h0 : skip a <;> cases h1 : skip b <;> cases h2 : skip c <;>
    simp [compactForced, range_one, range_two, range_three, h0, h1, h2]

end SubStateSystem

namespace SubStateSystem

open Arith EyeEmotion

/-- The priority pass on an array of four entries: the array keeps its size,
at most three entries are in use, and they are the forced list of the
highest-priority active sub-state of `g`. -/
theorem forceByPriority_spec (g : State) (a b c d : EyeEmotion) :
    (forceByPriority g [a, b, c, d] 0).1.length = 4
      ∧ (forceByPriority g [a, b, c, d] 0).2 ≤ 3
      ∧ (forceByPriority g [a, b, c, d] 0).1.take (forceByPriority g [a, b, c, d] 0).2
          = (if g.sub_depressed then [EYE_EMO_SAD1, EYE_EMO_SAD2, EYE_EMO_TIRED]
             else if g.sub_sluggish then [EYE_EMO_TIRED]
             else if g.sub_irritable then [EYE_EMO_ANGRY1]
             else if g.sub_withdrawn then [EYE_EMO_SAD1, EYE_EMO_SAD2]
             else if g.sub_uncomfortable then [EYE_EMO_ANGRY1]
             else []) := by
  unfold forceByPriority
  split_ifs <;> simp

/-- A filter pass that is the compaction loop or nothing: size, count and the
entries in use. -/
theorem compactForced_list (skip : EyeEmotion → Bool) (l : List EyeEmotion) (n : Nat)
    (hl : l.length = 4) (hn : n ≤ 3) :
    (compactForced skip l n).1.length = 4
      ∧ (compactForced skip l n).2 ≤ n
      ∧ (compactForced skip l n).1.take (compactForced skip l n).2
          = (l.take n).filter (fun e => !skip e) := by
  obtain ⟨a, b, c, d, rfl⟩ := length_four l hl
  exact compactForced_spec skip a b c d n hn

theorem calmFilterForced_spec (i : Inputs) (l : List EyeEmotion) (n : Nat)
    (hl : l.length = 4) (hn : n ≤ 3) :
    (calmFilterForced i l n).1.length = 4
      ∧ (calmFilterForced i l n).2 ≤ n
      ∧ (calmFilterForced i l n).1.take (calmFilterForced i l n).2
          = (l.take n).filter (fun e => !(allAboveCalm i && isCalmFiltered e)) := by
  unfold calmFilterForced
  split_ifs with h
  · simp only [Bool.and_eq_true, decide_eq_true_eq] at h
    obtain ⟨h1, h2, h3⟩ := compactForced_list isCalmFiltered l n hl hn
    refine ⟨h1, h2, ?_⟩
    rw [h3, h.1]
    simp
  · refine ⟨hl, le_refl _, ?_⟩
    simp only [Bool.and_eq_true, decide_eq_true_eq, not_and] at h
    by_cases hc : allAboveCalm i = true
    · have hn0 : n = 0 := by
        have := h hc
        omega
      subst hn0
      simp
    · have hf : allAboveCalm i = false := by simpa using hc
      rw [hf]
      simp

theorem bandFilterForced_spec (i : Inputs) (l : List EyeEmotion) (n : Nat)
    (hl : l.length = 4) (hn : n ≤ 3) :
    (bandFilterForced i l n).1.length = 4
      ∧ (bandFilterForced i l n).2 ≤ n
      ∧ (bandFilterForced i l n).1.take (bandFilterForced i l n).2
          = (l.take n).filter (fun e => allow i e) := by
  unfold bandFilterForced
  split_ifs with h
  · obtain ⟨h1, h2, h3⟩ := compactForced_list (fun emo => !allow i emo) l n hl hn
    refine ⟨h1, h2, ?_⟩
    rw [h3]
    simp
  · have hn0 : n = 0 := by omega
    subst hn0
    exact ⟨hl, le_refl _, by simp⟩

/-- The forced list of the snapshot, pass by pass: the list of the priority
pass, filtered by the calm pass and then by the band allow-list. -/
theorem forcedList_eq (g : State) (out : Snapshot) (i : Inputs) (hlen : out.forced.length = 4) :
    (update g out i).2.forceCount ≤ 3
      ∧ (update g out i).2.forcedList
          = (((if allHigh i then [] else specPriorityList (update g out i).2).filter
              (fun e => !(allAboveCalm i && isCalmFiltered e))).filter (fun e => allow i e)) := by
  obtain ⟨a, b, c, d, hf⟩ := length_four out.forced hlen
  have hb := buildSnapshot_forced (updateState g i) i out
  have hfl : (update g out i).2.forcedList
      = List.take (buildSnapshot (updateState g i) i out).forceCount
          (buildSnapshot (updateState g i) i out).forced := rfl
  have hfc : (update g out i).2.forceCount
      = (buildSnapshot (updateState g i) i out).forceCount := rfl
  have hsp : specPriorityList (update g out i).2
      = (if (updateState g i).sub_depressed then [EYE_EMO_SAD1, EYE_EMO_SAD2, EYE_EMO_TIRED]
         else if (updateState g i).sub_sluggish then [EYE_EMO_TIRED]
         else if (updateState g i).sub_irritable then [EYE_EMO_ANGRY1]
         else if (updateState g i).sub_withdrawn then [EYE_EMO_SAD1, EYE_EMO_SAD2]
         else if (updateState g i).sub_uncomfortable then [EYE_EMO_ANGRY1]
         else []) := rfl
  have h1 := congrArg Prod.fst hb
  have h2 := congrArg Prod.snd hb
  simp only at h1 h2
  rw [hfl, hfc, h1, h2, hsp]
  -- the priority pass
  have hp : ∃ l0 n0, (if !allHigh i then forceByPriority (updateState g i) out.forced 0
        else (out.forced, 0)) = (l0, n0) ∧ l0.length = 4 ∧ n0 ≤ 3
      ∧ l0.take n0 = (if allHigh i then []
          else (if (updateState g i).sub_depressed then
              [EYE_EMO_SAD1, EYE_EMO_SAD2, EYE_EMO_TIRED]
            else if (updateState g i).sub_sluggish then [EYE_EMO_TIRED]
            else if (updateState g i).sub_irritable then [EYE_EMO_ANGRY1]
            else if (updateState g i).sub_withdrawn then [EYE_EMO_SAD1, EYE_EMO_SAD2]
            else if (updateState g i).sub_uncomfortable then [EYE_EMO_ANGRY1]
            else [])) := by
    cases hah : allHigh i
    · obtain ⟨q1, q2, q3⟩ := forceByPriority_spec (updateState g i) a b c d
      refine ⟨(forceByPriority (updateState g i) out.forced 0).1,
        (forceByPriority (updateState g i) out.forced 0).2, ?_, ?_, ?_, ?_⟩
      · simp only [Bool.not_false, if_true]
      · rw [hf]; exact q1
      · rw [hf]; exact q2
      · rw [hf, q3]
        simp
    · exact ⟨out.forced, 0, by simp, hlen, by omega, by simp⟩
  obtain ⟨l0, n0, e0, hl0, hn0, ht0⟩ := hp
  simp only [e0]
  obtain ⟨c1, c2, c3⟩ := calmFilterForced_spec i l0 n0 hl0 hn0
  obtain ⟨b1, b2, b3⟩ := bandFilterForced_spec i (calmFilterForced i l0 n0).1
    (calmFilterForced i l0 n0).2 c1 (by omega)
  refine ⟨by omega, ?_⟩
  rw [b3, c3, ht0]

end SubStateSystem

namespace SubStateSystem

open Arith EyeEmotion

/-- C22. For every state, every input and every snapshot record with the
array `forced` at its declared size 4: the forced list of the snapshot written
by `update` is an order-preserving sub-list of the forced list of the
highest-priority active sub-state of that snapshot (depressed
`[Sad1, Sad2, Tired]`, sluggish `[Tired]`, irritable `[Angry1]`, withdrawn
`[Sad1, Sad2]`, uncomfortable `[Angry1]`); it is empty when no sub-state is
active and when all four statistics are at least 80; and `forceCount` is at
most 3 and is the length of the list. -/
theorem forced_list_does_not_accumulate (g : State) (out : Snapshot) (i : Inputs)
    (hlen : out.forced.length = 4) :
    List.Sublist (update g out i).2.forcedList (specPriorityList (update g out i).2)
      ∧ ((update g out i).2.sub_depressed = false ∧ (update g out i).2.sub_sluggish = false
          ∧ (update g out i).2.sub_irritable = false ∧ (update g out i).2.sub_withdrawn = false
          ∧ (update g out i).2.sub_uncomfortable = false →
          (update g out i).2.forcedList = [] ∧ (update g out i).2.forceCount = 0)
      ∧ (80 ≤ i.hunger ∧ 80 ≤ i.energy ∧ 80 ≤ i.mood ∧ 80 ≤ i.cleanliness →
          (update g out i).2.forcedList = [] ∧ (update g out i).2.forceCount = 0)
      ∧ (update g out i).2.forceCount ≤ 3
      ∧ (update g out i).2.forcedList.length = (update g out i).2.forceCount := by
  obtain ⟨hc, he⟩ := forcedList_eq g out i hlen
  have hlen2 : (update g out i).2.forced.length = 4 := by
    obtain ⟨a, b, c, d, hf⟩ := length_four out.forced hlen
    have hb := buildSnapshot_forced (updateState g i) i out
    have h1 := congrArg Prod.fst hb
    simp only at h1
    show (buildSnapshot (updateState g i) i out).forced.length = 4
    rw [h1]
    have hp : (if !allHigh i then forceByPriority (updateState g i) out.forced 0
        else (out.forced, 0)).1.length = 4 ∧
        (if !allHigh i then forceByPriority (updateState g i) out.forced 0
        else (out.forced, 0)).2 ≤ 3 := by
      split_ifs
      · rw [hf]
        exact ⟨(forceByPriority_spec _ a b c d).1, (forceByPriority_spec _ a b c d).2.1⟩
      · exact ⟨hlen, by omega⟩
    obtain ⟨c1, c2, _⟩ := calmFilterForced_spec i _ _ hp.1 hp.2
    exact (bandFilterForced_spec i _ _ c1 (by omega)).1
  have hlength : (update g out i).2.forcedList.length = (update g out i).2.forceCount := by
    unfold Snapshot.forcedList
    rw [List.length_take, hlen2]
    omega
  have hsub : List.Sublist (update g out i).2.forcedList
      (specPriorityList (update g out i).2) := by
    rw [he]
    refine (List.filter_sublist _).trans ((List.filter_sublist _).trans ?_)
    split_ifs
    · exact List.nil_sublist _
    · exact List.Sublist.refl _
  have hnil : (update g out i).2.forcedList = [] → (update g out i).2.forceCount = 0 := by
    intro h
    rw [← hlength, h]
    rfl
  refine ⟨hsub, ?_, ?_, hc, hlength⟩
  · intro ⟨h1, h2, h3, h4, h5⟩
    have hp : specPriorityList (update g out i).2 = [] := by
      unfold specPriorityList
      simp [h1, h2, h3, h4, h5]
    rw [hp] at hsub
    have := List.eq_nil_of_sublist_nil hsub
    exact ⟨this, hnil this⟩
  · intro ⟨h1, h2, h3, h4⟩
    have hah : allHigh i = true := by
      unfold allHigh RECOVER_THRESHOLD
      simp [h1, h2, h3, h4]
    have : (update g out i).2.forcedList = [] := by
      rw [he, hah]
      simp
    exact ⟨this, hnil this⟩

/-- C22 at a concrete call: hunger and energy low since 1000, called at 30000
with hunger 10 and energy 10; the snapshot is depressed and its forced list is
`[Sad1, Sad2]`. -/
theorem forced_list_does_not_accumulate_witness :
    List.Sublist (update lowSinceState Snapshot.zero (sampleCall 30000 10 10 60 60)).2.forcedList
      (specPriorityList (update lowSinceState Snapshot.zero (sampleCall 30000 10 10 60 60)).2) :=
  (forced_list_does_not_accumulate lowSinceState Snapshot.zero (sampleCall 30000 10 10 60 60)
    rfl).1

theorem lowSince_update_forced :
    (update lowSinceState Snapshot.zero (sampleCall 30000 10 10 60 60)).2.forcedList
        = [EYE_EMO_SAD1, EYE_EMO_SAD2]
      ∧ (update lowSinceState Snapshot.zero (sampleCall 30000 10 10 60 60)).2.sub_depressed
        = true := by
  decide

end SubStateSystem

namespace SubStateSystem

open Arith EyeEmotion

/-! ## The band allow-list -/

/-- The array `allow` of `update` is the allow-list of the band. -/
theorem allow_eq_spec (i : Inputs) (e : EyeEmotion) :
    allow i e = decide (e ∈ specAllowList (minStat i)) := by
  unfold allow specAllowList CALM_THRESHOLD PROMOTE_LOW_THRESHOLD
  by_cases h1 : minStat i > 50
  · simp only [h1, decide_True, if_true]
    cases e <;> decide
  · by_cases h2 : minStat i > 30
    · simp only [h1, h2, decide_True, decide_False, Bool.not_false, Bool.and_self, if_true,
        if_false, Bool.false_eq_true]
      cases e <;> decide
    · simp only [h1, h2, decide_False, Bool.not_false, Bool.and_false, if_false,
        Bool.false_eq_true]
      cases e <;> decide

theorem minStat_eq (i : Inputs) :
    minStat i = min (min i.hunger i.energy) (min i.mood i.cleanliness) := by
  unfold minStat
  simp only []
  split_ifs <;> omega

theorem setTrue_of_true (a : EyeEmotion → Bool) (e x : EyeEmotion) (h : a x = true) :
    setTrue a e x = true := by
  unfold setTrue
  split_ifs
  · rfl
  · exact h

theorem setTrue_ne (a : EyeEmotion → Bool) (e x : EyeEmotion) (h : x ≠ e) :
    setTrue a e x = a x := by
  unfold setTrue
  rw [if_neg h]

theorem levelSuppress_of_true (level : Int) (sup : EyeEmotion → Bool) (e : EyeEmotion)
    (h : sup e = true) : levelSuppress level sup e = true := by
  unfold levelSuppress
  split_ifs <;> repeat (first | exact h | apply setTrue_of_true)

theorem levelSuppress_idle (level : Int) (sup : EyeEmotion → Bool) :
    levelSuppress level sup EYE_EMO_IDLE = sup EYE_EMO_IDLE := by
  unfold levelSuppress
  split_ifs <;>
    simp only [setTrue_ne _ EYE_EMO_EXCITED EYE_EMO_IDLE (by decide),
      setTrue_ne _ EYE_EMO_ANGRY1 EYE_EMO_IDLE (by decide),
      setTrue_ne _ EYE_EMO_LOVE EYE_EMO_IDLE (by decide),
      setTrue_ne _ EYE_EMO_SAD1 EYE_EMO_IDLE (by decide),
      setTrue_ne _ EYE_EMO_HAPPY1 EYE_EMO_IDLE (by decide)]

theorem stackSuppress_idle (g : State) (sup : EyeEmotion → Bool) :
    stackSuppress g sup EYE_EMO_IDLE = sup EYE_EMO_IDLE := by
  unfold stackSuppress
  split_ifs <;>
    simp only [setTrue_ne _ EYE_EMO_EXCITED EYE_EMO_IDLE (by decide),
      setTrue_ne _ EYE_EMO_CURIOUS EYE_EMO_IDLE (by decide),
      setTrue_ne _ EYE_EMO_LOVE EYE_EMO_IDLE (by decide),
      setTrue_ne _ EYE_EMO_HAPPY2 EYE_EMO_IDLE (by decide),
      setTrue_ne _ EYE_EMO_HAPPY1 EYE_EMO_IDLE (by decide)]

theorem calmSuppress_idle (i : Inputs) (sup : EyeEmotion → Bool) :
    calmSuppress i sup EYE_EMO_IDLE = sup EYE_EMO_IDLE := by
  unfold calmSuppress
  split_ifs
  · simp only [setTrue_ne _ EYE_EMO_ANGRY1 EYE_EMO_IDLE (by decide),
      setTrue_ne _ EYE_EMO_ANGRY2 EYE_EMO_IDLE (by decide),
      setTrue_ne _ EYE_EMO_ANGRY3 EYE_EMO_IDLE (by decide),
      setTrue_ne _ EYE_EMO_WORRIED1 EYE_EMO_IDLE (by decide),
      setTrue_ne _ EYE_EMO_SAD1 EYE_EMO_IDLE (by decide),
      setTrue_ne _ EYE_EMO_SAD2 EYE_EMO_IDLE (by decide)]
  · rfl

theorem buildSnapshot_suppress (g : State) (i : Inputs) (out : Snapshot) :
    (buildSnapshot g i out).suppress
      = levelSuppress i.level
          (bandSuppress i
            (if !allHigh i then stackSuppress g (calmSuppress i (fun _ => false))
             else calmSuppress i (fun _ => false))) := rfl

/-- C23. After every `update`, for a snapshot record with the array `forced`
at its declared size 4 and with `m` the minimum of the four statistics: every
emotion outside the allow-list of the band of `m` is suppressed, every forced
emotion is inside it, and Idle is not suppressed. The array `allow` of the
code is the list `{Idle, Happy1, Happy2, Curious, Curious1, Curious2, Excited,
Love}` for `m > 50`, `{Idle, Worried1, Sad1, Sad2, Angry1, Angry2, Angry3}` for
`30 < m <= 50` and `{Idle, Angry1, Angry2, Angry3, Sad1, Sad2}` for
`m <= 30`. -/
theorem band_allow_list (g : State) (out : Snapshot) (i : Inputs) (e : EyeEmotion)
    (hlen : out.forced.length = 4) :
    minStat i = min (min i.hunger i.energy) (min i.mood i.cleanliness)
      ∧ (allow i e = true ↔ e ∈ specAllowList (minStat i))
      ∧ (e ∉ specAllowList (minStat i) → (update g out i).2.suppress e = true)
      ∧ (e ∈ (update g out i).2.forcedList → e ∈ specAllowList (minStat i))
      ∧ (update g out i).2.suppress EYE_EMO_IDLE = false := by
  have hs : (update g out i).2.suppress
      = (buildSnapshot (updateState g i) i out).suppress := rfl
  refine ⟨minStat_eq i, ?_, ?_, ?_, ?_⟩
  · rw [allow_eq_spec]
    simp
  · intro hne
    rw [hs, buildSnapshot_suppress]
    apply levelSuppress_of_true
    unfold bandSuppress
    have ha : allow i e = false := by
      rw [allow_eq_spec]
      simpa using hne
    simp [ha]
  · intro hmem
    rw [(forcedList_eq g out i hlen).2] at hmem
    have ha := (List.mem_filter.mp hmem).2
    rw [allow_eq_spec] at ha
    simpa using ha
  · rw [hs, buildSnapshot_suppress, levelSuppress_idle]
    have hi : allow i EYE_EMO_IDLE = true := by
      rw [allow_eq_spec]
      unfold specAllowList
      split_ifs <;> decide
    unfold bandSuppress
    simp only [hi, Bool.not_true, Bool.false_eq_true, if_false]
    split_ifs
    · rw [stackSuppress_idle, calmSuppress_idle]
    · rw [calmSuppress_idle]

/-- C23 at a concrete call: the depressed snapshot with minimum 10 forces
Sad1, an emotion of the low band, and does not suppress Idle. -/
theorem band_allow_list_witness :
    EYE_EMO_SAD1 ∈ (update lowSinceState Snapshot.zero (sampleCall 30000 10 10 60 60)).2.forcedList
      ∧ EYE_EMO_SAD1 ∈ specAllowList (minStat (sampleCall 30000 10 10 60 60))
      ∧ (update lowSinceState Snapshot.zero (sampleCall 30000 10 10 60 60)).2.suppress
          EYE_EMO_IDLE = false :=
  ⟨by decide,
    (band_allow_list lowSinceState Snapshot.zero (sampleCall 30000 10 10 60 60) EYE_EMO_SAD1
      rfl).2.2.2.1 (by decide),
    (band_allow_list lowSinceState Snapshot.zero (sampleCall 30000 10 10 60 60) EYE_EMO_SAD1
      rfl).2.2.2.2⟩

end SubStateSystem
